import Mathlib

/-! # jwzgles: vertex batching and primitive translation

A shallow embedding of the batching core of `jwzgles.c` (the glBegin / glVertex /
glEnd emulation on top of OpenGL ES 1.x) and of the indexed variant in
`jwzgles_test.c`, followed by theorems about it.

Conventions of the embedding

* `GLfloat` values are exact rationals: the batching code only copies them.
* A C pointer to a heap array is an `Option (List _)`: `none` is the NULL
  pointer, `some l` an allocation of `l.length` cells.  Cells that C leaves
  uninitialised hold `default`.
* The renderer ("the real one" in the source) is a log of the calls made to
  it, `Ctx.calls`, plus the client-array bindings those calls installed.
* `Assert (C, S)` is the non-Cocoa variant of the source: a failed assertion
  logs `S` and execution continues.  The log is `Ctx.asserts`.
* The functions whose C name carries the suffix `_REMOVED` form the array
  path (the code compiled when `USE_DRAWELEMENTS` is not defined).  In that
  configuration `FlushOnStateChange` has an empty body, `jwzgles_glColor4fv`
  is `jwzgles_glColor4fv_REMOVED`, and so on.
-/

namespace Jwzgles

/-! ## Data model (`jwzgles.c`, lines 223-343) -/

/-- GLfloat, modelled exactly. -/
abbrev GLfloat := ℚ

/-- The struct `XYZ`. -/
structure XYZ where
  x : GLfloat
  y : GLfloat
  z : GLfloat
deriving DecidableEq, Repr, Inhabited

/-- The struct `XYZW`. -/
structure XYZW where
  x : GLfloat
  y : GLfloat
  z : GLfloat
  w : GLfloat
deriving DecidableEq, Repr, Inhabited

/-- The struct `STRQ`. -/
structure STRQ where
  s : GLfloat
  t : GLfloat
  r : GLfloat
  q : GLfloat
deriving DecidableEq, Repr, Inhabited

/-- The struct `RGBA`. -/
structure RGBA where
  r : GLfloat
  g : GLfloat
  b : GLfloat
  a : GLfloat
deriving DecidableEq, Repr, Inhabited

/-- The struct `vert_set`: the calls recorded between glBegin and glEnd. -/
structure vert_set where
  mode : Nat
  count : Nat
  size : Nat
  verts : Option (List XYZW)
  norms : Option (List XYZ)
  tex : Option (List STRQ)
  color : Option (List RGBA)
  ncount : Nat
  tcount : Nat
  ccount : Nat
  materialistic : Nat
  cnorm : XYZ
  ctex : STRQ
  ccolor : RGBA
deriving DecidableEq, Repr, Inhabited

/-- The struct `texgen_state`; `obj` and `eye` are the four plane coefficients. -/
structure texgen_state where
  mode : Nat
  obj : List GLfloat
  eye : List GLfloat
deriving DecidableEq, Repr, Inhabited

/-- The struct `jwzgles_state`. -/
structure jwzgles_state where
  set : vert_set
  compiling_verts : Int
  enabled : Nat
  vertPrtValid : Nat
  texPrtValid : Nat
  colorPtrValid : Nat
  element_array_buffer : Nat
  array_buffer : Nat
  s : texgen_state
  t : texgen_state
  r : texgen_state
  q : texgen_state
deriving DecidableEq, Repr, Inhabited

/-! ## Constants of the OpenGL headers (`GLES/gl.h`, `GL/gl.h`) -/

def GL_POINTS : Nat := 0x0000
def GL_LINES : Nat := 0x0001
def GL_LINE_LOOP : Nat := 0x0002
def GL_LINE_STRIP : Nat := 0x0003
def GL_TRIANGLES : Nat := 0x0004
def GL_TRIANGLE_STRIP : Nat := 0x0005
def GL_TRIANGLE_FAN : Nat := 0x0006
def GL_QUADS : Nat := 0x0007
def GL_QUAD_STRIP : Nat := 0x0008
def GL_POLYGON : Nat := 0x0009

def GL_FRONT : Nat := 0x0404
def GL_BACK : Nat := 0x0405
def GL_FRONT_AND_BACK : Nat := 0x0408
def GL_AMBIENT : Nat := 0x1200
def GL_DIFFUSE : Nat := 0x1201
def GL_SPECULAR : Nat := 0x1202
def GL_AMBIENT_AND_DIFFUSE : Nat := 0x1602

def GL_SHORT : Nat := 0x1402
def GL_INT : Nat := 0x1404
def GL_FLOAT : Nat := 0x1406
def GL_DOUBLE : Nat := 0x140A

def GL_S : Nat := 0x2000
def GL_T : Nat := 0x2001
def GL_R : Nat := 0x2002
def GL_Q : Nat := 0x2003
def GL_EYE_LINEAR : Nat := 0x2400
def GL_OBJECT_LINEAR : Nat := 0x2401
def GL_SPHERE_MAP : Nat := 0x2402
def GL_TEXTURE_GEN_MODE : Nat := 0x2500
def GL_OBJECT_PLANE : Nat := 0x2501
def GL_EYE_PLANE : Nat := 0x2502

def GL_LINE_SMOOTH : Nat := 0x0B20
def GL_POLYGON_SMOOTH : Nat := 0x0B41
def GL_CULL_FACE : Nat := 0x0B44
def GL_LIGHTING : Nat := 0x0B50
def GL_COLOR_MATERIAL : Nat := 0x0B57
def GL_FOG : Nat := 0x0B60
def GL_DEPTH_TEST : Nat := 0x0B71
def GL_STENCIL_TEST : Nat := 0x0B90
def GL_NORMALIZE : Nat := 0x0BA1
def GL_ALPHA_TEST : Nat := 0x0BC0
def GL_DITHER : Nat := 0x0BD0
def GL_BLEND : Nat := 0x0BE2
def GL_SCISSOR_TEST : Nat := 0x0C11
def GL_TEXTURE_GEN_S : Nat := 0x0C60
def GL_TEXTURE_GEN_T : Nat := 0x0C61
def GL_TEXTURE_GEN_R : Nat := 0x0C62
def GL_TEXTURE_GEN_Q : Nat := 0x0C63
def GL_TEXTURE_1D : Nat := 0x0DE0
def GL_TEXTURE_2D : Nat := 0x0DE1
def GL_CLIP_PLANE0 : Nat := 0x3000
def GL_POLYGON_OFFSET_FILL : Nat := 0x8037
def GL_VERTEX_ARRAY : Nat := 0x8074
def GL_NORMAL_ARRAY : Nat := 0x8075
def GL_COLOR_ARRAY : Nat := 0x8076
def GL_TEXTURE_COORD_ARRAY : Nat := 0x8078
def GL_MULTISAMPLE : Nat := 0x809D
def GL_ARRAY_BUFFER : Nat := 0x8892
def GL_ELEMENT_ARRAY_BUFFER : Nat := 0x8893

/-! ## The `ISENABLED_*` bits (`jwzgles.c`, lines 289-316) -/

def ISENABLED_TEXTURE_2D : Nat := 1 <<< 0
def ISENABLED_TEXTURE_GEN_S : Nat := 1 <<< 1
def ISENABLED_TEXTURE_GEN_T : Nat := 1 <<< 2
def ISENABLED_TEXTURE_GEN_R : Nat := 1 <<< 3
def ISENABLED_TEXTURE_GEN_Q : Nat := 1 <<< 4
def ISENABLED_LIGHTING : Nat := 1 <<< 5
def ISENABLED_BLEND : Nat := 1 <<< 6
def ISENABLED_DEPTH_TEST : Nat := 1 <<< 7
def ISENABLED_CULL_FACE : Nat := 1 <<< 8
def ISENABLED_NORMALIZE : Nat := 1 <<< 9
def ISENABLED_FOG : Nat := 1 <<< 10
def ISENABLED_COLMAT : Nat := 1 <<< 11
def ISENABLED_VERT_ARRAY : Nat := 1 <<< 12
def ISENABLED_NORM_ARRAY : Nat := 1 <<< 13
def ISENABLED_TEX_ARRAY : Nat := 1 <<< 14
def ISENABLED_COLOR_ARRAY : Nat := 1 <<< 15
def ISENABLED_ALPHA_TEST : Nat := 1 <<< 16
def ISENABLED_DITHER : Nat := 1 <<< 17
def ISENABLED_POLY_FILL : Nat := 1 <<< 18
def ISENABLED_LINE_SMOOTH : Nat := 1 <<< 19
def ISENABLED_SCISSOR_TEST : Nat := 1 <<< 20
def ISENABLED_POLYGON_SMOOTH : Nat := 1 <<< 21
def ISENABLED_MULTISAMPLE : Nat := 1 <<< 22
def ISENABLED_STENCIL_TEST : Nat := 1 <<< 23
def ISENABLED_CLIP_PLANE0 : Nat := 1 <<< 24
def ISENABLED_CLIP_PLANE1 : Nat := 1 <<< 25
def ISENABLED_CLIP_PLANE2 : Nat := 1 <<< 26
def ISENABLED_CLIP_PLANE3 : Nat := 1 <<< 27

/-- The four texture-generation bits, as or-ed together in glEnd, glDrawArrays. -/
def ISENABLED_TEXTURE_GEN_ANY : Nat :=
  ISENABLED_TEXTURE_GEN_S ||| ISENABLED_TEXTURE_GEN_T |||
    ISENABLED_TEXTURE_GEN_R ||| ISENABLED_TEXTURE_GEN_Q

/-- The C test `word & flag` (non-zero means true). -/
def hasFlag (word flag : Nat) : Bool := (word &&& flag) != 0

/-- The C update `word & ~flag` on an unsigned word: the bits of `word` that
are not in `flag`. -/
def andNot (word flag : Nat) : Nat := word ^^^ (word &&& flag)

/-! ## cq2t and convert_quads_to_triangles (`jwzgles.c`, lines 1415-1490) -/

/-- The macro `PUSH(IN)` of cq2t: the loop `for (j = 0; j < stride; j++)
*out++ = *ii++` with `ii` starting at offset `ii` of the input array.  `out`
is the part of the output block written so far. -/
def cq2t_PUSH {α : Type} [Inhabited α] (oarray : List α) :
    (stride : Nat) → (ii : Nat) → (out : List α) → List α
  | 0, _, out => out
  | j + 1, ii, out => cq2t_PUSH oarray j (ii + 1) (out ++ [oarray.getD ii default])

/-- The loop `for (i = 0; i < count / 4; i++)` of cq2t, run for `iters`
iterations from input offset `inp`; returns the final input offset and output. -/
def cq2t_loop {α : Type} [Inhabited α] (oarray : List α) (stride : Nat) :
    (iters : Nat) → (inp : Nat) → (out : List α) → Nat × List α
  | 0, inp, out => (inp, out)
  | i + 1, inp, out =>
    let a := inp
    let inp := inp + stride
    let b := inp
    let inp := inp + stride
    let c := inp
    let inp := inp + stride
    let d := inp
    let inp := inp + stride
    let out := cq2t_PUSH oarray stride a out
    let out := cq2t_PUSH oarray stride b out
    let out := cq2t_PUSH oarray stride d out
    let out := cq2t_PUSH oarray stride b out
    let out := cq2t_PUSH oarray stride c out
    let out := cq2t_PUSH oarray stride d out
    cq2t_loop oarray stride i inp out

/-- Result of cq2t: the new value of `*arrayP`, the returned count, and the
messages of the assertions that failed. -/
structure cq2t_result (α : Type) where
  array : Option (List α)
  count2 : Nat
  failed : List String
deriving DecidableEq, Repr

/-- The function `cq2t`.  The array is a list of cells and an element is
`stride` consecutive cells (bytes in C).  The malloc-ed block of `size2` cells
is the written part followed by uninitialised (`default`) cells. -/
def cq2t {α : Type} [Inhabited α] (arrayP : Option (List α)) (stride count : Nat) :
    cq2t_result α :=
  let count2 := count * 6 / 4
  let size := stride * count
  let size2 := stride * count2
  match arrayP with
  | none => ⟨none, count2, []⟩
  | some oarray =>
    if count = 0 then ⟨some oarray, count2, []⟩
    else
      let r := cq2t_loop oarray stride (count / 4) 0 []
      let array2 := r.2 ++ List.replicate (size2 - r.2.length) default
      let f1 := if r.1 = size then [] else ["convert_quads corrupted"]
      let f2 := if r.2.length = size2 then [] else ["convert_quads corrupted"]
      ⟨some array2, count2, f1 ++ f2⟩

/-- The function `convert_quads_to_triangles`, together with the messages of
the failed assertions.  In the model one cell of `verts`, `norms`, `tex`,
`color` is one whole struct, so `sizeof(*s->verts)` etc. is one cell. -/
def convert_quads_to_triangles (s : vert_set) : vert_set × List String :=
  let f0 := if s.mode = GL_QUADS then [] else ["convert_quads bad mode"]
  let rv := cq2t s.verts 1 s.count
  let count2 := rv.count2
  let rn := cq2t s.norms 1 s.count
  let rt := cq2t s.tex 1 s.count
  let rc := cq2t s.color 1 s.count
  ({ s with verts := rv.array, norms := rn.array, tex := rt.array, color := rc.array,
            count := count2, size := count2, mode := GL_TRIANGLES },
   f0 ++ rv.failed ++ rn.failed ++ rt.failed ++ rc.failed)

/-- Element number `k` of an array of cells: the `stride` cells from offset
`k * stride`. -/
def elemAt {α : Type} (array : List α) (stride k : Nat) : List α :=
  (array.drop (k * stride)).take stride

/-! ## Globals of `jwzgles_test.c` (lines 13-63) -/

/-- The struct `VertexAttrib` of jwzgles_test.c, without multitexture support
and with float colours (`COLOR_BYTE` is not defined). -/
structure VertexAttrib where
  x : GLfloat
  y : GLfloat
  z : GLfloat
  padding : GLfloat
  red : GLfloat
  green : GLfloat
  blue : GLfloat
  alpha : GLfloat
  s : GLfloat
  t : GLfloat
deriving DecidableEq, Repr, Inhabited

/-- The file-scope variables of jwzgles_test.c.  `vertexattribs` and
`indexArray` are static arrays, zero until written: the lists hold the cells
up to the last one written and every cell beyond is zero.  A pointer into one
of them is the index of the cell it points to, `none` while it is NULL.
`indexArrayAddr` is the address of `indexArray`, of which the code inspects
bit 1.  `first` is the static local of jwzgles_glBegin. -/
structure wrapper_state where
  wrapperPrimitiveMode : Nat
  useTexCoordArray : Bool
  vertexattribs : List VertexAttrib
  indexArray : List Nat
  indexArrayAddr : Nat
  vertexCount : Nat
  indexCount : Nat
  vertexMark : Nat
  indexbase : Int
  ptrVertexAttribArray : Option Nat
  ptrVertexAttribArrayMark : Option Nat
  currentVertexAttrib : VertexAttrib
  ptrIndexArray : Option Nat
  glBegin_active : Nat
  first : Bool
deriving DecidableEq, Repr, Inhabited

/-! ## The renderer -/

/-- A pointer handed to the renderer.  `heap cells` points to a heap block
holding the scalars `cells`; `vertexattribs off` is the address of scalar
number `off` of the static array `vertexattribs` of jwzgles_test.c, whose
contents may still change before the renderer reads them; `freed` points to a
heap block that has been released with `free`. -/
inductive GLpointer where
  | heap (cells : List GLfloat)
  | vertexattribs (off : Nat)
  | freed
deriving DecidableEq, Repr, Inhabited

/-- The struct `draw_array`: the arguments of a gl*Pointer call as the
renderer keeps them. -/
structure draw_array where
  binding : Nat
  size : Nat
  type : Nat
  stride : Nat
  bytes : Nat
  data : GLpointer
deriving DecidableEq, Repr, Inhabited

/-- The client arrays bound in the renderer and its GL_ARRAY_BUFFER binding. -/
structure gl_arrays where
  vertex : draw_array
  normal : draw_array
  color : draw_array
  texcoord : draw_array
  array_buffer : Nat
deriving DecidableEq, Repr, Inhabited

/-- What a draw call sees: the value of `state->enabled` at the time of the
call, the client arrays bound in the renderer and the contents of the static
array `vertexattribs`.  This is no argument of the C call; it is recorded so
that statements can speak about the moment of the draw. -/
structure draw_seen where
  enabled : Nat
  arrays : gl_arrays
  vertexattribs : List VertexAttrib
deriving DecidableEq, Repr, Inhabited

/-- A call of a function of the underlying OpenGL ES library that changes
renderer state or draws.  Pure queries (glGetIntegerv, glGetPointerv,
glGetError) are not logged. -/
inductive GLCall where
  | glNormal3f (x y z : GLfloat)
  | glColor4f (r g b a : GLfloat)
  | glMaterialfv (face pname : Nat) (color : RGBA)
  | glEnable (bit : Nat)
  | glDisable (bit : Nat)
  | glEnableClientState (bit : Nat)
  | glDisableClientState (bit : Nat)
  | glClientActiveTexture (texture : Nat)
  | glBindBuffer (target buffer : Nat)
  | glVertexPointer (size type stride : Nat) (data : GLpointer)
  | glNormalPointer (type stride : Nat) (data : GLpointer)
  | glColorPointer (size type stride : Nat) (data : GLpointer)
  | glTexCoordPointer (size type stride : Nat) (data : GLpointer)
  | glDrawArrays (mode first count : Nat) (seen : draw_seen)
  | glDrawElements (mode count type : Nat) (indices : List Nat) (seen : draw_seen)
deriving DecidableEq, Repr, Inhabited

/-- The whole program state: `state` of jwzgles.c, the globals of
jwzgles_test.c, the renderer, and the log of failed assertions. -/
structure Ctx where
  state : jwzgles_state
  w : wrapper_state
  gl : gl_arrays
  calls : List GLCall
  asserts : List String
deriving DecidableEq, Repr, Inhabited

/-- The macro `Assert(C,S)`, non-Cocoa variant: log `S` when `C` is false. -/
def Assert (c : Ctx) (cond : Bool) (msg : String) : Ctx :=
  if cond then c else { c with asserts := c.asserts ++ [msg] }

/-- Append one call to the renderer log. -/
def emit (c : Ctx) (call : GLCall) : Ctx :=
  { c with calls := c.calls ++ [call] }

/-- The view a draw call has of the context. -/
def seenNow (c : Ctx) : draw_seen := ⟨c.state.enabled, c.gl, c.w.vertexattribs⟩

/-! ### Memory helpers -/

/-- The call `realloc (p, n * sizeof (*p))`: an allocation of `n` cells that
keeps the old contents; new cells are uninitialised. -/
def realloc {α : Type} [Inhabited α] (p : Option (List α)) (n : Nat) : Option (List α) :=
  some ((p.getD []).take n ++ List.replicate (n - (p.getD []).length) default)

/-- The assignment `p[i] = v`. -/
def store {α : Type} (p : Option (List α)) (i : Nat) (v : α) : Option (List α) :=
  p.map (fun l => l.set i v)

/-- The cells of an XYZW array as floats. -/
def floatsXYZW : List XYZW → List GLfloat
  | [] => []
  | v :: l => v.x :: v.y :: v.z :: v.w :: floatsXYZW l

/-- The cells of an XYZ array as floats. -/
def floatsXYZ : List XYZ → List GLfloat
  | [] => []
  | v :: l => v.x :: v.y :: v.z :: floatsXYZ l

/-- The cells of an STRQ array as floats. -/
def floatsSTRQ : List STRQ → List GLfloat
  | [] => []
  | v :: l => v.s :: v.t :: v.r :: v.q :: floatsSTRQ l

/-- The cells of an RGBA array as floats. -/
def floatsRGBA : List RGBA → List GLfloat
  | [] => []
  | v :: l => v.r :: v.g :: v.b :: v.a :: floatsRGBA l

/-- The fields of a VertexAttrib in declaration order. -/
def VertexAttrib.floats (v : VertexAttrib) : List GLfloat :=
  [v.x, v.y, v.z, v.padding, v.red, v.green, v.blue, v.alpha, v.s, v.t]

/-- The cells of a VertexAttrib array as floats. -/
def floatsVertexAttrib : List VertexAttrib → List GLfloat
  | [] => []
  | v :: l => v.floats ++ floatsVertexAttrib l

/-- The scalars found at a pointer; none at a pointer to a released block. -/
def GLpointer.cells (p : GLpointer) (w : wrapper_state) : List GLfloat :=
  match p with
  | .heap cells => cells
  | .vertexattribs off => (floatsVertexAttrib w.vertexattribs).drop off
  | .freed => []

/-! ### The library calls ("the real one") -/

/-- The library's glVertexPointer. -/
def gl_VertexPointer (c : Ctx) (size type stride : Nat) (ptr : GLpointer) : Ctx :=
  emit { c with gl := { c.gl with vertex := ⟨c.gl.array_buffer, size, type, stride, 0, ptr⟩ } }
    (.glVertexPointer size type stride ptr)

/-- The library's glNormalPointer. -/
def gl_NormalPointer (c : Ctx) (type stride : Nat) (ptr : GLpointer) : Ctx :=
  emit { c with gl := { c.gl with normal := ⟨c.gl.array_buffer, 3, type, stride, 0, ptr⟩ } }
    (.glNormalPointer type stride ptr)

/-- The library's glColorPointer. -/
def gl_ColorPointer (c : Ctx) (size type stride : Nat) (ptr : GLpointer) : Ctx :=
  emit { c with gl := { c.gl with color := ⟨c.gl.array_buffer, size, type, stride, 0, ptr⟩ } }
    (.glColorPointer size type stride ptr)

/-- The library's glTexCoordPointer. -/
def gl_TexCoordPointer (c : Ctx) (size type stride : Nat) (ptr : GLpointer) : Ctx :=
  emit { c with gl := { c.gl with texcoord := ⟨c.gl.array_buffer, size, type, stride, 0, ptr⟩ } }
    (.glTexCoordPointer size type stride ptr)

/-- The library's glBindBuffer. -/
def gl_BindBuffer (c : Ctx) (target buffer : Nat) : Ctx :=
  emit (if target = GL_ARRAY_BUFFER then { c with gl := { c.gl with array_buffer := buffer } }
        else c)
    (.glBindBuffer target buffer)

/-- The library's glDrawArrays. -/
def gl_DrawArrays (c : Ctx) (mode first count : Nat) : Ctx :=
  emit c (.glDrawArrays mode first count (seenNow c))

/-! ## FlushOnStateChange (`jwzgles_test.c`, lines 65-192; `jwzgles.c`, lines 216-221) -/

def GL_TEXTURE0 : Nat := 0x84C0
def GL_UNSIGNED_SHORT : Nat := 0x1403

/-- The value of sizeof(VertexAttrib): ten floats. -/
def sizeof_VertexAttrib : Nat := 40

/-- The first `n` cells of a static array of 16-bit indices. -/
def readIndices (indexArray : List Nat) (n : Nat) : List Nat :=
  (List.range n).map (fun i => indexArray.getD i 0)

/-- FlushOnStateChange of jwzgles_test.c. -/
def FlushOnStateChange_test (c : Ctx) : Ctx :=
  if c.w.vertexCount = 0 then c
  else
    let c := emit c (.glClientActiveTexture GL_TEXTURE0)
    let c := gl_BindBuffer c GL_ELEMENT_ARRAY_BUFFER 0
    let c :=
      if c.state.vertPrtValid = 0 then
        let c :=
          if c.w.wrapperPrimitiveMode = GL_LINES then
            gl_VertexPointer c 2 GL_FLOAT sizeof_VertexAttrib (.vertexattribs 0)
          else
            gl_VertexPointer c 3 GL_FLOAT sizeof_VertexAttrib (.vertexattribs 0)
        { c with state := { c.state with vertPrtValid := 1 } }
      else c
    let c :=
      if c.state.colorPtrValid = 0 then
        let c := gl_ColorPointer c 4 GL_FLOAT sizeof_VertexAttrib (.vertexattribs 4)
        { c with state := { c.state with colorPtrValid := 1 } }
      else c
    let c :=
      if c.state.texPrtValid = 0 then
        let c := gl_TexCoordPointer c 2 GL_FLOAT sizeof_VertexAttrib (.vertexattribs 8)
        { c with state := { c.state with texPrtValid := 1 } }
      else c
    let c := if !hasFlag c.state.enabled ISENABLED_VERT_ARRAY then
        emit c (.glEnableClientState GL_VERTEX_ARRAY) else c
    let c := if !hasFlag c.state.enabled ISENABLED_TEX_ARRAY then
        emit c (.glEnableClientState GL_TEXTURE_COORD_ARRAY) else c
    let c := if !hasFlag c.state.enabled ISENABLED_COLOR_ARRAY then
        emit c (.glEnableClientState GL_COLOR_ARRAY) else c
    let c :=
      if c.w.wrapperPrimitiveMode = GL_LINES then
        emit c (.glDrawElements GL_LINES c.w.vertexCount GL_UNSIGNED_SHORT
          (readIndices c.w.indexArray c.w.vertexCount) (seenNow c))
      else if c.w.wrapperPrimitiveMode = GL_QUADS then
        emit c (.glDrawElements GL_TRIANGLES c.w.vertexCount GL_UNSIGNED_SHORT
          (readIndices c.w.indexArray c.w.vertexCount) (seenNow c))
      else
        emit c (.glDrawElements GL_TRIANGLES c.w.vertexCount GL_UNSIGNED_SHORT
          (readIndices c.w.indexArray c.w.vertexCount) (seenNow c))
    let c := if !hasFlag c.state.enabled ISENABLED_VERT_ARRAY then
        emit c (.glDisableClientState GL_VERTEX_ARRAY) else c
    let c := if !hasFlag c.state.enabled ISENABLED_TEX_ARRAY then
        emit c (.glDisableClientState GL_TEXTURE_COORD_ARRAY) else c
    let c := if !hasFlag c.state.enabled ISENABLED_COLOR_ARRAY then
        emit c (.glDisableClientState GL_COLOR_ARRAY) else c
    { c with w := { c.w with vertexCount := 0, indexCount := 0,
                             ptrVertexAttribArray := some 0,
                             ptrVertexAttribArrayMark := some 0,
                             ptrIndexArray := some 0,
                             useTexCoordArray := false } }

/-- FlushOnStateChange as the preprocessor selects it: the function of
jwzgles_test.c when `USE_DRAWELEMENTS` is defined, the empty function of
jwzgles.c otherwise. -/
def FlushOnStateChange (USE_DRAWELEMENTS : Bool) (c : Ctx) : Ctx :=
  if USE_DRAWELEMENTS then FlushOnStateChange_test c else c

/-! ## enable_disable and its callers (`jwzgles.c`, lines 2706-2984) -/

/-- What the `switch (bit)` at the head of enable_disable computes: `flag`,
`omitp`, `csp`, and whether a case other than `default` was taken. -/
structure enable_disable_case where
  flag : Nat
  omitp : Bool
  csp : Bool
  known : Bool
deriving DecidableEq, Repr

/-- The `switch (bit)` at the head of enable_disable. -/
def enable_disable_switch (bit : Nat) : enable_disable_case :=
  if bit = GL_TEXTURE_1D ∨ bit = GL_TEXTURE_2D then ⟨ISENABLED_TEXTURE_2D, false, false, true⟩
  else if bit = GL_TEXTURE_GEN_S then ⟨ISENABLED_TEXTURE_GEN_S, true, false, true⟩
  else if bit = GL_TEXTURE_GEN_T then ⟨ISENABLED_TEXTURE_GEN_T, true, false, true⟩
  else if bit = GL_TEXTURE_GEN_R then ⟨ISENABLED_TEXTURE_GEN_R, true, false, true⟩
  else if bit = GL_TEXTURE_GEN_Q then ⟨ISENABLED_TEXTURE_GEN_Q, true, false, true⟩
  else if bit = GL_LIGHTING then ⟨ISENABLED_LIGHTING, false, false, true⟩
  else if bit = GL_BLEND then ⟨ISENABLED_BLEND, false, false, true⟩
  else if bit = GL_DEPTH_TEST then ⟨ISENABLED_DEPTH_TEST, false, false, true⟩
  else if bit = GL_ALPHA_TEST then ⟨ISENABLED_ALPHA_TEST, false, false, true⟩
  else if bit = GL_CULL_FACE then ⟨ISENABLED_CULL_FACE, false, false, true⟩
  else if bit = GL_NORMALIZE then ⟨ISENABLED_NORMALIZE, false, false, true⟩
  else if bit = GL_FOG then ⟨ISENABLED_FOG, false, false, true⟩
  else if bit = GL_COLOR_MATERIAL then ⟨ISENABLED_COLMAT, false, false, true⟩
  else if bit = GL_DITHER then ⟨ISENABLED_DITHER, false, false, true⟩
  else if bit = GL_SCISSOR_TEST then ⟨ISENABLED_SCISSOR_TEST, false, false, true⟩
  else if bit = GL_STENCIL_TEST then ⟨ISENABLED_STENCIL_TEST, false, false, true⟩
  else if bit = GL_POLYGON_SMOOTH then ⟨ISENABLED_POLYGON_SMOOTH, false, false, true⟩
  else if bit = GL_MULTISAMPLE then ⟨ISENABLED_MULTISAMPLE, false, false, true⟩
  else if bit = GL_CLIP_PLANE0 then ⟨ISENABLED_CLIP_PLANE0, false, false, true⟩
  else if bit = GL_CLIP_PLANE0 + 1 then ⟨ISENABLED_CLIP_PLANE1, false, false, true⟩
  else if bit = GL_CLIP_PLANE0 + 2 then ⟨ISENABLED_CLIP_PLANE2, false, false, true⟩
  else if bit = GL_CLIP_PLANE0 + 3 then ⟨ISENABLED_CLIP_PLANE3, false, false, true⟩
  else if bit = GL_POLYGON_OFFSET_FILL then ⟨ISENABLED_POLY_FILL, false, false, true⟩
  else if bit = GL_LINE_SMOOTH then ⟨ISENABLED_LINE_SMOOTH, false, false, true⟩
  else if bit = GL_VERTEX_ARRAY then ⟨ISENABLED_VERT_ARRAY, false, true, true⟩
  else if bit = GL_NORMAL_ARRAY then ⟨ISENABLED_NORM_ARRAY, false, true, true⟩
  else if bit = GL_COLOR_ARRAY then ⟨ISENABLED_COLOR_ARRAY, false, true, true⟩
  else if bit = GL_TEXTURE_COORD_ARRAY then ⟨ISENABLED_TEX_ARRAY, false, true, true⟩
  else ⟨0, false, false, false⟩

/-- The counter adjustment of enable_disable (lines 2832-2864), made when a
client-state capability is set or cleared outside glBegin. -/
def enable_disable_counts (s : vert_set) (bit : Nat) (set : Int) : vert_set :=
  if set > 0 then
    if bit = GL_NORMAL_ARRAY then { s with ncount := s.ncount + 2 }
    else if bit = GL_TEXTURE_COORD_ARRAY then { s with tcount := s.tcount + 2 }
    else if bit = GL_COLOR_ARRAY then { s with ccount := s.ccount + 2 }
    else s
  else
    if bit = GL_NORMAL_ARRAY then { s with ncount := 0 }
    else if bit = GL_TEXTURE_COORD_ARRAY then { s with tcount := 0 }
    else if bit = GL_COLOR_ARRAY then { s with ccount := 0 }
    else s

/-- The library call made by enable_disable when it toggles a capability. -/
def enable_disable_call (csp : Bool) (bit : Nat) (set : Int) : GLCall :=
  if set > 0 then
    (if csp then .glEnableClientState bit else .glEnable bit)
  else
    (if csp then .glDisableClientState bit else .glDisable bit)

/-- The function `enable_disable`: `set` is 1 to set, -1 to clear, 0 to
query.  Returns the new context and the result. -/
def enable_disable (USE_DRAWELEMENTS : Bool) (c : Ctx) (bit : Nat) (set : Int) :
    Ctx × Bool :=
  let result := decide (set > 0)
  let k := enable_disable_switch bit
  let c := if k.known then c else Assert c (set != 0) "glIsEnabled unimplemented bit"
  if set ≠ 0 then
    let c :=
      if k.csp ∧ c.state.compiling_verts = 0 then
        { c with state := { c.state with set := enable_disable_counts c.state.set bit set } }
      else c
    let c :=
      if k.omitp then c
      else if set > 0 then
        if k.flag ≠ 0 then
          if hasFlag c.state.enabled k.flag then c
          else
            let c := FlushOnStateChange USE_DRAWELEMENTS c
            let c := emit c (enable_disable_call k.csp bit set)
            { c with state := { c.state with enabled := c.state.enabled ||| k.flag } }
        else
          let c := FlushOnStateChange USE_DRAWELEMENTS c
          emit c (enable_disable_call k.csp bit set)
      else
        if k.flag ≠ 0 then
          if hasFlag c.state.enabled k.flag then
            let c := FlushOnStateChange USE_DRAWELEMENTS c
            let c := emit c (enable_disable_call k.csp bit set)
            { c with state := { c.state with enabled := andNot c.state.enabled k.flag } }
          else c
        else
          let c := FlushOnStateChange USE_DRAWELEMENTS c
          emit c (enable_disable_call k.csp bit set)
    (c, result)
  else
    (c, hasFlag c.state.enabled k.flag)

/-- The function `jwzgles_glEnable`. -/
def jwzgles_glEnable (USE_DRAWELEMENTS : Bool) (c : Ctx) (bit : Nat) : Ctx :=
  (enable_disable USE_DRAWELEMENTS c bit 1).1

/-- The function `jwzgles_glDisable`. -/
def jwzgles_glDisable (USE_DRAWELEMENTS : Bool) (c : Ctx) (bit : Nat) : Ctx :=
  (enable_disable USE_DRAWELEMENTS c bit (-1)).1

/-- The function `jwzgles_glIsEnabled`. -/
def jwzgles_glIsEnabled (USE_DRAWELEMENTS : Bool) (c : Ctx) (bit : Nat) : Ctx × Bool :=
  enable_disable USE_DRAWELEMENTS c bit 0

/-- The function `jwzgles_glEnableClientState`. -/
def jwzgles_glEnableClientState (USE_DRAWELEMENTS : Bool) (c : Ctx) (cap : Nat) : Ctx :=
  (enable_disable USE_DRAWELEMENTS c cap 1).1

/-- The function `jwzgles_glDisableClientState`. -/
def jwzgles_glDisableClientState (USE_DRAWELEMENTS : Bool) (c : Ctx) (cap : Nat) : Ctx :=
  (enable_disable USE_DRAWELEMENTS c cap (-1)).1

/-! ## The *Pointer calls and glBindBuffer (`jwzgles.c`, lines 3203-3303) -/

/-- The function `jwzgles_glVertexPointer`. -/
def jwzgles_glVertexPointer (USE_DRAWELEMENTS : Bool) (c : Ctx)
    (size type stride : Nat) (ptr : GLpointer) : Ctx :=
  let c := FlushOnStateChange USE_DRAWELEMENTS c
  let c := { c with state := { c.state with vertPrtValid := 0 } }
  gl_VertexPointer c size type stride ptr

/-- The function `jwzgles_glNormalPointer`. -/
def jwzgles_glNormalPointer (USE_DRAWELEMENTS : Bool) (c : Ctx)
    (type stride : Nat) (ptr : GLpointer) : Ctx :=
  let c := FlushOnStateChange USE_DRAWELEMENTS c
  gl_NormalPointer c type stride ptr

/-- The function `jwzgles_glColorPointer`. -/
def jwzgles_glColorPointer (USE_DRAWELEMENTS : Bool) (c : Ctx)
    (size type stride : Nat) (ptr : GLpointer) : Ctx :=
  let c := FlushOnStateChange USE_DRAWELEMENTS c
  let c := { c with state := { c.state with colorPtrValid := 0 } }
  gl_ColorPointer c size type stride ptr

/-- The function `jwzgles_glTexCoordPointer`. -/
def jwzgles_glTexCoordPointer (USE_DRAWELEMENTS : Bool) (c : Ctx)
    (size type stride : Nat) (ptr : GLpointer) : Ctx :=
  let c := FlushOnStateChange USE_DRAWELEMENTS c
  let c := { c with state := { c.state with texPrtValid := 0 } }
  gl_TexCoordPointer c size type stride ptr

/-- The function `jwzgles_glBindBuffer`. -/
def jwzgles_glBindBuffer (USE_DRAWELEMENTS : Bool) (c : Ctx) (target buffer : Nat) : Ctx :=
  if target = GL_ARRAY_BUFFER then
    let c := FlushOnStateChange USE_DRAWELEMENTS c
    let c := gl_BindBuffer c target buffer
    { c with state := { c.state with array_buffer := buffer } }
  else if target = GL_ELEMENT_ARRAY_BUFFER then
    let c := FlushOnStateChange USE_DRAWELEMENTS c
    let c := gl_BindBuffer c target buffer
    { c with state := { c.state with element_array_buffer := buffer } }
  else
    let c := FlushOnStateChange USE_DRAWELEMENTS c
    gl_BindBuffer c target buffer

/-! ## Texture-coordinate generation (`jwzgles.c`, lines 2402-2590) -/

/-- The function `jwzgles_glGetTexGenfv`; `params` is the caller's buffer and
the second component of the result is the buffer after the call.  With an
unknown `coord` the C code reads through an uninitialised pointer; the model
reads a zeroed texgen_state there. -/
def jwzgles_glGetTexGenfv (USE_DRAWELEMENTS : Bool) (c : Ctx) (coord pname : Nat)
    (params : List GLfloat) : Ctx × List GLfloat :=
  let c := FlushOnStateChange USE_DRAWELEMENTS c
  let (c, s) :=
    if coord = GL_S then (c, c.state.s)
    else if coord = GL_T then (c, c.state.t)
    else if coord = GL_R then (c, c.state.r)
    else if coord = GL_Q then (c, c.state.q)
    else (Assert c false "glGetTexGenfv: unknown coord", (default : texgen_state))
  if pname = GL_TEXTURE_GEN_MODE then (c, params.set 0 (s.mode : GLfloat))
  else if pname = GL_OBJECT_PLANE then
    (c, (List.range 4).map (fun i => s.obj.getD i 0) ++ params.drop 4)
  else if pname = GL_EYE_PLANE then
    (c, (List.range 4).map (fun i => s.eye.getD i 0) ++ params.drop 4)
  else (Assert c false "glGetTexGenfv: unknown pname", params)

/-- The function `jwzgles_glTexGenfv`; `s->mode = params[0]` converts the float
to GLuint and `memcpy` takes four floats of `params`.  With an unknown `coord`
the C code writes through an uninitialised pointer; the model logs the
assertion and stores nothing. -/
def jwzgles_glTexGenfv (c : Ctx) (coord pname : Nat) (params : List GLfloat) : Ctx :=
  let c :=
    if coord = GL_S ∨ coord = GL_T ∨ coord = GL_R ∨ coord = GL_Q then c
    else Assert c false "glGetTexGenfv: unknown coord"
  let upd (s : texgen_state) : texgen_state :=
    if pname = GL_TEXTURE_GEN_MODE then { s with mode := (Rat.floor (params.getD 0 0)).toNat }
    else if pname = GL_OBJECT_PLANE then
      { s with obj := (List.range 4).map (fun i => params.getD i 0) }
    else if pname = GL_EYE_PLANE then
      { s with eye := (List.range 4).map (fun i => params.getD i 0) }
    else s
  let c :=
    if coord = GL_S then { c with state := { c.state with s := upd c.state.s } }
    else if coord = GL_T then { c with state := { c.state with t := upd c.state.t } }
    else if coord = GL_R then { c with state := { c.state with r := upd c.state.r } }
    else if coord = GL_Q then { c with state := { c.state with q := upd c.state.q } }
    else c
  if pname = GL_TEXTURE_GEN_MODE ∨ pname = GL_OBJECT_PLANE ∨ pname = GL_EYE_PLANE then c
  else Assert c false "glTexGenfv: unknown pname"

/-- The function `jwzgles_glTexGeni`: `GLfloat v = param;` and the call of
jwzgles_glTexGenfv with `&v`. -/
def jwzgles_glTexGeni (c : Ctx) (coord pname : Nat) (param : Int) : Ctx :=
  jwzgles_glTexGenfv c coord pname [(param : GLfloat)]

/-- The loop of `dot_product`, from index `i` for `n` more iterations. -/
def dot_product_loop (a b : List GLfloat) : (n : Nat) → (i : Nat) → (ret : GLfloat) → GLfloat
  | 0, _, ret => ret
  | n + 1, i, ret => dot_product_loop a b n (i + 1) (ret + a.getD i 0 * b.getD i 0)

/-- The function `dot_product`. -/
def dot_product (rank : Nat) (a b : List GLfloat) : GLfloat :=
  dot_product_loop a b rank 0 0

/-- One entry of the local table `tg` of generate_texture_coords. -/
structure tg_entry where
  which : Nat
  flag : Nat
  mode : Nat
  plane : List GLfloat
deriving DecidableEq, Repr

/-- The initial value of the table `tg`. -/
def tg_init : List tg_entry :=
  [⟨GL_S, ISENABLED_TEXTURE_GEN_S, 0, [0, 0, 0, 0]⟩,
   ⟨GL_T, ISENABLED_TEXTURE_GEN_T, 0, [0, 0, 0, 0]⟩,
   ⟨GL_R, ISENABLED_TEXTURE_GEN_R, 0, [0, 0, 0, 0]⟩,
   ⟨GL_Q, ISENABLED_TEXTURE_GEN_Q, 0, [0, 0, 0, 0]⟩]

/-- The first loop of generate_texture_coords (lines 2487-2497) over the rest
`tg` of the table: reads mode and object plane of every enabled axis and
counts them in `tcoords`. -/
def generate_texture_coords_read (USE_DRAWELEMENTS : Bool) :
    (tg : List tg_entry) → (c : Ctx) → (tcoords : Nat) → Ctx × List tg_entry × Nat
  | [], c, tcoords => (c, [], tcoords)
  | e :: tg, c, tcoords =>
    if !hasFlag c.state.enabled e.flag then
      let r := generate_texture_coords_read USE_DRAWELEMENTS tg c tcoords
      (r.1, e :: r.2.1, r.2.2)
    else
      let m := jwzgles_glGetTexGenfv USE_DRAWELEMENTS c e.which GL_TEXTURE_GEN_MODE [0]
      let p := jwzgles_glGetTexGenfv USE_DRAWELEMENTS m.1 e.which GL_OBJECT_PLANE e.plane
      let e := { e with mode := (Rat.floor (m.2.getD 0 0)).toNat, plane := p.2 }
      let r := generate_texture_coords_read USE_DRAWELEMENTS tg p.1 (tcoords + 1)
      (r.1, e :: r.2.1, r.2.2)

/-- The size in bytes of the scalar types that generate_texture_coords reads. -/
def sizeof_type (type : Nat) : Nat :=
  if type = GL_SHORT then 2
  else if type = GL_INT then 4
  else if type = GL_FLOAT then 4
  else if type = GL_DOUBLE then 8
  else 1

/-- The loop `for (j = 0; j < A.size; j++)` (lines 2531-2551): extracts one
vertex, found `verts_in` bytes into the array, into `vert`. -/
def generate_texture_coords_extract (A : draw_array) (cells : List GLfloat) (verts_in : Nat) :
    (n : Nat) → (j : Nat) → (c : Ctx) → (vert : List GLfloat) → Ctx × List GLfloat
  | 0, _, c, vert => (c, vert)
  | n + 1, j, c, vert =>
    if A.type = GL_SHORT ∨ A.type = GL_INT ∨ A.type = GL_FLOAT ∨ A.type = GL_DOUBLE then
      generate_texture_coords_extract A cells verts_in n (j + 1) c
        (vert.set j (cells.getD (verts_in / sizeof_type A.type + j) 0))
    else
      generate_texture_coords_extract A cells verts_in n (j + 1)
        (Assert c false "unknown vertex type") vert

/-- The loop `for (j = 0, k = 0; j < countof(tg); j++)` (lines 2561-2576) over
the rest `tg` of the table: stores one coordinate per enabled axis at
`tex_out[k]`, where `tex_out` is a cell index of `tex_array`. -/
def generate_texture_coords_axes (vert : List GLfloat) (tex_out : Nat) :
    (tg : List tg_entry) → (k : Nat) → (c : Ctx) → (tex_array : List GLfloat) →
      Ctx × List GLfloat
  | [], _, c, tex_array => (c, tex_array)
  | e :: tg, k, c, tex_array =>
    if !hasFlag c.state.enabled e.flag then
      generate_texture_coords_axes vert tex_out tg k c tex_array
    else if e.mode = GL_OBJECT_LINEAR then
      generate_texture_coords_axes vert tex_out tg (k + 1) c
        (tex_array.set (tex_out + k) (dot_product 4 vert e.plane))
    else
      generate_texture_coords_axes vert tex_out tg (k + 1)
        (Assert c false "unimplemented texture mode") tex_array

/-- The loop `for (i = first; i < first + count; i++)` (lines 2525-2584), for
`n` more iterations; `verts_in` is a byte offset into the vertex array and
`tex_out` a cell index of `tex_array`. -/
def generate_texture_coords_loop (A : draw_array) (cells : List GLfloat)
    (tg : List tg_entry) (tcoords : Nat) :
    (n : Nat) → (verts_in tex_out : Nat) → (c : Ctx) → (tex_array : List GLfloat) →
      Ctx × List GLfloat
  | 0, _, _, c, tex_array => (c, tex_array)
  | n + 1, verts_in, tex_out, c, tex_array =>
    let v := generate_texture_coords_extract A cells verts_in A.size 0 c [0, 0, 0, 0]
    let r := generate_texture_coords_axes v.2 tex_out tg 0 v.1 tex_array
    generate_texture_coords_loop A cells tg tcoords n (verts_in + A.stride)
      (tex_out + tcoords) r.1 r.2

/-- The statement `free (tex_array)` at the end of generate_texture_coords:
the block that the glTexCoordPointer call just before has bound as the
texture-coordinate array is released, so that binding now points to a released
block. -/
def free_tex_array (c : Ctx) : Ctx :=
  { c with gl := { c.gl with texcoord := { c.gl.texcoord with data := .freed } } }

/-- The function `generate_texture_coords`.  The vertex array is the one the
renderer has bound (glGetIntegerv, glGetPointerv). -/
def generate_texture_coords (USE_DRAWELEMENTS : Bool) (c : Ctx) (first count : Nat) : Ctx :=
  let r := generate_texture_coords_read USE_DRAWELEMENTS tg_init c 0
  let c := r.1
  let tg := r.2.1
  let tcoords := r.2.2
  if tcoords = 0 then c
  else
    let tex_stride := tcoords * 4
    let tex_array : List GLfloat := List.replicate ((first + count) * tcoords) 0
    let A : draw_array := { c.gl.vertex with bytes := count * c.gl.vertex.stride }
    let cells := A.data.cells c.w
    let l := generate_texture_coords_loop A cells tg tcoords count 0 0 c tex_array
    let c := jwzgles_glEnableClientState USE_DRAWELEMENTS l.1 GL_TEXTURE_COORD_ARRAY
    let c := jwzgles_glTexCoordPointer USE_DRAWELEMENTS c tcoords GL_FLOAT tex_stride (.heap l.2)
    free_tex_array c

/-- The function `jwzgles_glDrawArrays`. -/
def jwzgles_glDrawArrays (USE_DRAWELEMENTS : Bool) (c : Ctx) (mode first count : Nat) : Ctx :=
  let c := FlushOnStateChange USE_DRAWELEMENTS c
  let c :=
    if hasFlag c.state.enabled ISENABLED_TEXTURE_GEN_ANY then
      generate_texture_coords USE_DRAWELEMENTS c first count
    else c
  gl_DrawArrays c mode first count

/-! ## Attribute setters (`jwzgles.c`, lines 705-856, 1083-1141;
`jwzgles_test.c`, lines 433-454) -/

/-- The function `jwzgles_glNormal3fv`. -/
def jwzgles_glNormal3fv (c : Ctx) (v : XYZ) : Ctx :=
  if c.state.compiling_verts ≠ 0 then
    let s := c.state.set
    let s := { s with cnorm := ⟨v.x, v.y, v.z⟩ }
    let s := { s with ncount := s.ncount + 1 }
    let s := if s.count > 0 ∧ s.ncount = 1 then { s with ncount := s.ncount + 1 } else s
    { c with state := { c.state with set := s } }
  else
    emit c (.glNormal3f v.x v.y v.z)

/-- The function `jwzgles_glNormal3f`. -/
def jwzgles_glNormal3f (c : Ctx) (x y z : GLfloat) : Ctx :=
  jwzgles_glNormal3fv c ⟨x, y, z⟩

/-- The function `jwzgles_glTexCoord4fv_REMOVED` (array path). -/
def jwzgles_glTexCoord4fv_REMOVED (c : Ctx) (v : STRQ) : Ctx :=
  if c.state.compiling_verts ≠ 0 then
    let s := c.state.set
    let s := { s with ctex := ⟨v.s, v.t, v.r, v.q⟩ }
    let s := { s with tcount := s.tcount + 1 }
    let s := if s.count > 0 ∧ s.tcount = 1 then { s with tcount := s.tcount + 1 } else s
    { c with state := { c.state with set := s } }
  else c

/-- The function `jwzgles_glTexCoord4fv` of jwzgles_test.c. -/
def jwzgles_glTexCoord4fv_test (c : Ctx) (v : STRQ) : Ctx :=
  { c with w := { c.w with currentVertexAttrib :=
      { c.w.currentVertexAttrib with s := v.s, t := v.t } } }

/-- The function `jwzgles_glTexCoord4fv` as the preprocessor selects it. -/
def jwzgles_glTexCoord4fv (USE_DRAWELEMENTS : Bool) (c : Ctx) (v : STRQ) : Ctx :=
  if USE_DRAWELEMENTS then jwzgles_glTexCoord4fv_test c v
  else jwzgles_glTexCoord4fv_REMOVED c v

/-- The function `jwzgles_glTexCoord4f`. -/
def jwzgles_glTexCoord4f (USE_DRAWELEMENTS : Bool) (c : Ctx) (s t r q : GLfloat) : Ctx :=
  jwzgles_glTexCoord4fv USE_DRAWELEMENTS c ⟨s, t, r, q⟩

/-- The function `jwzgles_glColor4fv_REMOVED` (array path). -/
def jwzgles_glColor4fv_REMOVED (c : Ctx) (v : RGBA) : Ctx :=
  if c.state.compiling_verts ≠ 0 then
    let s := c.state.set
    let s := { s with ccolor := ⟨v.r, v.g, v.b, v.a⟩ }
    let s := { s with ccount := s.ccount + 1 }
    let s := if s.count > 0 ∧ s.ccount = 1 then { s with ccount := s.ccount + 1 } else s
    { c with state := { c.state with set := s } }
  else
    emit c (.glColor4f v.r v.g v.b v.a)

/-- The function `jwzgles_glColor4fv` of jwzgles_test.c. -/
def jwzgles_glColor4fv_test (c : Ctx) (v : RGBA) : Ctx :=
  let c := { c with w := { c.w with currentVertexAttrib :=
      { c.w.currentVertexAttrib with red := v.r, green := v.g, blue := v.b, alpha := v.a } } }
  if c.w.glBegin_active = 0 then emit c (.glColor4f v.r v.g v.b v.a) else c

/-- The function `jwzgles_glColor4fv` as the preprocessor selects it. -/
def jwzgles_glColor4fv (USE_DRAWELEMENTS : Bool) (c : Ctx) (v : RGBA) : Ctx :=
  if USE_DRAWELEMENTS then jwzgles_glColor4fv_test c v
  else jwzgles_glColor4fv_REMOVED c v

/-- The function `jwzgles_glColor4f`. -/
def jwzgles_glColor4f (USE_DRAWELEMENTS : Bool) (c : Ctx) (r g b a : GLfloat) : Ctx :=
  jwzgles_glColor4fv USE_DRAWELEMENTS c ⟨r, g, b, a⟩

/-- The function `jwzgles_glMaterialfv`. -/
def jwzgles_glMaterialfv (USE_DRAWELEMENTS : Bool) (c : Ctx) (face pname : Nat)
    (color : RGBA) : Ctx :=
  if c.state.compiling_verts ≠ 0 then
    if (face = GL_FRONT ∨ face = GL_FRONT_AND_BACK) ∧
        (pname = GL_AMBIENT ∨ pname = GL_DIFFUSE ∨ pname = GL_AMBIENT_AND_DIFFUSE) then
      let c := jwzgles_glColor4f USE_DRAWELEMENTS c color.r color.g color.b color.a
      { c with state := { c.state with set :=
          { c.state.set with materialistic := c.state.set.materialistic + 1 } } }
    else c
  else
    let c :=
      if (face = GL_FRONT ∨ face = GL_FRONT_AND_BACK) ∧
          (pname = GL_AMBIENT ∨ pname = GL_DIFFUSE ∨ pname = GL_AMBIENT_AND_DIFFUSE) then
        let c := jwzgles_glEnable USE_DRAWELEMENTS c GL_COLOR_MATERIAL
        jwzgles_glColor4f USE_DRAWELEMENTS c color.r color.g color.b color.a
      else c
    let face := if face = GL_FRONT then GL_FRONT_AND_BACK else face
    emit c (.glMaterialfv face pname color)

/-! ## glBegin, glVertex4fv, glEnd of the array path
(`jwzgles.c`, lines 666-702, 1200-1246, 1493-1628) -/

/-- The function `jwzgles_glBegin_REMOVED`. -/
def jwzgles_glBegin_REMOVED (c : Ctx) (mode : Nat) : Ctx :=
  let c := Assert c (c.state.compiling_verts == 0) "nested glBegin"
  let c := { c with state := { c.state with compiling_verts := c.state.compiling_verts + 1 } }
  let c := Assert c (c.state.set.count == 0) "glBegin corrupted"
  { c with state := { c.state with set :=
      { c.state.set with mode := mode, count := 0, ncount := 0, tcount := 0, ccount := 0 } } }

/-- The function `jwzgles_glVertex4fv_REMOVED`.  The C expression
`20 + (s->size * 1.2)`, truncated to int, is taken as 20 + floor (12 * size / 10). -/
def jwzgles_glVertex4fv_REMOVED (c : Ctx) (v : XYZW) : Ctx :=
  let s := c.state.set
  let count := s.count
  let c := Assert c (c.state.compiling_verts != 0) "glVertex4fv not inside glBegin"
  let s :=
    if (count : Int) ≥ (s.size : Int) - 1 then
      let new_size := 20 + s.size * 12 / 10
      { s with verts := realloc s.verts new_size,
               norms := realloc s.norms new_size,
               tex := realloc s.tex new_size,
               color := realloc s.color new_size,
               size := new_size }
    else s
  let s := { s with verts := store s.verts count ⟨v.x, v.y, v.z, v.w⟩ }
  let s := { s with norms := store s.norms count s.cnorm }
  let s := { s with tex := store s.tex count s.ctex }
  let s := { s with color := store s.color count s.ccolor }
  let s := { s with count := s.count + 1 }
  { c with state := { c.state with set := s } }

/-- Lines 1509-1514 of glEnd: the topology is rewritten to one the renderer
accepts. -/
def glEnd_normalize (c : Ctx) : Ctx :=
  if c.state.set.mode = GL_QUADS then
    let r := convert_quads_to_triangles c.state.set
    { c with state := { c.state with set := r.1 }, asserts := c.asserts ++ r.2 }
  else if c.state.set.mode = GL_QUAD_STRIP then
    { c with state := { c.state with set := { c.state.set with mode := GL_TRIANGLE_STRIP } } }
  else if c.state.set.mode = GL_POLYGON then
    { c with state := { c.state with set := { c.state.set with mode := GL_TRIANGLE_FAN } } }
  else c

/-- Lines 1516-1519 of glEnd: the four arrays of the set are bound. -/
def glEnd_pointers (c : Ctx) : Ctx :=
  let s := c.state.set
  let c := jwzgles_glColorPointer false c 4 GL_FLOAT 16 (.heap (floatsRGBA (s.color.getD [])))
  let c := jwzgles_glNormalPointer false c GL_FLOAT 12 (.heap (floatsXYZ (s.norms.getD [])))
  let c := jwzgles_glTexCoordPointer false c 4 GL_FLOAT 16 (.heap (floatsSTRQ (s.tex.getD [])))
  jwzgles_glVertexPointer false c 4 GL_FLOAT 16 (.heap (floatsXYZW (s.verts.getD [])))

/-- Lines 1550-1561 of glEnd; the second component is `is_norm`. -/
def glEnd_norm (c : Ctx) : Ctx × Bool :=
  let s := c.state.set
  if s.ncount > 1 then
    (jwzgles_glEnableClientState false c GL_NORMAL_ARRAY, true)
  else
    let c := if s.ncount = 1 then jwzgles_glNormal3f c s.cnorm.x s.cnorm.y s.cnorm.z else c
    (jwzgles_glDisableClientState false c GL_NORMAL_ARRAY, false)

/-- Lines 1563-1579 of glEnd; the second component is `is_tex`. -/
def glEnd_tex (c : Ctx) : Ctx × Bool :=
  let s := c.state.set
  if s.tcount > 1 ∨ hasFlag c.state.enabled ISENABLED_TEXTURE_GEN_ANY then
    (jwzgles_glEnableClientState false c GL_TEXTURE_COORD_ARRAY, true)
  else
    let c := if s.tcount = 1 then
        jwzgles_glTexCoord4f false c s.ctex.s s.ctex.t s.ctex.r s.ctex.q else c
    (jwzgles_glDisableClientState false c GL_TEXTURE_COORD_ARRAY, false)

/-- Lines 1581-1592 of glEnd; the second component is `is_color`. -/
def glEnd_color (c : Ctx) : Ctx × Bool :=
  let s := c.state.set
  if s.ccount > 1 then
    (jwzgles_glEnableClientState false c GL_COLOR_ARRAY, true)
  else
    let c := if s.ccount = 1 then
        jwzgles_glColor4f false c s.ccolor.r s.ccolor.g s.ccolor.b s.ccolor.a else c
    (jwzgles_glDisableClientState false c GL_COLOR_ARRAY, false)

/-- Lines 1600-1606 of glEnd; the second component is `is_mat`. -/
def glEnd_mat (c : Ctx) : Ctx × Bool :=
  if c.state.set.materialistic ≠ 0 then
    let q := jwzgles_glIsEnabled false c GL_COLOR_MATERIAL
    if !q.2 then (jwzgles_glEnable false q.1 GL_COLOR_MATERIAL, true)
    else (q.1, false)
  else (c, false)

/-- Lines 1608-1610 of glEnd: the draw call between two library glBindBuffer. -/
def glEnd_draw (c : Ctx) : Ctx :=
  let c := gl_BindBuffer c GL_ARRAY_BUFFER 0
  let c := jwzgles_glDrawArrays false c c.state.set.mode 0 c.state.set.count
  gl_BindBuffer c GL_ARRAY_BUFFER 0

/-- The macro `RESET(VAR,FN,ARG)` of glEnd, with `is_VAR`, `was_VAR` and the
functions `jwzgles_glEnableFN (ARG)`, `jwzgles_glDisableFN (ARG)`. -/
def RESET (is_VAR was_VAR : Bool) (enableFN disableFN : Ctx → Ctx) (c : Ctx) : Ctx :=
  if is_VAR != was_VAR then
    (if was_VAR then enableFN c else disableFN c)
  else c

/-- The function `jwzgles_glEnd_REMOVED`. -/
def jwzgles_glEnd_REMOVED (c : Ctx) : Ctx :=
  let c := Assert c (c.state.compiling_verts == 1) "missing glBegin"
  let c := { c with state := { c.state with compiling_verts := c.state.compiling_verts - 1 } }
  if c.state.set.count = 0 then c
  else
    let c := glEnd_normalize c
    let c := glEnd_pointers c
    let q := jwzgles_glIsEnabled false c GL_NORMAL_ARRAY
    let was_norm := q.2
    let q := jwzgles_glIsEnabled false q.1 GL_TEXTURE_COORD_ARRAY
    let was_tex := q.2
    let q := jwzgles_glIsEnabled false q.1 GL_COLOR_ARRAY
    let was_color := q.2
    let q := jwzgles_glIsEnabled false q.1 GL_COLOR_MATERIAL
    let was_mat := q.2
    let c := jwzgles_glBindBuffer false q.1 GL_ARRAY_BUFFER 0
    let n := glEnd_norm c
    let is_norm := n.2
    let t := glEnd_tex n.1
    let is_tex := t.2
    let k := glEnd_color t.1
    let is_color := k.2
    let c := jwzgles_glEnableClientState false k.1 GL_VERTEX_ARRAY
    let m := glEnd_mat c
    let is_mat := m.2
    let c := glEnd_draw m.1
    let c := RESET is_norm was_norm (jwzgles_glEnableClientState false · GL_NORMAL_ARRAY)
      (jwzgles_glDisableClientState false · GL_NORMAL_ARRAY) c
    let c := RESET is_tex was_tex (jwzgles_glEnableClientState false · GL_TEXTURE_COORD_ARRAY)
      (jwzgles_glDisableClientState false · GL_TEXTURE_COORD_ARRAY) c
    let c := RESET is_color was_color (jwzgles_glEnableClientState false · GL_COLOR_ARRAY)
      (jwzgles_glDisableClientState false · GL_COLOR_ARRAY) c
    let c := RESET is_mat was_mat (jwzgles_glEnable false · GL_COLOR_MATERIAL)
      (jwzgles_glDisable false · GL_COLOR_MATERIAL) c
    { c with state := { c.state with set :=
        { c.state.set with count := 0, ncount := 0, tcount := 0, ccount := 0,
                           materialistic := 0 } } }

/-- The function `jwzgles_reset`: a zeroed state with the four texture
generation modes GL_EYE_LINEAR and the planes s = 1 0 0 0, t = 0 1 0 0.  The
renderer log and the other globals are passed through. -/
def jwzgles_reset (c : Ctx) : Ctx :=
  let z : vert_set := ⟨0, 0, 0, none, none, none, none, 0, 0, 0, 0, ⟨0, 0, 0⟩,
    ⟨0, 0, 0, 0⟩, ⟨0, 0, 0, 0⟩⟩
  { c with state :=
      { set := z, compiling_verts := 0, enabled := 0,
        vertPrtValid := 0, texPrtValid := 0, colorPtrValid := 0,
        element_array_buffer := 0, array_buffer := 0,
        s := ⟨GL_EYE_LINEAR, [1, 0, 0, 0], [1, 0, 0, 0]⟩,
        t := ⟨GL_EYE_LINEAR, [0, 1, 0, 0], [0, 1, 0, 0]⟩,
        r := ⟨GL_EYE_LINEAR, [0, 0, 0, 0], [0, 0, 0, 0]⟩,
        q := ⟨GL_EYE_LINEAR, [0, 0, 0, 0], [0, 0, 0, 0]⟩ } }

/-- The globals of jwzgles_test.c as the C initialisers leave them. -/
def wrapper_initial : wrapper_state :=
  { wrapperPrimitiveMode := GL_QUADS, useTexCoordArray := false,
    vertexattribs := [], indexArray := [], indexArrayAddr := 0,
    vertexCount := 0, indexCount := 0, vertexMark := 0, indexbase := 0,
    ptrVertexAttribArray := none, ptrVertexAttribArrayMark := none,
    currentVertexAttrib := ⟨0, 0, 0, 0, 0, 0, 0, 0, 0, 0⟩,
    ptrIndexArray := none, glBegin_active := 0, first := true }

/-- The program after `jwzgles_reset` in a fresh process: no renderer call
made yet, nothing bound. -/
def initial : Ctx :=
  jwzgles_reset
    { state := default, w := wrapper_initial,
      gl := ⟨⟨0, 0, 0, 0, 0, .heap []⟩, ⟨0, 0, 0, 0, 0, .heap []⟩,
             ⟨0, 0, 0, 0, 0, .heap []⟩, ⟨0, 0, 0, 0, 0, .heap []⟩, 0⟩,
      calls := [], asserts := [] }

/-! ## glBegin, glEnd, glVertex4fv of jwzgles_test.c (lines 194-431) -/

/-- Conversion of an integer to GLuint (32 bits). -/
def u32 (x : Int) : Nat := (x % 4294967296).toNat

/-- Conversion of a 32-bit unsigned value to int. -/
def i32 (n : Nat) : Int :=
  if n % 4294967296 < 2147483648 then (n % 4294967296 : Nat)
  else ((n % 4294967296 : Nat) : Int) - 4294967296

/-- A store into a static array: cell `i` becomes `v`; cells between the old
end of the list and `i` are the zeros they always were. -/
def writeCell {α : Type} (zero : α) (array : List α) (i : Nat) (v : α) : List α :=
  if i < array.length then array.set i v
  else array ++ List.replicate (i - array.length) zero ++ [v]

/-- The statement `ptrIndexArray[off] = x` with x converted to GLushort.
Through a NULL pointer nothing is stored. -/
def storeIndexAt (w : wrapper_state) (off : Nat) (x : Int) : wrapper_state :=
  match w.ptrIndexArray with
  | none => w
  | some p => { w with indexArray := writeCell 0 w.indexArray (p + off) (u32 x % 65536) }

/-- The statement `*ptrIndexArray++ = x`. -/
def pushIndex (w : wrapper_state) (x : Int) : wrapper_state :=
  let w := storeIndexAt w 0 x
  { w with ptrIndexArray := w.ptrIndexArray.map (· + 1) }

/-- The statement `*(longptr++) = lo | (hi << 16)` on a little-endian
machine, `longptr` being `ptrIndexArray` seen as a pointer to 32-bit words:
two consecutive 16-bit cells are written. -/
def pushIndexPair (w : wrapper_state) (lo hi : Int) : wrapper_state :=
  let word := (u32 lo ||| (u32 hi <<< 16) % 4294967296)
  let w := storeIndexAt w 0 (word % 65536 : Nat)
  let w := storeIndexAt w 1 (word / 65536 : Nat)
  { w with ptrIndexArray := w.ptrIndexArray.map (· + 2) }

/-- The function `jwzgles_glBegin` of jwzgles_test.c. -/
def jwzgles_glBegin (c : Ctx) (mode : Nat) : Ctx :=
  let w := { c.w with glBegin_active := 1 }
  let w :=
    if w.first then
      { w with first := false, wrapperPrimitiveMode := mode, vertexCount := 0, indexCount := 0,
               ptrVertexAttribArray := some 0, ptrVertexAttribArrayMark := some 0,
               ptrIndexArray := some 0 }
    else
      { w with wrapperPrimitiveMode := mode, vertexMark := w.vertexCount,
               ptrVertexAttribArrayMark := w.ptrVertexAttribArray,
               indexbase := i32 w.indexCount }
  { c with w := w }

/-- The function `jwzgles_glVertex4fv` of jwzgles_test.c. -/
def jwzgles_glVertex4fv (c : Ctx) (v : XYZW) : Ctx :=
  let w := c.w
  let cur := { w.currentVertexAttrib with x := v.x, y := v.y, z := v.z }
  let w := { w with currentVertexAttrib := cur }
  let w :=
    match w.ptrVertexAttribArray with
    | none => w
    | some p =>
      let old := w.vertexattribs.getD p ⟨0, 0, 0, 0, 0, 0, 0, 0, 0, 0⟩
      let cell := { old with x := cur.x, y := cur.y, z := cur.z,
                             red := cur.red, green := cur.green, blue := cur.blue,
                             alpha := cur.alpha, s := cur.s, t := cur.t }
      { w with vertexattribs := writeCell ⟨0, 0, 0, 0, 0, 0, 0, 0, 0, 0⟩ w.vertexattribs p cell }
  let w := { w with ptrVertexAttribArray := w.ptrVertexAttribArray.map (· + 1) }
  { c with w := w }

/-- The loop of `case GL_LINES`. -/
def glEnd_lines_loop : (n : Nat) → wrapper_state → wrapper_state
  | 0, w => w
  | n + 1, w =>
    let w := pushIndex w w.indexCount
    let w := pushIndex w (w.indexCount + 1)
    let w := { w with indexCount := u32 (w.indexCount + 2) }
    glEnd_lines_loop n w

/-- The loop `for (i = 0; i < vcount * 3; i += 6)` of `case GL_QUADS`; `bound`
is `vcount * 3`.  At most `fuel` iterations are run, and `bound` of them
always suffice. -/
def glEnd_quads_loop (bound : Int) : (fuel : Nat) → (i : Nat) → wrapper_state → wrapper_state
  | 0, _, w => w
  | fuel + 1, i, w =>
    if (i : Int) < bound then
      let q := i / 6 * 4
      let w := storeIndexAt w (i + 0) (q + 0 : Nat)
      let w := storeIndexAt w (i + 1) (q + 1 : Nat)
      let w := storeIndexAt w (i + 2) (q + 2 : Nat)
      let w := storeIndexAt w (i + 3) (q + 0 : Nat)
      let w := storeIndexAt w (i + 4) (q + 2 : Nat)
      let w := storeIndexAt w (i + 5) (q + 3 : Nat)
      let w := { w with indexCount := u32 (w.indexCount + 4) }
      glEnd_quads_loop bound fuel (i + 6) w
    else w

/-- The loop of `case GL_TRIANGLES`. -/
def glEnd_triangles_loop : (n : Nat) → wrapper_state → wrapper_state
  | 0, w => w
  | n + 1, w =>
    let w := pushIndex w w.indexCount
    let w := pushIndex w (w.indexCount + 1)
    let w := pushIndex w (w.indexCount + 2)
    let w := { w with indexCount := u32 (w.indexCount + 3) }
    glEnd_triangles_loop n w

/-- The word loop of `case GL_TRIANGLE_STRIP` in the branch taken when the
index pointer is not 4-byte aligned after the first triangle. -/
def glEnd_strip_loop_unaligned : (n : Nat) → wrapper_state → wrapper_state
  | 0, w => w
  | n + 1, w =>
    let ic : Int := w.indexCount
    let w := pushIndexPair w (ic - 2) (ic - 1)
    let w := pushIndexPair w ic ic
    let w := pushIndexPair w (ic - 1) (ic + 1)
    let w := { w with indexCount := u32 (ic + 2) }
    glEnd_strip_loop_unaligned n w

/-- The word loop of `case GL_TRIANGLE_STRIP` in the branch "already aligned". -/
def glEnd_strip_loop_aligned : (n : Nat) → wrapper_state → wrapper_state
  | 0, w => w
  | n + 1, w =>
    let ic : Int := w.indexCount
    let w := pushIndexPair w (ic - 1) (ic - 2)
    let w := pushIndexPair w ic (ic - 1)
    let w := pushIndexPair w ic (ic + 1)
    let w := { w with indexCount := u32 (ic + 2) }
    glEnd_strip_loop_aligned n w

/-- The loop of `case GL_POLYGON` / `case GL_TRIANGLE_FAN`. -/
def glEnd_fan_loop : (n : Nat) → wrapper_state → wrapper_state
  | 0, w => w
  | n + 1, w =>
    let w := pushIndex w w.indexbase
    let w := pushIndex w ((w.indexCount : Int) - 1)
    let w := pushIndex w w.indexCount
    let w := { w with indexCount := u32 (w.indexCount + 1) }
    let w := { w with vertexCount := u32 (w.vertexCount + 2) }
    glEnd_fan_loop n w

/-- The address held in `ptrIndexArray`, as the cast `(long) ptrIndexArray`. -/
def ptrIndexArray_addr (w : wrapper_state) : Nat :=
  match w.ptrIndexArray with
  | none => 0
  | some p => w.indexArrayAddr + 2 * p

/-- The function `jwzgles_glEnd` of jwzgles_test.c. -/
def jwzgles_glEnd (c : Ctx) : Ctx :=
  let w := { c.w with glBegin_active := 0 }
  let added : Nat := w.ptrVertexAttribArray.getD 0 - w.ptrVertexAttribArrayMark.getD 0
  let w := { w with vertexCount := u32 (w.vertexCount + added) }
  if w.vertexCount < (if w.wrapperPrimitiveMode = GL_LINES then 2 else 3) then
    { c with w := w }
  else
    let w :=
      if w.wrapperPrimitiveMode = GL_LINES then
        let vcount : Int := i32 (u32 ((w.vertexCount : Int) - w.vertexMark) / 2)
        glEnd_lines_loop vcount.toNat w
      else if w.wrapperPrimitiveMode = GL_QUADS then
        let vcount : Int := i32 (u32 ((w.vertexCount : Int) - w.vertexMark))
        let w := glEnd_quads_loop (vcount * 3) (vcount * 3).toNat 0 w
        { w with vertexCount := u32 (Int.tdiv vcount 4 * 6) }
      else if w.wrapperPrimitiveMode = GL_TRIANGLES then
        let vcount : Int := i32 (u32 ((w.vertexCount : Int) - w.vertexMark) / 3)
        glEnd_triangles_loop vcount.toNat w
      else if w.wrapperPrimitiveMode = GL_TRIANGLE_STRIP then
        let w := pushIndex w w.indexCount
        let w := pushIndex w (w.indexCount + 1)
        let w := pushIndex w (w.indexCount + 2)
        let w := { w with indexCount := u32 (w.indexCount + 3) }
        let vcount : Int := i32 (u32 ((w.vertexCount : Int) - w.vertexMark - 3))
        let w :=
          if vcount ≠ 0 ∧ (ptrIndexArray_addr w) &&& 2 ≠ 0 then
            let w := pushIndex w ((w.indexCount : Int) - 1)
            let w := pushIndex w ((w.indexCount : Int) - 2)
            let w := pushIndex w w.indexCount
            let w := { w with indexCount := u32 (w.indexCount + 1) }
            let vcount := vcount - 1
            let odd := vcount % 2
            let vcount := Int.tdiv vcount 2
            let w := glEnd_strip_loop_unaligned vcount.toNat w
            if odd ≠ 0 then
              let w := pushIndex w ((w.indexCount : Int) - 2)
              let w := pushIndex w ((w.indexCount : Int) - 1)
              let w := pushIndex w w.indexCount
              { w with indexCount := u32 (w.indexCount + 1) }
            else w
          else
            let odd := vcount % 2
            let vcount := Int.tdiv vcount 2
            let w := glEnd_strip_loop_aligned vcount.toNat w
            if odd ≠ 0 then
              let w := pushIndex w ((w.indexCount : Int) - 1)
              let w := pushIndex w ((w.indexCount : Int) - 2)
              let w := pushIndex w w.indexCount
              { w with indexCount := u32 (w.indexCount + 1) }
            else w
        let grown : Int := ((w.vertexCount : Int) - w.vertexMark - 3) * 2
        { w with vertexCount := u32 (w.vertexCount + grown) }
      else if w.wrapperPrimitiveMode = GL_POLYGON ∨ w.wrapperPrimitiveMode = GL_TRIANGLE_FAN then
        let w := pushIndex w w.indexCount
        let w := { w with indexCount := u32 (w.indexCount + 1) }
        let w := pushIndex w w.indexCount
        let w := { w with indexCount := u32 (w.indexCount + 1) }
        let w := pushIndex w w.indexCount
        let w := { w with indexCount := u32 (w.indexCount + 1) }
        let vcount : Int := i32 (u32 ((w.vertexCount : Int) - w.vertexMark - 3))
        glEnd_fan_loop vcount.toNat w
      else w
    let c := { c with w := w }
    if w.wrapperPrimitiveMode = GL_LINES then FlushOnStateChange_test c else c

/-- The index triples that a pending draw of `vertexCount` indices submits. -/
def triples : List Nat → List (Nat × Nat × Nat)
  | a :: b :: c :: l => (a, b, c) :: triples l
  | _ => []

/-- The triangles waiting to be drawn: the first `vertexCount` cells of
`indexArray`, three by three. -/
def pendingTriangles (c : Ctx) : List (Nat × Nat × Nat) :=
  triples (readIndices c.w.indexArray c.w.vertexCount)


/-! ## to_pow2 (`jwzgles.c`, lines 2186-2193) -/

/-- The statement `i <<= 1` on a 32-bit int, taken as wrap-around arithmetic:
the low 32 bits of the doubled value, read as a signed number. -/
def shl1_int32 (i : Int) : Int := i32 (u32 (i * 2))

/-- The loop `while (i < value) i <<= 1;` of to_pow2.  Each evaluation of the
loop condition uses one unit of `fuel`; the result is `none` when the fuel runs
out before the condition is false. -/
def to_pow2_loop (value : Int) : (fuel : Nat) → (i : Int) → Option Int
  | 0, _ => none
  | fuel + 1, i => if i < value then to_pow2_loop value fuel (shl1_int32 i) else some i

/-- The function `to_pow2`: `int i = 1; while (i < value) i <<= 1; return i;`. -/
def to_pow2 (fuel : Nat) (value : Int) : Option Int :=
  to_pow2_loop value fuel 1

/-! ## Specification-side definitions used by the theorems -/

/-- The output that `iters` iterations of the cq2t loop append when started at
input offset `inp`: per quad the corners A B D B C D. -/
def quadsOut {α : Type} (oarray : List α) (stride : Nat) : (iters : Nat) → (inp : Nat) → List α
  | 0, _ => []
  | i + 1, inp =>
    (oarray.drop inp).take stride ++ ((oarray.drop (inp + stride)).take stride ++
      ((oarray.drop (inp + stride + stride + stride)).take stride ++
      ((oarray.drop (inp + stride)).take stride ++
      ((oarray.drop (inp + stride + stride)).take stride ++
      ((oarray.drop (inp + stride + stride + stride)).take stride ++
        quadsOut oarray stride i (inp + stride + stride + stride + stride))))))

/-- The corner of a quad copied to position `p` of its six output elements:
A B D B C D. -/
def quadCorner (p : Nat) : Nat := [0, 1, 3, 1, 2, 3].getD p 0

/-- The relation between a quads array `inp` of `n` elements and a triangles
array `out`: for every quad `k`, the six output elements 6k .. 6k+5 are its
corners A B D B C D, that is input elements 4k, 4k+1, 4k+3, 4k+1, 4k+2, 4k+3. -/
def QuadsAsTriangles {α : Type} (inp out : List α) (stride n : Nat) : Prop :=
  ∀ k, k < n / 4 →
    elemAt out stride (6 * k) = elemAt inp stride (4 * k) ∧
    elemAt out stride (6 * k + 1) = elemAt inp stride (4 * k + 1) ∧
    elemAt out stride (6 * k + 2) = elemAt inp stride (4 * k + 3) ∧
    elemAt out stride (6 * k + 3) = elemAt inp stride (4 * k + 1) ∧
    elemAt out stride (6 * k + 4) = elemAt inp stride (4 * k + 2) ∧
    elemAt out stride (6 * k + 5) = elemAt inp stride (4 * k + 3)

/-- A set of one quad, used to instantiate statements. -/
def quadSet : vert_set :=
  { mode := GL_QUADS, count := 4, size := 4,
    verts := some [⟨0, 0, 0, 1⟩, ⟨1, 0, 0, 1⟩, ⟨1, 1, 0, 1⟩, ⟨0, 1, 0, 1⟩],
    norms := some [⟨0, 0, 1⟩, ⟨0, 0, 2⟩, ⟨0, 0, 3⟩, ⟨0, 0, 4⟩],
    tex := some [⟨0, 0, 0, 1⟩, ⟨1, 0, 0, 1⟩, ⟨1, 1, 0, 1⟩, ⟨0, 1, 0, 1⟩],
    color := some [⟨1, 0, 0, 1⟩, ⟨0, 1, 0, 1⟩, ⟨0, 0, 1, 1⟩, ⟨1, 1, 1, 1⟩],
    ncount := 4, tcount := 4, ccount := 4, materialistic := 0,
    cnorm := ⟨0, 0, 4⟩, ctex := ⟨0, 1, 0, 1⟩, ccolor := ⟨1, 1, 1, 1⟩ }

/-- A state of jwzgles_test.c right after a flush: nothing pending, the three
pointers at the start of their arrays, and glBegin has run before. -/
def Flushed (c : Ctx) : Prop :=
  c.w.vertexCount = 0 ∧ c.w.indexCount = 0 ∧ c.w.ptrVertexAttribArray = some 0 ∧
    c.w.ptrVertexAttribArrayMark = some 0 ∧ c.w.ptrIndexArray = some 0 ∧ c.w.first = false

/-- One glBegin / glVertex4fv ... / glEnd bracket of jwzgles_test.c. -/
def indexedBatch (c : Ctx) (mode : Nat) (vs : List XYZW) : Ctx :=
  jwzgles_glEnd (vs.foldl jwzgles_glVertex4fv (jwzgles_glBegin c mode))

/-- A flushed state: the program after a GL_LINES batch of two vertices, which
glEnd flushes. -/
def flushedCtx : Ctx :=
  indexedBatch initial GL_LINES [⟨7, 7, 7, 1⟩, ⟨8, 8, 8, 1⟩]

/-- The positions stored in the first `n` cells of `vertexattribs`. -/
def storedPositions (c : Ctx) (n : Nat) : List (GLfloat × GLfloat × GLfloat) :=
  (List.range n).map (fun i =>
    ((c.w.vertexattribs.getD i default).x, (c.w.vertexattribs.getD i default).y,
      (c.w.vertexattribs.getD i default).z))

/-- Whether a triangle has `v` among its three indices. -/
def usesVertex (t : Nat × Nat × Nat) (v : Nat) : Bool :=
  t.1 == v || t.2.1 == v || t.2.2 == v

instance (c : Ctx) : Decidable (Flushed c) := by
  unfold Flushed
  exact inferInstance

/-! ### Call sequences inside a batch of the array path -/

/-- A call made between glBegin and glEnd: one of the three attribute setters
or a vertex. -/
inductive BatchCall where
  | normal (v : XYZ)
  | texCoord (v : STRQ)
  | color (v : RGBA)
  | vertex (v : XYZW)
deriving DecidableEq, Repr

/-- Run one call of a batch. -/
def BatchCall.run (c : Ctx) : BatchCall → Ctx
  | .normal v => jwzgles_glNormal3fv c v
  | .texCoord v => jwzgles_glTexCoord4fv_REMOVED c v
  | .color v => jwzgles_glColor4fv_REMOVED c v
  | .vertex v => jwzgles_glVertex4fv_REMOVED c v

/-- Run a sequence of calls. -/
def runCalls (c : Ctx) (calls : List BatchCall) : Ctx :=
  calls.foldl BatchCall.run c

/-- The open batch: glBegin followed by the calls. -/
def openBatch (c : Ctx) (mode : Nat) (calls : List BatchCall) : Ctx :=
  runCalls (jwzgles_glBegin_REMOVED c mode) calls

/-- The three per-vertex attributes. -/
inductive Attr where
  | normal
  | texCoord
  | color
deriving DecidableEq, Repr

/-- The distinct-value counter of an attribute: ncount, tcount or ccount. -/
def Attr.counter (a : Attr) (s : vert_set) : Nat :=
  match a with
  | .normal => s.ncount
  | .texCoord => s.tcount
  | .color => s.ccount

/-- Whether a call is the setter of the attribute. -/
def BatchCall.sets (a : Attr) : BatchCall → Bool
  | .normal _ => a = .normal
  | .texCoord _ => a = .texCoord
  | .color _ => a = .color
  | .vertex _ => false

/-- Whether a call appends a vertex. -/
def BatchCall.isVertex : BatchCall → Bool
  | .vertex _ => true
  | _ => false

/-- How many times the setter of the attribute is called. -/
def setterCalls (a : Attr) (calls : List BatchCall) : Nat :=
  calls.countP (BatchCall.sets a)

/-- How many vertices are appended. -/
def vertexCalls (calls : List BatchCall) : Nat :=
  calls.countP BatchCall.isVertex

/-- The calls made before the first vertex. -/
def beforeFirstVertex (calls : List BatchCall) : List BatchCall :=
  calls.takeWhile (fun x => !x.isVertex)

/-- The positions appended, in order. -/
def appendedVerts : List BatchCall → List XYZW
  | [] => []
  | .vertex v :: l => v :: appendedVerts l
  | _ :: l => appendedVerts l

/-- The normal in force at each appended vertex: the value of the most recent
normal setter before it, `cur` when there is none. -/
def normalsInForce (cur : XYZ) : List BatchCall → List XYZ
  | [] => []
  | .normal v :: l => normalsInForce v l
  | .vertex _ :: l => cur :: normalsInForce cur l
  | _ :: l => normalsInForce cur l

/-- The texture coordinate in force at each appended vertex. -/
def texCoordsInForce (cur : STRQ) : List BatchCall → List STRQ
  | [] => []
  | .texCoord v :: l => texCoordsInForce v l
  | .vertex _ :: l => cur :: texCoordsInForce cur l
  | _ :: l => texCoordsInForce cur l

/-- The color in force at each appended vertex. -/
def colorsInForce (cur : RGBA) : List BatchCall → List RGBA
  | [] => []
  | .color v :: l => colorsInForce v l
  | .vertex _ :: l => cur :: colorsInForce cur l
  | _ :: l => colorsInForce cur l

/-- The four arrays of a set have `size` cells each and `count` of them are
in use. -/
def vert_set.WF (s : vert_set) : Prop :=
  (s.verts.getD []).length = s.size ∧ (s.norms.getD []).length = s.size ∧
    (s.tex.getD []).length = s.size ∧ (s.color.getD []).length = s.size ∧
    s.count ≤ s.size

instance (s : vert_set) : Decidable s.WF := by
  unfold vert_set.WF
  exact inferInstance

/-- The first `count` cells of each array of a set: the recorded vertices. -/
def vert_set.recorded (s : vert_set) :
    List XYZW × List XYZ × List STRQ × List RGBA :=
  ((s.verts.getD []).take s.count, (s.norms.getD []).take s.count,
    (s.tex.getD []).take s.count, (s.color.getD []).take s.count)

/-- Two contexts that differ at most in the log of failed assertions. -/
def onlyAsserts (c d : Ctx) : Prop :=
  d.state = c.state ∧ d.w = c.w ∧ d.gl = c.gl ∧ d.calls = c.calls

/-- The context in which glEnd, called on `c` with at least one vertex
recorded, reaches its draw block (line 1608): the topology is normalized, the
arrays are bound and the capabilities are set for the draw. -/
def glEnd_atDraw (c : Ctx) : Ctx :=
  let c := Assert c (c.state.compiling_verts == 1) "missing glBegin"
  let c := { c with state := { c.state with compiling_verts := c.state.compiling_verts - 1 } }
  let c := glEnd_normalize c
  let c := glEnd_pointers c
  let c := jwzgles_glBindBuffer false c GL_ARRAY_BUFFER 0
  let c := (glEnd_norm c).1
  let c := (glEnd_tex c).1
  let c := (glEnd_color c).1
  let c := jwzgles_glEnableClientState false c GL_VERTEX_ARRAY
  (glEnd_mat c).1

/-- Whether a renderer call is a draw call. -/
def GLCall.isDraw : GLCall → Bool
  | .glDrawArrays _ _ _ _ => true
  | .glDrawElements _ _ _ _ _ => true
  | _ => false

/-- Whether a renderer call sets a current attribute value (a scalar,
non-array call). -/
def GLCall.isScalar : GLCall → Bool
  | .glNormal3f _ _ _ => true
  | .glColor4f _ _ _ _ => true
  | _ => false

/-- Whether a renderer call toggles a capability. -/
def GLCall.isToggle : GLCall → Bool
  | .glEnable _ => true
  | .glDisable _ => true
  | .glEnableClientState _ => true
  | .glDisableClientState _ => true
  | _ => false

/-- Whether a renderer call binds a client array. -/
def GLCall.isPointer : GLCall → Bool
  | .glVertexPointer _ _ _ _ => true
  | .glNormalPointer _ _ _ => true
  | .glColorPointer _ _ _ _ => true
  | .glTexCoordPointer _ _ _ _ => true
  | _ => false

/-- What glEnd does after its draw block (lines 1612-1627), on the context `d`
left by the draw block, for the batch that was in `c` when glEnd was called:
the four RESET lines and the reset of the set. -/
def glEnd_finish (c d : Ctx) : Ctx :=
  let is_norm := decide (1 < c.state.set.ncount)
  let was_norm := hasFlag c.state.enabled ISENABLED_NORM_ARRAY
  let is_tex := decide (1 < c.state.set.tcount ∨
    hasFlag c.state.enabled ISENABLED_TEXTURE_GEN_ANY = true)
  let was_tex := hasFlag c.state.enabled ISENABLED_TEX_ARRAY
  let is_color := decide (1 < c.state.set.ccount)
  let was_color := hasFlag c.state.enabled ISENABLED_COLOR_ARRAY
  let is_mat := decide (c.state.set.materialistic ≠ 0 ∧
    hasFlag c.state.enabled ISENABLED_COLMAT = false)
  let was_mat := hasFlag c.state.enabled ISENABLED_COLMAT
  let d := RESET is_norm was_norm (jwzgles_glEnableClientState false · GL_NORMAL_ARRAY)
    (jwzgles_glDisableClientState false · GL_NORMAL_ARRAY) d
  let d := RESET is_tex was_tex (jwzgles_glEnableClientState false · GL_TEXTURE_COORD_ARRAY)
    (jwzgles_glDisableClientState false · GL_TEXTURE_COORD_ARRAY) d
  let d := RESET is_color was_color (jwzgles_glEnableClientState false · GL_COLOR_ARRAY)
    (jwzgles_glDisableClientState false · GL_COLOR_ARRAY) d
  let d := RESET is_mat was_mat (jwzgles_glEnable false · GL_COLOR_MATERIAL)
    (jwzgles_glDisable false · GL_COLOR_MATERIAL) d
  { d with state := { d.state with set :=
      { d.state.set with count := 0, ncount := 0, tcount := 0, ccount := 0,
                         materialistic := 0 } } }

/-- The set after lines 1509-1514 of glEnd. -/
def normalizedSet (s : vert_set) : vert_set :=
  if s.mode = GL_QUADS then (convert_quads_to_triangles s).1
  else if s.mode = GL_QUAD_STRIP then { s with mode := GL_TRIANGLE_STRIP }
  else if s.mode = GL_POLYGON then { s with mode := GL_TRIANGLE_FAN }
  else s

/-- The client arrays that glEnd binds for the set `s` (lines 1516-1519),
after a glBindBuffer (GL_ARRAY_BUFFER, 0); `ab` is the buffer that was bound
to GL_ARRAY_BUFFER when the arrays were bound. -/
def boundArrays (s : vert_set) (ab : Nat) : gl_arrays :=
  { vertex := ⟨ab, 4, GL_FLOAT, 16, 0, .heap (floatsXYZW (s.verts.getD []))⟩,
    normal := ⟨ab, 3, GL_FLOAT, 12, 0, .heap (floatsXYZ (s.norms.getD []))⟩,
    color := ⟨ab, 4, GL_FLOAT, 16, 0, .heap (floatsRGBA (s.color.getD []))⟩,
    texcoord := ⟨ab, 4, GL_FLOAT, 16, 0, .heap (floatsSTRQ (s.tex.getD []))⟩,
    array_buffer := 0 }

/-- The scalar calls that glEnd makes for the set `s` before drawing: the
normal and the color, each when its counter is 1. -/
def constantCalls (s : vert_set) : List GLCall :=
  (if s.ncount = 1 then [GLCall.glNormal3f s.cnorm.x s.cnorm.y s.cnorm.z] else []) ++
  (if s.ccount = 1 then [GLCall.glColor4f s.ccolor.r s.ccolor.g s.ccolor.b s.ccolor.a]
   else [])

/-- The renderer calls that glEnd makes before its draw block, for the set `s`
and the capability mask `e` in force when glEnd is called with the batch
open once: the four array bindings, the glBindBuffer, then per attribute the
constant value and the toggle of its array where they are needed, the vertex
array, and color material. -/
def glEnd_preCalls (s : vert_set) (e : Nat) : List GLCall :=
  [.glColorPointer 4 GL_FLOAT 16 (.heap (floatsRGBA ((normalizedSet s).color.getD []))),
   .glNormalPointer GL_FLOAT 12 (.heap (floatsXYZ ((normalizedSet s).norms.getD []))),
   .glTexCoordPointer 4 GL_FLOAT 16 (.heap (floatsSTRQ ((normalizedSet s).tex.getD []))),
   .glVertexPointer 4 GL_FLOAT 16 (.heap (floatsXYZW ((normalizedSet s).verts.getD []))),
   .glBindBuffer GL_ARRAY_BUFFER 0] ++
  ((if 1 < s.ncount then
      (if hasFlag e ISENABLED_NORM_ARRAY then [] else [.glEnableClientState GL_NORMAL_ARRAY])
    else
      (if s.ncount = 1 then [.glNormal3f s.cnorm.x s.cnorm.y s.cnorm.z] else []) ++
      (if hasFlag e ISENABLED_NORM_ARRAY then [.glDisableClientState GL_NORMAL_ARRAY] else [])) ++
  ((if 1 < s.tcount ∨ hasFlag e ISENABLED_TEXTURE_GEN_ANY = true then
      (if hasFlag e ISENABLED_TEX_ARRAY then []
       else [.glEnableClientState GL_TEXTURE_COORD_ARRAY])
    else
      (if hasFlag e ISENABLED_TEX_ARRAY then [.glDisableClientState GL_TEXTURE_COORD_ARRAY]
       else [])) ++
  ((if 1 < s.ccount then
      (if hasFlag e ISENABLED_COLOR_ARRAY then [] else [.glEnableClientState GL_COLOR_ARRAY])
    else
      (if s.ccount = 1 then [.glColor4f s.ccolor.r s.ccolor.g s.ccolor.b s.ccolor.a] else []) ++
      (if hasFlag e ISENABLED_COLOR_ARRAY then [.glDisableClientState GL_COLOR_ARRAY] else [])) ++
  ((if hasFlag e ISENABLED_VERT_ARRAY then [] else [.glEnableClientState GL_VERTEX_ARRAY]) ++
   (if s.materialistic ≠ 0 ∧ hasFlag e ISENABLED_COLMAT = false
    then [.glEnable GL_COLOR_MATERIAL] else [])))))

/-- The renderer calls that glEnd makes after its draw block: per capability
the toggle that undoes the one made before the draw. -/
def glEnd_postCalls (s : vert_set) (e : Nat) : List GLCall :=
  (if decide (1 < s.ncount) != hasFlag e ISENABLED_NORM_ARRAY then
     (if hasFlag e ISENABLED_NORM_ARRAY then [.glEnableClientState GL_NORMAL_ARRAY]
      else [.glDisableClientState GL_NORMAL_ARRAY])
   else []) ++
  ((if decide (1 < s.tcount ∨ hasFlag e ISENABLED_TEXTURE_GEN_ANY = true) !=
        hasFlag e ISENABLED_TEX_ARRAY then
     (if hasFlag e ISENABLED_TEX_ARRAY then [.glEnableClientState GL_TEXTURE_COORD_ARRAY]
      else [.glDisableClientState GL_TEXTURE_COORD_ARRAY])
   else []) ++
  ((if decide (1 < s.ccount) != hasFlag e ISENABLED_COLOR_ARRAY then
     (if hasFlag e ISENABLED_COLOR_ARRAY then [.glEnableClientState GL_COLOR_ARRAY]
      else [.glDisableClientState GL_COLOR_ARRAY])
   else []) ++
  (if s.materialistic ≠ 0 ∧ hasFlag e ISENABLED_COLMAT = false
   then [.glDisable GL_COLOR_MATERIAL] else [])))

/-- The renderer calls made between two contexts of one run: those of `after`
that come after the calls of `before`. -/
def issuedBy (before after : Ctx) : List GLCall :=
  after.calls.drop before.calls.length

/-- Whether a renderer call is glNormal3f. -/
def GLCall.isNormal3f : GLCall → Bool
  | .glNormal3f _ _ _ => true
  | _ => false

/-- Whether a renderer call is glColor4f. -/
def GLCall.isColor4f : GLCall → Bool
  | .glColor4f _ _ _ _ => true
  | _ => false

/-- The vertex or index count argument of a draw call. -/
def GLCall.drawCount : GLCall → Option Nat
  | .glDrawArrays _ _ count _ => some count
  | .glDrawElements _ count _ _ _ => some count
  | _ => none

/-- The state seen by a draw call. -/
def GLCall.drawSeen : GLCall → Option draw_seen
  | .glDrawArrays _ _ _ seen => some seen
  | .glDrawElements _ _ _ _ seen => some seen
  | _ => none

/-- The flag of the attribute's client array in `enabled`. -/
def Attr.flag : Attr → Nat
  | .normal => ISENABLED_NORM_ARRAY
  | .texCoord => ISENABLED_TEX_ARRAY
  | .color => ISENABLED_COLOR_ARRAY

/-- The client array of the attribute among the arrays bound in the renderer. -/
def Attr.array (a : Attr) (g : gl_arrays) : draw_array :=
  match a with
  | .normal => g.normal
  | .texCoord => g.texcoord
  | .color => g.color

/-- The number of floats of one value of the attribute. -/
def Attr.width : Attr → Nat
  | .normal => 3
  | .texCoord => 4
  | .color => 4

/-- The whole array of the attribute in a set, as floats. -/
def Attr.storage (a : Attr) (s : vert_set) : List GLfloat :=
  match a with
  | .normal => floatsXYZ (s.norms.getD [])
  | .texCoord => floatsSTRQ (s.tex.getD [])
  | .color => floatsRGBA (s.color.getD [])

/-- The first `count` cells of the array of the attribute in a set, as floats. -/
def Attr.recorded (a : Attr) (s : vert_set) : List GLfloat :=
  match a with
  | .normal => floatsXYZ s.recorded.2.1
  | .texCoord => floatsSTRQ s.recorded.2.2.1
  | .color => floatsRGBA s.recorded.2.2.2

/-- The value of the attribute in force at each appended vertex, as floats;
`s0` is the set before the batch, which holds the current values. -/
def Attr.inForce (a : Attr) (s0 : vert_set) (calls : List BatchCall) : List GLfloat :=
  match a with
  | .normal => floatsXYZ (normalsInForce s0.cnorm calls)
  | .texCoord => floatsSTRQ (texCoordsInForce s0.ctex calls)
  | .color => floatsRGBA (colorsInForce s0.ccolor calls)

/-- A batch of one quad. -/
def oneQuad : List BatchCall :=
  [.vertex ⟨0, 0, 0, 1⟩, .vertex ⟨1, 0, 0, 1⟩, .vertex ⟨1, 1, 0, 1⟩, .vertex ⟨0, 1, 0, 1⟩]

/-- A batch in which the normal is set twice before the first vertex. -/
def twoNormalsFirst : List BatchCall :=
  [.normal ⟨1, 0, 0⟩, .normal ⟨0, 0, 1⟩, .vertex ⟨0, 0, 0, 1⟩, .vertex ⟨1, 0, 0, 1⟩,
   .vertex ⟨1, 1, 0, 1⟩]

/-- A batch of three vertices with the normal, the texture coordinate and the
color each set once, before the first vertex. -/
def constantBatch : List BatchCall :=
  [.normal ⟨0, 0, 1⟩, .texCoord ⟨1, 0, 0, 1⟩, .color ⟨1, 0, 0, 1⟩, .vertex ⟨0, 0, 0, 1⟩,
   .vertex ⟨1, 0, 0, 1⟩, .vertex ⟨1, 1, 0, 1⟩]

/-- A batch of three vertices with the normal, the texture coordinate and the
color set before the first vertex and again before the second. -/
def varyingBatch : List BatchCall :=
  [.normal ⟨0, 0, 1⟩, .texCoord ⟨0, 0, 0, 1⟩, .color ⟨1, 0, 0, 1⟩, .vertex ⟨0, 0, 0, 1⟩,
   .normal ⟨0, 1, 0⟩, .texCoord ⟨1, 0, 0, 1⟩, .color ⟨0, 1, 0, 1⟩, .vertex ⟨1, 0, 0, 1⟩,
   .vertex ⟨1, 1, 0, 1⟩]

/-- A batch of one vertex in which the texture coordinate is set once, before
the vertex. -/
def texCoordOnce : List BatchCall :=
  [.texCoord ⟨1, 2, 3, 4⟩, .vertex ⟨0, 0, 0, 1⟩]

/-- The context after an empty batch in which glMaterialfv sets the front
ambient color: glBegin, glMaterialfv, glEnd, from the initial state. -/
def afterEmptyMaterialBatch : Ctx :=
  jwzgles_glEnd_REMOVED
    (jwzgles_glMaterialfv false (jwzgles_glBegin_REMOVED initial GL_TRIANGLES)
      GL_FRONT GL_AMBIENT ⟨1, 0, 0, 1⟩)

/-- A batch of one vertex and nothing else. -/
def oneVertex : List BatchCall := [.vertex ⟨0, 0, 0, 1⟩]

/-- A quad strip of four vertices with a normal before the first vertex and a
color before the third. -/
def stripBatch : List BatchCall :=
  [.normal ⟨0, 0, 1⟩, .vertex ⟨0, 0, 0, 1⟩, .vertex ⟨0, 1, 0, 1⟩, .color ⟨1, 0, 0, 1⟩,
   .vertex ⟨1, 0, 0, 1⟩, .vertex ⟨1, 1, 0, 1⟩]

/-- The client arrays bound in the renderer after FlushOnStateChange of
jwzgles_test.c has rebound those whose pointer was not valid (lines 87-108). -/
def flushArrays (c : Ctx) : gl_arrays :=
  { c.gl with
      vertex :=
        if c.state.vertPrtValid = 0 then
          ⟨c.gl.array_buffer, if c.w.wrapperPrimitiveMode = GL_LINES then 2 else 3, GL_FLOAT,
            sizeof_VertexAttrib, 0, .vertexattribs 0⟩
        else c.gl.vertex,
      color :=
        if c.state.colorPtrValid = 0 then
          ⟨c.gl.array_buffer, 4, GL_FLOAT, sizeof_VertexAttrib, 0, .vertexattribs 4⟩
        else c.gl.color,
      texcoord :=
        if c.state.texPrtValid = 0 then
          ⟨c.gl.array_buffer, 2, GL_FLOAT, sizeof_VertexAttrib, 0, .vertexattribs 8⟩
        else c.gl.texcoord }

/-- The draw call of FlushOnStateChange of jwzgles_test.c for the vertices
pending in `c`. -/
def flushDraw (c : Ctx) : GLCall :=
  .glDrawElements (if c.w.wrapperPrimitiveMode = GL_LINES then GL_LINES else GL_TRIANGLES)
    c.w.vertexCount GL_UNSIGNED_SHORT (readIndices c.w.indexArray c.w.vertexCount)
    ⟨c.state.enabled, flushArrays c, c.w.vertexattribs⟩

/-- The renderer calls of FlushOnStateChange of jwzgles_test.c: nothing when no
vertex is pending; otherwise the bindings of the arrays whose pointer is not
valid, the three client arrays enabled where `enabled` has them off, the draw
call, and the same arrays disabled again. -/
def flushCalls (c : Ctx) : List GLCall :=
  if c.w.vertexCount = 0 then []
  else
    [.glClientActiveTexture GL_TEXTURE0, .glBindBuffer GL_ELEMENT_ARRAY_BUFFER 0] ++
    (if c.state.vertPrtValid = 0 then
       [.glVertexPointer (if c.w.wrapperPrimitiveMode = GL_LINES then 2 else 3) GL_FLOAT
          sizeof_VertexAttrib (.vertexattribs 0)]
     else []) ++
    (if c.state.colorPtrValid = 0 then
       [.glColorPointer 4 GL_FLOAT sizeof_VertexAttrib (.vertexattribs 4)] else []) ++
    (if c.state.texPrtValid = 0 then
       [.glTexCoordPointer 2 GL_FLOAT sizeof_VertexAttrib (.vertexattribs 8)] else []) ++
    (if hasFlag c.state.enabled ISENABLED_VERT_ARRAY then []
     else [.glEnableClientState GL_VERTEX_ARRAY]) ++
    (if hasFlag c.state.enabled ISENABLED_TEX_ARRAY then []
     else [.glEnableClientState GL_TEXTURE_COORD_ARRAY]) ++
    (if hasFlag c.state.enabled ISENABLED_COLOR_ARRAY then []
     else [.glEnableClientState GL_COLOR_ARRAY]) ++
    [flushDraw c] ++
    (if hasFlag c.state.enabled ISENABLED_VERT_ARRAY then []
     else [.glDisableClientState GL_VERTEX_ARRAY]) ++
    (if hasFlag c.state.enabled ISENABLED_TEX_ARRAY then []
     else [.glDisableClientState GL_TEXTURE_COORD_ARRAY]) ++
    (if hasFlag c.state.enabled ISENABLED_COLOR_ARRAY then []
     else [.glDisableClientState GL_COLOR_ARRAY])

/-- Whether a request to set (`set > 0`) or clear a capability reaches the
renderer: the capability is not one of the omitted ones, and either it has no
flag in `enabled` or its flag differs from what is requested. -/
def enable_disable_forwards (c : Ctx) (bit : Nat) (set : Int) : Bool :=
  !(enable_disable_switch bit).omitp &&
    ((enable_disable_switch bit).flag == 0 ||
      (if set > 0 then !hasFlag c.state.enabled (enable_disable_switch bit).flag
       else hasFlag c.state.enabled (enable_disable_switch bit).flag))

/-- The capability GL_LIGHT0 of OpenGL ES 1.x (gl.h), which the switch of
enable_disable does not name. -/
def GL_LIGHT0 : Nat := 0x4000

/-- The capability state of the renderer after the calls `l`, from the state
`r`: glEnable / glEnableClientState switch the capability they name on,
glDisable / glDisableClientState switch it off, other calls leave it. -/
def rendererCaps (r : Nat → Bool) : List GLCall → Nat → Bool
  | [] => r
  | .glEnable b :: l => rendererCaps (fun x => if x = b then true else r x) l
  | .glEnableClientState b :: l => rendererCaps (fun x => if x = b then true else r x) l
  | .glDisable b :: l => rendererCaps (fun x => if x = b then false else r x) l
  | .glDisableClientState b :: l => rendererCaps (fun x => if x = b then false else r x) l
  | _ :: l => rendererCaps r l

/-- A GL_QUADS batch of three vertices in the DrawElements path, from a
flushed state. -/
def threeVertexQuads : Ctx :=
  indexedBatch flushedCtx GL_QUADS [⟨0, 0, 0, 1⟩, ⟨1, 0, 0, 1⟩, ⟨1, 1, 0, 1⟩]

/-- A GL_TRIANGLES batch of three vertices in the DrawElements path, from a
flushed state: three vertices wait to be drawn. -/
def pendingTriangle : Ctx :=
  indexedBatch flushedCtx GL_TRIANGLES [⟨0, 0, 0, 1⟩, ⟨1, 0, 0, 1⟩, ⟨1, 1, 0, 1⟩]

/-- The shape of what the switch of enable_disable computes: a capability it
does not name has no flag; one it names has a flag; the omitted ones and the
client-state ones are named and are distinct. -/
def switchShape (k : enable_disable_case) : Prop :=
  (k.known = false → k.flag = 0 ∧ k.omitp = false ∧ k.csp = false) ∧
  (k.known = true → k.flag ≠ 0) ∧
  (k.omitp = true → k.csp = false ∧ k.known = true) ∧
  (k.csp = true → k.omitp = false ∧ k.known = true)

instance (k : enable_disable_case) : Decidable (switchShape k) := by
  unfold switchShape
  exact inferInstance

/-- The requests of a client that sets up texture generation on the axis S and
binds a vertex array of four floats per vertex, made one after the other from
the state after jwzgles_reset: jwzgles_glTexGeni (GL_S, GL_TEXTURE_GEN_MODE,
genmode), jwzgles_glTexGenfv (GL_S, GL_OBJECT_PLANE, plane), jwzgles_glEnable
(GL_TEXTURE_GEN_S), jwzgles_glVertexPointer (4, GL_FLOAT, 16, cells). -/
def texgenSetup (U : Bool) (genmode : Int) (plane cells : List GLfloat) : Ctx :=
  jwzgles_glVertexPointer U
    (jwzgles_glEnable U
      (jwzgles_glTexGenfv (jwzgles_glTexGeni initial GL_S GL_TEXTURE_GEN_MODE genmode)
        GL_S GL_OBJECT_PLANE plane)
      GL_TEXTURE_GEN_S)
    4 GL_FLOAT 16 (.heap cells)

/-- The requests jwzgles_glEnable (GL_TEXTURE_GEN_S) and jwzgles_glVertexPointer
(4, GL_FLOAT, 16, cells) from the state after jwzgles_reset, which installs
GL_EYE_LINEAR as the mode of every axis. -/
def texgenDefaultSetup (U : Bool) (cells : List GLfloat) : Ctx :=
  jwzgles_glVertexPointer U (jwzgles_glEnable U initial GL_TEXTURE_GEN_S)
    4 GL_FLOAT 16 (.heap cells)

/-- Whether a renderer call is glTexCoordPointer. -/
def GLCall.isTexCoordPointer : GLCall → Bool
  | .glTexCoordPointer _ _ _ _ => true
  | _ => false

/-- The four coefficients of a plane as glGetTexGenfv copies them out. -/
def plane4 (p : List GLfloat) : List GLfloat :=
  (List.range 4).map (fun i => p.getD i 0)

/-- How many texture-generation axes are enabled: `tcoords` of
generate_texture_coords. -/
def texgenCount (e : Nat) : Nat :=
  (if hasFlag e ISENABLED_TEXTURE_GEN_S then 1 else 0) +
  ((if hasFlag e ISENABLED_TEXTURE_GEN_T then 1 else 0) +
  ((if hasFlag e ISENABLED_TEXTURE_GEN_R then 1 else 0) +
  (if hasFlag e ISENABLED_TEXTURE_GEN_Q then 1 else 0)))

/-- One entry of the table `tg` of generate_texture_coords after its first
loop: mode and object plane are read from the state when the axis is enabled. -/
def texgenEntry (enabled which flag : Nat) (s : texgen_state) : tg_entry :=
  if hasFlag enabled flag then ⟨which, flag, s.mode, plane4 s.obj⟩
  else ⟨which, flag, 0, [0, 0, 0, 0]⟩

/-- The table `tg` of generate_texture_coords after its first loop. -/
def texgenTable (c : Ctx) : List tg_entry :=
  [texgenEntry c.state.enabled GL_S ISENABLED_TEXTURE_GEN_S c.state.s,
   texgenEntry c.state.enabled GL_T ISENABLED_TEXTURE_GEN_T c.state.t,
   texgenEntry c.state.enabled GL_R ISENABLED_TEXTURE_GEN_R c.state.r,
   texgenEntry c.state.enabled GL_Q ISENABLED_TEXTURE_GEN_Q c.state.q]

/-- Whether the type of a vertex array is one that generate_texture_coords
reads. -/
def texgenReadable (type : Nat) : Prop :=
  type = GL_SHORT ∨ type = GL_INT ∨ type = GL_FLOAT ∨ type = GL_DOUBLE

instance (type : Nat) : Decidable (texgenReadable type) := by
  unfold texgenReadable
  exact inferInstance

/-- The array `vert` that generate_texture_coords extracts for the vertex found
`verts_in` bytes into the bound array: its first `size` components when the
type is one the switch reads, the others left at the 0 of
`GLfloat vert[4] = { 0, }`. -/
def texgenVert (A : draw_array) (cells : List GLfloat) (verts_in : Nat) : List GLfloat :=
  (List.range 4).map (fun j =>
    if texgenReadable A.type ∧ j < A.size then
      cells.getD (verts_in / sizeof_type A.type + j) 0
    else 0)

/-- What generate_texture_coords computes for one vertex: one entry per enabled
axis in the order S, T, R, Q, the dot product for an axis in GL_OBJECT_LINEAR
mode, nothing (`none`) for an axis in another mode. -/
def texgenCoords (enabled : Nat) (vert : List GLfloat) : List tg_entry → List (Option GLfloat)
  | [] => []
  | e :: tg =>
    if !hasFlag enabled e.flag then texgenCoords enabled vert tg
    else
      (if e.mode = GL_OBJECT_LINEAR then some (dot_product 4 vert e.plane) else none) ::
        texgenCoords enabled vert tg

/-- The stores `tex_out[k] = ...` of one vertex, from cell `pos` on; a cell for
which nothing was computed is left as it is. -/
def storeCoords : List GLfloat → Nat → List (Option GLfloat) → List GLfloat
  | arr, _, [] => arr
  | arr, pos, some v :: l => storeCoords (arr.set pos v) (pos + 1) l
  | arr, pos, none :: l => storeCoords arr (pos + 1) l

/-- The cells of the texture-coordinate array that belong to one vertex: the
computed coordinates, 0 (from calloc) where nothing was computed. -/
def texgenRow (enabled : Nat) (vert : List GLfloat) (tg : List tg_entry) : List GLfloat :=
  (texgenCoords enabled vert tg).map (fun o => o.getD 0)

/-- The array that generate_texture_coords (first, count) builds: the rows of
the vertices found at byte offsets 0, stride, 2 stride, ... of the bound vertex
array, `count` of them, followed by `first` rows of zeros. -/
def texgenArray (c : Ctx) (first count : Nat) : List GLfloat :=
  (List.range count).flatMap (fun n =>
      texgenRow c.state.enabled
        (texgenVert c.gl.vertex (c.gl.vertex.data.cells c.w) (n * c.gl.vertex.stride))
        (texgenTable c)) ++
    List.replicate (first * texgenCount c.state.enabled) 0

/-- How many enabled axes are in a mode other than GL_OBJECT_LINEAR. -/
def texgenUnsupported (enabled : Nat) : List tg_entry → Nat
  | [] => 0
  | e :: tg =>
    (if hasFlag enabled e.flag ∧ e.mode ≠ GL_OBJECT_LINEAR then 1 else 0) +
      texgenUnsupported enabled tg

/-- The messages that generate_texture_coords logs for one vertex: "unknown
vertex type" once per component when the array type is not one the switch
reads, then "unimplemented texture mode" once per enabled axis in a mode other
than GL_OBJECT_LINEAR. -/
def texgenLogOne (enabled : Nat) (tg : List tg_entry) (A : draw_array) : List String :=
  List.replicate (if texgenReadable A.type then 0 else A.size) "unknown vertex type" ++
    List.replicate (texgenUnsupported enabled tg) "unimplemented texture mode"

/-- The messages that generate_texture_coords logs for `n` vertices. -/
def texgenLog (enabled : Nat) (tg : List tg_entry) (A : draw_array) (n : Nat) : List String :=
  (List.range n).flatMap (fun _ => texgenLogOne enabled tg A)

/-- The cells of an array of quads: per quad its corners A, B, C, D, each
corner an element of several cells. -/
def quadCells {α : Type} (qs : List (List α × List α × List α × List α)) : List α :=
  qs.flatMap (fun q => q.1 ++ (q.2.1 ++ (q.2.2.1 ++ q.2.2.2)))

/-- The cells of the triangles made of the quads by the copy order of the
loop of cq2t: per quad the corners A, B, D, B, C, D. -/
def cellsABD_BCD {α : Type} (qs : List (List α × List α × List α × List α)) : List α :=
  qs.flatMap (fun q => q.1 ++ (q.2.1 ++ (q.2.2.2 ++ (q.2.1 ++ (q.2.2.1 ++ q.2.2.2)))))

/-- The cells of the triangles as the comment on cq2t has them: per quad the
corners A, B, C, B, C, D. -/
def cellsABC_BCD {α : Type} (qs : List (List α × List α × List α × List α)) : List α :=
  qs.flatMap (fun q => q.1 ++ (q.2.1 ++ (q.2.2.1 ++ (q.2.1 ++ (q.2.2.1 ++ q.2.2.2)))))

/-! ### The three-state scheme of the specification -/

/-- The state of an attribute in the three-state scheme; `Constant` holds the
setter call that gave the value. -/
inductive AttrState where
  | Unset
  | Constant (setter : BatchCall)
  | Varying
deriving DecidableEq, Repr

/-- One call in the three-state scheme as the specification words it; the
second component tells whether a vertex exists.  A set made before any vertex
takes Unset to Constant; a set made once a vertex exists takes any state to
Varying.  For a further set made before any vertex the specification names no
transition: the state stays Constant, with the newer value. -/
def specStep (a : Attr) (st : AttrState × Bool) (x : BatchCall) : AttrState × Bool :=
  if x.isVertex then (st.1, true)
  else if x.sets a then
    if st.2 then (.Varying, st.2)
    else
      match st.1 with
      | .Unset => (.Constant x, st.2)
      | .Constant _ => (.Constant x, st.2)
      | .Varying => (.Varying, st.2)
  else st

/-- The state of the attribute at glEnd in the scheme of the specification:
Unset at batch open, then one step per call. -/
def specScheme (a : Attr) (calls : List BatchCall) : AttrState :=
  (calls.foldl (specStep a) (.Unset, false)).1

/-- One call in the three-state scheme in which, besides, a second set made
before any vertex takes Constant to Varying. -/
def countingStep (a : Attr) (st : AttrState × Bool) (x : BatchCall) : AttrState × Bool :=
  if x.isVertex then (st.1, true)
  else if x.sets a then
    if st.2 then (.Varying, st.2)
    else
      match st.1 with
      | .Unset => (.Constant x, st.2)
      | .Constant _ => (.Varying, st.2)
      | .Varying => (.Varying, st.2)
  else st

/-- The state of the attribute at glEnd in that scheme. -/
def countingScheme (a : Attr) (calls : List BatchCall) : AttrState :=
  (calls.foldl (countingStep a) (.Unset, false)).1

/-- The current value of an attribute in a set, as the setter call that gives
it. -/
def Attr.current (a : Attr) (s : vert_set) : BatchCall :=
  match a with
  | .normal => .normal s.cnorm
  | .texCoord => .texCoord s.ctex
  | .color => .color s.ccolor

/-- What glEnd does with an attribute, by its counter: nothing for 0, the
scalar call for 1, the array for 2 and more. -/
inductive AttrDecision where
  | disabled
  | scalarCall
  | array
deriving DecidableEq, Repr

/-- The decision of glEnd from the counter (lines 1550-1592). -/
def decisionOfCounter (n : Nat) : AttrDecision :=
  if 1 < n then .array else if n = 1 then .scalarCall else .disabled

/-- The decision that a state of the three-state scheme stands for. -/
def decisionOfState : AttrState → AttrDecision
  | .Unset => .disabled
  | .Constant _ => .scalarCall
  | .Varying => .array

/-- A batch in which the normal is set twice before its one vertex. -/
def twoNormalsThenVertex : List BatchCall :=
  [.normal ⟨0, 0, 1⟩, .normal ⟨0, 1, 0⟩, .vertex ⟨0, 0, 0, 1⟩]

/-- How a state of the three-state scheme stands to the counter, the vertex
count and the current value of the attribute in a set. -/
def schemeAgrees (a : Attr) (st : AttrState × Bool) (s : vert_set) : Prop :=
  (st.2 = true ↔ 0 < s.count) ∧
  (st.1 = .Unset → a.counter s = 0) ∧
  (∀ x, st.1 = .Constant x → a.counter s = 1 ∧ a.current s = x) ∧
  (st.1 = .Varying → 2 ≤ a.counter s)

/-! ### Capacity of the attribute accumulator -/

/-- The four arrays of a set and their allocated capacity `size`. -/
def vert_set.arrays (s : vert_set) :
    Option (List XYZW) × Option (List XYZ) × Option (List STRQ) × Option (List RGBA) × Nat :=
  (s.verts, s.norms, s.tex, s.color, s.size)

/-- The capacity in force when glVertex4fv writes cell `count`: the grown one,
20 + floor (1.2 * size), when the test `count >= s->size - 1` holds, the old
one otherwise. -/
def sizeAtWrite (s : vert_set) : Nat :=
  if (s.count : Int) ≥ (s.size : Int) - 1 then 20 + s.size * 12 / 10 else s.size

/-- A call of the array path: glBegin, a setter or glVertex4fv, or glEnd. -/
inductive ArrayPathCall where
  | glBegin (mode : Nat)
  | inBatch (x : BatchCall)
  | glEnd
deriving DecidableEq, Repr

/-- Run one call of the array path. -/
def ArrayPathCall.run (c : Ctx) : ArrayPathCall → Ctx
  | .glBegin mode => jwzgles_glBegin_REMOVED c mode
  | .inBatch x => x.run c
  | .glEnd => jwzgles_glEnd_REMOVED c

/-- Run a sequence of calls of the array path. -/
def runArrayPath (c : Ctx) (l : List ArrayPathCall) : Ctx :=
  l.foldl ArrayPathCall.run c

/-- A GL_QUADS batch of four vertices followed by the opening of another
batch. -/
def quadsThenBegin : List ArrayPathCall :=
  [.glBegin GL_QUADS, .inBatch (.vertex ⟨0, 0, 0, 1⟩), .inBatch (.vertex ⟨1, 0, 0, 1⟩),
   .inBatch (.vertex ⟨1, 1, 0, 1⟩), .inBatch (.vertex ⟨0, 1, 0, 1⟩), .glEnd,
   .glBegin GL_TRIANGLES]

/-! ## Indices of one batch in the DrawElements path -/

/-- What a run of index stores has done to the wrapper state `w0`, whose index
pointer was at cell `p`: the cells from `p` on hold the list `l`, the pointer
is just after them, and the cells below `p` and the variables that index
stores do not touch are as in `w0`. -/
def Emitted (w0 : wrapper_state) (p : Nat) (l : List Nat) (w : wrapper_state) : Prop :=
  w.ptrIndexArray = some (p + l.length) ∧
  (∀ k, k < l.length → w.indexArray.getD (p + k) 0 = l.getD k 0) ∧
  (∀ j, j < p → w.indexArray.getD j 0 = w0.indexArray.getD j 0) ∧
  w.indexbase = w0.indexbase ∧ w.indexArrayAddr = w0.indexArrayAddr ∧
  w.vertexMark = w0.vertexMark ∧ w.wrapperPrimitiveMode = w0.wrapperPrimitiveMode ∧
  w.vertexattribs = w0.vertexattribs

/-- The cells `p`, ..., `p + len - 1` of the index array. -/
def indicesAt (indexArray : List Nat) (p len : Nat) : List Nat :=
  (List.range len).map (fun k => indexArray.getD (p + k) 0)

/-- The indices of a fan of `n` vertices whose first vertex has index `b`:
triangle k, for k = 0, ..., n - 3, is (b, b + k + 1, b + k + 2). -/
def fanIndices (b n : Nat) : List Nat :=
  (List.range (n - 2)).flatMap (fun k => [b, b + k + 1, b + k + 2])

/-- The triangle of strip vertex `i` (at least 2) in a strip whose first
vertex has index `b`: (b+i-2, b+i-1, b+i) when i is even and
(b+i-1, b+i-2, b+i) when i is odd. -/
def stripTriangle (b i : Nat) : List Nat :=
  if i % 2 = 0 then [b + i - 2, b + i - 1, b + i] else [b + i - 1, b + i - 2, b + i]

/-- The triangles of the strip vertices `i`, ..., `i + m - 1`. -/
def stripFrom (b i m : Nat) : List Nat :=
  (List.range m).flatMap (fun k => stripTriangle b (i + k))

/-- The indices of a strip of `n` vertices whose first vertex has index `b`:
the triangles of the strip vertices 2, ..., n - 1. -/
def stripIndices (b n : Nat) : List Nat := stripFrom b 2 (n - 2)

/-- The positions stored in the cells `q`, ..., `q + n - 1` of `vertexattribs`. -/
def positionsAt (c : Ctx) (q n : Nat) : List (GLfloat × GLfloat × GLfloat) :=
  (List.range n).map (fun i =>
    ((c.w.vertexattribs.getD (q + i) default).x, (c.w.vertexattribs.getD (q + i) default).y,
      (c.w.vertexattribs.getD (q + i) default).z))

/-! ## The parts of `jwzgles_glEnd` of jwzgles_test.c, one by one

The same statements as in `jwzgles_glEnd`, cut into named pieces;
`jwzgles_glEnd_eq` below states that the function is their composition. -/

/-- The start of `jwzgles_glEnd`: `glBegin_active = 0` and the number of
vertices appended since glBegin is added to `vertexCount`. -/
def glEnd_counted (w : wrapper_state) : wrapper_state :=
  let w := { w with glBegin_active := 0 }
  let added : Nat := w.ptrVertexAttribArray.getD 0 - w.ptrVertexAttribArrayMark.getD 0
  { w with vertexCount := u32 (w.vertexCount + added) }

/-- The first triangle of `case GL_TRIANGLE_STRIP`. -/
def glEnd_strip_first (w : wrapper_state) : wrapper_state :=
  let w := pushIndex w w.indexCount
  let w := pushIndex w (w.indexCount + 1)
  let w := pushIndex w (w.indexCount + 2)
  { w with indexCount := u32 (w.indexCount + 3) }

/-- The branch of `case GL_TRIANGLE_STRIP` taken when triangles remain and the
index pointer is not 4-byte aligned. -/
def glEnd_strip_unaligned (w : wrapper_state) (vcount : Int) : wrapper_state :=
  let w := pushIndex w ((w.indexCount : Int) - 1)
  let w := pushIndex w ((w.indexCount : Int) - 2)
  let w := pushIndex w w.indexCount
  let w := { w with indexCount := u32 (w.indexCount + 1) }
  let vcount := vcount - 1
  let odd := vcount % 2
  let vcount := Int.tdiv vcount 2
  let w := glEnd_strip_loop_unaligned vcount.toNat w
  if odd ≠ 0 then
    let w := pushIndex w ((w.indexCount : Int) - 2)
    let w := pushIndex w ((w.indexCount : Int) - 1)
    let w := pushIndex w w.indexCount
    { w with indexCount := u32 (w.indexCount + 1) }
  else w

/-- The branch "already aligned" of `case GL_TRIANGLE_STRIP`. -/
def glEnd_strip_aligned (w : wrapper_state) (vcount : Int) : wrapper_state :=
  let odd := vcount % 2
  let vcount := Int.tdiv vcount 2
  let w := glEnd_strip_loop_aligned vcount.toNat w
  if odd ≠ 0 then
    let w := pushIndex w ((w.indexCount : Int) - 1)
    let w := pushIndex w ((w.indexCount : Int) - 2)
    let w := pushIndex w w.indexCount
    { w with indexCount := u32 (w.indexCount + 1) }
  else w

/-- The whole of `case GL_TRIANGLE_STRIP`. -/
def glEnd_strip_case (w : wrapper_state) : wrapper_state :=
  let w := glEnd_strip_first w
  let vcount : Int := i32 (u32 ((w.vertexCount : Int) - w.vertexMark - 3))
  let w :=
    if vcount ≠ 0 ∧ (ptrIndexArray_addr w) &&& 2 ≠ 0 then glEnd_strip_unaligned w vcount
    else glEnd_strip_aligned w vcount
  let grown : Int := ((w.vertexCount : Int) - w.vertexMark - 3) * 2
  { w with vertexCount := u32 (w.vertexCount + grown) }

/-- The whole of `case GL_POLYGON` / `case GL_TRIANGLE_FAN`. -/
def glEnd_fan_case (w : wrapper_state) : wrapper_state :=
  let w := pushIndex w w.indexCount
  let w := { w with indexCount := u32 (w.indexCount + 1) }
  let w := pushIndex w w.indexCount
  let w := { w with indexCount := u32 (w.indexCount + 1) }
  let w := pushIndex w w.indexCount
  let w := { w with indexCount := u32 (w.indexCount + 1) }
  let vcount : Int := i32 (u32 ((w.vertexCount : Int) - w.vertexMark - 3))
  glEnd_fan_loop vcount.toNat w

/-- The whole of `case GL_LINES`. -/
def glEnd_lines_case (w : wrapper_state) : wrapper_state :=
  let vcount : Int := i32 (u32 ((w.vertexCount : Int) - w.vertexMark) / 2)
  glEnd_lines_loop vcount.toNat w

/-- The whole of `case GL_QUADS`. -/
def glEnd_quads_case (w : wrapper_state) : wrapper_state :=
  let vcount : Int := i32 (u32 ((w.vertexCount : Int) - w.vertexMark))
  let w := glEnd_quads_loop (vcount * 3) (vcount * 3).toNat 0 w
  { w with vertexCount := u32 (Int.tdiv vcount 4 * 6) }

/-- The whole of `case GL_TRIANGLES`. -/
def glEnd_triangles_case (w : wrapper_state) : wrapper_state :=
  let vcount : Int := i32 (u32 ((w.vertexCount : Int) - w.vertexMark) / 3)
  glEnd_triangles_loop vcount.toNat w

/-- The switch of `jwzgles_glEnd`. -/
def glEnd_switch (w : wrapper_state) : wrapper_state :=
  if w.wrapperPrimitiveMode = GL_LINES then glEnd_lines_case w
  else if w.wrapperPrimitiveMode = GL_QUADS then glEnd_quads_case w
  else if w.wrapperPrimitiveMode = GL_TRIANGLES then glEnd_triangles_case w
  else if w.wrapperPrimitiveMode = GL_TRIANGLE_STRIP then glEnd_strip_case w
  else if w.wrapperPrimitiveMode = GL_POLYGON ∨ w.wrapperPrimitiveMode = GL_TRIANGLE_FAN then
    glEnd_fan_case w
  else w

/-- A run of index stores together with the two counters: `Emitted` and the
values of `indexCount` and `vertexCount`. -/
def Tracked (w0 : wrapper_state) (p : Nat) (l : List Nat) (ic vc : Nat)
    (w : wrapper_state) : Prop :=
  Emitted w0 p l w ∧ w.indexCount = ic ∧ w.vertexCount = vc

/-! ## Examples for the bookkeeping of the DrawElements path -/

/-- The topology argument of a draw call. -/
def GLCall.drawMode : GLCall → Option Nat
  | .glDrawArrays mode _ _ _ => some mode
  | .glDrawElements mode _ _ _ _ => some mode
  | _ => none

/-- A batch of the array path, opened from the initial state with a topology
that is no primitive kind (0x1234), holding one vertex; glEnd is still to
come. -/
def strayModeBatch : Ctx := openBatch initial 4660 [.vertex ⟨0, 0, 0, 1⟩]

/-- A bracket of the DrawElements path with the topology 0x1234 and three
vertices, from a flushed state. -/
def strayModeIndexed : Ctx :=
  indexedBatch flushedCtx 4660 [⟨0, 0, 0, 1⟩, ⟨1, 0, 0, 1⟩, ⟨1, 1, 0, 1⟩]

/-- A GL_QUADS bracket of four vertices in the DrawElements path, from a
flushed state. -/
def quadBracket : Ctx :=
  indexedBatch flushedCtx GL_QUADS [⟨0, 0, 0, 1⟩, ⟨1, 0, 0, 1⟩, ⟨1, 1, 0, 1⟩, ⟨0, 1, 0, 1⟩]

/-- The same bracket followed by a GL_TRIANGLES bracket of three vertices. -/
def quadThenTriangle : Ctx :=
  indexedBatch quadBracket GL_TRIANGLES [⟨5, 0, 0, 1⟩, ⟨6, 0, 0, 1⟩, ⟨6, 1, 0, 1⟩]

/-- A GL_TRIANGLES bracket of four vertices (one triangle and one vertex left
over) in the DrawElements path, from a flushed state. -/
def fourVertexTriangles : Ctx :=
  indexedBatch flushedCtx GL_TRIANGLES
    [⟨0, 0, 0, 1⟩, ⟨1, 0, 0, 1⟩, ⟨1, 1, 0, 1⟩, ⟨0, 1, 0, 1⟩]

/-! # Theorems -/

/-! ## Quads to triangles in the array path -/


theorem cq2t_PUSH_eq {α : Type} [Inhabited α] (oarray : List α) :
    ∀ (stride ii : Nat) (out : List α), ii + stride ≤ oarray.length →
      cq2t_PUSH oarray stride ii out = out ++ (oarray.drop ii).take stride := by
  intro stride
  induction stride with
  | zero => intro ii out _; simp [cq2t_PUSH]
  | succ j ih =>
    intro ii out h
    have hlt : ii < oarray.length := by omega
    have hd : oarray.drop ii = oarray[ii] :: oarray.drop (ii + 1) :=
      List.drop_eq_getElem_cons hlt
    rw [cq2t_PUSH, ih (ii + 1) _ (by omega), hd, List.take_succ_cons]
    simp [List.getD_eq_getElem?_getD, List.getElem?_eq_getElem hlt]

theorem cq2t_loop_eq {α : Type} [Inhabited α] (oarray : List α) (stride : Nat) :
    ∀ (iters inp : Nat) (out : List α), inp + 4 * stride * iters ≤ oarray.length →
      cq2t_loop oarray stride iters inp out =
        (inp + 4 * stride * iters, out ++ quadsOut oarray stride iters inp) := by
  intro iters
  induction iters with
  | zero => intro inp out _; simp [cq2t_loop, quadsOut]
  | succ i ih =>
    intro inp out h
    have h4 : inp + stride + stride + stride + stride + 4 * stride * i ≤ oarray.length := by
      have : 4 * stride * (i + 1) = 4 * stride * i + 4 * stride := by ring
      omega
    have hs : 4 * stride * i ≥ 0 := Nat.zero_le _
    simp only [cq2t_loop]
    rw [cq2t_PUSH_eq _ _ _ _ (by omega), cq2t_PUSH_eq _ _ _ _ (by omega),
      cq2t_PUSH_eq _ _ _ _ (by omega), cq2t_PUSH_eq _ _ _ _ (by omega),
      cq2t_PUSH_eq _ _ _ _ (by omega), cq2t_PUSH_eq _ _ _ _ (by omega), ih _ _ h4]
    simp only [quadsOut, List.append_assoc, Prod.mk.injEq, and_true]
    ring

theorem elemAt_zero_append {α : Type} (l r : List α) (stride : Nat) (h : l.length = stride) :
    elemAt (l ++ r) stride 0 = l := by
  subst h
  simp [elemAt]

theorem elemAt_succ_append {α : Type} (l r : List α) (stride k : Nat) (h : l.length = stride) :
    elemAt (l ++ r) stride (k + 1) = elemAt r stride k := by
  subst h
  have : (k + 1) * l.length = l.length + k * l.length := by ring
  simp [elemAt, this]

theorem chunk_length {α : Type} (oarray : List α) (stride off : Nat)
    (h : off + stride ≤ oarray.length) : ((oarray.drop off).take stride).length = stride := by
  simp; omega

theorem elemAt_quadsOut {α : Type} (oarray : List α) (stride : Nat) (rest : List α) :
    ∀ (iters inp : Nat), inp + 4 * stride * iters ≤ oarray.length →
      ∀ k p, k < iters → p < 6 →
        elemAt (quadsOut oarray stride iters inp ++ rest) stride (6 * k + p) =
          (oarray.drop (inp + (4 * k + quadCorner p) * stride)).take stride := by
  intro iters
  induction iters with
  | zero => intro inp _ k p hk; omega
  | succ i ih =>
    intro inp h k p hk hp
    have e4 : 4 * stride * (i + 1) = 4 * stride * i + 4 * stride := by ring
    have h4 : inp + stride + stride + stride + stride + 4 * stride * i ≤ oarray.length := by
      omega
    have l0 := chunk_length oarray stride inp (by omega)
    have l1 := chunk_length oarray stride (inp + stride) (by omega)
    have l2 := chunk_length oarray stride (inp + stride + stride) (by omega)
    have l3 := chunk_length oarray stride (inp + stride + stride + stride) (by omega)
    simp only [quadsOut, List.append_assoc]
    cases k with
    | zero =>
      have hp6 : p = 0 ∨ p = 1 ∨ p = 2 ∨ p = 3 ∨ p = 4 ∨ p = 5 := by omega
      rcases hp6 with rfl | rfl | rfl | rfl | rfl | rfl
      · simp only [Nat.mul_zero, Nat.zero_add, quadCorner, List.getD_cons_zero,
          Nat.zero_mul, Nat.add_zero]
        rw [elemAt_zero_append _ _ _ l0]
      · simp only [Nat.mul_zero, Nat.zero_add, quadCorner]
        rw [elemAt_succ_append _ _ _ _ l0, elemAt_zero_append _ _ _ l1]
        simp
      · simp only [Nat.mul_zero, Nat.zero_add, quadCorner]
        rw [elemAt_succ_append _ _ _ _ l0, elemAt_succ_append _ _ _ _ l1,
          elemAt_zero_append _ _ _ l3]
        simp [Nat.add_assoc, Nat.succ_mul]
      · simp only [Nat.mul_zero, Nat.zero_add, quadCorner]
        rw [elemAt_succ_append _ _ _ _ l0, elemAt_succ_append _ _ _ _ l1,
          elemAt_succ_append _ _ _ _ l3, elemAt_zero_append _ _ _ l1]
        simp
      · simp only [Nat.mul_zero, Nat.zero_add, quadCorner]
        rw [elemAt_succ_append _ _ _ _ l0, elemAt_succ_append _ _ _ _ l1,
          elemAt_succ_append _ _ _ _ l3, elemAt_succ_append _ _ _ _ l1,
          elemAt_zero_append _ _ _ l2]
        simp [Nat.add_assoc, Nat.succ_mul]
      · simp only [Nat.mul_zero, Nat.zero_add, quadCorner]
        rw [elemAt_succ_append _ _ _ _ l0, elemAt_succ_append _ _ _ _ l1,
          elemAt_succ_append _ _ _ _ l3, elemAt_succ_append _ _ _ _ l1,
          elemAt_succ_append _ _ _ _ l2, elemAt_zero_append _ _ _ l3]
        simp [Nat.add_assoc, Nat.succ_mul]
    | succ k =>
      have e : 6 * (k + 1) + p = (6 * k + p) + 1 + 1 + 1 + 1 + 1 + 1 := by ring
      rw [e, elemAt_succ_append _ _ _ _ l0, elemAt_succ_append _ _ _ _ l1,
        elemAt_succ_append _ _ _ _ l3, elemAt_succ_append _ _ _ _ l1,
        elemAt_succ_append _ _ _ _ l2, elemAt_succ_append _ _ _ _ l3,
        ih _ h4 k p (by omega) hp]
      congr 2; ring

theorem quadsOut_length {α : Type} (oarray : List α) (stride : Nat) :
    ∀ (iters inp : Nat), inp + 4 * stride * iters ≤ oarray.length →
      (quadsOut oarray stride iters inp).length = 6 * stride * iters := by
  intro iters
  induction iters with
  | zero => intro inp _; simp [quadsOut]
  | succ i ih =>
    intro inp h
    have e4 : 4 * stride * (i + 1) = 4 * stride * i + 4 * stride := by ring
    have h4 : inp + stride + stride + stride + stride + 4 * stride * i ≤ oarray.length := by
      omega
    simp only [quadsOut, List.length_append]
    rw [chunk_length oarray stride inp (by omega),
      chunk_length oarray stride (inp + stride) (by omega),
      chunk_length oarray stride (inp + stride + stride) (by omega),
      chunk_length oarray stride (inp + stride + stride + stride) (by omega), ih _ h4]
    ring

theorem cq2t_spec {α : Type} [Inhabited α] (oarray : List α) (stride n : Nat)
    (hn : n % 4 = 0) (hlen : stride * n ≤ oarray.length) :
    (cq2t (some oarray) stride n).count2 = 6 * (n / 4) ∧
    (cq2t (some oarray) stride n).failed = [] ∧
    ∃ out, (cq2t (some oarray) stride n).array = some out ∧
      (n ≠ 0 → out.length = stride * (6 * (n / 4))) ∧
      QuadsAsTriangles oarray out stride n := by
  have hc2 : n * 6 / 4 = 6 * (n / 4) := by omega
  by_cases h0 : n = 0
  · subst h0
    refine ⟨by simp [cq2t], by simp [cq2t], oarray, by simp [cq2t], by simp, ?_⟩
    intro k hk
    simp at hk
  · have hb : 0 + 4 * stride * (n / 4) ≤ oarray.length := by
      have : 4 * stride * (n / 4) = stride * (4 * (n / 4)) := by ring
      have h4 : 4 * (n / 4) = n := by omega
      rw [Nat.zero_add, this, h4]; exact hlen
    have hlenq := quadsOut_length oarray stride (n / 4) 0 hb
    have hs2 : stride * (n * 6 / 4) = 6 * stride * (n / 4) := by rw [hc2]; ring
    have hin : 4 * stride * (n / 4) = stride * n := by
      have : 4 * stride * (n / 4) = stride * (4 * (n / 4)) := by ring
      have h4 : 4 * (n / 4) = n := by omega
      rw [this, h4]
    refine ⟨by simp [cq2t, hc2, h0], ?_, ?_⟩
    · simp [cq2t, h0, cq2t_loop_eq oarray stride (n / 4) 0 [] hb, hlenq, hs2, hin]
    · refine ⟨quadsOut oarray stride (n / 4) 0 ++ [], ?_, ?_, ?_⟩
      · simp [cq2t, h0, cq2t_loop_eq oarray stride (n / 4) 0 [] hb, hlenq, hs2]
      · intro _; simp [hlenq]; ring
      · intro k hk
        have key := fun p hp => elemAt_quadsOut oarray stride [] (n / 4) 0 hb k p hk hp
        have k0 := key 0 (by omega)
        have k1 := key 1 (by omega)
        have k2 := key 2 (by omega)
        have k3 := key 3 (by omega)
        have k4 := key 4 (by omega)
        have k5 := key 5 (by omega)
        simp only [quadCorner, Nat.zero_add, Nat.add_zero] at k0 k1 k2 k3 k4 k5
        simp only [elemAt] at *
        refine ⟨k0, k1, k2, k3, k4, k5⟩

theorem convert_quads_to_triangles_spec (s : vert_set) (verts : List XYZW) (norms : List XYZ)
    (tex : List STRQ) (color : List RGBA)
    (hv : s.verts = some verts) (hn : s.norms = some norms) (ht : s.tex = some tex)
    (hc : s.color = some color) (h4 : s.count % 4 = 0)
    (hlv : s.count ≤ verts.length) (hln : s.count ≤ norms.length)
    (hlt : s.count ≤ tex.length) (hlc : s.count ≤ color.length) :
    (convert_quads_to_triangles s).1.mode = GL_TRIANGLES ∧
    (convert_quads_to_triangles s).1.count = 6 * (s.count / 4) ∧
    (convert_quads_to_triangles s).1.size = 6 * (s.count / 4) ∧
    ∃ verts2 norms2 tex2 color2,
      (convert_quads_to_triangles s).1.verts = some verts2 ∧
      (convert_quads_to_triangles s).1.norms = some norms2 ∧
      (convert_quads_to_triangles s).1.tex = some tex2 ∧
      (convert_quads_to_triangles s).1.color = some color2 ∧
      QuadsAsTriangles verts verts2 1 s.count ∧
      QuadsAsTriangles norms norms2 1 s.count ∧
      QuadsAsTriangles tex tex2 1 s.count ∧
      QuadsAsTriangles color color2 1 s.count := by
  obtain ⟨cv, _, v2, hv2, _, qv⟩ := cq2t_spec verts 1 s.count h4 (by omega)
  obtain ⟨_, _, n2, hn2, _, qn⟩ := cq2t_spec norms 1 s.count h4 (by omega)
  obtain ⟨_, _, t2, ht2, _, qt⟩ := cq2t_spec tex 1 s.count h4 (by omega)
  obtain ⟨_, _, c2, hc2, _, qc⟩ := cq2t_spec color 1 s.count h4 (by omega)
  refine ⟨rfl, ?_, ?_, v2, n2, t2, c2, ?_, ?_, ?_, ?_, qv, qn, qt, qc⟩
  · simp only [convert_quads_to_triangles, hv]; exact cv
  · simp only [convert_quads_to_triangles, hv]; exact cv
  · simp only [convert_quads_to_triangles, hv]; exact hv2
  · simp only [convert_quads_to_triangles, hn]; exact hn2
  · simp only [convert_quads_to_triangles, ht]; exact ht2
  · simp only [convert_quads_to_triangles, hc]; exact hc2

/-- C1: quad normalization in the array path.  For an array `oarray` holding
`n` elements of `stride` cells each, `n` a multiple of 4, cq2t returns the
count 6 * (n / 4) and an array in which the six elements made from quad `k`
are its corners A, B, D, B, C, D.  convert_quads_to_triangles does this to
each of verts, norms, tex and color of a set, sets its count to 6 * (n / 4)
and its mode to GL_TRIANGLES, and glEnd applies it to a GL_QUADS batch. -/
theorem C1_quads_become_triangles_ABD_BCD {α : Type} [Inhabited α]
    (oarray : List α) (stride n : Nat) (s : vert_set)
    (verts : List XYZW) (norms : List XYZ) (tex : List STRQ) (color : List RGBA)
    (hn : n % 4 = 0) (hlen : stride * n ≤ oarray.length)
    (hcount : s.count = n)
    (hv : s.verts = some verts) (hno : s.norms = some norms) (ht : s.tex = some tex)
    (hc : s.color = some color)
    (hlv : n ≤ verts.length) (hln : n ≤ norms.length)
    (hlt : n ≤ tex.length) (hlc : n ≤ color.length) :
    ((cq2t (some oarray) stride n).count2 = 6 * (n / 4) ∧
      ∃ out, (cq2t (some oarray) stride n).array = some out ∧
        QuadsAsTriangles oarray out stride n) ∧
    ((convert_quads_to_triangles s).1.mode = GL_TRIANGLES ∧
      (convert_quads_to_triangles s).1.count = 6 * (n / 4) ∧
      ∃ verts2 norms2 tex2 color2,
        (convert_quads_to_triangles s).1.verts = some verts2 ∧
        (convert_quads_to_triangles s).1.norms = some norms2 ∧
        (convert_quads_to_triangles s).1.tex = some tex2 ∧
        (convert_quads_to_triangles s).1.color = some color2 ∧
        QuadsAsTriangles verts verts2 1 n ∧
        QuadsAsTriangles norms norms2 1 n ∧
        QuadsAsTriangles tex tex2 1 n ∧
        QuadsAsTriangles color color2 1 n) ∧
    (∀ c : Ctx, c.state.set = s → s.mode = GL_QUADS →
      (glEnd_normalize c).state.set = (convert_quads_to_triangles s).1) := by
  subst hcount
  obtain ⟨h1, _, out, h2, _, h3⟩ := cq2t_spec oarray stride s.count hn hlen
  obtain ⟨g1, g2, _, v2, n2, t2, c2, e1, e2, e3, e4, q1, q2, q3, q4⟩ :=
    convert_quads_to_triangles_spec s verts norms tex color hv hno ht hc hn hlv hln hlt hlc
  refine ⟨⟨h1, out, h2, h3⟩, ⟨g1, g2, v2, n2, t2, c2, e1, e2, e3, e4, q1, q2, q3, q4⟩, ?_⟩
  intro c hc1 hm
  subst hc1
  simp [glEnd_normalize, hm]

/-- Witness of C1: one quad of four one-cell elements, and the set quadSet. -/
theorem C1_quads_become_triangles_ABD_BCD_witness :
    (cq2t (some [10, 11, 12, 13]) 1 4).array = some [10, 11, 13, 11, 12, 13] ∧
    (convert_quads_to_triangles quadSet).1.verts =
      some [⟨0, 0, 0, 1⟩, ⟨1, 0, 0, 1⟩, ⟨0, 1, 0, 1⟩, ⟨1, 0, 0, 1⟩, ⟨1, 1, 0, 1⟩, ⟨0, 1, 0, 1⟩] ∧
    (convert_quads_to_triangles quadSet).1.mode = GL_TRIANGLES ∧
    (convert_quads_to_triangles quadSet).1.count = 6 * (4 / 4) :=
  have h := @C1_quads_become_triangles_ABD_BCD Nat _ [10, 11, 12, 13] 1 4 quadSet
    [⟨0, 0, 0, 1⟩, ⟨1, 0, 0, 1⟩, ⟨1, 1, 0, 1⟩, ⟨0, 1, 0, 1⟩]
    [⟨0, 0, 1⟩, ⟨0, 0, 2⟩, ⟨0, 0, 3⟩, ⟨0, 0, 4⟩]
    [⟨0, 0, 0, 1⟩, ⟨1, 0, 0, 1⟩, ⟨1, 1, 0, 1⟩, ⟨0, 1, 0, 1⟩]
    [⟨1, 0, 0, 1⟩, ⟨0, 1, 0, 1⟩, ⟨0, 0, 1, 1⟩, ⟨1, 1, 1, 1⟩]
    (by decide) (by decide) rfl rfl rfl rfl rfl (by decide) (by decide) (by decide) (by decide)
  ⟨by decide, by decide, h.2.1.1, h.2.1.2.1⟩

/-! ## Quads in the DrawElements path -/

theorem getD_writeCell {α : Type} (zero : α) (arr : List α) (i j : Nat) (v : α) :
    (writeCell zero arr i v).getD j zero = if j = i then v else arr.getD j zero := by
  unfold writeCell
  by_cases h : i < arr.length
  · simp only [h, if_true]
    by_cases hj : j = i
    · subst hj; simp [List.getD_eq_getElem?_getD, h]
    · simp [List.getD_eq_getElem?_getD, hj, List.getElem?_set, Ne.symm hj]
  · simp only [h, if_false]
    by_cases hj : j = i
    · subst hj
      have : arr.length ≤ j := by omega
      simp [List.getD_eq_getElem?_getD, List.getElem?_append_right, this]
    · simp only [hj, if_false, List.getD_eq_getElem?_getD, List.append_assoc]
      by_cases hl : j < arr.length
      · simp [List.getElem?_append_left, hl]
      · have hl2 : arr.length ≤ j := by omega
        rw [List.getElem?_append_right hl2, List.getElem?_eq_none hl2]
        by_cases h3 : j - arr.length < i - arr.length
        · rw [List.getElem?_append_left (by simpa using h3)]
          simp [h3]
        · rw [List.getElem?_append_right (by simpa using h3), List.length_replicate]
          have h4 : 1 ≤ j - arr.length - (i - arr.length) := by omega
          rw [List.getElem?_eq_none (by simpa using h4)]

theorem getElem?_writeCell {α : Type} (zero : α) (arr : List α) (i j : Nat) (v : α) :
    (writeCell zero arr i v)[j]?.getD zero = if j = i then v else arr[j]?.getD zero := by
  have := getD_writeCell zero arr i j v
  simpa [List.getD_eq_getElem?_getD] using this

/-- C2 as amended: in the DrawElements path, from a freshly flushed state, a
GL_QUADS batch of four vertices A, B, C, D is stored as vertices 0, 1, 2, 3
and leaves exactly two triangles to draw, (A,B,C) and (A,C,D); a batch of
eight vertices leaves exactly four, paired the same way in each group of 4. -/
theorem C2_indexed_quads_ABC_ACD (c : Ctx) (h : Flushed c) (A B C D E F G H : XYZW) :
    (pendingTriangles (indexedBatch c GL_QUADS [A, B, C, D]) = [(0, 1, 2), (0, 2, 3)] ∧
      storedPositions (indexedBatch c GL_QUADS [A, B, C, D]) 4 =
        [(A.x, A.y, A.z), (B.x, B.y, B.z), (C.x, C.y, C.z), (D.x, D.y, D.z)]) ∧
    pendingTriangles (indexedBatch c GL_QUADS [A, B, C, D, E, F, G, H]) =
      [(0, 1, 2), (0, 2, 3), (4, 5, 6), (4, 6, 7)] := by
  obtain ⟨h1, h2, h3, h4, h5, hf⟩ := h
  have hz : (default : VertexAttrib) = ⟨0, 0, 0, 0, 0, 0, 0, 0, 0, 0⟩ := rfl
  refine ⟨⟨?_, ?_⟩, ?_⟩
  · simp [pendingTriangles, indexedBatch, jwzgles_glBegin, jwzgles_glVertex4fv, jwzgles_glEnd,
      hf, h1, h2, h3, h4, h5, GL_QUADS, GL_LINES, u32, i32, glEnd_quads_loop, storeIndexAt,
      readIndices, getElem?_writeCell, triples, List.range_succ]
  · simp [storedPositions, indexedBatch, jwzgles_glBegin, jwzgles_glVertex4fv, jwzgles_glEnd,
      hf, h1, h2, h3, h4, h5, GL_QUADS, GL_LINES, u32, i32, glEnd_quads_loop, storeIndexAt,
      getElem?_writeCell, List.range_succ, hz]
  · simp [pendingTriangles, indexedBatch, jwzgles_glBegin, jwzgles_glVertex4fv, jwzgles_glEnd,
      hf, h1, h2, h3, h4, h5, GL_QUADS, GL_LINES, u32, i32, glEnd_quads_loop, storeIndexAt,
      readIndices, getElem?_writeCell, triples, List.range_succ]

/-- Witness of C2 as amended, at the flushed state flushedCtx. -/
theorem C2_indexed_quads_ABC_ACD_witness :
    Flushed flushedCtx ∧
    pendingTriangles (indexedBatch flushedCtx GL_QUADS
      [⟨0, 0, 0, 1⟩, ⟨1, 0, 0, 1⟩, ⟨1, 1, 0, 1⟩, ⟨0, 1, 0, 1⟩]) = [(0, 1, 2), (0, 2, 3)] :=
  ⟨by decide,
   (C2_indexed_quads_ABC_ACD flushedCtx (by decide)
      ⟨0, 0, 0, 1⟩ ⟨1, 0, 0, 1⟩ ⟨1, 1, 0, 1⟩ ⟨0, 1, 0, 1⟩
      ⟨0, 0, 0, 1⟩ ⟨1, 0, 0, 1⟩ ⟨1, 1, 0, 1⟩ ⟨0, 1, 0, 1⟩).1.1⟩

/-- Counterexample to C2 as stated: from the flushed state flushedCtx the
quad A, B, C, D leaves the triangles (0,1,2), (0,2,3), not (A,B,D), (B,C,D);
no pending triangle joins B and D, and the eight-vertex batch is split the
same way. -/
theorem C2_indexed_quads_counterexample :
    pendingTriangles (indexedBatch flushedCtx GL_QUADS
      [⟨0, 0, 0, 1⟩, ⟨1, 0, 0, 1⟩, ⟨1, 1, 0, 1⟩, ⟨0, 1, 0, 1⟩]) ≠ [(0, 1, 3), (1, 2, 3)] ∧
    (∀ t ∈ pendingTriangles (indexedBatch flushedCtx GL_QUADS
      [⟨0, 0, 0, 1⟩, ⟨1, 0, 0, 1⟩, ⟨1, 1, 0, 1⟩, ⟨0, 1, 0, 1⟩]),
        ¬ (usesVertex t 1 = true ∧ usesVertex t 3 = true)) ∧
    pendingTriangles (indexedBatch flushedCtx GL_QUADS
      [⟨0, 0, 0, 1⟩, ⟨1, 0, 0, 1⟩, ⟨1, 1, 0, 1⟩, ⟨0, 1, 0, 1⟩,
       ⟨2, 0, 0, 1⟩, ⟨3, 0, 0, 1⟩, ⟨3, 1, 0, 1⟩, ⟨2, 1, 0, 1⟩]) ≠
      [(0, 1, 3), (1, 2, 3), (4, 5, 7), (5, 6, 7)] := by
  decide

/-! ## Calls inside a batch of the array path -/

theorem take_set_succ {α : Type} (L : List α) (n : Nat) (v : α) (h : n < L.length) :
    (L.set n v).take (n + 1) = L.take n ++ [v] := by
  induction L generalizing n with
  | nil => simp at h
  | cons a L ih =>
    cases n with
    | zero => simp
    | succ n =>
      simp only [List.length_cons, Nat.add_lt_add_iff_right] at h
      simp [List.set, ih n h]

theorem getElem?_set_lt {α : Type} (L : List α) (n i : Nat) (v : α) (h : i < n) :
    (L.set n v)[i]? = L[i]? := by
  rw [List.getElem?_set]
  have : n ≠ i := by omega
  simp [this]

/-- What one store of glVertex4fv does to one array of the set. -/
theorem realloc_store {α : Type} [Inhabited α] (p : Option (List α)) (size count new_size : Nat)
    (v : α) (hl : (p.getD []).length = size) (hc : count ≤ size) (hn : size < new_size) :
    ((store (realloc p new_size) count v).getD []).length = new_size ∧
    ((store (realloc p new_size) count v).getD []).take (count + 1) =
      (p.getD []).take count ++ [v] ∧
    ∀ i, i < count → ((store (realloc p new_size) count v).getD [])[i]? = (p.getD [])[i]? := by
  have ht : (p.getD []).take new_size = p.getD [] := List.take_of_length_le (by omega)
  have hlen : (p.getD [] ++ List.replicate (new_size - size) (default : α)).length = new_size := by
    simp [hl]; omega
  refine ⟨?_, ?_, ?_⟩
  · simp [store, realloc, ht, hl]; omega
  · simp only [store, realloc, ht, hl, Option.map_some', Option.getD_some]
    rw [take_set_succ _ _ _ (by omega), List.take_append_of_le_length (by omega)]
  · intro i hi
    simp only [store, realloc, ht, hl, Option.map_some', Option.getD_some]
    rw [getElem?_set_lt _ _ _ _ hi, List.getElem?_append_left (by omega)]

theorem store_inplace {α : Type} (p : Option (List α)) (size count : Nat)
    (v : α) (hl : (p.getD []).length = size) (hc : count + 1 < size) :
    ((store p count v).getD []).length = size ∧
    ((store p count v).getD []).take (count + 1) = (p.getD []).take count ++ [v] ∧
    ∀ i, i < count → ((store p count v).getD [])[i]? = (p.getD [])[i]? := by
  cases p with
  | none => simp at hl; omega
  | some l =>
    simp only [Option.getD_some] at hl
    refine ⟨by simp [store, hl], ?_, ?_⟩
    · simp only [store, Option.map_some', Option.getD_some]
      exact take_set_succ _ _ _ (by omega)
    · intro i hi
      simp only [store, Option.map_some', Option.getD_some]
      exact getElem?_set_lt _ _ _ _ hi

/-- One glVertex4fv: the set keeps everything but its four arrays, their size
and the count; each array keeps its recorded cells and gains one. -/
theorem glVertex4fv_step (c : Ctx) (v : XYZW) (h : c.state.set.WF) :
    ∃ V N T C S asserts,
      jwzgles_glVertex4fv_REMOVED c v =
        { c with state := { c.state with set :=
                   { c.state.set with verts := V, norms := N, tex := T, color := C, size := S,
                                      count := c.state.set.count + 1 } },
                 asserts := asserts } ∧
      (V.getD []).length = S ∧ (N.getD []).length = S ∧ (T.getD []).length = S ∧
      (C.getD []).length = S ∧ c.state.set.count + 1 ≤ S ∧
      (V.getD []).take (c.state.set.count + 1) =
        (c.state.set.verts.getD []).take c.state.set.count ++ [v] ∧
      (N.getD []).take (c.state.set.count + 1) =
        (c.state.set.norms.getD []).take c.state.set.count ++ [c.state.set.cnorm] ∧
      (T.getD []).take (c.state.set.count + 1) =
        (c.state.set.tex.getD []).take c.state.set.count ++ [c.state.set.ctex] ∧
      (C.getD []).take (c.state.set.count + 1) =
        (c.state.set.color.getD []).take c.state.set.count ++ [c.state.set.ccolor] ∧
      (∀ i, i < c.state.set.count →
        (V.getD [])[i]? = (c.state.set.verts.getD [])[i]? ∧
        (N.getD [])[i]? = (c.state.set.norms.getD [])[i]? ∧
        (T.getD [])[i]? = (c.state.set.tex.getD [])[i]? ∧
        (C.getD [])[i]? = (c.state.set.color.getD [])[i]?) := by
  obtain ⟨hv, hn, ht, hc, hle⟩ := h
  by_cases hg : (c.state.set.count : Int) ≥ (c.state.set.size : Int) - 1
  · have hns : c.state.set.size < 20 + c.state.set.size * 12 / 10 := by omega
    obtain ⟨a1, a2, a3⟩ := realloc_store c.state.set.verts _ _ _ v hv hle hns
    obtain ⟨b1, b2, b3⟩ := realloc_store c.state.set.norms _ _ _ c.state.set.cnorm hn hle hns
    obtain ⟨c1, c2, c3⟩ := realloc_store c.state.set.tex _ _ _ c.state.set.ctex ht hle hns
    obtain ⟨d1, d2, d3⟩ := realloc_store c.state.set.color _ _ _ c.state.set.ccolor hc hle hns
    refine ⟨_, _, _, _, 20 + c.state.set.size * 12 / 10,
      (Assert c (c.state.compiling_verts != 0) "glVertex4fv not inside glBegin").asserts, ?_, a1, b1, c1, d1, by omega,
      a2, b2, c2, d2, fun i hi => ⟨a3 i hi, b3 i hi, c3 i hi, d3 i hi⟩⟩
    simp only [jwzgles_glVertex4fv_REMOVED, hg, if_true, Assert]
    split <;> rfl
  · have hlt : c.state.set.count + 1 < c.state.set.size := by omega
    obtain ⟨a1, a2, a3⟩ := store_inplace c.state.set.verts _ _ v hv hlt
    obtain ⟨b1, b2, b3⟩ := store_inplace c.state.set.norms _ _ c.state.set.cnorm hn hlt
    obtain ⟨c1, c2, c3⟩ := store_inplace c.state.set.tex _ _ c.state.set.ctex ht hlt
    obtain ⟨d1, d2, d3⟩ := store_inplace c.state.set.color _ _ c.state.set.ccolor hc hlt
    refine ⟨_, _, _, _, c.state.set.size,
      (Assert c (c.state.compiling_verts != 0) "glVertex4fv not inside glBegin").asserts, ?_, a1, b1, c1, d1, by omega,
      a2, b2, c2, d2, fun i hi => ⟨a3 i hi, b3 i hi, c3 i hi, d3 i hi⟩⟩
    simp only [jwzgles_glVertex4fv_REMOVED, hg, if_false, Assert]
    split <;> rfl

/-! ### One call inside a batch -/

theorem glNormal3fv_inside (c : Ctx) (v : XYZ) (h : c.state.compiling_verts ≠ 0) :
    jwzgles_glNormal3fv c v =
      { c with state := { c.state with set :=
          { c.state.set with
            cnorm := v,
            ncount := if 0 < c.state.set.count ∧ c.state.set.ncount = 0
                      then c.state.set.ncount + 2 else c.state.set.ncount + 1 } } } := by
  simp only [jwzgles_glNormal3fv, h, ne_eq, not_false_eq_true, if_true]
  by_cases hh : 0 < c.state.set.count ∧ c.state.set.ncount = 0
  · simp [hh]
  · have : ¬ (c.state.set.count > 0 ∧ c.state.set.ncount + 1 = 1) := by
      intro hx; exact hh ⟨hx.1, by omega⟩
    simp [hh, this]

theorem glTexCoord4fv_inside (c : Ctx) (v : STRQ) (h : c.state.compiling_verts ≠ 0) :
    jwzgles_glTexCoord4fv_REMOVED c v =
      { c with state := { c.state with set :=
          { c.state.set with
            ctex := v,
            tcount := if 0 < c.state.set.count ∧ c.state.set.tcount = 0
                      then c.state.set.tcount + 2 else c.state.set.tcount + 1 } } } := by
  simp only [jwzgles_glTexCoord4fv_REMOVED, h, ne_eq, not_false_eq_true, if_true]
  by_cases hh : 0 < c.state.set.count ∧ c.state.set.tcount = 0
  · simp [hh]
  · have : ¬ (c.state.set.count > 0 ∧ c.state.set.tcount + 1 = 1) := by
      intro hx; exact hh ⟨hx.1, by omega⟩
    simp [hh, this]

theorem glColor4fv_inside (c : Ctx) (v : RGBA) (h : c.state.compiling_verts ≠ 0) :
    jwzgles_glColor4fv_REMOVED c v =
      { c with state := { c.state with set :=
          { c.state.set with
            ccolor := v,
            ccount := if 0 < c.state.set.count ∧ c.state.set.ccount = 0
                      then c.state.set.ccount + 2 else c.state.set.ccount + 1 } } } := by
  simp only [jwzgles_glColor4fv_REMOVED, h, ne_eq, not_false_eq_true, if_true]
  by_cases hh : 0 < c.state.set.count ∧ c.state.set.ccount = 0
  · simp [hh]
  · have : ¬ (c.state.set.count > 0 ∧ c.state.set.ccount + 1 = 1) := by
      intro hx; exact hh ⟨hx.1, by omega⟩
    simp [hh, this]

/-- What glVertex4fv leaves alone, whatever the state of the arrays. -/
theorem glVertex4fv_frame (c : Ctx) (v : XYZW) :
    (jwzgles_glVertex4fv_REMOVED c v).state.compiling_verts = c.state.compiling_verts ∧
    (jwzgles_glVertex4fv_REMOVED c v).state.enabled = c.state.enabled ∧
    (jwzgles_glVertex4fv_REMOVED c v).calls = c.calls ∧
    (jwzgles_glVertex4fv_REMOVED c v).gl = c.gl ∧
    (jwzgles_glVertex4fv_REMOVED c v).state.set.count = c.state.set.count + 1 ∧
    (jwzgles_glVertex4fv_REMOVED c v).state.set.mode = c.state.set.mode ∧
    (jwzgles_glVertex4fv_REMOVED c v).state.set.ncount = c.state.set.ncount ∧
    (jwzgles_glVertex4fv_REMOVED c v).state.set.tcount = c.state.set.tcount ∧
    (jwzgles_glVertex4fv_REMOVED c v).state.set.ccount = c.state.set.ccount ∧
    (jwzgles_glVertex4fv_REMOVED c v).state.set.materialistic = c.state.set.materialistic ∧
    (jwzgles_glVertex4fv_REMOVED c v).state.set.cnorm = c.state.set.cnorm ∧
    (jwzgles_glVertex4fv_REMOVED c v).state.set.ctex = c.state.set.ctex ∧
    (jwzgles_glVertex4fv_REMOVED c v).state.set.ccolor = c.state.set.ccolor := by
  simp only [jwzgles_glVertex4fv_REMOVED, Assert]
  split <;> split <;> simp

theorem BatchCall.run_compiling (c : Ctx) (x : BatchCall) (h : c.state.compiling_verts ≠ 0) :
    (x.run c).state.compiling_verts = c.state.compiling_verts := by
  cases x with
  | normal v => simp [BatchCall.run, glNormal3fv_inside c v h]
  | texCoord v => simp [BatchCall.run, glTexCoord4fv_inside c v h]
  | color v => simp [BatchCall.run, glColor4fv_inside c v h]
  | vertex v => simp [BatchCall.run, (glVertex4fv_frame c v).1]

theorem BatchCall.run_count (c : Ctx) (x : BatchCall) (h : c.state.compiling_verts ≠ 0) :
    (x.run c).state.set.count = c.state.set.count + (if x.isVertex then 1 else 0) := by
  cases x with
  | normal v => simp [BatchCall.run, glNormal3fv_inside c v h, BatchCall.isVertex]
  | texCoord v => simp [BatchCall.run, glTexCoord4fv_inside c v h, BatchCall.isVertex]
  | color v => simp [BatchCall.run, glColor4fv_inside c v h, BatchCall.isVertex]
  | vertex v => simp [BatchCall.run, (glVertex4fv_frame c v).2.2.2.2.1, BatchCall.isVertex]

/-- The counter of attribute `a` after one call: a setter of `a` adds one, and
one more when a vertex exists and the counter was 0; other calls add nothing. -/
theorem BatchCall.run_counter (a : Attr) (c : Ctx) (x : BatchCall)
    (h : c.state.compiling_verts ≠ 0) :
    a.counter (x.run c).state.set =
      if x.sets a then
        (if 0 < c.state.set.count ∧ a.counter c.state.set = 0
          then a.counter c.state.set + 2 else a.counter c.state.set + 1)
      else a.counter c.state.set := by
  have hv := glVertex4fv_frame c
  cases a <;> cases x <;>
    simp [BatchCall.run, BatchCall.sets, Attr.counter, glNormal3fv_inside, glTexCoord4fv_inside,
      glColor4fv_inside, h, hv]

theorem runCalls_cons (c : Ctx) (x : BatchCall) (l : List BatchCall) :
    runCalls c (x :: l) = runCalls (x.run c) l := rfl

theorem runCalls_append (c : Ctx) (l1 l2 : List BatchCall) :
    runCalls c (l1 ++ l2) = runCalls (runCalls c l1) l2 := by
  simp [runCalls, List.foldl_append]

theorem runCalls_compiling : ∀ (l : List BatchCall) (c : Ctx), c.state.compiling_verts ≠ 0 →
    (runCalls c l).state.compiling_verts = c.state.compiling_verts := by
  intro l
  induction l with
  | nil => intro c _; rfl
  | cons x l ih =>
    intro c h
    have h1 := BatchCall.run_compiling c x h
    rw [runCalls_cons, ih _ (by rw [h1]; exact h), h1]

theorem runCalls_count : ∀ (l : List BatchCall) (c : Ctx), c.state.compiling_verts ≠ 0 →
    (runCalls c l).state.set.count = c.state.set.count + vertexCalls l := by
  intro l
  induction l with
  | nil => intro c _; simp [runCalls, vertexCalls]
  | cons x l ih =>
    intro c h
    have h1 := BatchCall.run_compiling c x h
    rw [runCalls_cons, ih _ (by rw [h1]; exact h), BatchCall.run_count c x h]
    unfold vertexCalls
    rw [List.countP_cons]
    by_cases hx : x.isVertex = true
    · simp [hx]; omega
    · simp [hx]

theorem setterCalls_beforeFirstVertex_le (a : Attr) (l : List BatchCall) :
    setterCalls a (beforeFirstVertex l) ≤ setterCalls a l := by
  unfold setterCalls beforeFirstVertex
  exact List.Sublist.countP_le _ (List.takeWhile_sublist _)

/-- The counter of attribute `a` after a sequence of calls, from a state in
which the counter is `n` and `k` vertices exist. -/
theorem counter_after_calls (a : Attr) : ∀ (l : List BatchCall) (c : Ctx),
    c.state.compiling_verts ≠ 0 →
    (a.counter c.state.set + setterCalls a l ≤ a.counter (runCalls c l).state.set) ∧
    (a.counter c.state.set = 0 → setterCalls a l = 0 →
      a.counter (runCalls c l).state.set = 0) ∧
    (a.counter (runCalls c l).state.set = 1 ↔
      (a.counter c.state.set = 1 ∧ setterCalls a l = 0) ∨
      (a.counter c.state.set = 0 ∧ c.state.set.count = 0 ∧ setterCalls a l = 1 ∧
        setterCalls a (beforeFirstVertex l) = 1)) := by
  intro l
  induction l with
  | nil =>
    intro c _
    simp [runCalls, setterCalls, beforeFirstVertex]
  | cons x l ih =>
    intro c h
    have hc := BatchCall.run_compiling c x h
    have hk := BatchCall.run_count c x h
    have hn := BatchCall.run_counter a c x h
    obtain ⟨i1, i2, i3⟩ := ih (x.run c) (by rw [hc]; exact h)
    have hle := setterCalls_beforeFirstVertex_le a l
    rw [runCalls_cons]
    by_cases hs : x.sets a = true
    · have hnv : x.isVertex = false := by cases x <;> simp_all [BatchCall.sets, BatchCall.isVertex]
      have e1 : setterCalls a (x :: l) = setterCalls a l + 1 := by
        simp [setterCalls, List.countP_cons, hs]
      have e2 : setterCalls a (beforeFirstVertex (x :: l)) =
          setterCalls a (beforeFirstVertex l) + 1 := by
        simp [setterCalls, beforeFirstVertex, List.takeWhile_cons, hnv, List.countP_cons, hs]
      simp only [hs, if_true] at hn
      simp only [hnv, Bool.false_eq_true, if_false, Nat.add_zero] at hk
      rw [e1, e2]
      rw [hk] at i3
      refine ⟨?_, ?_, ?_⟩
      · split at hn <;> omega
      · intro _ h0; omega
      · rw [i3]
        split at hn <;> constructor <;> intro hh <;> omega
    · have hs' : x.sets a = false := by simpa using hs
      have e1 : setterCalls a (x :: l) = setterCalls a l := by
        simp [setterCalls, List.countP_cons, hs']
      simp only [hs', Bool.false_eq_true, if_false] at hn
      rw [e1]
      by_cases hv : x.isVertex = true
      · have e2 : setterCalls a (beforeFirstVertex (x :: l)) = 0 := by
          simp [setterCalls, beforeFirstVertex, List.takeWhile_cons, hv]
        simp only [hv, if_true] at hk
        rw [e2]
        rw [hk, hn] at i3
        rw [hn] at i1 i2
        refine ⟨i1, i2, ?_⟩
        rw [i3]
        constructor <;> intro hh <;> omega
      · have hv' : x.isVertex = false := by simpa using hv
        have e2 : setterCalls a (beforeFirstVertex (x :: l)) =
            setterCalls a (beforeFirstVertex l) := by
          simp [setterCalls, beforeFirstVertex, List.takeWhile_cons, hv', List.countP_cons, hs']
        simp only [hv', Bool.false_eq_true, if_false, Nat.add_zero] at hk
        rw [e2]
        rw [hk, hn] at i3
        rw [hn] at i1 i2
        exact ⟨i1, i2, i3⟩

/-- The recorded vertices after a sequence of calls: the ones recorded before,
followed by one entry per appended vertex, holding its position and the
normal, texture coordinate and color then in force. -/
theorem runCalls_recorded : ∀ (l : List BatchCall) (c : Ctx),
    c.state.compiling_verts ≠ 0 → c.state.set.WF →
    (runCalls c l).state.set.WF ∧
    (runCalls c l).state.set.recorded =
      (c.state.set.recorded.1 ++ appendedVerts l,
       c.state.set.recorded.2.1 ++ normalsInForce c.state.set.cnorm l,
       c.state.set.recorded.2.2.1 ++ texCoordsInForce c.state.set.ctex l,
       c.state.set.recorded.2.2.2 ++ colorsInForce c.state.set.ccolor l) := by
  intro l
  induction l with
  | nil =>
    intro c _ hwf
    simp [runCalls, appendedVerts, normalsInForce, texCoordsInForce, colorsInForce, hwf]
  | cons x l ih =>
    intro c h hwf
    have hc := BatchCall.run_compiling c x h
    rw [runCalls_cons]
    cases x with
    | normal v =>
      have e := glNormal3fv_inside c v h
      have hwf1 : (BatchCall.run c (.normal v)).state.set.WF := by
        simp only [BatchCall.run, e]; exact hwf
      obtain ⟨w1, r1⟩ := ih _ (by rw [hc]; exact h) hwf1
      refine ⟨w1, ?_⟩
      rw [r1]
      simp [BatchCall.run, e, vert_set.recorded, appendedVerts, normalsInForce,
        texCoordsInForce, colorsInForce]
    | texCoord v =>
      have e := glTexCoord4fv_inside c v h
      have hwf1 : (BatchCall.run c (.texCoord v)).state.set.WF := by
        simp only [BatchCall.run, e]; exact hwf
      obtain ⟨w1, r1⟩ := ih _ (by rw [hc]; exact h) hwf1
      refine ⟨w1, ?_⟩
      rw [r1]
      simp [BatchCall.run, e, vert_set.recorded, appendedVerts, normalsInForce,
        texCoordsInForce, colorsInForce]
    | color v =>
      have e := glColor4fv_inside c v h
      have hwf1 : (BatchCall.run c (.color v)).state.set.WF := by
        simp only [BatchCall.run, e]; exact hwf
      obtain ⟨w1, r1⟩ := ih _ (by rw [hc]; exact h) hwf1
      refine ⟨w1, ?_⟩
      rw [r1]
      simp [BatchCall.run, e, vert_set.recorded, appendedVerts, normalsInForce,
        texCoordsInForce, colorsInForce]
    | vertex v =>
      obtain ⟨V, N, T, C, S, asserts, e, lv, ln, lt, lc, hle, tv, tn, tt, tc, _⟩ :=
        glVertex4fv_step c v hwf
      have hwf1 : (BatchCall.run c (.vertex v)).state.set.WF := by
        simp only [BatchCall.run, e]; exact ⟨lv, ln, lt, lc, hle⟩
      obtain ⟨w1, r1⟩ := ih _ (by rw [hc]; exact h) hwf1
      refine ⟨w1, ?_⟩
      rw [r1]
      simp [BatchCall.run, e, vert_set.recorded, appendedVerts, normalsInForce,
        texCoordsInForce, colorsInForce, tv, tn, tt, tc]

/-- The state right after glBegin. -/
theorem glBegin_state (c : Ctx) (mode : Nat) :
    (jwzgles_glBegin_REMOVED c mode).state =
      { c.state with
        compiling_verts := c.state.compiling_verts + 1,
        set := { c.state.set with mode := mode, count := 0, ncount := 0, tcount := 0,
                                  ccount := 0 } } ∧
    (jwzgles_glBegin_REMOVED c mode).calls = c.calls ∧
    (jwzgles_glBegin_REMOVED c mode).gl = c.gl ∧
    (jwzgles_glBegin_REMOVED c mode).w = c.w := by
  simp only [jwzgles_glBegin_REMOVED, Assert]
  split <;> split <;> simp

/-! ## The 0/1/many counters and the parallel arrays -/

/-- C3: 0/1/many counting.  After glBegin and any sequence of setter and
vertex calls, the counter of an attribute (ncount, tcount or ccount) is 0
exactly when its setter was never called, is 1 exactly when the setter was
called once and that call came before the first vertex, and is at least 2 in
every other case; in particular it is at least 2 after any setter call made
while a vertex already exists. -/
theorem C3_counter_zero_one_many (a : Attr) (c : Ctx) (mode : Nat) (calls : List BatchCall)
    (hidle : 0 ≤ c.state.compiling_verts) :
    (a.counter (openBatch c mode calls).state.set = 0 ↔ setterCalls a calls = 0) ∧
    (a.counter (openBatch c mode calls).state.set = 1 ↔
      setterCalls a calls = 1 ∧ setterCalls a (beforeFirstVertex calls) = 1) ∧
    (¬ setterCalls a calls = 0 →
      ¬ (setterCalls a calls = 1 ∧ setterCalls a (beforeFirstVertex calls) = 1) →
      2 ≤ a.counter (openBatch c mode calls).state.set) ∧
    (∀ pre x post, calls = pre ++ x :: post → x.sets a = true → 0 < vertexCalls pre →
      2 ≤ a.counter (openBatch c mode calls).state.set) := by
  obtain ⟨hs, _, _, _⟩ := glBegin_state c mode
  have hcv : (jwzgles_glBegin_REMOVED c mode).state.compiling_verts ≠ 0 := by
    rw [hs]; simp; omega
  have hn0 : a.counter (jwzgles_glBegin_REMOVED c mode).state.set = 0 := by
    rw [hs]; cases a <;> rfl
  have hk0 : (jwzgles_glBegin_REMOVED c mode).state.set.count = 0 := by rw [hs]
  obtain ⟨i1, i2, i3⟩ := counter_after_calls a calls _ hcv
  rw [hn0] at i1 i2 i3
  have first : a.counter (openBatch c mode calls).state.set = 0 ↔ setterCalls a calls = 0 := by
    constructor
    · intro h; unfold openBatch at h; omega
    · intro h; exact i2 rfl h
  have second : a.counter (openBatch c mode calls).state.set = 1 ↔
      setterCalls a calls = 1 ∧ setterCalls a (beforeFirstVertex calls) = 1 := by
    unfold openBatch
    rw [i3]
    constructor
    · rintro (⟨h, _⟩ | ⟨_, _, h1, h2⟩)
      · omega
      · exact ⟨h1, h2⟩
    · rintro ⟨h1, h2⟩
      exact Or.inr ⟨rfl, hk0, h1, h2⟩
  refine ⟨first, second, ?_, ?_⟩
  · intro h0 h1
    have := first.not.mpr h0
    have := second.not.mpr h1
    omega
  · intro pre x post hcalls hx hv
    subst hcalls
    have hsplit : pre ++ x :: post = pre ++ ([x] ++ post) := by simp
    unfold openBatch
    rw [hsplit, runCalls_append, runCalls_append]
    have hc1 := runCalls_compiling pre _ hcv
    have hk1 := runCalls_count pre _ hcv
    rw [hk0, Nat.zero_add] at hk1
    have hcv1 : (runCalls (jwzgles_glBegin_REMOVED c mode) pre).state.compiling_verts ≠ 0 := by
      rw [hc1]; exact hcv
    have hstep := BatchCall.run_counter a _ x hcv1
    simp only [hx, if_true] at hstep
    have hcv2 : (runCalls (runCalls (jwzgles_glBegin_REMOVED c mode) pre) [x]).state.compiling_verts
        ≠ 0 := by
      rw [runCalls_compiling [x] _ hcv1]; exact hcv1
    obtain ⟨j1, _, _⟩ := counter_after_calls a post _ hcv2
    have hx1 : runCalls (runCalls (jwzgles_glBegin_REMOVED c mode) pre) [x] =
        x.run (runCalls (jwzgles_glBegin_REMOVED c mode) pre) := rfl
    rw [hx1] at j1 ⊢
    split at hstep <;> omega

/-- Witness of C3, for the normal counter from the initial state. -/
theorem C3_counter_zero_one_many_witness :
    (0 : Int) ≤ initial.state.compiling_verts ∧
    (openBatch initial GL_TRIANGLES
      [.normal ⟨0, 0, 1⟩, .vertex ⟨0, 0, 0, 1⟩, .color ⟨1, 0, 0, 1⟩, .vertex ⟨1, 0, 0, 1⟩,
       .vertex ⟨1, 1, 0, 1⟩]).state.set.ncount = 1 :=
  ⟨by decide,
   ((C3_counter_zero_one_many .normal initial GL_TRIANGLES
      [.normal ⟨0, 0, 1⟩, .vertex ⟨0, 0, 0, 1⟩, .color ⟨1, 0, 0, 1⟩, .vertex ⟨1, 0, 0, 1⟩,
       .vertex ⟨1, 1, 0, 1⟩] (by decide)).2.1).mpr ⟨by decide, by decide⟩⟩

/-- C4: the parallel arrays.  After glBegin and any interleaving of setter
calls and k vertex calls, the count is k and the first k cells of verts,
norms, tex and color hold, for each appended vertex in order, its position
and the normal, texture coordinate and color that were in force when it was
appended; a further append changes no cell below the count. -/
theorem C4_parallel_arrays (c : Ctx) (mode : Nat) (calls : List BatchCall)
    (hidle : 0 ≤ c.state.compiling_verts) (hwf : c.state.set.WF) :
    (openBatch c mode calls).state.set.count = vertexCalls calls ∧
    (openBatch c mode calls).state.set.recorded =
      (appendedVerts calls, normalsInForce c.state.set.cnorm calls,
       texCoordsInForce c.state.set.ctex calls, colorsInForce c.state.set.ccolor calls) ∧
    (∀ (v : XYZW) (i : Nat), i < (openBatch c mode calls).state.set.count →
      ((jwzgles_glVertex4fv_REMOVED (openBatch c mode calls) v).state.set.verts.getD [])[i]? =
        ((openBatch c mode calls).state.set.verts.getD [])[i]? ∧
      ((jwzgles_glVertex4fv_REMOVED (openBatch c mode calls) v).state.set.norms.getD [])[i]? =
        ((openBatch c mode calls).state.set.norms.getD [])[i]? ∧
      ((jwzgles_glVertex4fv_REMOVED (openBatch c mode calls) v).state.set.tex.getD [])[i]? =
        ((openBatch c mode calls).state.set.tex.getD [])[i]? ∧
      ((jwzgles_glVertex4fv_REMOVED (openBatch c mode calls) v).state.set.color.getD [])[i]? =
        ((openBatch c mode calls).state.set.color.getD [])[i]?) := by
  obtain ⟨hs, _, _, _⟩ := glBegin_state c mode
  have hcv : (jwzgles_glBegin_REMOVED c mode).state.compiling_verts ≠ 0 := by
    rw [hs]; simp; omega
  have hk0 : (jwzgles_glBegin_REMOVED c mode).state.set.count = 0 := by rw [hs]
  have hwf0 : (jwzgles_glBegin_REMOVED c mode).state.set.WF := by
    rw [hs]
    obtain ⟨h1, h2, h3, h4, _⟩ := hwf
    exact ⟨h1, h2, h3, h4, Nat.zero_le _⟩
  obtain ⟨w1, r1⟩ := runCalls_recorded calls _ hcv hwf0
  have hcount := runCalls_count calls _ hcv
  refine ⟨?_, ?_, ?_⟩
  · unfold openBatch; rw [hcount, hk0, Nat.zero_add]
  · unfold openBatch; rw [r1, hs]
    simp [vert_set.recorded]
  · intro v i hi
    obtain ⟨V, N, T, C, S, asserts, e, _, _, _, _, _, _, _, _, _, hkeep⟩ :=
      glVertex4fv_step (openBatch c mode calls) v w1
    rw [e]
    exact hkeep i hi

/-- Witness of C4, from the initial state. -/
theorem C4_parallel_arrays_witness :
    ((0 : Int) ≤ initial.state.compiling_verts ∧ initial.state.set.WF) ∧
    (openBatch initial GL_TRIANGLES
      [.normal ⟨0, 0, 1⟩, .vertex ⟨0, 0, 0, 1⟩, .color ⟨1, 0, 0, 1⟩, .vertex ⟨1, 0, 0, 1⟩,
       .vertex ⟨1, 1, 0, 1⟩]).state.set.recorded =
      ([⟨0, 0, 0, 1⟩, ⟨1, 0, 0, 1⟩, ⟨1, 1, 0, 1⟩],
       [⟨0, 0, 1⟩, ⟨0, 0, 1⟩, ⟨0, 0, 1⟩],
       [⟨0, 0, 0, 0⟩, ⟨0, 0, 0, 0⟩, ⟨0, 0, 0, 0⟩],
       [⟨0, 0, 0, 0⟩, ⟨1, 0, 0, 1⟩, ⟨1, 0, 0, 1⟩]) :=
  ⟨⟨by decide, by decide⟩,
   (C4_parallel_arrays initial GL_TRIANGLES
      [.normal ⟨0, 0, 1⟩, .vertex ⟨0, 0, 0, 1⟩, .color ⟨1, 0, 0, 1⟩, .vertex ⟨1, 0, 0, 1⟩,
       .vertex ⟨1, 1, 0, 1⟩] (by decide) (by decide)).2.1⟩

/-! ## The enabled mask and enable_disable -/

theorem hasFlag_eq_testBit (e k : Nat) : hasFlag e (1 <<< k) = e.testBit k := by
  unfold hasFlag
  rw [Nat.one_shiftLeft, Nat.and_two_pow]
  cases h : e.testBit k <;> simp [h]

theorem testBit_or_flag (e k i : Nat) :
    (e ||| (1 <<< k)).testBit i = (e.testBit i || decide (k = i)) := by
  rw [Nat.testBit_or, Nat.one_shiftLeft, Nat.testBit_two_pow]

theorem testBit_andNot_flag (e k i : Nat) :
    (andNot e (1 <<< k)).testBit i = (e.testBit i && !decide (k = i)) := by
  unfold andNot
  rw [Nat.testBit_xor, Nat.testBit_and, Nat.one_shiftLeft, Nat.testBit_two_pow]
  cases e.testBit i <;> cases decide (k = i) <;> rfl

theorem or_flag_of_hasFlag (e k : Nat) (h : hasFlag e (1 <<< k) = true) :
    e ||| (1 <<< k) = e := by
  apply Nat.eq_of_testBit_eq
  intro i
  rw [testBit_or_flag]
  rw [hasFlag_eq_testBit] at h
  by_cases hk : k = i
  · subst hk; simp [h]
  · simp [hk]

theorem andNot_of_not_hasFlag (e f : Nat) (h : hasFlag e f = false) : andNot e f = e := by
  unfold hasFlag at h
  unfold andNot
  have : e &&& f = 0 := by simpa using h
  rw [this]; simp

theorem lor_eq_zero (x y : Nat) : x ||| y = 0 ↔ x = 0 ∧ y = 0 := by
  constructor
  · intro h
    have hb : ∀ i, (x.testBit i || y.testBit i) = false := by
      intro i
      rw [← Nat.testBit_or, h, Nat.zero_testBit]
    constructor
    · apply Nat.eq_of_testBit_eq
      intro i
      have := hb i
      rw [Nat.zero_testBit]
      cases hx : x.testBit i <;> simp_all
    · apply Nat.eq_of_testBit_eq
      intro i
      have := hb i
      rw [Nat.zero_testBit]
      cases hy : y.testBit i <;> simp_all
  · rintro ⟨rfl, rfl⟩
    rfl

theorem hasFlag_or (e a b : Nat) : hasFlag e (a ||| b) = (hasFlag e a || hasFlag e b) := by
  unfold hasFlag
  rw [Nat.and_or_distrib_left]
  have h := lor_eq_zero (e &&& a) (e &&& b)
  rw [Bool.eq_iff_iff]
  simp only [bne_iff_ne, ne_eq, Bool.or_eq_true, h]
  tauto

theorem hasFlag_TEXTURE_GEN_ANY (e : Nat) :
    hasFlag e ISENABLED_TEXTURE_GEN_ANY =
      (e.testBit 1 || e.testBit 2 || e.testBit 3 || e.testBit 4) := by
  unfold ISENABLED_TEXTURE_GEN_ANY ISENABLED_TEXTURE_GEN_S ISENABLED_TEXTURE_GEN_T
    ISENABLED_TEXTURE_GEN_R ISENABLED_TEXTURE_GEN_Q
  rw [hasFlag_or, hasFlag_or, hasFlag_or, hasFlag_eq_testBit, hasFlag_eq_testBit,
    hasFlag_eq_testBit, hasFlag_eq_testBit]

theorem FlushOnStateChange_array_path (c : Ctx) : FlushOnStateChange false c = c := by
  simp [FlushOnStateChange]

/-- Setting a capability that has a flag and is not omitted, in the array
path: the flag is or-ed into `enabled`, the counters are adjusted for a
client-state capability outside glBegin, and the library is called unless
the flag was already set. -/
theorem enable_disable_set (c : Ctx) (bit F k : Nat) (csp : Bool)
    (hk : enable_disable_switch bit = ⟨F, false, csp, true⟩) (hF : F = 1 <<< k) :
    enable_disable false c bit 1 =
      ({ c with
          state := { c.state with
            set := if csp = true ∧ c.state.compiling_verts = 0
                   then enable_disable_counts c.state.set bit 1 else c.state.set,
            enabled := c.state.enabled ||| F },
          calls := c.calls ++
            if hasFlag c.state.enabled F then [] else [enable_disable_call csp bit 1] },
       true) := by
  have hF0 : F ≠ 0 := by
    rw [hF, Nat.one_shiftLeft]; exact Nat.pos_iff_ne_zero.mp (Nat.two_pow_pos k)
  by_cases hh : hasFlag c.state.enabled F = true
  · have he : c.state.enabled ||| F = c.state.enabled := by
      rw [hF]; exact or_flag_of_hasFlag _ _ (by rw [← hF]; exact hh)
    by_cases hc : csp = true ∧ c.state.compiling_verts = 0
    · simp [enable_disable, hk, hF0, hh, he, hc, FlushOnStateChange]
    · simp [enable_disable, hk, hF0, hh, he, hc, FlushOnStateChange]
  · by_cases hc : csp = true ∧ c.state.compiling_verts = 0
    · simp [enable_disable, hk, hF0, hh, hc, FlushOnStateChange, emit]
    · simp [enable_disable, hk, hF0, hh, hc, FlushOnStateChange, emit]

/-- Clearing a capability that has a flag and is not omitted, in the array
path. -/
theorem enable_disable_clear (c : Ctx) (bit F k : Nat) (csp : Bool)
    (hk : enable_disable_switch bit = ⟨F, false, csp, true⟩) (hF : F = 1 <<< k) :
    enable_disable false c bit (-1) =
      ({ c with
          state := { c.state with
            set := if csp = true ∧ c.state.compiling_verts = 0
                   then enable_disable_counts c.state.set bit (-1) else c.state.set,
            enabled := andNot c.state.enabled F },
          calls := c.calls ++
            if hasFlag c.state.enabled F then [enable_disable_call csp bit (-1)] else [] },
       false) := by
  have hF0 : F ≠ 0 := by
    rw [hF, Nat.one_shiftLeft]; exact Nat.pos_iff_ne_zero.mp (Nat.two_pow_pos k)
  by_cases hh : hasFlag c.state.enabled F = true
  · by_cases hc : csp = true ∧ c.state.compiling_verts = 0
    · simp [enable_disable, hk, hF0, hh, hc, FlushOnStateChange, emit]
    · simp [enable_disable, hk, hF0, hh, hc, FlushOnStateChange, emit]
  · have he : andNot c.state.enabled F = c.state.enabled :=
      andNot_of_not_hasFlag _ _ (by simpa using hh)
    by_cases hc : csp = true ∧ c.state.compiling_verts = 0
    · simp [enable_disable, hk, hF0, hh, he, hc, FlushOnStateChange]
    · simp [enable_disable, hk, hF0, hh, he, hc, FlushOnStateChange]

/-- Querying a capability that has a flag changes nothing. -/
theorem enable_disable_query (c : Ctx) (bit F : Nat) (omitp csp : Bool)
    (hk : enable_disable_switch bit = ⟨F, omitp, csp, true⟩) (ude : Bool) :
    enable_disable ude c bit 0 = (c, hasFlag c.state.enabled F) := by
  simp [enable_disable, hk]

/-! ## Capabilities used by glEnd -/

theorem hasFlag_COLMAT (e : Nat) : hasFlag e ISENABLED_COLMAT = e.testBit 11 :=
  hasFlag_eq_testBit e 11
theorem hasFlag_VERT_ARRAY (e : Nat) : hasFlag e ISENABLED_VERT_ARRAY = e.testBit 12 :=
  hasFlag_eq_testBit e 12
theorem hasFlag_NORM_ARRAY (e : Nat) : hasFlag e ISENABLED_NORM_ARRAY = e.testBit 13 :=
  hasFlag_eq_testBit e 13
theorem hasFlag_TEX_ARRAY (e : Nat) : hasFlag e ISENABLED_TEX_ARRAY = e.testBit 14 :=
  hasFlag_eq_testBit e 14
theorem hasFlag_COLOR_ARRAY (e : Nat) : hasFlag e ISENABLED_COLOR_ARRAY = e.testBit 15 :=
  hasFlag_eq_testBit e 15

theorem testBit_or_COLMAT (e i : Nat) :
    (e ||| ISENABLED_COLMAT).testBit i = (e.testBit i || decide (11 = i)) :=
  testBit_or_flag e 11 i
theorem testBit_or_VERT_ARRAY (e i : Nat) :
    (e ||| ISENABLED_VERT_ARRAY).testBit i = (e.testBit i || decide (12 = i)) :=
  testBit_or_flag e 12 i
theorem testBit_or_NORM_ARRAY (e i : Nat) :
    (e ||| ISENABLED_NORM_ARRAY).testBit i = (e.testBit i || decide (13 = i)) :=
  testBit_or_flag e 13 i
theorem testBit_or_TEX_ARRAY (e i : Nat) :
    (e ||| ISENABLED_TEX_ARRAY).testBit i = (e.testBit i || decide (14 = i)) :=
  testBit_or_flag e 14 i
theorem testBit_or_COLOR_ARRAY (e i : Nat) :
    (e ||| ISENABLED_COLOR_ARRAY).testBit i = (e.testBit i || decide (15 = i)) :=
  testBit_or_flag e 15 i

theorem testBit_andNot_COLMAT (e i : Nat) :
    (andNot e ISENABLED_COLMAT).testBit i = (e.testBit i && !decide (11 = i)) :=
  testBit_andNot_flag e 11 i
theorem testBit_andNot_NORM_ARRAY (e i : Nat) :
    (andNot e ISENABLED_NORM_ARRAY).testBit i = (e.testBit i && !decide (13 = i)) :=
  testBit_andNot_flag e 13 i
theorem testBit_andNot_TEX_ARRAY (e i : Nat) :
    (andNot e ISENABLED_TEX_ARRAY).testBit i = (e.testBit i && !decide (14 = i)) :=
  testBit_andNot_flag e 14 i
theorem testBit_andNot_COLOR_ARRAY (e i : Nat) :
    (andNot e ISENABLED_COLOR_ARRAY).testBit i = (e.testBit i && !decide (15 = i)) :=
  testBit_andNot_flag e 15 i

theorem testBit_ite (p : Prop) [Decidable p] (a b i : Nat) :
    (if p then a else b).testBit i = if p then a.testBit i else b.testBit i := by
  split <;> rfl

theorem glEnableClientState_NORMAL (c : Ctx) :
    jwzgles_glEnableClientState false c GL_NORMAL_ARRAY =
      { c with
          state := { c.state with
            set := { c.state.set with
              ncount := if c.state.compiling_verts = 0 then c.state.set.ncount + 2
                        else c.state.set.ncount },
            enabled := c.state.enabled ||| ISENABLED_NORM_ARRAY },
          calls := c.calls ++
            if hasFlag c.state.enabled ISENABLED_NORM_ARRAY then []
            else [.glEnableClientState GL_NORMAL_ARRAY] } := by
  unfold jwzgles_glEnableClientState
  rw [enable_disable_set c GL_NORMAL_ARRAY ISENABLED_NORM_ARRAY 13 true (by decide) rfl]
  by_cases h : c.state.compiling_verts = 0 <;>
    simp [h, enable_disable_counts, enable_disable_call, GL_NORMAL_ARRAY]

theorem glDisableClientState_NORMAL (c : Ctx) :
    jwzgles_glDisableClientState false c GL_NORMAL_ARRAY =
      { c with
          state := { c.state with
            set := { c.state.set with
              ncount := if c.state.compiling_verts = 0 then 0 else c.state.set.ncount },
            enabled := andNot c.state.enabled ISENABLED_NORM_ARRAY },
          calls := c.calls ++
            if hasFlag c.state.enabled ISENABLED_NORM_ARRAY
            then [.glDisableClientState GL_NORMAL_ARRAY] else [] } := by
  unfold jwzgles_glDisableClientState
  rw [enable_disable_clear c GL_NORMAL_ARRAY ISENABLED_NORM_ARRAY 13 true (by decide) rfl]
  by_cases h : c.state.compiling_verts = 0 <;>
    simp [h, enable_disable_counts, enable_disable_call, GL_NORMAL_ARRAY]

theorem glEnableClientState_TEXCOORD (c : Ctx) :
    jwzgles_glEnableClientState false c GL_TEXTURE_COORD_ARRAY =
      { c with
          state := { c.state with
            set := { c.state.set with
              tcount := if c.state.compiling_verts = 0 then c.state.set.tcount + 2
                        else c.state.set.tcount },
            enabled := c.state.enabled ||| ISENABLED_TEX_ARRAY },
          calls := c.calls ++
            if hasFlag c.state.enabled ISENABLED_TEX_ARRAY then []
            else [.glEnableClientState GL_TEXTURE_COORD_ARRAY] } := by
  unfold jwzgles_glEnableClientState
  rw [enable_disable_set c GL_TEXTURE_COORD_ARRAY ISENABLED_TEX_ARRAY 14 true (by decide) rfl]
  by_cases h : c.state.compiling_verts = 0 <;>
    simp [h, enable_disable_counts, enable_disable_call, GL_TEXTURE_COORD_ARRAY, GL_NORMAL_ARRAY,
      GL_TEXTURE_COORD_ARRAY, GL_COLOR_ARRAY]

theorem glDisableClientState_TEXCOORD (c : Ctx) :
    jwzgles_glDisableClientState false c GL_TEXTURE_COORD_ARRAY =
      { c with
          state := { c.state with
            set := { c.state.set with
              tcount := if c.state.compiling_verts = 0 then 0 else c.state.set.tcount },
            enabled := andNot c.state.enabled ISENABLED_TEX_ARRAY },
          calls := c.calls ++
            if hasFlag c.state.enabled ISENABLED_TEX_ARRAY
            then [.glDisableClientState GL_TEXTURE_COORD_ARRAY] else [] } := by
  unfold jwzgles_glDisableClientState
  rw [enable_disable_clear c GL_TEXTURE_COORD_ARRAY ISENABLED_TEX_ARRAY 14 true (by decide) rfl]
  by_cases h : c.state.compiling_verts = 0 <;>
    simp [h, enable_disable_counts, enable_disable_call, GL_TEXTURE_COORD_ARRAY, GL_NORMAL_ARRAY,
      GL_TEXTURE_COORD_ARRAY, GL_COLOR_ARRAY]

theorem glEnableClientState_COLOR (c : Ctx) :
    jwzgles_glEnableClientState false c GL_COLOR_ARRAY =
      { c with
          state := { c.state with
            set := { c.state.set with
              ccount := if c.state.compiling_verts = 0 then c.state.set.ccount + 2
                        else c.state.set.ccount },
            enabled := c.state.enabled ||| ISENABLED_COLOR_ARRAY },
          calls := c.calls ++
            if hasFlag c.state.enabled ISENABLED_COLOR_ARRAY then []
            else [.glEnableClientState GL_COLOR_ARRAY] } := by
  unfold jwzgles_glEnableClientState
  rw [enable_disable_set c GL_COLOR_ARRAY ISENABLED_COLOR_ARRAY 15 true (by decide) rfl]
  by_cases h : c.state.compiling_verts = 0 <;>
    simp [h, enable_disable_counts, enable_disable_call, GL_COLOR_ARRAY, GL_NORMAL_ARRAY,
      GL_TEXTURE_COORD_ARRAY, GL_COLOR_ARRAY]

theorem glDisableClientState_COLOR (c : Ctx) :
    jwzgles_glDisableClientState false c GL_COLOR_ARRAY =
      { c with
          state := { c.state with
            set := { c.state.set with
              ccount := if c.state.compiling_verts = 0 then 0 else c.state.set.ccount },
            enabled := andNot c.state.enabled ISENABLED_COLOR_ARRAY },
          calls := c.calls ++
            if hasFlag c.state.enabled ISENABLED_COLOR_ARRAY
            then [.glDisableClientState GL_COLOR_ARRAY] else [] } := by
  unfold jwzgles_glDisableClientState
  rw [enable_disable_clear c GL_COLOR_ARRAY ISENABLED_COLOR_ARRAY 15 true (by decide) rfl]
  by_cases h : c.state.compiling_verts = 0 <;>
    simp [h, enable_disable_counts, enable_disable_call, GL_COLOR_ARRAY, GL_NORMAL_ARRAY,
      GL_TEXTURE_COORD_ARRAY, GL_COLOR_ARRAY]

theorem glEnableClientState_VERTEX (c : Ctx) :
    jwzgles_glEnableClientState false c GL_VERTEX_ARRAY =
      { c with
          state := { c.state with enabled := c.state.enabled ||| ISENABLED_VERT_ARRAY },
          calls := c.calls ++
            if hasFlag c.state.enabled ISENABLED_VERT_ARRAY then []
            else [.glEnableClientState GL_VERTEX_ARRAY] } := by
  unfold jwzgles_glEnableClientState
  rw [enable_disable_set c GL_VERTEX_ARRAY ISENABLED_VERT_ARRAY 12 true (by decide) rfl]
  by_cases h : c.state.compiling_verts = 0 <;>
    simp [h, enable_disable_counts, enable_disable_call, GL_VERTEX_ARRAY, GL_NORMAL_ARRAY,
      GL_TEXTURE_COORD_ARRAY, GL_COLOR_ARRAY]

theorem glEnable_COLOR_MATERIAL (c : Ctx) :
    jwzgles_glEnable false c GL_COLOR_MATERIAL =
      { c with
          state := { c.state with enabled := c.state.enabled ||| ISENABLED_COLMAT },
          calls := c.calls ++
            if hasFlag c.state.enabled ISENABLED_COLMAT then []
            else [.glEnable GL_COLOR_MATERIAL] } := by
  unfold jwzgles_glEnable
  rw [enable_disable_set c GL_COLOR_MATERIAL ISENABLED_COLMAT 11 false (by decide) rfl]
  simp [enable_disable_call]

theorem glDisable_COLOR_MATERIAL (c : Ctx) :
    jwzgles_glDisable false c GL_COLOR_MATERIAL =
      { c with
          state := { c.state with enabled := andNot c.state.enabled ISENABLED_COLMAT },
          calls := c.calls ++
            if hasFlag c.state.enabled ISENABLED_COLMAT
            then [.glDisable GL_COLOR_MATERIAL] else [] } := by
  unfold jwzgles_glDisable
  rw [enable_disable_clear c GL_COLOR_MATERIAL ISENABLED_COLMAT 11 false (by decide) rfl]
  simp [enable_disable_call]

theorem glIsEnabled_NORMAL (c : Ctx) :
    jwzgles_glIsEnabled false c GL_NORMAL_ARRAY =
      (c, hasFlag c.state.enabled ISENABLED_NORM_ARRAY) :=
  enable_disable_query c _ _ false true (by decide) false

theorem glIsEnabled_TEXCOORD (c : Ctx) :
    jwzgles_glIsEnabled false c GL_TEXTURE_COORD_ARRAY =
      (c, hasFlag c.state.enabled ISENABLED_TEX_ARRAY) :=
  enable_disable_query c _ _ false true (by decide) false

theorem glIsEnabled_COLOR (c : Ctx) :
    jwzgles_glIsEnabled false c GL_COLOR_ARRAY =
      (c, hasFlag c.state.enabled ISENABLED_COLOR_ARRAY) :=
  enable_disable_query c _ _ false true (by decide) false

theorem glIsEnabled_COLOR_MATERIAL (c : Ctx) :
    jwzgles_glIsEnabled false c GL_COLOR_MATERIAL =
      (c, hasFlag c.state.enabled ISENABLED_COLMAT) :=
  enable_disable_query c _ _ false false (by decide) false

/-! ### The blocks of glEnd -/

theorem glEnd_normalize_frame (c : Ctx) :
    (glEnd_normalize c).state.enabled = c.state.enabled ∧
    (glEnd_normalize c).state.compiling_verts = c.state.compiling_verts ∧
    (glEnd_normalize c).calls = c.calls ∧
    (glEnd_normalize c).gl = c.gl ∧
    (glEnd_normalize c).w = c.w ∧
    (glEnd_normalize c).state.set.ncount = c.state.set.ncount ∧
    (glEnd_normalize c).state.set.tcount = c.state.set.tcount ∧
    (glEnd_normalize c).state.set.ccount = c.state.set.ccount ∧
    (glEnd_normalize c).state.set.materialistic = c.state.set.materialistic ∧
    (glEnd_normalize c).state.set.cnorm = c.state.set.cnorm ∧
    (glEnd_normalize c).state.set.ctex = c.state.set.ctex ∧
    (glEnd_normalize c).state.set.ccolor = c.state.set.ccolor := by
  unfold glEnd_normalize convert_quads_to_triangles
  split
  · simp
  · split
    · simp
    · split <;> simp

theorem glEnd_pointers_eq (c : Ctx) :
    glEnd_pointers c =
      { c with
        state := { c.state with vertPrtValid := 0, texPrtValid := 0, colorPtrValid := 0 },
        gl := { c.gl with
          color := ⟨c.gl.array_buffer, 4, GL_FLOAT, 16, 0,
            .heap (floatsRGBA (c.state.set.color.getD []))⟩,
          normal := ⟨c.gl.array_buffer, 3, GL_FLOAT, 12, 0,
            .heap (floatsXYZ (c.state.set.norms.getD []))⟩,
          texcoord := ⟨c.gl.array_buffer, 4, GL_FLOAT, 16, 0,
            .heap (floatsSTRQ (c.state.set.tex.getD []))⟩,
          vertex := ⟨c.gl.array_buffer, 4, GL_FLOAT, 16, 0,
            .heap (floatsXYZW (c.state.set.verts.getD []))⟩ },
        calls := c.calls ++
          [.glColorPointer 4 GL_FLOAT 16 (.heap (floatsRGBA (c.state.set.color.getD []))),
           .glNormalPointer GL_FLOAT 12 (.heap (floatsXYZ (c.state.set.norms.getD []))),
           .glTexCoordPointer 4 GL_FLOAT 16 (.heap (floatsSTRQ (c.state.set.tex.getD []))),
           .glVertexPointer 4 GL_FLOAT 16 (.heap (floatsXYZW (c.state.set.verts.getD [])))] } := by
  simp [glEnd_pointers, jwzgles_glColorPointer, jwzgles_glNormalPointer,
    jwzgles_glTexCoordPointer, jwzgles_glVertexPointer, FlushOnStateChange, gl_ColorPointer,
    gl_NormalPointer, gl_TexCoordPointer, gl_VertexPointer, emit]

theorem glBindBuffer_ARRAY_eq (c : Ctx) :
    jwzgles_glBindBuffer false c GL_ARRAY_BUFFER 0 =
      { c with state := { c.state with array_buffer := 0 },
               gl := { c.gl with array_buffer := 0 },
               calls := c.calls ++ [.glBindBuffer GL_ARRAY_BUFFER 0] } := by
  simp [jwzgles_glBindBuffer, FlushOnStateChange, gl_BindBuffer, emit]

theorem gl_BindBuffer_ARRAY_eq (c : Ctx) :
    gl_BindBuffer c GL_ARRAY_BUFFER 0 =
      { c with gl := { c.gl with array_buffer := 0 },
               calls := c.calls ++ [.glBindBuffer GL_ARRAY_BUFFER 0] } := by
  simp [gl_BindBuffer, emit]

theorem glEnd_norm_eq (c : Ctx) (h0 : c.state.compiling_verts = 0) :
    glEnd_norm c =
      ({ c with
          state := { c.state with
            set := { c.state.set with
              ncount := if 1 < c.state.set.ncount then c.state.set.ncount + 2 else 0 },
            enabled := if 1 < c.state.set.ncount then c.state.enabled ||| ISENABLED_NORM_ARRAY
                       else andNot c.state.enabled ISENABLED_NORM_ARRAY },
          calls := c.calls ++
            if 1 < c.state.set.ncount then
              (if hasFlag c.state.enabled ISENABLED_NORM_ARRAY then []
               else [.glEnableClientState GL_NORMAL_ARRAY])
            else
              (if c.state.set.ncount = 1 then
                [.glNormal3f c.state.set.cnorm.x c.state.set.cnorm.y c.state.set.cnorm.z]
               else []) ++
              (if hasFlag c.state.enabled ISENABLED_NORM_ARRAY
               then [.glDisableClientState GL_NORMAL_ARRAY] else []) },
       decide (1 < c.state.set.ncount)) := by
  unfold glEnd_norm
  by_cases h1 : 1 < c.state.set.ncount
  · simp [h1, glEnableClientState_NORMAL, h0]
  · by_cases h2 : c.state.set.ncount = 1
    · simp [h1, h2, glDisableClientState_NORMAL, h0, jwzgles_glNormal3f, jwzgles_glNormal3fv,
        emit]
    · simp [h1, h2, glDisableClientState_NORMAL, h0]

theorem glEnd_tex_eq (c : Ctx) (h0 : c.state.compiling_verts = 0) :
    glEnd_tex c =
      ({ c with
          state := { c.state with
            set := { c.state.set with
              tcount := if 1 < c.state.set.tcount ∨
                          hasFlag c.state.enabled ISENABLED_TEXTURE_GEN_ANY = true
                        then c.state.set.tcount + 2 else 0 },
            enabled := if 1 < c.state.set.tcount ∨
                          hasFlag c.state.enabled ISENABLED_TEXTURE_GEN_ANY = true
                       then c.state.enabled ||| ISENABLED_TEX_ARRAY
                       else andNot c.state.enabled ISENABLED_TEX_ARRAY },
          calls := c.calls ++
            if 1 < c.state.set.tcount ∨
                hasFlag c.state.enabled ISENABLED_TEXTURE_GEN_ANY = true then
              (if hasFlag c.state.enabled ISENABLED_TEX_ARRAY then []
               else [.glEnableClientState GL_TEXTURE_COORD_ARRAY])
            else
              (if hasFlag c.state.enabled ISENABLED_TEX_ARRAY
               then [.glDisableClientState GL_TEXTURE_COORD_ARRAY] else []) },
       decide (1 < c.state.set.tcount ∨
         hasFlag c.state.enabled ISENABLED_TEXTURE_GEN_ANY = true)) := by
  unfold glEnd_tex
  by_cases h1 : 1 < c.state.set.tcount ∨ hasFlag c.state.enabled ISENABLED_TEXTURE_GEN_ANY = true
  · simp only [gt_iff_lt, h1, if_true, glEnableClientState_TEXCOORD, h0, decide_True]
  · have h1a : ¬ 1 < c.state.set.tcount := fun h => h1 (Or.inl h)
    have h1b : hasFlag c.state.enabled ISENABLED_TEXTURE_GEN_ANY = false := by
      cases h : hasFlag c.state.enabled ISENABLED_TEXTURE_GEN_ANY
      · rfl
      · exact absurd (Or.inr h) h1
    by_cases h2 : c.state.set.tcount = 1
    · simp [h1b, h2, glDisableClientState_TEXCOORD, h0, jwzgles_glTexCoord4f,
        jwzgles_glTexCoord4fv, jwzgles_glTexCoord4fv_REMOVED]
    · simp [h1a, h1b, h2, glDisableClientState_TEXCOORD, h0]

theorem glEnd_color_eq (c : Ctx) (h0 : c.state.compiling_verts = 0) :
    glEnd_color c =
      ({ c with
          state := { c.state with
            set := { c.state.set with
              ccount := if 1 < c.state.set.ccount then c.state.set.ccount + 2 else 0 },
            enabled := if 1 < c.state.set.ccount then c.state.enabled ||| ISENABLED_COLOR_ARRAY
                       else andNot c.state.enabled ISENABLED_COLOR_ARRAY },
          calls := c.calls ++
            if 1 < c.state.set.ccount then
              (if hasFlag c.state.enabled ISENABLED_COLOR_ARRAY then []
               else [.glEnableClientState GL_COLOR_ARRAY])
            else
              (if c.state.set.ccount = 1 then
                [.glColor4f c.state.set.ccolor.r c.state.set.ccolor.g c.state.set.ccolor.b
                  c.state.set.ccolor.a]
               else []) ++
              (if hasFlag c.state.enabled ISENABLED_COLOR_ARRAY
               then [.glDisableClientState GL_COLOR_ARRAY] else []) },
       decide (1 < c.state.set.ccount)) := by
  unfold glEnd_color
  by_cases h1 : 1 < c.state.set.ccount
  · simp [h1, glEnableClientState_COLOR, h0]
  · by_cases h2 : c.state.set.ccount = 1
    · simp [h1, h2, glDisableClientState_COLOR, h0, jwzgles_glColor4f, jwzgles_glColor4fv,
        jwzgles_glColor4fv_REMOVED, emit]
    · simp [h1, h2, glDisableClientState_COLOR, h0]

theorem glEnd_mat_eq (c : Ctx) :
    glEnd_mat c =
      ({ c with
          state := { c.state with
            enabled := if c.state.set.materialistic ≠ 0
                       then c.state.enabled ||| ISENABLED_COLMAT else c.state.enabled },
          calls := c.calls ++
            if c.state.set.materialistic ≠ 0 ∧ hasFlag c.state.enabled ISENABLED_COLMAT = false
            then [.glEnable GL_COLOR_MATERIAL] else [] },
       decide (c.state.set.materialistic ≠ 0 ∧
         hasFlag c.state.enabled ISENABLED_COLMAT = false)) := by
  unfold glEnd_mat
  by_cases h1 : c.state.set.materialistic = 0
  · simp [h1]
  · by_cases h2 : hasFlag c.state.enabled ISENABLED_COLMAT = true
    · have he : c.state.enabled ||| ISENABLED_COLMAT = c.state.enabled :=
        or_flag_of_hasFlag _ 11 h2
      simp [h1, h2, glIsEnabled_COLOR_MATERIAL, he]
    · simp [h1, h2, glIsEnabled_COLOR_MATERIAL, glEnable_COLOR_MATERIAL]

/-! ## Texture generation and the draw block of glEnd -/

theorem onlyAsserts_refl (c : Ctx) : onlyAsserts c c := ⟨rfl, rfl, rfl, rfl⟩

theorem onlyAsserts_trans {a b c : Ctx} (h1 : onlyAsserts a b) (h2 : onlyAsserts b c) :
    onlyAsserts a c :=
  ⟨h2.1.trans h1.1, h2.2.1.trans h1.2.1, h2.2.2.1.trans h1.2.2.1, h2.2.2.2.trans h1.2.2.2⟩

theorem onlyAsserts_Assert (c : Ctx) (b : Bool) (m : String) : onlyAsserts c (Assert c b m) := by
  unfold Assert
  split
  · exact onlyAsserts_refl c
  · exact ⟨rfl, rfl, rfl, rfl⟩

theorem onlyAsserts_glGetTexGenfv (c : Ctx) (coord pname : Nat) (params : List GLfloat) :
    onlyAsserts c (jwzgles_glGetTexGenfv false c coord pname params).1 := by
  unfold jwzgles_glGetTexGenfv
  simp only [FlushOnStateChange_array_path]
  split_ifs <;> exact onlyAsserts_refl c

theorem onlyAsserts_read : ∀ (tg : List tg_entry) (c : Ctx) (n : Nat),
    onlyAsserts c (generate_texture_coords_read false tg c n).1 := by
  intro tg
  induction tg with
  | nil => intro c n; exact onlyAsserts_refl c
  | cons e tg ih =>
    intro c n
    unfold generate_texture_coords_read
    split
    · exact ih c n
    · exact onlyAsserts_trans
        (onlyAsserts_trans (onlyAsserts_glGetTexGenfv _ _ _ _) (onlyAsserts_glGetTexGenfv _ _ _ _))
        (ih _ _)

theorem onlyAsserts_extract (A : draw_array) (cells : List GLfloat) (verts_in : Nat) :
    ∀ (n j : Nat) (c : Ctx) (vert : List GLfloat),
      onlyAsserts c (generate_texture_coords_extract A cells verts_in n j c vert).1 := by
  intro n
  induction n with
  | zero => intro j c vert; exact onlyAsserts_refl c
  | succ n ih =>
    intro j c vert
    unfold generate_texture_coords_extract
    split
    · exact ih _ _ _
    · exact onlyAsserts_trans (onlyAsserts_Assert _ _ _) (ih _ _ _)

theorem onlyAsserts_axes (vert : List GLfloat) (tex_out : Nat) :
    ∀ (tg : List tg_entry) (k : Nat) (c : Ctx) (tex_array : List GLfloat),
      onlyAsserts c (generate_texture_coords_axes vert tex_out tg k c tex_array).1 := by
  intro tg
  induction tg with
  | nil => intro k c t; exact onlyAsserts_refl c
  | cons e tg ih =>
    intro k c t
    unfold generate_texture_coords_axes
    split
    · exact ih _ _ _
    · split
      · exact ih _ _ _
      · exact onlyAsserts_trans (onlyAsserts_Assert _ _ _) (ih _ _ _)

theorem onlyAsserts_loop (A : draw_array) (cells : List GLfloat) (tg : List tg_entry)
    (tcoords : Nat) :
    ∀ (n verts_in tex_out : Nat) (c : Ctx) (tex_array : List GLfloat),
      onlyAsserts c (generate_texture_coords_loop A cells tg tcoords n verts_in tex_out c
        tex_array).1 := by
  intro n
  induction n with
  | zero => intro _ _ c _; exact onlyAsserts_refl c
  | succ n ih =>
    intro vi tout c t
    unfold generate_texture_coords_loop
    exact onlyAsserts_trans
      (onlyAsserts_trans (onlyAsserts_extract _ _ _ _ _ _ _) (onlyAsserts_axes _ _ _ _ _ _))
      (ih _ _ _ _)

theorem onlyAsserts_eq {c d : Ctx} (h : onlyAsserts c d) : d = { c with asserts := d.asserts } := by
  obtain ⟨h1, h2, h3, h4⟩ := h
  cases d
  cases c
  simp_all

/-- What generate_texture_coords changes in the array path: the counter
tcount, `enabled` (at most the texcoord-array flag is added), texPrtValid, the
texcoord array bound in the renderer, and the logs; the calls it makes are
glEnableClientState (GL_TEXTURE_COORD_ARRAY) and glTexCoordPointer. -/
theorem generate_texture_coords_eq (c : Ctx) (first count : Nat) :
    ∃ T E P X d A,
      generate_texture_coords false c first count =
        { c with
          state := { c.state with
            set := { c.state.set with tcount := T }, enabled := E, texPrtValid := P },
          gl := { c.gl with texcoord := X },
          calls := c.calls ++ d,
          asserts := A } ∧
      (E = c.state.enabled ∨ E = c.state.enabled ||| ISENABLED_TEX_ARRAY) ∧
      (∀ x ∈ d, (x = .glEnableClientState GL_TEXTURE_COORD_ARRAY ∧
          hasFlag c.state.enabled ISENABLED_TEX_ARRAY = false) ∨
        ∃ a b p, x = .glTexCoordPointer a GL_FLOAT b p) := by
  unfold generate_texture_coords
  have h1 := onlyAsserts_eq (onlyAsserts_read tg_init c 0)
  generalize generate_texture_coords_read false tg_init c 0 = r at h1
  obtain ⟨c0, tg, tcoords⟩ := r
  simp only at h1 ⊢
  by_cases ht : tcoords = 0
  · refine ⟨c.state.set.tcount, c.state.enabled, c.state.texPrtValid, c.gl.texcoord, [],
      c0.asserts, ?_, Or.inl rfl, by simp⟩
    simp only [ht, if_true]
    rw [h1]
    simp
  · simp only [ht, if_false]
    have h2 := onlyAsserts_eq (onlyAsserts_loop
      { c0.gl.vertex with bytes := count * c0.gl.vertex.stride }
      (c0.gl.vertex.data.cells c0.w) tg tcoords count 0 0 c0
      (List.replicate ((first + count) * tcoords) 0))
    generalize generate_texture_coords_loop
      { c0.gl.vertex with bytes := count * c0.gl.vertex.stride }
      (c0.gl.vertex.data.cells c0.w) tg tcoords count 0 0 c0
      (List.replicate ((first + count) * tcoords) 0) = l at h2
    obtain ⟨c1, arr⟩ := l
    simp only at h2 ⊢
    rw [h2, h1]
    refine ⟨if c.state.compiling_verts = 0 then c.state.set.tcount + 2 else c.state.set.tcount,
      c.state.enabled ||| ISENABLED_TEX_ARRAY, 0,
      ⟨c.gl.array_buffer, tcoords, GL_FLOAT, tcoords * 4, 0, .freed⟩,
      (if hasFlag c.state.enabled ISENABLED_TEX_ARRAY then []
        else [.glEnableClientState GL_TEXTURE_COORD_ARRAY]) ++
        [.glTexCoordPointer tcoords GL_FLOAT (tcoords * 4) (.heap arr)],
      c1.asserts, ?_, Or.inr rfl, ?_⟩
    · simp only [glEnableClientState_TEXCOORD, jwzgles_glTexCoordPointer,
        FlushOnStateChange_array_path, gl_TexCoordPointer, emit, List.append_assoc,
        free_tex_array]
    · intro x hx
      simp only [List.mem_append, List.mem_singleton] at hx
      rcases hx with hx | hx
      · split at hx
        · simp at hx
        · simp only [List.mem_singleton] at hx
          rename_i hf
          exact Or.inl ⟨hx, by simpa using hf⟩
      · exact Or.inr ⟨_, _, _, hx⟩

/-- The draw block of glEnd, when the texcoord array is enabled whenever a
texture-generation flag is: `enabled` is untouched, and between the two
glBindBuffer calls come at most glTexCoordPointer calls and then the one
glDrawArrays call, which sees the state of that moment. -/
theorem glEnd_draw_eq (c : Ctx)
    (h : hasFlag c.state.enabled ISENABLED_TEXTURE_GEN_ANY = true →
      hasFlag c.state.enabled ISENABLED_TEX_ARRAY = true) :
    ∃ T P X d A,
      glEnd_draw c =
        { c with
          state := { c.state with set := { c.state.set with tcount := T }, texPrtValid := P },
          gl := { c.gl with texcoord := X, array_buffer := 0 },
          calls := c.calls ++ ([.glBindBuffer GL_ARRAY_BUFFER 0] ++ (d ++
            [.glDrawArrays c.state.set.mode 0 c.state.set.count
              ⟨c.state.enabled, { c.gl with texcoord := X, array_buffer := 0 },
                c.w.vertexattribs⟩,
             .glBindBuffer GL_ARRAY_BUFFER 0])),
          asserts := A } ∧
      (∀ x ∈ d, ∃ a b p, x = .glTexCoordPointer a GL_FLOAT b p) ∧
      (hasFlag c.state.enabled ISENABLED_TEXTURE_GEN_ANY = false →
        T = c.state.set.tcount ∧ P = c.state.texPrtValid ∧ X = c.gl.texcoord ∧ d = [] ∧
          A = c.asserts) := by
  unfold glEnd_draw jwzgles_glDrawArrays
  simp only [FlushOnStateChange_array_path, gl_BindBuffer_ARRAY_eq]
  by_cases hg : hasFlag c.state.enabled ISENABLED_TEXTURE_GEN_ANY = true
  · have ht := h hg
    obtain ⟨T, E, P, X, d, A, e, hE, hd⟩ := generate_texture_coords_eq
      { c with gl := { c.gl with array_buffer := 0 },
               calls := c.calls ++ [.glBindBuffer GL_ARRAY_BUFFER 0] } 0 c.state.set.count
    have hE' : E = c.state.enabled := by
      rcases hE with hE | hE
      · exact hE
      · rw [hE]; exact or_flag_of_hasFlag _ 14 ht
    subst hE'
    refine ⟨T, P, X, d, A, ?_, ?_, ?_⟩
    · simp only [hg, if_true, e, gl_DrawArrays, emit, seenNow, List.append_assoc]
      simp
    · intro x hx
      rcases hd x hx with ⟨_, hf⟩ | hp
      · simp only at hf
        rw [ht] at hf
        exact absurd hf (by simp)
      · exact hp
    · intro hf
      rw [hg] at hf
      exact absurd hf (by simp)
  · refine ⟨c.state.set.tcount, c.state.texPrtValid, c.gl.texcoord, [], c.asserts, ?_,
      by simp, fun _ => ⟨rfl, rfl, rfl, rfl, rfl⟩⟩
    simp [hg, gl_DrawArrays, emit, seenNow]

/-! ## glEnd as a whole -/


theorem testBit_COLMAT (i : Nat) : ISENABLED_COLMAT.testBit i = decide (11 = i) := by
  unfold ISENABLED_COLMAT; rw [Nat.one_shiftLeft, Nat.testBit_two_pow]
theorem testBit_VERT_ARRAY (i : Nat) : ISENABLED_VERT_ARRAY.testBit i = decide (12 = i) := by
  unfold ISENABLED_VERT_ARRAY; rw [Nat.one_shiftLeft, Nat.testBit_two_pow]
theorem testBit_NORM_ARRAY (i : Nat) : ISENABLED_NORM_ARRAY.testBit i = decide (13 = i) := by
  unfold ISENABLED_NORM_ARRAY; rw [Nat.one_shiftLeft, Nat.testBit_two_pow]
theorem testBit_TEX_ARRAY (i : Nat) : ISENABLED_TEX_ARRAY.testBit i = decide (14 = i) := by
  unfold ISENABLED_TEX_ARRAY; rw [Nat.one_shiftLeft, Nat.testBit_two_pow]
theorem testBit_COLOR_ARRAY (i : Nat) : ISENABLED_COLOR_ARRAY.testBit i = decide (15 = i) := by
  unfold ISENABLED_COLOR_ARRAY; rw [Nat.one_shiftLeft, Nat.testBit_two_pow]

/-- glEnd with at least one vertex recorded, cut at its draw block. -/
theorem glEnd_eq_finish (c : Ctx) (hcv : c.state.compiling_verts = 1)
    (hcount : c.state.set.count ≠ 0) :
    jwzgles_glEnd_REMOVED c = glEnd_finish c (glEnd_draw (glEnd_atDraw c)) := by
  have hf := glEnd_normalize_frame
  have hcount' : ¬ c.state.set.count = 0 := hcount
  simp [jwzgles_glEnd_REMOVED, glEnd_finish, glEnd_atDraw, Assert, hcv, hcount,
    glEnd_pointers_eq, glBindBuffer_ARRAY_eq, glEnd_norm_eq,
    glEnd_tex_eq, glEnd_color_eq, glEnableClientState_VERTEX, glEnd_mat_eq, hf,
    glIsEnabled_NORMAL, glIsEnabled_TEXCOORD, glIsEnabled_COLOR, glIsEnabled_COLOR_MATERIAL,
    testBit_ite, testBit_COLMAT, testBit_VERT_ARRAY, testBit_NORM_ARRAY, testBit_TEX_ARRAY,
    testBit_COLOR_ARRAY, testBit_andNot_NORM_ARRAY,
    testBit_andNot_TEX_ARRAY, testBit_andNot_COLOR_ARRAY, hasFlag_TEXTURE_GEN_ANY,
    hasFlag_NORM_ARRAY, hasFlag_TEX_ARRAY, hasFlag_COLOR_ARRAY, hasFlag_COLMAT]

theorem glEnd_normalize_set (c : Ctx) :
    (glEnd_normalize c).state.set = normalizedSet c.state.set := by
  unfold glEnd_normalize normalizedSet
  split
  · rfl
  · split
    · rfl
    · split <;> rfl

theorem normalizedSet_frame (s : vert_set) :
    (normalizedSet s).ncount = s.ncount ∧ (normalizedSet s).tcount = s.tcount ∧
    (normalizedSet s).ccount = s.ccount ∧ (normalizedSet s).materialistic = s.materialistic ∧
    (normalizedSet s).cnorm = s.cnorm ∧ (normalizedSet s).ctex = s.ctex ∧
    (normalizedSet s).ccolor = s.ccolor := by
  unfold normalizedSet convert_quads_to_triangles
  split
  · simp
  · split
    · simp
    · split <;> simp

theorem filter_ite {α : Type} (f : α → Bool) (p : Prop) [Decidable p] (a b : List α) :
    List.filter f (if p then a else b) = if p then List.filter f a else List.filter f b := by
  split <;> rfl

theorem glEnd_normalize_texgen (c : Ctx) :
    (glEnd_normalize c).state.s = c.state.s ∧ (glEnd_normalize c).state.t = c.state.t ∧
    (glEnd_normalize c).state.r = c.state.r ∧ (glEnd_normalize c).state.q = c.state.q := by
  unfold glEnd_normalize
  split
  · simp
  · split
    · simp
    · split <;> simp

/-- The context at the draw block of glEnd. -/
theorem glEnd_atDraw_facts (c : Ctx) (hcv : c.state.compiling_verts = 1) :
    ((glEnd_atDraw c).state.enabled.testBit 13 = decide (1 < c.state.set.ncount) ∧
     (glEnd_atDraw c).state.enabled.testBit 14 = decide (1 < c.state.set.tcount ∨
        hasFlag c.state.enabled ISENABLED_TEXTURE_GEN_ANY = true) ∧
     (glEnd_atDraw c).state.enabled.testBit 15 = decide (1 < c.state.set.ccount) ∧
     (glEnd_atDraw c).state.enabled.testBit 12 = true ∧
     (glEnd_atDraw c).state.enabled.testBit 11 =
        (c.state.enabled.testBit 11 || decide (c.state.set.materialistic ≠ 0)) ∧
     (∀ i, i < 11 ∨ 15 < i →
        (glEnd_atDraw c).state.enabled.testBit i = c.state.enabled.testBit i)) ∧
    ((glEnd_atDraw c).state.compiling_verts = 0 ∧
     (glEnd_atDraw c).w = c.w ∧
     (glEnd_atDraw c).gl = boundArrays (normalizedSet c.state.set) c.gl.array_buffer ∧
     (glEnd_atDraw c).state.set.mode = (normalizedSet c.state.set).mode ∧
     (glEnd_atDraw c).state.set.count = (normalizedSet c.state.set).count ∧
     (glEnd_atDraw c).state.set.size = (normalizedSet c.state.set).size ∧
     (glEnd_atDraw c).state.set.verts = (normalizedSet c.state.set).verts ∧
     (glEnd_atDraw c).state.set.norms = (normalizedSet c.state.set).norms ∧
     (glEnd_atDraw c).state.set.tex = (normalizedSet c.state.set).tex ∧
     (glEnd_atDraw c).state.set.color = (normalizedSet c.state.set).color ∧
     (glEnd_atDraw c).state.set.cnorm = c.state.set.cnorm ∧
     (glEnd_atDraw c).state.set.ctex = c.state.set.ctex ∧
     (glEnd_atDraw c).state.set.ccolor = c.state.set.ccolor ∧
     (glEnd_atDraw c).state.s = c.state.s ∧ (glEnd_atDraw c).state.t = c.state.t ∧
     (glEnd_atDraw c).state.r = c.state.r ∧ (glEnd_atDraw c).state.q = c.state.q) ∧
    (glEnd_atDraw c).calls = c.calls ++ glEnd_preCalls c.state.set c.state.enabled := by
  have hf := glEnd_normalize_frame
  have hn := normalizedSet_frame
  refine ⟨⟨?_, ?_, ?_, ?_, ?_, ?_⟩, ?_, ?_⟩
  · simp [glEnd_atDraw, Assert, hcv, glEnd_pointers_eq, glBindBuffer_ARRAY_eq, glEnd_norm_eq,
      glEnd_tex_eq, glEnd_color_eq, glEnableClientState_VERTEX, glEnd_mat_eq, hf,
      testBit_ite, testBit_COLMAT, testBit_VERT_ARRAY, testBit_NORM_ARRAY, testBit_TEX_ARRAY,
      testBit_COLOR_ARRAY, testBit_andNot_NORM_ARRAY,
      testBit_andNot_TEX_ARRAY, testBit_andNot_COLOR_ARRAY, hasFlag_TEXTURE_GEN_ANY]
  · simp [glEnd_atDraw, Assert, hcv, glEnd_pointers_eq, glBindBuffer_ARRAY_eq, glEnd_norm_eq,
      glEnd_tex_eq, glEnd_color_eq, glEnableClientState_VERTEX, glEnd_mat_eq, hf,
      testBit_ite, testBit_COLMAT, testBit_VERT_ARRAY, testBit_NORM_ARRAY, testBit_TEX_ARRAY,
      testBit_COLOR_ARRAY, testBit_andNot_NORM_ARRAY,
      testBit_andNot_TEX_ARRAY, testBit_andNot_COLOR_ARRAY, hasFlag_TEXTURE_GEN_ANY]
  · simp [glEnd_atDraw, Assert, hcv, glEnd_pointers_eq, glBindBuffer_ARRAY_eq, glEnd_norm_eq,
      glEnd_tex_eq, glEnd_color_eq, glEnableClientState_VERTEX, glEnd_mat_eq, hf,
      testBit_ite, testBit_COLMAT, testBit_VERT_ARRAY, testBit_NORM_ARRAY, testBit_TEX_ARRAY,
      testBit_COLOR_ARRAY, testBit_andNot_NORM_ARRAY,
      testBit_andNot_TEX_ARRAY, testBit_andNot_COLOR_ARRAY, hasFlag_TEXTURE_GEN_ANY]
  · simp [glEnd_atDraw, Assert, hcv, glEnd_pointers_eq, glBindBuffer_ARRAY_eq, glEnd_norm_eq,
      glEnd_tex_eq, glEnd_color_eq, glEnableClientState_VERTEX, glEnd_mat_eq, hf,
      testBit_ite, testBit_COLMAT, testBit_VERT_ARRAY, testBit_NORM_ARRAY, testBit_TEX_ARRAY,
      testBit_COLOR_ARRAY, testBit_andNot_NORM_ARRAY,
      testBit_andNot_TEX_ARRAY, testBit_andNot_COLOR_ARRAY, hasFlag_TEXTURE_GEN_ANY]
  · simp [glEnd_atDraw, Assert, hcv, glEnd_pointers_eq, glBindBuffer_ARRAY_eq, glEnd_norm_eq,
      glEnd_tex_eq, glEnd_color_eq, glEnableClientState_VERTEX, glEnd_mat_eq, hf,
      testBit_ite, testBit_COLMAT, testBit_VERT_ARRAY, testBit_NORM_ARRAY, testBit_TEX_ARRAY,
      testBit_COLOR_ARRAY, testBit_andNot_NORM_ARRAY,
      testBit_andNot_TEX_ARRAY, testBit_andNot_COLOR_ARRAY, hasFlag_TEXTURE_GEN_ANY]
    exact Bool.or_comm _ _
  · intro i hi
    have h11 : ¬ 11 = i := by omega
    have h12 : ¬ 12 = i := by omega
    have h13 : ¬ 13 = i := by omega
    have h14 : ¬ 14 = i := by omega
    have h15 : ¬ 15 = i := by omega
    simp [glEnd_atDraw, Assert, hcv, glEnd_pointers_eq, glBindBuffer_ARRAY_eq, glEnd_norm_eq,
      glEnd_tex_eq, glEnd_color_eq, glEnableClientState_VERTEX, glEnd_mat_eq, hf,
      testBit_ite, testBit_COLMAT, testBit_VERT_ARRAY, testBit_NORM_ARRAY, testBit_TEX_ARRAY,
      testBit_COLOR_ARRAY, testBit_andNot_NORM_ARRAY,
      testBit_andNot_TEX_ARRAY, testBit_andNot_COLOR_ARRAY, hasFlag_TEXTURE_GEN_ANY,
      h11, h12, h13, h14, h15]
  · simp [glEnd_atDraw, Assert, hcv, glEnd_pointers_eq, glBindBuffer_ARRAY_eq, glEnd_norm_eq,
      glEnd_tex_eq, glEnd_color_eq, glEnableClientState_VERTEX, glEnd_mat_eq, hf,
      glEnd_normalize_set, hn, boundArrays, glEnd_normalize_texgen]
  · simp [glEnd_atDraw, Assert, hcv, glEnd_pointers_eq, glBindBuffer_ARRAY_eq,
      glEnd_norm_eq, glEnd_tex_eq, glEnd_color_eq, glEnableClientState_VERTEX, glEnd_mat_eq,
      hf, glEnd_normalize_set, hn, glEnd_preCalls,
      testBit_ite, testBit_COLMAT, testBit_VERT_ARRAY, testBit_NORM_ARRAY, testBit_TEX_ARRAY,
      testBit_COLOR_ARRAY, testBit_andNot_NORM_ARRAY,
      testBit_andNot_TEX_ARRAY, testBit_andNot_COLOR_ARRAY, hasFlag_TEXTURE_GEN_ANY,
      hasFlag_NORM_ARRAY, hasFlag_TEX_ARRAY, hasFlag_COLOR_ARRAY, hasFlag_COLMAT,
      hasFlag_VERT_ARRAY]

theorem glEnd_preCalls_filter (s : vert_set) (e : Nat) :
    (glEnd_preCalls s e).filter GLCall.isDraw = [] ∧
    (glEnd_preCalls s e).filter GLCall.isScalar = constantCalls s ∧
    (glEnd_preCalls s e).filter GLCall.isPointer =
      [.glColorPointer 4 GL_FLOAT 16 (.heap (floatsRGBA ((normalizedSet s).color.getD []))),
       .glNormalPointer GL_FLOAT 12 (.heap (floatsXYZ ((normalizedSet s).norms.getD []))),
       .glTexCoordPointer 4 GL_FLOAT 16 (.heap (floatsSTRQ ((normalizedSet s).tex.getD []))),
       .glVertexPointer 4 GL_FLOAT 16 (.heap (floatsXYZW ((normalizedSet s).verts.getD [])))] := by
  refine ⟨?_, ?_, ?_⟩
  · simp [glEnd_preCalls, List.filter_append, filter_ite, GLCall.isDraw]
  · simp [glEnd_preCalls, List.filter_append, filter_ite, GLCall.isScalar, constantCalls]
    split_ifs <;> simp <;> omega
  · simp [glEnd_preCalls, List.filter_append, filter_ite, GLCall.isPointer]

theorem glEnd_postCalls_filter (s : vert_set) (e : Nat) :
    (glEnd_postCalls s e).filter GLCall.isDraw = [] ∧
    (glEnd_postCalls s e).filter GLCall.isScalar = [] ∧
    (glEnd_postCalls s e).filter GLCall.isPointer = [] := by
  refine ⟨?_, ?_, ?_⟩
  · simp [glEnd_postCalls, List.filter_append, filter_ite, GLCall.isDraw]
  · simp [glEnd_postCalls, List.filter_append, filter_ite, GLCall.isScalar]
  · simp [glEnd_postCalls, List.filter_append, filter_ite, GLCall.isPointer]


theorem RESET_NORMAL_eq (is_VAR was_VAR : Bool) (d : Ctx) (hd0 : d.state.compiling_verts = 0) :
    RESET is_VAR was_VAR (jwzgles_glEnableClientState false · GL_NORMAL_ARRAY)
        (jwzgles_glDisableClientState false · GL_NORMAL_ARRAY) d =
      { d with
          state := { d.state with
            set := { d.state.set with
              ncount := if (is_VAR != was_VAR) = true then
                          (if was_VAR = true then d.state.set.ncount + 2 else 0)
                        else d.state.set.ncount },
            enabled := if (is_VAR != was_VAR) = true then
                         (if was_VAR = true then d.state.enabled ||| ISENABLED_NORM_ARRAY
                          else andNot d.state.enabled ISENABLED_NORM_ARRAY)
                       else d.state.enabled },
          calls := d.calls ++
            if (is_VAR != was_VAR) = true then
              (if was_VAR = true then
                 (if hasFlag d.state.enabled ISENABLED_NORM_ARRAY then []
                  else [.glEnableClientState GL_NORMAL_ARRAY])
               else
                 (if hasFlag d.state.enabled ISENABLED_NORM_ARRAY
                  then [.glDisableClientState GL_NORMAL_ARRAY] else []))
            else [] } := by
  cases is_VAR <;> cases was_VAR <;>
    first
    | (simp [RESET]; done)
    | simp [RESET, glEnableClientState_NORMAL, glDisableClientState_NORMAL, hd0]

theorem RESET_TEXCOORD_eq (is_VAR was_VAR : Bool) (d : Ctx) (hd0 : d.state.compiling_verts = 0) :
    RESET is_VAR was_VAR (jwzgles_glEnableClientState false · GL_TEXTURE_COORD_ARRAY)
        (jwzgles_glDisableClientState false · GL_TEXTURE_COORD_ARRAY) d =
      { d with
          state := { d.state with
            set := { d.state.set with
              tcount := if (is_VAR != was_VAR) = true then
                          (if was_VAR = true then d.state.set.tcount + 2 else 0)
                        else d.state.set.tcount },
            enabled := if (is_VAR != was_VAR) = true then
                         (if was_VAR = true then d.state.enabled ||| ISENABLED_TEX_ARRAY
                          else andNot d.state.enabled ISENABLED_TEX_ARRAY)
                       else d.state.enabled },
          calls := d.calls ++
            if (is_VAR != was_VAR) = true then
              (if was_VAR = true then
                 (if hasFlag d.state.enabled ISENABLED_TEX_ARRAY then []
                  else [.glEnableClientState GL_TEXTURE_COORD_ARRAY])
               else
                 (if hasFlag d.state.enabled ISENABLED_TEX_ARRAY
                  then [.glDisableClientState GL_TEXTURE_COORD_ARRAY] else []))
            else [] } := by
  cases is_VAR <;> cases was_VAR <;>
    first
    | (simp [RESET]; done)
    | simp [RESET, glEnableClientState_TEXCOORD, glDisableClientState_TEXCOORD, hd0]

theorem RESET_COLOR_eq (is_VAR was_VAR : Bool) (d : Ctx) (hd0 : d.state.compiling_verts = 0) :
    RESET is_VAR was_VAR (jwzgles_glEnableClientState false · GL_COLOR_ARRAY)
        (jwzgles_glDisableClientState false · GL_COLOR_ARRAY) d =
      { d with
          state := { d.state with
            set := { d.state.set with
              ccount := if (is_VAR != was_VAR) = true then
                          (if was_VAR = true then d.state.set.ccount + 2 else 0)
                        else d.state.set.ccount },
            enabled := if (is_VAR != was_VAR) = true then
                         (if was_VAR = true then d.state.enabled ||| ISENABLED_COLOR_ARRAY
                          else andNot d.state.enabled ISENABLED_COLOR_ARRAY)
                       else d.state.enabled },
          calls := d.calls ++
            if (is_VAR != was_VAR) = true then
              (if was_VAR = true then
                 (if hasFlag d.state.enabled ISENABLED_COLOR_ARRAY then []
                  else [.glEnableClientState GL_COLOR_ARRAY])
               else
                 (if hasFlag d.state.enabled ISENABLED_COLOR_ARRAY
                  then [.glDisableClientState GL_COLOR_ARRAY] else []))
            else [] } := by
  cases is_VAR <;> cases was_VAR <;>
    first
    | (simp [RESET]; done)
    | simp [RESET, glEnableClientState_COLOR, glDisableClientState_COLOR, hd0]

theorem RESET_COLOR_MATERIAL_eq (is_VAR was_VAR : Bool) (d : Ctx) :
    RESET is_VAR was_VAR (jwzgles_glEnable false · GL_COLOR_MATERIAL)
        (jwzgles_glDisable false · GL_COLOR_MATERIAL) d =
      { d with
          state := { d.state with
            enabled := if (is_VAR != was_VAR) = true then
                         (if was_VAR = true then d.state.enabled ||| ISENABLED_COLMAT
                          else andNot d.state.enabled ISENABLED_COLMAT)
                       else d.state.enabled },
          calls := d.calls ++
            if (is_VAR != was_VAR) = true then
              (if was_VAR = true then
                 (if hasFlag d.state.enabled ISENABLED_COLMAT then []
                  else [.glEnable GL_COLOR_MATERIAL])
               else
                 (if hasFlag d.state.enabled ISENABLED_COLMAT
                  then [.glDisable GL_COLOR_MATERIAL] else []))
            else [] } := by
  cases is_VAR <;> cases was_VAR <;>
    simp [RESET, glEnable_COLOR_MATERIAL, glDisable_COLOR_MATERIAL]


theorem RESET_NORMAL_spec (is_VAR was_VAR : Bool) (d : Ctx) (hd0 : d.state.compiling_verts = 0)
    (hbit : d.state.enabled.testBit 13 = is_VAR) :
    ∃ N E,
      RESET is_VAR was_VAR (jwzgles_glEnableClientState false · GL_NORMAL_ARRAY)
          (jwzgles_glDisableClientState false · GL_NORMAL_ARRAY) d =
        { d with
            state := { d.state with set := { d.state.set with ncount := N }, enabled := E },
            calls := d.calls ++
              if (is_VAR != was_VAR) = true then
                (if was_VAR = true then [.glEnableClientState GL_NORMAL_ARRAY]
                 else [.glDisableClientState GL_NORMAL_ARRAY])
              else [] } ∧
      E.testBit 13 = was_VAR ∧
      ∀ i, i ≠ 13 → E.testBit i = d.state.enabled.testBit i := by
  refine ⟨if (is_VAR != was_VAR) = true then
              (if was_VAR = true then d.state.set.ncount + 2 else 0)
            else d.state.set.ncount,
          if (is_VAR != was_VAR) = true then
            (if was_VAR = true then d.state.enabled ||| ISENABLED_NORM_ARRAY
             else andNot d.state.enabled ISENABLED_NORM_ARRAY)
          else d.state.enabled, ?_, ?_, ?_⟩
  · rw [RESET_NORMAL_eq _ _ _ hd0]
    have hh : hasFlag d.state.enabled ISENABLED_NORM_ARRAY = is_VAR := by
      rw [hasFlag_NORM_ARRAY]; exact hbit
    rw [hh]
    cases is_VAR <;> cases was_VAR <;> simp
  · cases is_VAR <;> cases was_VAR <;>
      simp [testBit_ite, testBit_NORM_ARRAY, testBit_or_NORM_ARRAY, testBit_andNot_NORM_ARRAY, hbit]
  · intro i hi
    have hi' : ¬ 13 = i := fun h => hi h.symm
    cases is_VAR <;> cases was_VAR <;>
      simp [testBit_ite, testBit_NORM_ARRAY, testBit_or_NORM_ARRAY, testBit_andNot_NORM_ARRAY, hi']

theorem RESET_TEXCOORD_spec (is_VAR was_VAR : Bool) (d : Ctx) (hd0 : d.state.compiling_verts = 0)
    (hbit : d.state.enabled.testBit 14 = is_VAR) :
    ∃ N E,
      RESET is_VAR was_VAR (jwzgles_glEnableClientState false · GL_TEXTURE_COORD_ARRAY)
          (jwzgles_glDisableClientState false · GL_TEXTURE_COORD_ARRAY) d =
        { d with
            state := { d.state with set := { d.state.set with tcount := N }, enabled := E },
            calls := d.calls ++
              if (is_VAR != was_VAR) = true then
                (if was_VAR = true then [.glEnableClientState GL_TEXTURE_COORD_ARRAY]
                 else [.glDisableClientState GL_TEXTURE_COORD_ARRAY])
              else [] } ∧
      E.testBit 14 = was_VAR ∧
      ∀ i, i ≠ 14 → E.testBit i = d.state.enabled.testBit i := by
  refine ⟨if (is_VAR != was_VAR) = true then
              (if was_VAR = true then d.state.set.tcount + 2 else 0)
            else d.state.set.tcount,
          if (is_VAR != was_VAR) = true then
            (if was_VAR = true then d.state.enabled ||| ISENABLED_TEX_ARRAY
             else andNot d.state.enabled ISENABLED_TEX_ARRAY)
          else d.state.enabled, ?_, ?_, ?_⟩
  · rw [RESET_TEXCOORD_eq _ _ _ hd0]
    have hh : hasFlag d.state.enabled ISENABLED_TEX_ARRAY = is_VAR := by
      rw [hasFlag_TEX_ARRAY]; exact hbit
    rw [hh]
    cases is_VAR <;> cases was_VAR <;> simp
  · cases is_VAR <;> cases was_VAR <;>
      simp [testBit_ite, testBit_TEX_ARRAY, testBit_or_TEX_ARRAY, testBit_andNot_TEX_ARRAY, hbit]
  · intro i hi
    have hi' : ¬ 14 = i := fun h => hi h.symm
    cases is_VAR <;> cases was_VAR <;>
      simp [testBit_ite, testBit_TEX_ARRAY, testBit_or_TEX_ARRAY, testBit_andNot_TEX_ARRAY, hi']

theorem RESET_COLOR_spec (is_VAR was_VAR : Bool) (d : Ctx) (hd0 : d.state.compiling_verts = 0)
    (hbit : d.state.enabled.testBit 15 = is_VAR) :
    ∃ N E,
      RESET is_VAR was_VAR (jwzgles_glEnableClientState false · GL_COLOR_ARRAY)
          (jwzgles_glDisableClientState false · GL_COLOR_ARRAY) d =
        { d with
            state := { d.state with set := { d.state.set with ccount := N }, enabled := E },
            calls := d.calls ++
              if (is_VAR != was_VAR) = true then
                (if was_VAR = true then [.glEnableClientState GL_COLOR_ARRAY]
                 else [.glDisableClientState GL_COLOR_ARRAY])
              else [] } ∧
      E.testBit 15 = was_VAR ∧
      ∀ i, i ≠ 15 → E.testBit i = d.state.enabled.testBit i := by
  refine ⟨if (is_VAR != was_VAR) = true then
              (if was_VAR = true then d.state.set.ccount + 2 else 0)
            else d.state.set.ccount,
          if (is_VAR != was_VAR) = true then
            (if was_VAR = true then d.state.enabled ||| ISENABLED_COLOR_ARRAY
             else andNot d.state.enabled ISENABLED_COLOR_ARRAY)
          else d.state.enabled, ?_, ?_, ?_⟩
  · rw [RESET_COLOR_eq _ _ _ hd0]
    have hh : hasFlag d.state.enabled ISENABLED_COLOR_ARRAY = is_VAR := by
      rw [hasFlag_COLOR_ARRAY]; exact hbit
    rw [hh]
    cases is_VAR <;> cases was_VAR <;> simp
  · cases is_VAR <;> cases was_VAR <;>
      simp [testBit_ite, testBit_COLOR_ARRAY, testBit_or_COLOR_ARRAY, testBit_andNot_COLOR_ARRAY, hbit]
  · intro i hi
    have hi' : ¬ 15 = i := fun h => hi h.symm
    cases is_VAR <;> cases was_VAR <;>
      simp [testBit_ite, testBit_COLOR_ARRAY, testBit_or_COLOR_ARRAY, testBit_andNot_COLOR_ARRAY, hi']

theorem RESET_COLOR_MATERIAL_spec (is_VAR was_VAR : Bool) (d : Ctx)
    (hbit : d.state.enabled.testBit 11 = (was_VAR || is_VAR))
    (hexcl : is_VAR = true → was_VAR = false) :
    ∃ E,
      RESET is_VAR was_VAR (jwzgles_glEnable false · GL_COLOR_MATERIAL)
          (jwzgles_glDisable false · GL_COLOR_MATERIAL) d =
        { d with
            state := { d.state with enabled := E },
            calls := d.calls ++ if is_VAR = true then [.glDisable GL_COLOR_MATERIAL] else [] } ∧
      E.testBit 11 = was_VAR ∧
      ∀ i, i ≠ 11 → E.testBit i = d.state.enabled.testBit i := by
  refine ⟨if (is_VAR != was_VAR) = true then
            (if was_VAR = true then d.state.enabled ||| ISENABLED_COLMAT
             else andNot d.state.enabled ISENABLED_COLMAT)
          else d.state.enabled, ?_, ?_, ?_⟩
  · rw [RESET_COLOR_MATERIAL_eq]
    have hh : hasFlag d.state.enabled ISENABLED_COLMAT = (was_VAR || is_VAR) := by
      rw [hasFlag_COLMAT]; exact hbit
    rw [hh]
    cases is_VAR <;> cases was_VAR <;> simp_all
  · cases is_VAR <;> cases was_VAR <;>
      simp_all [testBit_ite, testBit_COLMAT, testBit_or_COLMAT, testBit_andNot_COLMAT]
  · intro i hi
    have hi' : ¬ 11 = i := fun h => hi h.symm
    cases is_VAR <;> cases was_VAR <;>
      simp [testBit_ite, testBit_COLMAT, testBit_or_COLMAT, testBit_andNot_COLMAT, hi']

/-- What glEnd does after its draw block, for a context `d` in which the
capabilities are as glEnd set them for the draw. -/
theorem glEnd_finish_facts (c d : Ctx) (hd0 : d.state.compiling_verts = 0)
    (h13 : d.state.enabled.testBit 13 = decide (1 < c.state.set.ncount))
    (h14 : d.state.enabled.testBit 14 = decide (1 < c.state.set.tcount ∨
        hasFlag c.state.enabled ISENABLED_TEXTURE_GEN_ANY = true))
    (h15 : d.state.enabled.testBit 15 = decide (1 < c.state.set.ccount))
    (h11 : d.state.enabled.testBit 11 =
        (c.state.enabled.testBit 11 || decide (c.state.set.materialistic ≠ 0))) :
    ((glEnd_finish c d).state.enabled.testBit 13 = c.state.enabled.testBit 13 ∧
     (glEnd_finish c d).state.enabled.testBit 14 = c.state.enabled.testBit 14 ∧
     (glEnd_finish c d).state.enabled.testBit 15 = c.state.enabled.testBit 15 ∧
     (glEnd_finish c d).state.enabled.testBit 11 = c.state.enabled.testBit 11 ∧
     (∀ i, i ≠ 11 → i ≠ 13 → i ≠ 14 → i ≠ 15 →
        (glEnd_finish c d).state.enabled.testBit i = d.state.enabled.testBit i)) ∧
    (glEnd_finish c d).calls = d.calls ++ glEnd_postCalls c.state.set c.state.enabled ∧
    ((glEnd_finish c d).state.set.count = 0 ∧ (glEnd_finish c d).state.set.ncount = 0 ∧
     (glEnd_finish c d).state.set.tcount = 0 ∧ (glEnd_finish c d).state.set.ccount = 0 ∧
     (glEnd_finish c d).state.set.materialistic = 0 ∧
     (glEnd_finish c d).state.compiling_verts = 0) ∧
    ((glEnd_finish c d).gl = d.gl ∧ (glEnd_finish c d).w = d.w ∧
     (glEnd_finish c d).asserts = d.asserts ∧
     (glEnd_finish c d).state.set.mode = d.state.set.mode ∧
     (glEnd_finish c d).state.set.size = d.state.set.size ∧
     (glEnd_finish c d).state.set.verts = d.state.set.verts ∧
     (glEnd_finish c d).state.set.norms = d.state.set.norms ∧
     (glEnd_finish c d).state.set.tex = d.state.set.tex ∧
     (glEnd_finish c d).state.set.color = d.state.set.color ∧
     (glEnd_finish c d).state.set.cnorm = d.state.set.cnorm ∧
     (glEnd_finish c d).state.set.ctex = d.state.set.ctex ∧
     (glEnd_finish c d).state.set.ccolor = d.state.set.ccolor) := by
  obtain ⟨N1, E1, e1, b1, f1⟩ := RESET_NORMAL_spec (decide (1 < c.state.set.ncount))
    (hasFlag c.state.enabled ISENABLED_NORM_ARRAY) d hd0 h13
  obtain ⟨N2, E2, e2, b2, f2⟩ := RESET_TEXCOORD_spec
    (decide (1 < c.state.set.tcount ∨ hasFlag c.state.enabled ISENABLED_TEXTURE_GEN_ANY = true))
    (hasFlag c.state.enabled ISENABLED_TEX_ARRAY) _
    (show (RESET _ _ _ _ d).state.compiling_verts = 0 by rw [e1]; exact hd0)
    (show (RESET _ _ _ _ d).state.enabled.testBit 14 = _ by
      rw [e1]; exact (f1 14 (by decide)).trans h14)
  simp only [e1] at e2 f2
  obtain ⟨N3, E3, e3, b3, f3⟩ := RESET_COLOR_spec (decide (1 < c.state.set.ccount))
    (hasFlag c.state.enabled ISENABLED_COLOR_ARRAY) _
    (show (RESET _ _ _ _ (RESET _ _ _ _ d)).state.compiling_verts = 0 by
      rw [e1, e2]; exact hd0)
    (show (RESET _ _ _ _ (RESET _ _ _ _ d)).state.enabled.testBit 15 = _ by
      rw [e1, e2]; exact ((f2 15 (by decide)).trans (f1 15 (by decide))).trans h15)
  simp only [e1, e2] at e3 f3
  obtain ⟨E4, e4, b4, f4⟩ := RESET_COLOR_MATERIAL_spec
    (decide (c.state.set.materialistic ≠ 0 ∧ hasFlag c.state.enabled ISENABLED_COLMAT = false))
    (hasFlag c.state.enabled ISENABLED_COLMAT) _
    (show (RESET _ _ _ _ (RESET _ _ _ _ (RESET _ _ _ _ d))).state.enabled.testBit 11 = _ by
      rw [e1, e2, e3]
      refine (((f3 11 (by decide)).trans (f2 11 (by decide))).trans
        (f1 11 (by decide))).trans (h11.trans ?_)
      rw [hasFlag_COLMAT]
      cases c.state.enabled.testBit 11 <;> simp)
    (by simp)
  simp only [e1, e2, e3] at e4 f4
  have hfin : glEnd_finish c d =
      { d with
          state := { d.state with
            set := { d.state.set with count := 0, ncount := 0, tcount := 0, ccount := 0,
                                      materialistic := 0 },
            enabled := E4 },
          calls := d.calls ++ glEnd_postCalls c.state.set c.state.enabled } := by
    simp only [glEnd_finish]
    rw [e1, e2, e3, e4]
    simp [glEnd_postCalls]
  rw [hfin]
  refine ⟨⟨?_, ?_, ?_, ?_, ?_⟩, rfl, ⟨rfl, rfl, rfl, rfl, rfl, hd0⟩,
    rfl, rfl, rfl, rfl, rfl, rfl, rfl, rfl, rfl, rfl, rfl, rfl⟩
  · show E4.testBit 13 = _
    rw [f4 13 (by decide), f3 13 (by decide), f2 13 (by decide), b1, hasFlag_NORM_ARRAY]
  · show E4.testBit 14 = _
    rw [f4 14 (by decide), f3 14 (by decide), b2, hasFlag_TEX_ARRAY]
  · show E4.testBit 15 = _
    rw [f4 15 (by decide), b3, hasFlag_COLOR_ARRAY]
  · show E4.testBit 11 = _
    rw [b4, hasFlag_COLMAT]
  · intro i i11 i13 i14 i15
    show E4.testBit i = _
    rw [f4 i i11, f3 i i15, f2 i i14, f1 i i13]


/-- The whole of glEnd on a batch that is open once and holds at least one
vertex: the renderer calls it issues, the state its one draw call sees, and
the state it leaves. -/
theorem glEnd_whole (c : Ctx) (hcv : c.state.compiling_verts = 1)
    (hcount : c.state.set.count ≠ 0) :
    ∃ E X d,
      (jwzgles_glEnd_REMOVED c).calls =
        c.calls ++ (glEnd_preCalls c.state.set c.state.enabled ++
          ([.glBindBuffer GL_ARRAY_BUFFER 0] ++ (d ++
            [.glDrawArrays (normalizedSet c.state.set).mode 0 (normalizedSet c.state.set).count
              ⟨E, { boundArrays (normalizedSet c.state.set) c.gl.array_buffer with
                      texcoord := X }, c.w.vertexattribs⟩,
             .glBindBuffer GL_ARRAY_BUFFER 0] ++
          glEnd_postCalls c.state.set c.state.enabled))) ∧
      (∀ x ∈ d, ∃ a b p, x = .glTexCoordPointer a GL_FLOAT b p) ∧
      (hasFlag c.state.enabled ISENABLED_TEXTURE_GEN_ANY = false →
        d = [] ∧
        X = (boundArrays (normalizedSet c.state.set) c.gl.array_buffer).texcoord) ∧
      (E.testBit 13 = decide (1 < c.state.set.ncount) ∧
       E.testBit 14 = decide (1 < c.state.set.tcount ∨
          hasFlag c.state.enabled ISENABLED_TEXTURE_GEN_ANY = true) ∧
       E.testBit 15 = decide (1 < c.state.set.ccount) ∧
       E.testBit 12 = true ∧
       E.testBit 11 = (c.state.enabled.testBit 11 || decide (c.state.set.materialistic ≠ 0))) ∧
      ((jwzgles_glEnd_REMOVED c).state.enabled.testBit 12 = true ∧
       ∀ i, i ≠ 12 →
        (jwzgles_glEnd_REMOVED c).state.enabled.testBit i = c.state.enabled.testBit i) ∧
      ((jwzgles_glEnd_REMOVED c).state.set.count = 0 ∧
       (jwzgles_glEnd_REMOVED c).state.set.ncount = 0 ∧
       (jwzgles_glEnd_REMOVED c).state.set.tcount = 0 ∧
       (jwzgles_glEnd_REMOVED c).state.set.ccount = 0 ∧
       (jwzgles_glEnd_REMOVED c).state.set.materialistic = 0 ∧
       (jwzgles_glEnd_REMOVED c).state.compiling_verts = 0) := by
  obtain ⟨⟨a13, a14, a15, a12, a11, aother⟩,
    ⟨a0, aw, agl, amode, acount, _, _, _, _, _, _, _, _, _, _, _, _⟩, acalls⟩ :=
    glEnd_atDraw_facts c hcv
  have hany : hasFlag (glEnd_atDraw c).state.enabled ISENABLED_TEXTURE_GEN_ANY =
      hasFlag c.state.enabled ISENABLED_TEXTURE_GEN_ANY := by
    rw [hasFlag_TEXTURE_GEN_ANY, hasFlag_TEXTURE_GEN_ANY,
      aother 1 (Or.inl (by decide)), aother 2 (Or.inl (by decide)),
      aother 3 (Or.inl (by decide)), aother 4 (Or.inl (by decide))]
  obtain ⟨T, P, X, d, A, hD, hd, hnone⟩ := glEnd_draw_eq (glEnd_atDraw c) (by
    intro h
    rw [hany] at h
    rw [hasFlag_TEX_ARRAY, a14]
    simp [h])
  have hD0 : (glEnd_draw (glEnd_atDraw c)).state.compiling_verts = 0 := by rw [hD]; exact a0
  have hDe : (glEnd_draw (glEnd_atDraw c)).state.enabled = (glEnd_atDraw c).state.enabled := by
    rw [hD]
  obtain ⟨⟨f13, f14, f15, f11, fother⟩, fcalls, ⟨z1, z2, z3, z4, z5, z6⟩, _⟩ :=
    glEnd_finish_facts c (glEnd_draw (glEnd_atDraw c)) hD0 (by rw [hDe]; exact a13)
      (by rw [hDe]; exact a14) (by rw [hDe]; exact a15) (by rw [hDe]; exact a11)
  rw [← glEnd_eq_finish c hcv hcount] at f13 f14 f15 f11 fother fcalls z1 z2 z3 z4 z5 z6
  refine ⟨(glEnd_atDraw c).state.enabled, X, d, ?_, hd, ?_, ⟨a13, a14, a15, a12, a11⟩, ⟨?_, ?_⟩,
    ⟨z1, z2, z3, z4, z5, z6⟩⟩
  · rw [fcalls, hD]
    simp only [acalls, agl, aw, amode, acount, List.append_assoc]
    simp [boundArrays]
  · intro h
    rw [← hany] at h
    obtain ⟨_, _, hX, hd0, _⟩ := hnone h
    exact ⟨hd0, by rw [hX, agl]⟩
  · rw [fother 12 (by decide) (by decide) (by decide) (by decide), hDe]; exact a12
  · intro i hi
    by_cases h11 : i = 11
    · subst h11; exact f11
    by_cases h13 : i = 13
    · subst h13; exact f13
    by_cases h14 : i = 14
    · subst h14; exact f14
    by_cases h15 : i = 15
    · subst h15; exact f15
    rw [fother i h11 h13 h14 h15, hDe]
    exact aother i (by omega)



/-! ## A whole batch: glBegin, the calls, glEnd -/

/-- What the calls inside a batch leave alone. -/
theorem BatchCall.run_frame (c : Ctx) (x : BatchCall) (h : c.state.compiling_verts ≠ 0) :
    (x.run c).calls = c.calls ∧ (x.run c).state.enabled = c.state.enabled ∧
    (x.run c).gl = c.gl ∧ (x.run c).state.set.mode = c.state.set.mode ∧
    (x.run c).state.set.materialistic = c.state.set.materialistic := by
  have hv := glVertex4fv_frame c
  cases x <;>
    simp [BatchCall.run, glNormal3fv_inside, glTexCoord4fv_inside, glColor4fv_inside, h, hv]

theorem runCalls_frame : ∀ (l : List BatchCall) (c : Ctx), c.state.compiling_verts ≠ 0 →
    (runCalls c l).calls = c.calls ∧ (runCalls c l).state.enabled = c.state.enabled ∧
    (runCalls c l).gl = c.gl ∧ (runCalls c l).state.set.mode = c.state.set.mode ∧
    (runCalls c l).state.set.materialistic = c.state.set.materialistic := by
  intro l
  induction l with
  | nil => intro c _; exact ⟨rfl, rfl, rfl, rfl, rfl⟩
  | cons x l ih =>
    intro c h
    have h1 := BatchCall.run_compiling c x h
    obtain ⟨f1, f2, f3, f4, f5⟩ := BatchCall.run_frame c x h
    obtain ⟨g1, g2, g3, g4, g5⟩ := ih (x.run c) (by rw [h1]; exact h)
    rw [runCalls_cons]
    exact ⟨g1.trans f1, g2.trans f2, g3.trans f3, g4.trans f4, g5.trans f5⟩

/-- The open batch just before glEnd, when glBegin was called with no batch
open. -/
theorem openBatch_facts (c : Ctx) (mode : Nat) (calls : List BatchCall)
    (hidle : c.state.compiling_verts = 0) :
    (openBatch c mode calls).state.compiling_verts = 1 ∧
    (openBatch c mode calls).calls = c.calls ∧
    (openBatch c mode calls).state.enabled = c.state.enabled ∧
    (openBatch c mode calls).gl = c.gl ∧
    (openBatch c mode calls).state.set.mode = mode ∧
    (openBatch c mode calls).state.set.count = vertexCalls calls ∧
    (openBatch c mode calls).state.set.materialistic = c.state.set.materialistic := by
  obtain ⟨hs, hcalls, hgl, _⟩ := glBegin_state c mode
  have hcv : (jwzgles_glBegin_REMOVED c mode).state.compiling_verts ≠ 0 := by
    rw [hs]; simp [hidle]
  obtain ⟨f1, f2, f3, f4, f5⟩ := runCalls_frame calls _ hcv
  have hk := runCalls_count calls _ hcv
  have hc := runCalls_compiling calls _ hcv
  unfold openBatch
  refine ⟨?_, f1.trans hcalls, ?_, f3.trans hgl, ?_, ?_, ?_⟩
  · rw [hc, hs]; simp [hidle]
  · rw [f2, hs]
  · rw [f4, hs]
  · rw [hk, hs]; simp
  · rw [f5, hs]

theorem issuedBy_append (b a : Ctx) (l : List GLCall) (h : a.calls = b.calls ++ l) :
    issuedBy b a = l := by
  unfold issuedBy
  rw [h, List.drop_left]

theorem normalizedSet_count (s : vert_set) :
    (normalizedSet s).count = if s.mode = GL_QUADS then s.count * 6 / 4 else s.count := by
  unfold normalizedSet
  by_cases h : s.mode = GL_QUADS
  · simp only [h, if_true]
    cases hv : s.verts <;> simp [convert_quads_to_triangles, cq2t, hv]
    split <;> rfl
  · simp only [h, if_false]
    split
    · rfl
    · split <;> rfl

/-- The calls that glEnd issues for a batch opened from an idle context with
no texture-generation flag cached, and what its draw call sees. -/
theorem glEnd_batch (c : Ctx) (mode : Nat) (calls : List BatchCall)
    (hidle : c.state.compiling_verts = 0)
    (hgen : hasFlag c.state.enabled ISENABLED_TEXTURE_GEN_ANY = false)
    (hN : 1 ≤ vertexCalls calls) :
    ∃ m seen,
      issuedBy (openBatch c mode calls) (jwzgles_glEnd_REMOVED (openBatch c mode calls)) =
        glEnd_preCalls (openBatch c mode calls).state.set c.state.enabled ++
          ([.glBindBuffer GL_ARRAY_BUFFER 0,
            .glDrawArrays m 0
              (if mode = GL_QUADS then vertexCalls calls * 6 / 4 else vertexCalls calls) seen,
            .glBindBuffer GL_ARRAY_BUFFER 0] ++
          glEnd_postCalls (openBatch c mode calls).state.set c.state.enabled) ∧
      seen.arrays =
        boundArrays (normalizedSet (openBatch c mode calls).state.set) c.gl.array_buffer ∧
      seen.enabled.testBit 13 = decide (1 < (openBatch c mode calls).state.set.ncount) ∧
      seen.enabled.testBit 14 = decide (1 < (openBatch c mode calls).state.set.tcount) ∧
      seen.enabled.testBit 15 = decide (1 < (openBatch c mode calls).state.set.ccount) ∧
      seen.enabled.testBit 12 = true ∧
      m = (normalizedSet (openBatch c mode calls).state.set).mode := by
  obtain ⟨b1, b2, b3, b4, b5, b6, _⟩ := openBatch_facts c mode calls hidle
  have hcount : (openBatch c mode calls).state.set.count ≠ 0 := by rw [b6]; omega
  obtain ⟨E, X, d, hcalls, _, hnone, ⟨e13, e14, e15, e12, _⟩, _, _⟩ :=
    glEnd_whole (openBatch c mode calls) b1 hcount
  rw [b3] at hnone hcalls e14
  obtain ⟨hd, hX⟩ := hnone hgen
  subst hd hX
  refine ⟨(normalizedSet (openBatch c mode calls).state.set).mode,
    ⟨E, boundArrays (normalizedSet (openBatch c mode calls).state.set) c.gl.array_buffer,
      (openBatch c mode calls).w.vertexattribs⟩, ?_, rfl, e13, ?_, e15, e12, rfl⟩
  · rw [issuedBy_append _ _ _ hcalls, normalizedSet_count, b5, b6, b4]
    simp [boundArrays]
  · show E.testBit 14 = _
    rw [e14, hgen]; simp

theorem glEnd_preCalls_scalars (s : vert_set) (e : Nat) :
    (glEnd_preCalls s e).filter (fun x => x.isDraw || x.isNormal3f) =
      (if s.ncount = 1 then [.glNormal3f s.cnorm.x s.cnorm.y s.cnorm.z] else []) ∧
    (glEnd_preCalls s e).filter (fun x => x.isDraw || x.isColor4f) =
      (if s.ccount = 1 then [.glColor4f s.ccolor.r s.ccolor.g s.ccolor.b s.ccolor.a]
       else []) := by
  refine ⟨?_, ?_⟩
  · simp [glEnd_preCalls, List.filter_append, filter_ite, GLCall.isDraw, GLCall.isNormal3f]
    omega
  · simp [glEnd_preCalls, List.filter_append, filter_ite, GLCall.isDraw, GLCall.isColor4f]
    omega

theorem glEnd_postCalls_scalars (s : vert_set) (e : Nat) :
    (glEnd_postCalls s e).filter (fun x => x.isDraw || x.isNormal3f) = [] ∧
    (glEnd_postCalls s e).filter (fun x => x.isDraw || x.isColor4f) = [] := by
  refine ⟨?_, ?_⟩
  · simp [glEnd_postCalls, List.filter_append, filter_ite, GLCall.isDraw, GLCall.isNormal3f]
  · simp [glEnd_postCalls, List.filter_append, filter_ite, GLCall.isDraw, GLCall.isColor4f]

/-- The current normal after calls among which the normal is never set. -/
theorem runCalls_cnorm_keep : ∀ (l : List BatchCall) (c : Ctx), c.state.compiling_verts ≠ 0 →
    setterCalls .normal l = 0 → (runCalls c l).state.set.cnorm = c.state.set.cnorm := by
  intro l
  induction l with
  | nil => intro c _ _; rfl
  | cons x l ih =>
    intro c h h0
    have h1 := BatchCall.run_compiling c x h
    have hv := glVertex4fv_frame c
    unfold setterCalls at h0
    rw [List.countP_cons] at h0
    rw [runCalls_cons, ih (x.run c) (by rw [h1]; exact h) (by unfold setterCalls; omega)]
    cases x <;>
      simp_all [BatchCall.run, BatchCall.sets, glTexCoord4fv_inside, glColor4fv_inside]

/-- The current normal after calls among which the normal is set once. -/
theorem runCalls_cnorm_once : ∀ (l : List BatchCall) (c : Ctx), c.state.compiling_verts ≠ 0 →
    setterCalls .normal l = 1 → ∀ v, BatchCall.normal v ∈ l →
    (runCalls c l).state.set.cnorm = v := by
  intro l
  induction l with
  | nil => intro c _ _ v hv; simp at hv
  | cons x l ih =>
    intro c h h1 v hv
    have hc := BatchCall.run_compiling c x h
    have hc' : (x.run c).state.compiling_verts ≠ 0 := by rw [hc]; exact h
    unfold setterCalls at h1
    rw [List.countP_cons] at h1
    rw [runCalls_cons]
    by_cases hx : x.sets .normal = true
    · have h0 : setterCalls .normal l = 0 := by
        unfold setterCalls; simp [hx] at h1; simpa using h1
      rw [runCalls_cnorm_keep l _ hc' h0]
      cases x with
      | normal w =>
        rcases List.mem_cons.mp hv with hv | hv
        · cases hv; simp [BatchCall.run, glNormal3fv_inside, h]
        · exfalso
          unfold setterCalls at h0
          rw [List.countP_eq_zero] at h0
          exact h0 _ hv rfl
      | texCoord w => simp [BatchCall.sets] at hx
      | color w => simp [BatchCall.sets] at hx
      | vertex w => simp [BatchCall.sets] at hx
    · have hl : setterCalls .normal l = 1 := by
        unfold setterCalls; simp [hx] at h1; exact h1
      rcases List.mem_cons.mp hv with hv | hv
      · subst hv; simp [BatchCall.sets] at hx
      · exact ih _ hc' hl v hv

/-- The current color after calls among which the color is never set. -/
theorem runCalls_ccolor_keep : ∀ (l : List BatchCall) (c : Ctx), c.state.compiling_verts ≠ 0 →
    setterCalls .color l = 0 → (runCalls c l).state.set.ccolor = c.state.set.ccolor := by
  intro l
  induction l with
  | nil => intro c _ _; rfl
  | cons x l ih =>
    intro c h h0
    have h1 := BatchCall.run_compiling c x h
    have hv := glVertex4fv_frame c
    unfold setterCalls at h0
    rw [List.countP_cons] at h0
    rw [runCalls_cons, ih (x.run c) (by rw [h1]; exact h) (by unfold setterCalls; omega)]
    cases x <;>
      simp_all [BatchCall.run, BatchCall.sets, glTexCoord4fv_inside, glNormal3fv_inside]

/-- The current color after calls among which the color is set once. -/
theorem runCalls_ccolor_once : ∀ (l : List BatchCall) (c : Ctx), c.state.compiling_verts ≠ 0 →
    setterCalls .color l = 1 → ∀ v, BatchCall.color v ∈ l →
    (runCalls c l).state.set.ccolor = v := by
  intro l
  induction l with
  | nil => intro c _ _ v hv; simp at hv
  | cons x l ih =>
    intro c h h1 v hv
    have hc := BatchCall.run_compiling c x h
    have hc' : (x.run c).state.compiling_verts ≠ 0 := by rw [hc]; exact h
    unfold setterCalls at h1
    rw [List.countP_cons] at h1
    rw [runCalls_cons]
    by_cases hx : x.sets .color = true
    · have h0 : setterCalls .color l = 0 := by
        unfold setterCalls; simp [hx] at h1; simpa using h1
      rw [runCalls_ccolor_keep l _ hc' h0]
      cases x with
      | color w =>
        rcases List.mem_cons.mp hv with hv | hv
        · cases hv; simp [BatchCall.run, glColor4fv_inside, h]
        · exfalso
          unfold setterCalls at h0
          rw [List.countP_eq_zero] at h0
          exact h0 _ hv rfl
      | texCoord w => simp [BatchCall.sets] at hx
      | normal w => simp [BatchCall.sets] at hx
      | vertex w => simp [BatchCall.sets] at hx
    · have hl : setterCalls .color l = 1 := by
        unfold setterCalls; simp [hx] at h1; exact h1
      rcases List.mem_cons.mp hv with hv | hv
      · subst hv; simp [BatchCall.sets] at hx
      · exact ih _ hc' hl v hv

theorem floatsXYZ_length (l : List XYZ) : (floatsXYZ l).length = 3 * l.length := by
  induction l with
  | nil => rfl
  | cons v l ih => simp only [floatsXYZ, List.length_cons, ih]; omega

theorem floatsSTRQ_length (l : List STRQ) : (floatsSTRQ l).length = 4 * l.length := by
  induction l with
  | nil => rfl
  | cons v l ih => simp only [floatsSTRQ, List.length_cons, ih]; omega

theorem floatsRGBA_length (l : List RGBA) : (floatsRGBA l).length = 4 * l.length := by
  induction l with
  | nil => rfl
  | cons v l ih => simp only [floatsRGBA, List.length_cons, ih]; omega

/-- The block that cq2t allocates for a non-empty array of one-cell elements
has `count * 6 / 4` cells. -/
theorem cq2t_length_one {α : Type} [Inhabited α] (p : Option (List α)) (n : Nat)
    (hn : n ≠ 0) (hlen : n ≤ (p.getD []).length) :
    (((cq2t p 1 n).array).getD []).length = n * 6 / 4 := by
  cases p with
  | none => simp at hlen; omega
  | some oarray =>
    simp only [Option.getD_some] at hlen
    have hb : 0 + 4 * 1 * (n / 4) ≤ oarray.length := by omega
    have hq := quadsOut_length oarray 1 (n / 4) 0 hb
    simp only [cq2t, hn, if_false, cq2t_loop_eq oarray 1 (n / 4) 0 [] hb, List.nil_append,
      Option.getD_some, List.length_append, List.length_replicate, hq]
    omega

theorem normalizedSet_recorded_of_ne (s : vert_set) (h : s.mode ≠ GL_QUADS) :
    (normalizedSet s).recorded = s.recorded := by
  unfold normalizedSet
  simp only [h, if_false]
  split
  · rfl
  · split <;> rfl

/-- In the set that glEnd draws from, each attribute array holds at least the
`count` elements that are drawn. -/
theorem normalizedSet_recorded_length (s : vert_set) (hwf : s.WF) (h0 : s.count ≠ 0) :
    (normalizedSet s).recorded.2.1.length = (normalizedSet s).count ∧
    (normalizedSet s).recorded.2.2.1.length = (normalizedSet s).count ∧
    (normalizedSet s).recorded.2.2.2.length = (normalizedSet s).count := by
  obtain ⟨hv, hn, ht, hc, hle⟩ := hwf
  by_cases h : s.mode = GL_QUADS
  · have e : normalizedSet s = (convert_quads_to_triangles s).1 := by
      unfold normalizedSet; simp [h]
    have l2 := cq2t_length_one s.norms s.count h0 (by omega)
    have l3 := cq2t_length_one s.tex s.count h0 (by omega)
    have l4 := cq2t_length_one s.color s.count h0 (by omega)
    have hc2 : (cq2t s.verts 1 s.count).count2 = s.count * 6 / 4 := by
      cases hh : s.verts <;> simp [cq2t]
      split <;> rfl
    rw [e]
    simp only [convert_quads_to_triangles, vert_set.recorded, List.length_take, l2, l3, l4, hc2]
    omega
  · have hk : (normalizedSet s).count = s.count := by rw [normalizedSet_count]; simp [h]
    rw [normalizedSet_recorded_of_ne s h, hk]
    simp only [vert_set.recorded, List.length_take]
    omega



/-! ## The claims about glEnd -/

/-- The counter of an attribute when glEnd is reached, for a batch opened from
an idle context. -/
theorem openBatch_counter (a : Attr) (c : Ctx) (mode : Nat) (calls : List BatchCall)
    (hidle : c.state.compiling_verts = 0) :
    setterCalls a calls ≤ a.counter (openBatch c mode calls).state.set ∧
    (a.counter (openBatch c mode calls).state.set = 0 ↔ setterCalls a calls = 0) ∧
    (a.counter (openBatch c mode calls).state.set = 1 ↔
      setterCalls a calls = 1 ∧ setterCalls a (beforeFirstVertex calls) = 1) := by
  obtain ⟨hs, _, _, _⟩ := glBegin_state c mode
  have hcv : (jwzgles_glBegin_REMOVED c mode).state.compiling_verts ≠ 0 := by
    rw [hs]; simp [hidle]
  have hn0 : a.counter (jwzgles_glBegin_REMOVED c mode).state.set = 0 := by
    rw [hs]; cases a <;> rfl
  have hk0 : (jwzgles_glBegin_REMOVED c mode).state.set.count = 0 := by rw [hs]
  obtain ⟨i1, i2, i3⟩ := counter_after_calls a calls _ hcv
  rw [hn0] at i1 i2 i3
  unfold openBatch
  refine ⟨by omega, ⟨fun h => by omega, fun h => i2 rfl h⟩, ?_⟩
  rw [i3]
  constructor
  · rintro (⟨h, _⟩ | ⟨_, _, h1, h2⟩)
    · omega
    · exact ⟨h1, h2⟩
  · rintro ⟨h1, h2⟩
    exact Or.inr ⟨rfl, hk0, h1, h2⟩

/-- C5, counterexample: from the initial state, a GL_QUADS batch of N = 4
vertices is drawn with the count argument 6; and a batch in which the normal
is set twice before the first vertex, and never after it, is drawn with the
normal array enabled. -/
theorem C5_counterexample :
    (vertexCalls oneQuad = 4 ∧
     ((issuedBy (openBatch initial GL_QUADS oneQuad)
        (jwzgles_glEnd_REMOVED (openBatch initial GL_QUADS oneQuad))).filter
          GLCall.isDraw).map GLCall.drawCount = [some 6]) ∧
    (setterCalls .normal twoNormalsFirst = setterCalls .normal (beforeFirstVertex twoNormalsFirst) ∧
     ((issuedBy (openBatch initial GL_TRIANGLES twoNormalsFirst)
        (jwzgles_glEnd_REMOVED (openBatch initial GL_TRIANGLES twoNormalsFirst))).filter
          GLCall.isDraw).map
        (fun x => x.drawSeen.map (fun s => hasFlag s.enabled ISENABLED_NORM_ARRAY)) =
       [some true]) := by
  decide

/-- C5 (amended): for every topology and every batch of the array path opened
from an idle context with no texture-generation flag cached (glBegin, N >= 1
vertex appends, glEnd) in which each of the normal, texcoord and color setters
is called at most once and never after the first vertex, glEnd issues exactly
one draw call, a glDrawArrays whose count argument is N, or N * 6 / 4 when the
topology is GL_QUADS, and at the moment of that draw the normal, texcoord and
color arrays are all disabled in `enabled`. -/
theorem C5_one_draw_attribute_arrays_disabled (c : Ctx) (mode : Nat) (calls : List BatchCall)
    (hidle : c.state.compiling_verts = 0)
    (hgen : hasFlag c.state.enabled ISENABLED_TEXTURE_GEN_ANY = false)
    (hN : 1 ≤ vertexCalls calls)
    (honce : ∀ a : Attr, setterCalls a calls ≤ 1)
    (hearly : ∀ a : Attr, setterCalls a (beforeFirstVertex calls) = setterCalls a calls) :
    ∃ m seen,
      (issuedBy (openBatch c mode calls)
          (jwzgles_glEnd_REMOVED (openBatch c mode calls))).filter GLCall.isDraw =
        [.glDrawArrays m 0
          (if mode = GL_QUADS then vertexCalls calls * 6 / 4 else vertexCalls calls) seen] ∧
      hasFlag seen.enabled ISENABLED_NORM_ARRAY = false ∧
      hasFlag seen.enabled ISENABLED_TEX_ARRAY = false ∧
      hasFlag seen.enabled ISENABLED_COLOR_ARRAY = false := by
  obtain ⟨m, seen, hcalls, _, e13, e14, e15, _⟩ := glEnd_batch c mode calls hidle hgen hN
  have hle : ∀ a : Attr, a.counter (openBatch c mode calls).state.set ≤ 1 := by
    intro a
    obtain ⟨_, h0, h1⟩ := openBatch_counter a c mode calls hidle
    have ho := honce a
    have he := hearly a
    by_cases hz : setterCalls a calls = 0
    · have := h0.mpr hz; omega
    · have := h1.mpr ⟨by omega, by omega⟩; omega
  have hn := hle .normal
  have ht := hle .texCoord
  have hc := hle .color
  simp only [Attr.counter] at hn ht hc
  refine ⟨m, seen, ?_, ?_, ?_, ?_⟩
  · rw [hcalls]
    simp only [List.filter_append, (glEnd_preCalls_filter _ _).1, (glEnd_postCalls_filter _ _).1]
    simp [GLCall.isDraw]
  · rw [hasFlag_NORM_ARRAY, e13]; simp; omega
  · rw [hasFlag_TEX_ARRAY, e14]; simp; omega
  · rw [hasFlag_COLOR_ARRAY, e15]; simp; omega

/-- Witness of C5: three vertices after one normal, one texture coordinate and
one color, from the initial state. -/
theorem C5_one_draw_attribute_arrays_disabled_witness :
    (initial.state.compiling_verts = 0 ∧
     hasFlag initial.state.enabled ISENABLED_TEXTURE_GEN_ANY = false ∧
     1 ≤ vertexCalls constantBatch) ∧
    ∃ m seen,
      (issuedBy (openBatch initial GL_TRIANGLES constantBatch)
          (jwzgles_glEnd_REMOVED (openBatch initial GL_TRIANGLES constantBatch))).filter
            GLCall.isDraw =
        [.glDrawArrays m 0
          (if GL_TRIANGLES = GL_QUADS then vertexCalls constantBatch * 6 / 4
           else vertexCalls constantBatch) seen] ∧
      hasFlag seen.enabled ISENABLED_NORM_ARRAY = false ∧
      hasFlag seen.enabled ISENABLED_TEX_ARRAY = false ∧
      hasFlag seen.enabled ISENABLED_COLOR_ARRAY = false :=
  ⟨⟨by decide, by decide, by decide⟩,
   C5_one_draw_attribute_arrays_disabled initial GL_TRIANGLES constantBatch (by decide)
     (by decide) (by decide) (fun a => by cases a <;> decide)
     (fun a => by cases a <;> decide)⟩

theorem glEnd_preCalls_other (s : vert_set) (e : Nat) :
    (glEnd_preCalls s e).filter (fun x => !(x.isPointer || x.isToggle || x.isDraw ||
        x.isNormal3f || x.isColor4f)) = [.glBindBuffer GL_ARRAY_BUFFER 0] := by
  simp [glEnd_preCalls, List.filter_append, filter_ite, GLCall.isDraw, GLCall.isPointer,
    GLCall.isToggle, GLCall.isNormal3f, GLCall.isColor4f]

theorem glEnd_postCalls_other (s : vert_set) (e : Nat) :
    (glEnd_postCalls s e).filter (fun x => !(x.isPointer || x.isToggle || x.isDraw ||
        x.isNormal3f || x.isColor4f)) = [] := by
  simp [glEnd_postCalls, List.filter_append, filter_ite, GLCall.isDraw, GLCall.isPointer,
    GLCall.isToggle, GLCall.isNormal3f, GLCall.isColor4f]

/-- C6, the code at the failing input: from the state after jwzgles_reset, in
a batch of the array path with one vertex the texture coordinate (1, 2, 3, 4)
is set once, before the vertex, and glEnd finds it recorded as the current
coordinate.  Apart from array bindings, capability toggles and the draw call,
glEnd issues only its three glBindBuffer calls: the coordinate is not
forwarded to the renderer as a scalar call, where the claim has it forwarded
exactly once before the draw call. -/
theorem C6_constant_texcoord_is_not_forwarded :
    setterCalls .texCoord texCoordOnce = 1 ∧
    setterCalls .texCoord (beforeFirstVertex texCoordOnce) = 1 ∧
    (openBatch initial GL_TRIANGLES texCoordOnce).state.set.ctex = ⟨1, 2, 3, 4⟩ ∧
    (issuedBy (openBatch initial GL_TRIANGLES texCoordOnce)
        (jwzgles_glEnd_REMOVED (openBatch initial GL_TRIANGLES texCoordOnce))).filter
          (fun x => !(x.isPointer || x.isToggle || x.isDraw)) =
      [.glBindBuffer GL_ARRAY_BUFFER 0, .glBindBuffer GL_ARRAY_BUFFER 0,
       .glBindBuffer GL_ARRAY_BUFFER 0] := by
  decide

/-- The constant-attribute case as the code has it, for a batch of the array
path with at least one vertex, opened from an idle context with no
texture-generation flag cached.  If the normal is set exactly once and before
the first vertex, then the normal array is disabled at the moment of the draw
call and glEnd forwards the value exactly once, as a glNormal3f call before
the draw call; likewise for the color and glColor4f.  If the texture
coordinate is set exactly once and before the first vertex, then the texcoord
array is disabled at the moment of the draw call, and no scalar call forwards
the value: apart from array bindings, capability toggles, the draw call and
the glNormal3f and glColor4f calls, glEnd issues only its three glBindBuffer
calls. -/
theorem constant_attribute_forwarded_once (c : Ctx) (mode : Nat) (calls : List BatchCall)
    (hidle : c.state.compiling_verts = 0)
    (hgen : hasFlag c.state.enabled ISENABLED_TEXTURE_GEN_ANY = false)
    (hN : 1 ≤ vertexCalls calls) :
    ∃ m n seen,
      (issuedBy (openBatch c mode calls)
          (jwzgles_glEnd_REMOVED (openBatch c mode calls))).filter GLCall.isDraw =
        [.glDrawArrays m 0 n seen] ∧
      (∀ v, setterCalls .normal calls = 1 → setterCalls .normal (beforeFirstVertex calls) = 1 →
        BatchCall.normal v ∈ calls →
        hasFlag seen.enabled ISENABLED_NORM_ARRAY = false ∧
        (issuedBy (openBatch c mode calls)
            (jwzgles_glEnd_REMOVED (openBatch c mode calls))).filter
              (fun x => x.isDraw || x.isNormal3f) =
          [.glNormal3f v.x v.y v.z, .glDrawArrays m 0 n seen]) ∧
      (∀ v, setterCalls .color calls = 1 → setterCalls .color (beforeFirstVertex calls) = 1 →
        BatchCall.color v ∈ calls →
        hasFlag seen.enabled ISENABLED_COLOR_ARRAY = false ∧
        (issuedBy (openBatch c mode calls)
            (jwzgles_glEnd_REMOVED (openBatch c mode calls))).filter
              (fun x => x.isDraw || x.isColor4f) =
          [.glColor4f v.r v.g v.b v.a, .glDrawArrays m 0 n seen]) ∧
      (setterCalls .texCoord calls = 1 → setterCalls .texCoord (beforeFirstVertex calls) = 1 →
        hasFlag seen.enabled ISENABLED_TEX_ARRAY = false ∧
        (issuedBy (openBatch c mode calls)
            (jwzgles_glEnd_REMOVED (openBatch c mode calls))).filter
              (fun x => !(x.isPointer || x.isToggle || x.isDraw || x.isNormal3f ||
                x.isColor4f)) =
          [.glBindBuffer GL_ARRAY_BUFFER 0, .glBindBuffer GL_ARRAY_BUFFER 0,
           .glBindBuffer GL_ARRAY_BUFFER 0]) := by
  obtain ⟨m, seen, hcalls, _, e13, e14, e15, _⟩ := glEnd_batch c mode calls hidle hgen hN
  obtain ⟨hs, _, _, _⟩ := glBegin_state c mode
  have hcv : (jwzgles_glBegin_REMOVED c mode).state.compiling_verts ≠ 0 := by
    rw [hs]; simp [hidle]
  refine ⟨m, (if mode = GL_QUADS then vertexCalls calls * 6 / 4 else vertexCalls calls), seen,
    ?_, ?_, ?_, ?_⟩
  · rw [hcalls]
    simp only [List.filter_append, (glEnd_preCalls_filter _ _).1, (glEnd_postCalls_filter _ _).1]
    simp [GLCall.isDraw]
  · intro v h1 h2 hv
    have hk : (openBatch c mode calls).state.set.ncount = 1 :=
      (openBatch_counter .normal c mode calls hidle).2.2.mpr ⟨h1, h2⟩
    have hval : (openBatch c mode calls).state.set.cnorm = v :=
      runCalls_cnorm_once calls _ hcv h1 v hv
    refine ⟨by rw [hasFlag_NORM_ARRAY, e13, hk]; simp, ?_⟩
    rw [hcalls]
    simp only [List.filter_append, (glEnd_preCalls_scalars _ _).1,
      (glEnd_postCalls_scalars _ _).1, hk, hval]
    simp [GLCall.isDraw, GLCall.isNormal3f]
  · intro v h1 h2 hv
    have hk : (openBatch c mode calls).state.set.ccount = 1 :=
      (openBatch_counter .color c mode calls hidle).2.2.mpr ⟨h1, h2⟩
    have hval : (openBatch c mode calls).state.set.ccolor = v :=
      runCalls_ccolor_once calls _ hcv h1 v hv
    refine ⟨by rw [hasFlag_COLOR_ARRAY, e15, hk]; simp, ?_⟩
    rw [hcalls]
    simp only [List.filter_append, (glEnd_preCalls_scalars _ _).2,
      (glEnd_postCalls_scalars _ _).2, hk, hval]
    simp [GLCall.isDraw, GLCall.isColor4f]
  · intro h1 h2
    have hk : (openBatch c mode calls).state.set.tcount = 1 :=
      (openBatch_counter .texCoord c mode calls hidle).2.2.mpr ⟨h1, h2⟩
    refine ⟨by rw [hasFlag_TEX_ARRAY, e14, hk]; simp, ?_⟩
    rw [hcalls]
    simp only [List.filter_append, glEnd_preCalls_other, glEnd_postCalls_other]
    simp [GLCall.isDraw, GLCall.isPointer, GLCall.isToggle, GLCall.isNormal3f,
      GLCall.isColor4f]

/-- The constant normal of a batch is forwarded once: three vertices after one
normal, one texture coordinate and one color, from the initial state. -/
theorem constant_attribute_forwarded_once_example :
    (initial.state.compiling_verts = 0 ∧
     hasFlag initial.state.enabled ISENABLED_TEXTURE_GEN_ANY = false ∧
     1 ≤ vertexCalls constantBatch) ∧
    ∃ m n seen,
      (issuedBy (openBatch initial GL_TRIANGLES constantBatch)
          (jwzgles_glEnd_REMOVED (openBatch initial GL_TRIANGLES constantBatch))).filter
            GLCall.isDraw =
        [.glDrawArrays m 0 n seen] ∧
      hasFlag seen.enabled ISENABLED_NORM_ARRAY = false ∧
      (issuedBy (openBatch initial GL_TRIANGLES constantBatch)
          (jwzgles_glEnd_REMOVED (openBatch initial GL_TRIANGLES constantBatch))).filter
            (fun x => x.isDraw || x.isNormal3f) =
        [.glNormal3f 0 0 1, .glDrawArrays m 0 n seen] :=
  ⟨⟨by decide, by decide, by decide⟩,
   (constant_attribute_forwarded_once initial GL_TRIANGLES constantBatch (by decide)
      (by decide) (by decide)).elim fun m h => h.elim fun n h => h.elim fun seen h =>
        ⟨m, n, seen, h.1, h.2.1 ⟨0, 0, 1⟩ (by decide) (by decide) (by decide)⟩⟩

theorem floatsXYZ_take : ∀ (l : List XYZ) (k : Nat),
    floatsXYZ (l.take k) = (floatsXYZ l).take (3 * k) := by
  intro l
  induction l with
  | nil => intro k; simp [floatsXYZ]
  | cons v l ih =>
    intro k
    cases k with
    | zero => simp [floatsXYZ]
    | succ k =>
      have e : 3 * (k + 1) = 3 * k + 1 + 1 + 1 := by ring
      simp only [List.take_succ_cons, floatsXYZ, e, ih]

theorem floatsSTRQ_take : ∀ (l : List STRQ) (k : Nat),
    floatsSTRQ (l.take k) = (floatsSTRQ l).take (4 * k) := by
  intro l
  induction l with
  | nil => intro k; simp [floatsSTRQ]
  | cons v l ih =>
    intro k
    cases k with
    | zero => simp [floatsSTRQ]
    | succ k =>
      have e : 4 * (k + 1) = 4 * k + 1 + 1 + 1 + 1 := by ring
      simp only [List.take_succ_cons, floatsSTRQ, e, ih]

theorem floatsRGBA_take : ∀ (l : List RGBA) (k : Nat),
    floatsRGBA (l.take k) = (floatsRGBA l).take (4 * k) := by
  intro l
  induction l with
  | nil => intro k; simp [floatsRGBA]
  | cons v l ih =>
    intro k
    cases k with
    | zero => simp [floatsRGBA]
    | succ k =>
      have e : 4 * (k + 1) = 4 * k + 1 + 1 + 1 + 1 := by ring
      simp only [List.take_succ_cons, floatsRGBA, e, ih]

/-- The floats of the recorded cells are the first floats of the array. -/
theorem Attr.recorded_eq_take (a : Attr) (s : vert_set) :
    a.recorded s = (a.storage s).take (a.width * s.count) := by
  cases a
  · exact floatsXYZ_take _ _
  · exact floatsSTRQ_take _ _
  · exact floatsRGBA_take _ _

theorem Attr.recorded_length (a : Attr) (s : vert_set) (hwf : s.WF) (h0 : s.count ≠ 0) :
    (a.recorded (normalizedSet s)).length = a.width * (normalizedSet s).count := by
  obtain ⟨l1, l2, l3⟩ := normalizedSet_recorded_length s hwf h0
  cases a
  · simp only [Attr.recorded, floatsXYZ_length, l1, Attr.width]
  · simp only [Attr.recorded, floatsSTRQ_length, l2, Attr.width]
  · simp only [Attr.recorded, floatsRGBA_length, l3, Attr.width]

/-- The arrays of the open batch just before glEnd hold, for each appended
vertex in order, its position and the attribute values in force. -/
theorem openBatch_recorded (c : Ctx) (mode : Nat) (calls : List BatchCall)
    (hidle : c.state.compiling_verts = 0) (hwf : c.state.set.WF) :
    (openBatch c mode calls).state.set.WF ∧
    (openBatch c mode calls).state.set.recorded =
      (appendedVerts calls, normalsInForce c.state.set.cnorm calls,
       texCoordsInForce c.state.set.ctex calls, colorsInForce c.state.set.ccolor calls) := by
  obtain ⟨hs, _, _, _⟩ := glBegin_state c mode
  have hcv : (jwzgles_glBegin_REMOVED c mode).state.compiling_verts ≠ 0 := by
    rw [hs]; simp [hidle]
  have hwf0 : (jwzgles_glBegin_REMOVED c mode).state.set.WF := by
    rw [hs]
    obtain ⟨h1, h2, h3, h4, _⟩ := hwf
    exact ⟨h1, h2, h3, h4, Nat.zero_le _⟩
  obtain ⟨w1, r1⟩ := runCalls_recorded calls _ hcv hwf0
  refine ⟨w1, ?_⟩
  unfold openBatch; rw [r1, hs]
  simp [vert_set.recorded]

/-- C7: varying-attribute case.  For each attribute (normal, texcoord, color)
and every batch of the array path opened from an idle context with no
texture-generation flag cached: if the attribute is set two or more times with
at least one of the calls after the first vertex, then glEnd issues one draw
call, at the moment of it the client array of the attribute is enabled, and
its array pointer is bound to the array of the attribute in the set, which
holds the n elements that the draw call is told to draw; unless the topology
is GL_QUADS, n is the number of appended vertices and these n elements are the
attribute values in force at each appended vertex, in order. -/
theorem C7_varying_attribute_array_bound (a : Attr) (c : Ctx) (mode : Nat)
    (calls : List BatchCall)
    (hidle : c.state.compiling_verts = 0)
    (hgen : hasFlag c.state.enabled ISENABLED_TEXTURE_GEN_ANY = false)
    (hwf : c.state.set.WF)
    (htwo : 2 ≤ setterCalls a calls)
    (hlate : ∃ pre x post, calls = pre ++ x :: post ∧ x.sets a = true ∧ 0 < vertexCalls pre) :
    ∃ m n seen,
      (issuedBy (openBatch c mode calls)
          (jwzgles_glEnd_REMOVED (openBatch c mode calls))).filter GLCall.isDraw =
        [.glDrawArrays m 0 n seen] ∧
      hasFlag seen.enabled a.flag = true ∧
      (a.array seen.arrays).data =
        .heap (a.storage (normalizedSet (openBatch c mode calls).state.set)) ∧
      a.width * n ≤ (a.storage (normalizedSet (openBatch c mode calls).state.set)).length ∧
      (mode ≠ GL_QUADS →
        n = vertexCalls calls ∧
        (a.storage (normalizedSet (openBatch c mode calls).state.set)).take (a.width * n) =
          a.inForce c.state.set calls) := by
  have hN : 1 ≤ vertexCalls calls := by
    obtain ⟨pre, x, post, e, _, hp⟩ := hlate
    subst e
    unfold vertexCalls at hp ⊢
    rw [List.countP_append]
    omega
  obtain ⟨m, seen, hcalls, harr, e13, e14, e15, _⟩ := glEnd_batch c mode calls hidle hgen hN
  obtain ⟨b1, b2, b3, b4, b5, b6, _⟩ := openBatch_facts c mode calls hidle
  obtain ⟨bwf, brec⟩ := openBatch_recorded c mode calls hidle hwf
  have hcount : (openBatch c mode calls).state.set.count ≠ 0 := by rw [b6]; omega
  have hk := (openBatch_counter a c mode calls hidle).1
  have hn : (normalizedSet (openBatch c mode calls).state.set).count =
      if mode = GL_QUADS then vertexCalls calls * 6 / 4 else vertexCalls calls := by
    rw [normalizedSet_count, b5, b6]
  have hlen := Attr.recorded_length a _ bwf hcount
  have htake := Attr.recorded_eq_take a (normalizedSet (openBatch c mode calls).state.set)
  rw [hn] at hlen htake
  refine ⟨m, (if mode = GL_QUADS then vertexCalls calls * 6 / 4 else vertexCalls calls), seen,
    ?_, ?_, ?_, ?_, ?_⟩
  · rw [hcalls]
    simp only [List.filter_append, (glEnd_preCalls_filter _ _).1, (glEnd_postCalls_filter _ _).1]
    simp [GLCall.isDraw]
  · cases a
    · simp only [Attr.flag, Attr.counter] at hk ⊢
      rw [hasFlag_NORM_ARRAY, e13]; simp; omega
    · simp only [Attr.flag, Attr.counter] at hk ⊢
      rw [hasFlag_TEX_ARRAY, e14]; simp; omega
    · simp only [Attr.flag, Attr.counter] at hk ⊢
      rw [hasFlag_COLOR_ARRAY, e15]; simp; omega
  · rw [harr]
    cases a <;> rfl
  · rw [htake, List.length_take] at hlen
    omega
  · intro hq
    have hrec : (normalizedSet (openBatch c mode calls).state.set).recorded =
        (openBatch c mode calls).state.set.recorded :=
      normalizedSet_recorded_of_ne _ (by rw [b5]; exact hq)
    refine ⟨by simp [hq], ?_⟩
    rw [← htake]
    cases a <;> simp only [Attr.recorded, Attr.inForce, hrec, brec]

/-- Witness of C7: the normal is set before the first vertex and again before
the second, from the initial state. -/
theorem C7_varying_attribute_array_bound_witness :
    (initial.state.compiling_verts = 0 ∧
     hasFlag initial.state.enabled ISENABLED_TEXTURE_GEN_ANY = false ∧
     initial.state.set.WF ∧ 2 ≤ setterCalls .normal varyingBatch) ∧
    ∃ m n seen,
      (issuedBy (openBatch initial GL_TRIANGLES varyingBatch)
          (jwzgles_glEnd_REMOVED (openBatch initial GL_TRIANGLES varyingBatch))).filter
            GLCall.isDraw =
        [.glDrawArrays m 0 n seen] ∧
      hasFlag seen.enabled ISENABLED_NORM_ARRAY = true ∧
      n = 3 ∧
      (Attr.normal.storage
          (normalizedSet (openBatch initial GL_TRIANGLES varyingBatch).state.set)).take
            (3 * n) =
        [0, 0, 1, 0, 1, 0, 0, 1, 0] :=
  ⟨⟨by decide, by decide, by decide, by decide⟩,
   (C7_varying_attribute_array_bound .normal initial GL_TRIANGLES varyingBatch (by decide)
      (by decide) (by decide) (by decide)
      ⟨[.normal ⟨0, 0, 1⟩, .texCoord ⟨0, 0, 0, 1⟩, .color ⟨1, 0, 0, 1⟩, .vertex ⟨0, 0, 0, 1⟩],
        .normal ⟨0, 1, 0⟩,
        [.texCoord ⟨1, 0, 0, 1⟩, .color ⟨0, 1, 0, 1⟩, .vertex ⟨1, 0, 0, 1⟩,
         .vertex ⟨1, 1, 0, 1⟩], rfl, rfl, by decide⟩).elim
     fun m h => h.elim fun n h => h.elim fun seen h =>
       ⟨m, n, seen, h.1, h.2.1, (h.2.2.2.2 (by decide)).1, (h.2.2.2.2 (by decide)).2⟩⟩

/-- C9, the code at the failing input: glBegin, glMaterialfv (GL_FRONT,
GL_AMBIENT, color), glEnd from the initial state.  glEnd returns at
`if (s->count == 0) return;` with the material flag and the color counter
still 1; glBegin does not clear the material flag, so the next batch, of one
vertex, is drawn with GL_COLOR_MATERIAL enabled, which the same batch from the
initial state is not. -/
theorem C9_empty_close_skips_reset :
    afterEmptyMaterialBatch.state.compiling_verts = 0 ∧
    afterEmptyMaterialBatch.state.set.count = 0 ∧
    afterEmptyMaterialBatch.state.set.materialistic = 1 ∧
    afterEmptyMaterialBatch.state.set.ccount = 1 ∧
    afterEmptyMaterialBatch.state.enabled = initial.state.enabled ∧
    (issuedBy (openBatch afterEmptyMaterialBatch GL_TRIANGLES oneVertex)
        (jwzgles_glEnd_REMOVED (openBatch afterEmptyMaterialBatch GL_TRIANGLES oneVertex))).filter
          GLCall.isToggle =
      [.glEnableClientState GL_VERTEX_ARRAY, .glEnable GL_COLOR_MATERIAL,
       .glDisable GL_COLOR_MATERIAL] ∧
    (issuedBy (openBatch initial GL_TRIANGLES oneVertex)
        (jwzgles_glEnd_REMOVED (openBatch initial GL_TRIANGLES oneVertex))).filter
          GLCall.isToggle =
      [.glEnableClientState GL_VERTEX_ARRAY] := by
  decide

/-- C10, counterexample: from the initial state, where no capability is
enabled, a batch of one vertex leaves the vertex array enabled in `enabled`
after glEnd. -/
theorem C10_counterexample :
    hasFlag (openBatch initial GL_TRIANGLES oneVertex).state.enabled ISENABLED_VERT_ARRAY =
      false ∧
    hasFlag (jwzgles_glEnd_REMOVED (openBatch initial GL_TRIANGLES oneVertex)).state.enabled
      ISENABLED_VERT_ARRAY = true := by
  decide

/-- C10 (amended): for every starting capability state and every batch with at
least one vertex, after glEnd returns the cached enabled bit of the normal
array, of the texcoord array, of the color array and of color-material equals
its value immediately before glEnd was called; the enabled bit of the vertex
array is set, whatever it was; every other bit is unchanged. -/
theorem C10_capabilities_restored_except_vertex_array (c : Ctx)
    (hopen : c.state.compiling_verts = 1) (hcount : c.state.set.count ≠ 0) :
    hasFlag (jwzgles_glEnd_REMOVED c).state.enabled ISENABLED_NORM_ARRAY =
      hasFlag c.state.enabled ISENABLED_NORM_ARRAY ∧
    hasFlag (jwzgles_glEnd_REMOVED c).state.enabled ISENABLED_TEX_ARRAY =
      hasFlag c.state.enabled ISENABLED_TEX_ARRAY ∧
    hasFlag (jwzgles_glEnd_REMOVED c).state.enabled ISENABLED_COLOR_ARRAY =
      hasFlag c.state.enabled ISENABLED_COLOR_ARRAY ∧
    hasFlag (jwzgles_glEnd_REMOVED c).state.enabled ISENABLED_COLMAT =
      hasFlag c.state.enabled ISENABLED_COLMAT ∧
    hasFlag (jwzgles_glEnd_REMOVED c).state.enabled ISENABLED_VERT_ARRAY = true ∧
    (jwzgles_glEnd_REMOVED c).state.enabled = c.state.enabled ||| ISENABLED_VERT_ARRAY := by
  obtain ⟨_, _, _, _, _, _, _, ⟨f12, fother⟩, _⟩ := glEnd_whole c hopen hcount
  refine ⟨?_, ?_, ?_, ?_, ?_, ?_⟩
  · rw [hasFlag_NORM_ARRAY, hasFlag_NORM_ARRAY]; exact fother 13 (by decide)
  · rw [hasFlag_TEX_ARRAY, hasFlag_TEX_ARRAY]; exact fother 14 (by decide)
  · rw [hasFlag_COLOR_ARRAY, hasFlag_COLOR_ARRAY]; exact fother 15 (by decide)
  · rw [hasFlag_COLMAT, hasFlag_COLMAT]; exact fother 11 (by decide)
  · rw [hasFlag_VERT_ARRAY]; exact f12
  · apply Nat.eq_of_testBit_eq
    intro i
    rw [testBit_or_VERT_ARRAY]
    by_cases h : i = 12
    · subst h; rw [f12]; simp
    · have h' : ¬ 12 = i := fun e => h e.symm
      rw [fother i h]; simp [h']

/-- Witness of C10: three vertices with varying attributes, from the initial
state. -/
theorem C10_capabilities_restored_except_vertex_array_witness :
    ((openBatch initial GL_TRIANGLES varyingBatch).state.compiling_verts = 1 ∧
     (openBatch initial GL_TRIANGLES varyingBatch).state.set.count ≠ 0) ∧
    (jwzgles_glEnd_REMOVED (openBatch initial GL_TRIANGLES varyingBatch)).state.enabled =
      (openBatch initial GL_TRIANGLES varyingBatch).state.enabled ||| ISENABLED_VERT_ARRAY :=
  ⟨⟨by decide, by decide⟩,
   (C10_capabilities_restored_except_vertex_array
      (openBatch initial GL_TRIANGLES varyingBatch) (by decide) (by decide)).2.2.2.2.2⟩



/-! ## Quad strips and polygons -/

theorem normalizedSet_of_strip (s : vert_set) (h : s.mode = GL_QUAD_STRIP) :
    normalizedSet s = { s with mode := GL_TRIANGLE_STRIP } := by
  unfold normalizedSet
  have h1 : ¬ s.mode = GL_QUADS := by rw [h]; decide
  rw [if_neg h1, if_pos h]

theorem normalizedSet_of_polygon (s : vert_set) (h : s.mode = GL_POLYGON) :
    normalizedSet s = { s with mode := GL_TRIANGLE_FAN } := by
  unfold normalizedSet
  have h1 : ¬ s.mode = GL_QUADS := by rw [h]; decide
  have h2 : ¬ s.mode = GL_QUAD_STRIP := by rw [h]; decide
  rw [if_neg h1, if_neg h2, if_pos h]

/-- C11: quad-strip and polygon normalization in the array path only change
the topology tag.  For a batch of mode GL_QUAD_STRIP (resp. GL_POLYGON) with
N >= 1 vertices, opened from an idle context with no texture-generation flag
cached, glEnd issues one draw call, with mode GL_TRIANGLE_STRIP (resp.
GL_TRIANGLE_FAN) and count N; the arrays bound at that moment are the arrays
verts, norms, tex and color of the batch as they were before glEnd, and their
first N cells are the appended positions and the normal, texture coordinate
and color in force at each append, in the original order. -/
theorem C11_strip_and_polygon_only_retagged (c : Ctx) (mode : Nat) (calls : List BatchCall)
    (hidle : c.state.compiling_verts = 0)
    (hgen : hasFlag c.state.enabled ISENABLED_TEXTURE_GEN_ANY = false)
    (hwf : c.state.set.WF)
    (hN : 1 ≤ vertexCalls calls)
    (hmode : mode = GL_QUAD_STRIP ∨ mode = GL_POLYGON) :
    ∃ seen,
      (issuedBy (openBatch c mode calls)
          (jwzgles_glEnd_REMOVED (openBatch c mode calls))).filter GLCall.isDraw =
        [.glDrawArrays (if mode = GL_QUAD_STRIP then GL_TRIANGLE_STRIP else GL_TRIANGLE_FAN) 0
          (vertexCalls calls) seen] ∧
      (seen.arrays.vertex.data =
          .heap (floatsXYZW ((openBatch c mode calls).state.set.verts.getD [])) ∧
       seen.arrays.normal.data =
          .heap (floatsXYZ ((openBatch c mode calls).state.set.norms.getD [])) ∧
       seen.arrays.texcoord.data =
          .heap (floatsSTRQ ((openBatch c mode calls).state.set.tex.getD [])) ∧
       seen.arrays.color.data =
          .heap (floatsRGBA ((openBatch c mode calls).state.set.color.getD []))) ∧
      (((openBatch c mode calls).state.set.verts.getD []).take (vertexCalls calls) =
          appendedVerts calls ∧
       ((openBatch c mode calls).state.set.norms.getD []).take (vertexCalls calls) =
          normalsInForce c.state.set.cnorm calls ∧
       ((openBatch c mode calls).state.set.tex.getD []).take (vertexCalls calls) =
          texCoordsInForce c.state.set.ctex calls ∧
       ((openBatch c mode calls).state.set.color.getD []).take (vertexCalls calls) =
          colorsInForce c.state.set.ccolor calls) := by
  obtain ⟨m, seen, hcalls, harr, _, _, _, _, hm⟩ := glEnd_batch c mode calls hidle hgen hN
  obtain ⟨_, _, _, _, b5, b6, _⟩ := openBatch_facts c mode calls hidle
  obtain ⟨_, brec⟩ := openBatch_recorded c mode calls hidle hwf
  have hq : ¬ mode = GL_QUADS := by
    rcases hmode with h | h <;> rw [h] <;> decide
  have hS : normalizedSet (openBatch c mode calls).state.set =
      { (openBatch c mode calls).state.set with
          mode := if mode = GL_QUAD_STRIP then GL_TRIANGLE_STRIP else GL_TRIANGLE_FAN } := by
    rcases hmode with h | h
    · rw [normalizedSet_of_strip _ (by rw [b5]; exact h)]; simp [h]
    · have h2 : ¬ mode = GL_QUAD_STRIP := by rw [h]; decide
      rw [normalizedSet_of_polygon _ (by rw [b5]; exact h)]; simp [h2]
  rw [hS] at hm harr
  simp only [vert_set.recorded, b6, Prod.mk.injEq] at brec
  refine ⟨seen, ?_, ?_, brec⟩
  · rw [hcalls]
    simp only [List.filter_append, (glEnd_preCalls_filter _ _).1, (glEnd_postCalls_filter _ _).1]
    simp [GLCall.isDraw, hq, hm]
  · rw [harr]
    exact ⟨rfl, rfl, rfl, rfl⟩

/-- Witness of C11: a quad strip of four vertices, from the initial state. -/
theorem C11_strip_and_polygon_only_retagged_witness :
    (initial.state.compiling_verts = 0 ∧
     hasFlag initial.state.enabled ISENABLED_TEXTURE_GEN_ANY = false ∧
     initial.state.set.WF ∧ 1 ≤ vertexCalls stripBatch) ∧
    ∃ seen,
      (issuedBy (openBatch initial GL_QUAD_STRIP stripBatch)
          (jwzgles_glEnd_REMOVED (openBatch initial GL_QUAD_STRIP stripBatch))).filter
            GLCall.isDraw =
        [.glDrawArrays GL_TRIANGLE_STRIP 0 4 seen] ∧
      seen.arrays.vertex.data =
        .heap (floatsXYZW ((openBatch initial GL_QUAD_STRIP stripBatch).state.set.verts.getD
          [])) ∧
      ((openBatch initial GL_QUAD_STRIP stripBatch).state.set.verts.getD []).take 4 =
        [⟨0, 0, 0, 1⟩, ⟨0, 1, 0, 1⟩, ⟨1, 0, 0, 1⟩, ⟨1, 1, 0, 1⟩] :=
  ⟨⟨by decide, by decide, by decide, by decide⟩,
   (C11_strip_and_polygon_only_retagged initial GL_QUAD_STRIP stripBatch (by decide)
      (by decide) (by decide) (by decide) (Or.inl rfl)).elim
     fun seen h => ⟨seen, h.1, h.2.1.1, h.2.2.1⟩⟩



/-! ## FlushOnStateChange and enable_disable with either flush -/

theorem Ctx_ite_eta (p : Prop) [Decidable p] (a b : Ctx) :
    (if p then a else b) =
      { state := if p then a.state else b.state, w := if p then a.w else b.w,
        gl := if p then a.gl else b.gl, calls := if p then a.calls else b.calls,
        asserts := if p then a.asserts else b.asserts } := by
  split <;> rfl

theorem jwzgles_state_ite_eta (p : Prop) [Decidable p] (a b : jwzgles_state) :
    (if p then a else b) =
      { set := if p then a.set else b.set,
        compiling_verts := if p then a.compiling_verts else b.compiling_verts,
        enabled := if p then a.enabled else b.enabled,
        vertPrtValid := if p then a.vertPrtValid else b.vertPrtValid,
        texPrtValid := if p then a.texPrtValid else b.texPrtValid,
        colorPtrValid := if p then a.colorPtrValid else b.colorPtrValid,
        element_array_buffer := if p then a.element_array_buffer else b.element_array_buffer,
        array_buffer := if p then a.array_buffer else b.array_buffer,
        s := if p then a.s else b.s, t := if p then a.t else b.t,
        r := if p then a.r else b.r, q := if p then a.q else b.q } := by
  split <;> rfl

/-- What FlushOnStateChange of jwzgles_test.c leaves alone and what it resets. -/
theorem FlushOnStateChange_test_frame (c : Ctx) :
    (FlushOnStateChange_test c).state.enabled = c.state.enabled ∧
    (FlushOnStateChange_test c).state.set = c.state.set ∧
    (FlushOnStateChange_test c).state.compiling_verts = c.state.compiling_verts ∧
    (FlushOnStateChange_test c).asserts = c.asserts ∧
    (FlushOnStateChange_test c).w.vertexCount = 0 ∧
    (FlushOnStateChange_test c).w.indexCount =
      (if c.w.vertexCount = 0 then c.w.indexCount else 0) ∧
    (c.w.vertexCount = 0 → FlushOnStateChange_test c = c) := by
  unfold FlushOnStateChange_test
  by_cases h : c.w.vertexCount = 0
  · simp [h]
  · simp only [h, if_false, emit, gl_BindBuffer, gl_VertexPointer, gl_ColorPointer,
      gl_TexCoordPointer, Ctx_ite_eta, jwzgles_state_ite_eta]
    simp

/-- FlushOnStateChange neither reads nor writes the vertex set. -/
theorem FlushOnStateChange_test_set (c : Ctx) (s : vert_set) :
    FlushOnStateChange_test { c with state := { c.state with set := s } } =
      { FlushOnStateChange_test c with
          state := { (FlushOnStateChange_test c).state with set := s } } := by
  unfold FlushOnStateChange_test
  by_cases h : c.w.vertexCount = 0
  · simp [h]
  · simp only [h, if_false, emit, gl_BindBuffer, gl_VertexPointer, gl_ColorPointer,
      gl_TexCoordPointer, seenNow, Ctx_ite_eta, jwzgles_state_ite_eta]
    simp

theorem ite_append_right {α : Type} (p : Prop) [Decidable p] (l r : List α) :
    (if p then l ++ r else l) = l ++ if p then r else [] := by
  split <;> simp

theorem ite_append_both {α : Type} (p : Prop) [Decidable p] (l a b : List α) :
    (if p then l ++ a else l ++ b) = l ++ if p then a else b := by
  split <;> simp

theorem gl_arrays_ite_eta (p : Prop) [Decidable p] (a b : gl_arrays) :
    (if p then a else b) =
      { vertex := if p then a.vertex else b.vertex, normal := if p then a.normal else b.normal,
        color := if p then a.color else b.color,
        texcoord := if p then a.texcoord else b.texcoord,
        array_buffer := if p then a.array_buffer else b.array_buffer } := by
  split <;> rfl

/-- The arrays that FlushOnStateChange of jwzgles_test.c leaves bound. -/
theorem FlushOnStateChange_test_gl (c : Ctx) (h : c.w.vertexCount ≠ 0) :
    (FlushOnStateChange_test c).gl = flushArrays c := by
  have hb : ¬ GL_ELEMENT_ARRAY_BUFFER = GL_ARRAY_BUFFER := by decide
  unfold FlushOnStateChange_test flushArrays
  simp only [h, if_false, emit, gl_BindBuffer, gl_VertexPointer, gl_ColorPointer,
    gl_TexCoordPointer, seenNow, hb, Ctx_ite_eta, jwzgles_state_ite_eta, gl_arrays_ite_eta]
  simp
  split
  · split <;> rfl
  · rfl

/-- The renderer calls of FlushOnStateChange of jwzgles_test.c. -/
theorem FlushOnStateChange_test_calls (c : Ctx) :
    (FlushOnStateChange_test c).calls = c.calls ++ flushCalls c := by
  by_cases h : c.w.vertexCount = 0
  · simp [FlushOnStateChange_test, flushCalls, h]
  · have hb : ¬ GL_ELEMENT_ARRAY_BUFFER = GL_ARRAY_BUFFER := by decide
    unfold FlushOnStateChange_test flushCalls flushDraw flushArrays
    simp only [h, if_false, emit, gl_BindBuffer, gl_VertexPointer, gl_ColorPointer,
      gl_TexCoordPointer, seenNow, hb, Ctx_ite_eta, jwzgles_state_ite_eta, gl_arrays_ite_eta]
    simp [ite_append_right, ite_append_both]
    have hf : ∀ (b : Bool) (x y : List GLCall),
        (if b = false then x else y) = if b = true then y else x := by
      intro b x y; cases b <;> rfl
    by_cases h1 : c.state.vertPrtValid = 0 <;> by_cases h2 : c.w.wrapperPrimitiveMode = GL_LINES <;>
      simp [h1, h2, hf]

theorem flushCalls_draws (c : Ctx) :
    (flushCalls c).filter GLCall.isDraw = if c.w.vertexCount = 0 then [] else [flushDraw c] := by
  unfold flushCalls
  split
  · rfl
  · simp [List.filter_append, filter_ite, GLCall.isDraw, flushDraw]

/-- Either FlushOnStateChange leaves `enabled`, the vertex set, the batch
depth and the assertion log alone. -/
theorem FlushOnStateChange_frame (U : Bool) (c : Ctx) :
    (FlushOnStateChange U c).state.enabled = c.state.enabled ∧
    (FlushOnStateChange U c).state.set = c.state.set ∧
    (FlushOnStateChange U c).state.compiling_verts = c.state.compiling_verts ∧
    (FlushOnStateChange U c).asserts = c.asserts := by
  cases U
  · simp [FlushOnStateChange]
  · obtain ⟨h1, h2, h3, h4, _⟩ := FlushOnStateChange_test_frame c
    simp only [FlushOnStateChange, if_true]
    exact ⟨h1, h2, h3, h4⟩

theorem FlushOnStateChange_set (U : Bool) (c : Ctx) (s : vert_set) :
    FlushOnStateChange U { c with state := { c.state with set := s } } =
      { FlushOnStateChange U c with
          state := { (FlushOnStateChange U c).state with set := s } } := by
  cases U
  · simp [FlushOnStateChange]
  · simp only [FlushOnStateChange, if_true]
    exact FlushOnStateChange_test_set c s

/-- A request to set or clear a capability: when it reaches the renderer,
FlushOnStateChange runs and then the one library call is made; otherwise no
call is made.  The flag changes in `enabled` only together with a call. -/
theorem enable_disable_request (U : Bool) (c : Ctx) (bit : Nat) (set : Int) (hset : set ≠ 0) :
    (enable_disable U c bit set).1.calls =
      (if enable_disable_forwards c bit set then
         (FlushOnStateChange U c).calls ++
           [enable_disable_call (enable_disable_switch bit).csp bit set]
       else c.calls) ∧
    (enable_disable U c bit set).1.w =
      (if enable_disable_forwards c bit set then (FlushOnStateChange U c).w else c.w) ∧
    (enable_disable U c bit set).1.gl =
      (if enable_disable_forwards c bit set then (FlushOnStateChange U c).gl else c.gl) ∧
    (enable_disable U c bit set).1.state.enabled =
      (if enable_disable_forwards c bit set ∧ (enable_disable_switch bit).flag ≠ 0 then
         (if set > 0 then c.state.enabled ||| (enable_disable_switch bit).flag
          else andNot c.state.enabled (enable_disable_switch bit).flag)
       else c.state.enabled) ∧
    (enable_disable U c bit set).1.state.compiling_verts = c.state.compiling_verts ∧
    (enable_disable U c bit set).1.state.set =
      (if (enable_disable_switch bit).csp = true ∧ c.state.compiling_verts = 0
       then enable_disable_counts c.state.set bit set else c.state.set) := by
  have hA : Assert c (set != 0) "glIsEnabled unimplemented bit" = c := by
    simp [Assert, hset]
  obtain ⟨f1, f2, f3, _⟩ := FlushOnStateChange_frame U c
  have fs := FlushOnStateChange_set U c
  unfold enable_disable enable_disable_forwards
  generalize enable_disable_switch bit = k
  obtain ⟨F, omitp, csp, known⟩ := k
  simp only [hA, ite_self, hset, ne_eq, not_false_eq_true, if_true]
  have e := fs (enable_disable_counts c.state.set bit set)
  by_cases hadj : csp = true ∧ c.state.compiling_verts = 0
  · simp only [if_pos hadj, e]
    cases omitp <;>
    by_cases hF : F = 0 <;>
    by_cases hpos : set > 0 <;>
    by_cases hh : hasFlag c.state.enabled F = true <;>
    simp [hF, hpos, hh, f1, f2, f3, emit]
  · simp only [if_neg hadj]
    cases omitp <;>
    by_cases hF : F = 0 <;>
    by_cases hpos : set > 0 <;>
    by_cases hh : hasFlag c.state.enabled F = true <;>
    simp [hF, hpos, hh, f1, f2, f3, emit]


theorem switchShape_ite (p : Prop) [Decidable p] (a b : enable_disable_case)
    (ha : switchShape a) (hb : switchShape b) : switchShape (if p then a else b) := by
  split <;> assumption

theorem enable_disable_switch_shape (bit : Nat) : switchShape (enable_disable_switch bit) := by
  unfold enable_disable_switch
  repeat' apply switchShape_ite
  all_goals decide

/-- The renderer calls of FlushOnStateChange in either build. -/
theorem FlushOnStateChange_calls (U : Bool) (c : Ctx) :
    (FlushOnStateChange U c).calls = c.calls ++ (if U = true then flushCalls c else []) := by
  cases U
  · simp [FlushOnStateChange]
  · simp only [FlushOnStateChange, if_true]
    exact FlushOnStateChange_test_calls c

theorem FlushOnStateChange_drained (U : Bool) (c : Ctx) :
    U = false ∨ (FlushOnStateChange U c).w.vertexCount = 0 := by
  cases U
  · exact Or.inl rfl
  · right
    simp only [FlushOnStateChange, if_true]
    exact (FlushOnStateChange_test_frame c).2.2.2.2.1


/-! ## The claims about enable_disable -/

theorem hasFlag_or_self (e F : Nat) (hF : F ≠ 0) : hasFlag (e ||| F) F = true := by
  have h : (e ||| F) &&& F = F := by
    apply Nat.eq_of_testBit_eq
    intro i
    simp only [Nat.testBit_and, Nat.testBit_or]
    cases e.testBit i <;> cases F.testBit i <;> rfl
  simp [hasFlag, h, hF]

theorem hasFlag_andNot_self (e F : Nat) : hasFlag (andNot e F) F = false := by
  have h : andNot e F &&& F = 0 := by
    apply Nat.eq_of_testBit_eq
    intro i
    simp only [andNot, Nat.testBit_and, Nat.testBit_xor, Nat.zero_testBit]
    cases e.testBit i <;> cases F.testBit i <;> rfl
  simp [hasFlag, h]

/-- After a request to set or clear a capability that has a flag, the same
request would not reach the renderer. -/
theorem enable_disable_settled (U : Bool) (c : Ctx) (bit : Nat) (set : Int) (hset : set ≠ 0)
    (hflag : (enable_disable_switch bit).flag ≠ 0) :
    enable_disable_forwards (enable_disable U c bit set).1 bit set = false := by
  obtain ⟨_, _, _, he, _, _⟩ := enable_disable_request U c bit set hset
  unfold enable_disable_forwards at he ⊢
  rw [he]
  generalize enable_disable_switch bit = k at hflag ⊢
  obtain ⟨F, omitp, csp, known⟩ := k
  have h1 := hasFlag_or_self c.state.enabled F hflag
  have h2 := hasFlag_andNot_self c.state.enabled F
  simp only at hflag h1 h2 ⊢
  cases omitp <;> by_cases hpos : set > 0 <;>
    cases hh : hasFlag c.state.enabled F <;> simp [hflag, hpos, hh, h1, h2]

theorem issuedBy_same (b a : Ctx) (h : a.calls = b.calls) : issuedBy b a = [] := by
  unfold issuedBy
  rw [h]; simp

/-- C12, counterexample.  GL_LIGHT0 is not named in the switch of
enable_disable, so it has no flag in `enabled` and every request is forwarded:
two consecutive requests to enable it issue two glEnable calls, two to disable
it two glDisable calls, with either FlushOnStateChange.  And in the
DrawElements build, with a triangle pending, one request
jwzgles_glEnableClientState (GL_VERTEX_ARRAY) issues glEnableClientState
(GL_VERTEX_ARRAY) twice: once in the flush of the pending triangle, which
enables the client arrays around its draw call and disables them again, and
once for the request itself. -/
theorem C12_counterexample :
    (jwzgles_glEnable true (jwzgles_glEnable true initial GL_LIGHT0) GL_LIGHT0).calls =
      [.glEnable GL_LIGHT0, .glEnable GL_LIGHT0] ∧
    (jwzgles_glEnable false (jwzgles_glEnable false initial GL_LIGHT0) GL_LIGHT0).calls =
      [.glEnable GL_LIGHT0, .glEnable GL_LIGHT0] ∧
    (jwzgles_glDisable true (jwzgles_glDisable true initial GL_LIGHT0) GL_LIGHT0).calls =
      [.glDisable GL_LIGHT0, .glDisable GL_LIGHT0] ∧
    (jwzgles_glEnable true (jwzgles_glEnable true initial GL_LIGHT0) GL_LIGHT0).asserts = [] ∧
    pendingTriangle.w.vertexCount = 3 ∧
    (issuedBy pendingTriangle
        (jwzgles_glEnableClientState true pendingTriangle GL_VERTEX_ARRAY)).filter
          (fun x => x.isDraw || x.isToggle) =
      [.glEnableClientState GL_VERTEX_ARRAY, .glEnableClientState GL_TEXTURE_COORD_ARRAY,
       .glEnableClientState GL_COLOR_ARRAY, flushDraw pendingTriangle,
       .glDisableClientState GL_VERTEX_ARRAY, .glDisableClientState GL_TEXTURE_COORD_ARRAY,
       .glDisableClientState GL_COLOR_ARRAY, .glEnableClientState GL_VERTEX_ARRAY] := by
  decide

/-- After a request that reaches the renderer nothing is pending in the
DrawElements build. -/
theorem enable_disable_drained (U : Bool) (c : Ctx) (bit : Nat) (set : Int) (hset : set ≠ 0)
    (hf : enable_disable_forwards c bit set = true) :
    (if U = true then flushCalls (enable_disable U c bit set).1 else []) = [] := by
  cases U
  · rfl
  · obtain ⟨_, h2, _⟩ := enable_disable_request true c bit set hset
    rw [hf] at h2
    simp only [if_true] at h2
    have h0 : (enable_disable true c bit set).1.w.vertexCount = 0 := by
      rw [h2]
      simp only [FlushOnStateChange, if_true]
      exact (FlushOnStateChange_test_frame c).2.2.2.2.1
    simp [flushCalls, h0]

/-- C12 (amended): capability idempotence.  For every capability id that has a
flag in `enabled` (the ids named in the switch of enable_disable), every state
and either build: the first of two consecutive requests to enable the id
issues nothing when the request does not reach the renderer (the flag is set
already, or the id is one of the omitted ones), and otherwise the calls of
FlushOnStateChange (none in the array build, none when no vertex is pending,
else the calls `flushCalls` around the draw of the pending vertices) followed
by the one library call glEnable / glEnableClientState; the second request
issues no renderer call at all.  Symmetrically for two consecutive requests to
disable it.  For an id that has no flag (one the switch does not name) each
of the two requests issues the library call, the first after the calls of
FlushOnStateChange.  jwzgles_glEnableClientState and
jwzgles_glDisableClientState are the same requests as jwzgles_glEnable and
jwzgles_glDisable. -/
theorem C12_capability_idempotence (U : Bool) (c : Ctx) (bit : Nat) :
    ((enable_disable_switch bit).flag ≠ 0 →
      (issuedBy c (jwzgles_glEnable U c bit) =
          (if enable_disable_forwards c bit 1 = true then
            (if U = true then flushCalls c else []) ++
              [enable_disable_call (enable_disable_switch bit).csp bit 1]
           else []) ∧
        issuedBy (jwzgles_glEnable U c bit)
          (jwzgles_glEnable U (jwzgles_glEnable U c bit) bit) = []) ∧
      (issuedBy c (jwzgles_glDisable U c bit) =
          (if enable_disable_forwards c bit (-1) = true then
            (if U = true then flushCalls c else []) ++
              [enable_disable_call (enable_disable_switch bit).csp bit (-1)]
           else []) ∧
        issuedBy (jwzgles_glDisable U c bit)
          (jwzgles_glDisable U (jwzgles_glDisable U c bit) bit) = [])) ∧
    ((enable_disable_switch bit).flag = 0 →
      (issuedBy c (jwzgles_glEnable U c bit) =
          (if U = true then flushCalls c else []) ++ [.glEnable bit] ∧
        issuedBy (jwzgles_glEnable U c bit)
          (jwzgles_glEnable U (jwzgles_glEnable U c bit) bit) = [.glEnable bit]) ∧
      (issuedBy c (jwzgles_glDisable U c bit) =
          (if U = true then flushCalls c else []) ++ [.glDisable bit] ∧
        issuedBy (jwzgles_glDisable U c bit)
          (jwzgles_glDisable U (jwzgles_glDisable U c bit) bit) = [.glDisable bit])) ∧
    (jwzgles_glEnableClientState U c bit = jwzgles_glEnable U c bit ∧
     jwzgles_glDisableClientState U c bit = jwzgles_glDisable U c bit) := by
  have first : ∀ (c : Ctx) (set : Int), set ≠ 0 →
      issuedBy c (enable_disable U c bit set).1 =
        (if enable_disable_forwards c bit set = true then
          (if U = true then flushCalls c else []) ++
            [enable_disable_call (enable_disable_switch bit).csp bit set]
         else []) := by
    intro c set hset
    obtain ⟨h1, _⟩ := enable_disable_request U c bit set hset
    apply issuedBy_append
    rw [h1, FlushOnStateChange_calls]
    cases enable_disable_forwards c bit set <;> simp
  refine ⟨fun hflag => ?_, fun hflag => ?_, rfl, rfl⟩
  · have one : ∀ set : Int, set ≠ 0 →
        issuedBy (enable_disable U c bit set).1
          (enable_disable U (enable_disable U c bit set).1 bit set).1 = [] := by
      intro set hset
      rw [first _ set hset, enable_disable_settled U c bit set hset hflag]
      simp
    exact ⟨⟨first c 1 (by decide), one 1 (by decide)⟩,
      ⟨first c (-1) (by decide), one (-1) (by decide)⟩⟩
  · obtain ⟨hs, _, _, _⟩ := enable_disable_switch_shape bit
    have hk : (enable_disable_switch bit).known = false := by
      cases hkn : (enable_disable_switch bit).known
      · rfl
      · exact absurd hflag ((enable_disable_switch_shape bit).2.1 hkn)
    obtain ⟨_, ho, hc⟩ := hs hk
    have hf : ∀ (c : Ctx) (set : Int), enable_disable_forwards c bit set = true := by
      intro c set
      simp [enable_disable_forwards, ho, hflag]
    have two : ∀ set : Int, set ≠ 0 →
        issuedBy c (enable_disable U c bit set).1 =
          (if U = true then flushCalls c else []) ++ [enable_disable_call false bit set] ∧
        issuedBy (enable_disable U c bit set).1
          (enable_disable U (enable_disable U c bit set).1 bit set).1 =
            [enable_disable_call false bit set] := by
      intro set hset
      refine ⟨?_, ?_⟩
      · rw [first c set hset, hf, hc]; simp
      · rw [first _ set hset, hf, hc, enable_disable_drained U c bit set hset (hf c set)]
        simp
    exact ⟨two 1 (by decide), two (-1) (by decide)⟩

/-- Witness of C12: glEnableClientState (GL_VERTEX_ARRAY) twice in the
DrawElements build with a triangle pending: the first request flushes and
then issues its one call, the second issues nothing. -/
theorem C12_capability_idempotence_witness :
    (enable_disable_switch GL_VERTEX_ARRAY).flag ≠ 0 ∧
    pendingTriangle.w.vertexCount = 3 ∧
    issuedBy pendingTriangle (jwzgles_glEnable true pendingTriangle GL_VERTEX_ARRAY) =
      flushCalls pendingTriangle ++ [.glEnableClientState GL_VERTEX_ARRAY] ∧
    issuedBy (jwzgles_glEnable true pendingTriangle GL_VERTEX_ARRAY)
      (jwzgles_glEnable true (jwzgles_glEnable true pendingTriangle GL_VERTEX_ARRAY)
        GL_VERTEX_ARRAY) = [] :=
  ⟨by decide, by decide,
   ((C12_capability_idempotence true pendingTriangle GL_VERTEX_ARRAY).1 (by decide)).1.1.trans
     (by decide),
   ((C12_capability_idempotence true pendingTriangle GL_VERTEX_ARRAY).1 (by decide)).1.2⟩

/-- C13, the code at the failing input: jwzgles_glEnable (GL_TEXTURE_1D) from
the state after jwzgles_reset, where cache and renderer agree (nothing is
enabled).  The request sets the flag that GL_TEXTURE_1D shares with
GL_TEXTURE_2D and calls glEnable (GL_TEXTURE_1D): the cache now answers that
GL_TEXTURE_2D is enabled while the renderer holds it disabled, and a request
to enable GL_TEXTURE_2D that follows reaches the renderer no more, although
it would change the renderer's state. -/
theorem C13_shared_texture_flag_breaks_mirror :
    (∀ bit, rendererCaps (fun _ => false) initial.calls bit =
        hasFlag initial.state.enabled (enable_disable_switch bit).flag) ∧
    (jwzgles_glEnable true initial GL_TEXTURE_1D).calls = [.glEnable GL_TEXTURE_1D] ∧
    (jwzgles_glIsEnabled true (jwzgles_glEnable true initial GL_TEXTURE_1D) GL_TEXTURE_2D).2 =
      true ∧
    rendererCaps (fun _ => false) (jwzgles_glEnable true initial GL_TEXTURE_1D).calls
      GL_TEXTURE_2D = false ∧
    (jwzgles_glEnable true (jwzgles_glEnable true initial GL_TEXTURE_1D) GL_TEXTURE_2D).calls =
      [.glEnable GL_TEXTURE_1D] ∧
    rendererCaps (fun _ => false)
      (jwzgles_glEnable true (jwzgles_glEnable true initial GL_TEXTURE_1D) GL_TEXTURE_2D).calls
      GL_TEXTURE_2D = false ∧
    (jwzgles_glEnable false (jwzgles_glEnable false initial GL_TEXTURE_1D) GL_TEXTURE_2D).calls =
      [.glEnable GL_TEXTURE_1D] := by
  refine ⟨?_, by decide, by decide, by decide, by decide, by decide, by decide⟩
  intro bit
  have h0 : initial.state.enabled = 0 := by decide
  have hc : initial.calls = [] := by decide
  rw [h0, hc]
  simp [rendererCaps, hasFlag]

/-- C14, the code at the failing input: jwzgles_glEnable (GL_TEXTURE_GEN_S)
followed by jwzgles_glIsEnabled (GL_TEXTURE_GEN_S), from the state after
jwzgles_reset, answers false, and so for GL_TEXTURE_GEN_T, _R and _Q: the
branch `if (omitp)` of enable_disable is empty and the flag is stored nowhere;
in every state a request to enable one of the four changes nothing.  For a
capability that has a flag and is not omitted the round trip holds: the query
answers true after enabling and false after disabling; and a query of any
capability named in the switch changes nothing and calls nothing. -/
theorem C14_texture_gen_enable_not_stored :
    ((jwzgles_glIsEnabled true (jwzgles_glEnable true initial GL_TEXTURE_GEN_S)
        GL_TEXTURE_GEN_S).2 = false ∧
     (jwzgles_glIsEnabled true (jwzgles_glEnable true initial GL_TEXTURE_GEN_T)
        GL_TEXTURE_GEN_T).2 = false ∧
     (jwzgles_glIsEnabled true (jwzgles_glEnable true initial GL_TEXTURE_GEN_R)
        GL_TEXTURE_GEN_R).2 = false ∧
     (jwzgles_glIsEnabled true (jwzgles_glEnable true initial GL_TEXTURE_GEN_Q)
        GL_TEXTURE_GEN_Q).2 = false ∧
     (jwzgles_glIsEnabled false (jwzgles_glEnable false initial GL_TEXTURE_GEN_S)
        GL_TEXTURE_GEN_S).2 = false) ∧
    (∀ (U : Bool) (c : Ctx) (bit : Nat), (enable_disable_switch bit).omitp = true →
      jwzgles_glEnable U c bit = c) ∧
    (∀ (U : Bool) (c : Ctx) (bit : Nat), (enable_disable_switch bit).flag ≠ 0 →
      (enable_disable_switch bit).omitp = false →
      (jwzgles_glIsEnabled U (jwzgles_glEnable U c bit) bit).2 = true ∧
      (jwzgles_glIsEnabled U (jwzgles_glDisable U c bit) bit).2 = false) ∧
    (∀ (U : Bool) (c : Ctx) (bit : Nat), (enable_disable_switch bit).known = true →
      (jwzgles_glIsEnabled U c bit).1 = c ∧
      (jwzgles_glIsEnabled U c bit).2 =
        hasFlag c.state.enabled (enable_disable_switch bit).flag) := by
  refine ⟨by decide, ?_, ?_, ?_⟩
  · intro U c bit ho
    obtain ⟨_, _, h3, _⟩ := enable_disable_switch_shape bit
    obtain ⟨hcsp, hk⟩ := h3 ho
    simp [jwzgles_glEnable, enable_disable, ho, hcsp, hk]
  · intro U c bit hflag ho
    have q : ∀ d : Ctx, (jwzgles_glIsEnabled U d bit).2 =
        hasFlag d.state.enabled (enable_disable_switch bit).flag := by
      intro d
      have hz : ¬ ((0 : Int) ≠ 0) := by decide
      simp only [jwzgles_glIsEnabled, enable_disable, if_neg hz]
      split
      · rfl
      · simp [Assert]
    obtain ⟨_, _, _, e1, _⟩ := enable_disable_request U c bit 1 (by decide)
    obtain ⟨_, _, _, e2, _⟩ := enable_disable_request U c bit (-1) (by decide)
    rw [q, q]
    simp only [jwzgles_glEnable, jwzgles_glDisable]
    rw [e1, e2]
    have h1 := hasFlag_or_self c.state.enabled _ hflag
    have h2 := hasFlag_andNot_self c.state.enabled (enable_disable_switch bit).flag
    unfold enable_disable_forwards
    cases hh : hasFlag c.state.enabled (enable_disable_switch bit).flag <;>
      simp [ho, hflag, hh, h1, h2]
  · intro U c bit hk
    simp [jwzgles_glIsEnabled, enable_disable, hk]

/-- C15, counterexample: from the initial state a batch is opened and one
vertex appended; while it is open (compiling_verts = 1), the request to enable
GL_NORMAL_ARRAY, which changes the cached state, issues the renderer call
glEnableClientState (GL_NORMAL_ARRAY) at once, with either FlushOnStateChange;
so does the request to disable it again. -/
theorem C15_counterexample :
    (openBatch initial GL_TRIANGLES oneVertex).state.compiling_verts = 1 ∧
    hasFlag (openBatch initial GL_TRIANGLES oneVertex).state.enabled ISENABLED_NORM_ARRAY =
      false ∧
    issuedBy (openBatch initial GL_TRIANGLES oneVertex)
      (jwzgles_glEnableClientState false (openBatch initial GL_TRIANGLES oneVertex)
        GL_NORMAL_ARRAY) = [.glEnableClientState GL_NORMAL_ARRAY] ∧
    issuedBy (openBatch initial GL_TRIANGLES oneVertex)
      (jwzgles_glEnableClientState true (openBatch initial GL_TRIANGLES oneVertex)
        GL_NORMAL_ARRAY) = [.glEnableClientState GL_NORMAL_ARRAY] ∧
    issuedBy (openBatch initial GL_TRIANGLES oneVertex)
      (jwzgles_glDisableClientState false
        (jwzgles_glEnableClientState false (openBatch initial GL_TRIANGLES oneVertex)
          GL_NORMAL_ARRAY) GL_NORMAL_ARRAY) =
      [.glEnableClientState GL_NORMAL_ARRAY, .glDisableClientState GL_NORMAL_ARRAY] := by
  decide

/-- C15 (amended): while a batch is open (compiling_verts != 0), a request to
enable or disable a client-side array capability (vertex, normal, texcoord or
color array) that changes the cached state is forwarded at once: after
FlushOnStateChange the renderer call glEnableClientState /
glDisableClientState is issued and the cached flag changes.  What the open
batch holds back is the adjustment of the counters ncount, tcount, ccount: the
vertex set is left as it is. -/
theorem C15_client_array_toggle_in_open_batch (U : Bool) (c : Ctx) (bit : Nat)
    (hopen : c.state.compiling_verts ≠ 0)
    (hcsp : (enable_disable_switch bit).csp = true) :
    (hasFlag c.state.enabled (enable_disable_switch bit).flag = false →
      (jwzgles_glEnableClientState U c bit).calls =
        (FlushOnStateChange U c).calls ++ [.glEnableClientState bit] ∧
      hasFlag (jwzgles_glEnableClientState U c bit).state.enabled
        (enable_disable_switch bit).flag = true) ∧
    (hasFlag c.state.enabled (enable_disable_switch bit).flag = true →
      (jwzgles_glDisableClientState U c bit).calls =
        (FlushOnStateChange U c).calls ++ [.glDisableClientState bit] ∧
      hasFlag (jwzgles_glDisableClientState U c bit).state.enabled
        (enable_disable_switch bit).flag = false) ∧
    (jwzgles_glEnableClientState U c bit).state.set = c.state.set ∧
    (jwzgles_glDisableClientState U c bit).state.set = c.state.set ∧
    (jwzgles_glEnableClientState U c bit).state.compiling_verts = c.state.compiling_verts ∧
    (jwzgles_glDisableClientState U c bit).state.compiling_verts = c.state.compiling_verts := by
  obtain ⟨_, h2, _, h4⟩ := enable_disable_switch_shape bit
  obtain ⟨ho, hk⟩ := h4 hcsp
  have hflag := h2 hk
  obtain ⟨a1, _, _, a4, a5, a6⟩ := enable_disable_request U c bit 1 (by decide)
  obtain ⟨b1, _, _, b4, b5, b6⟩ := enable_disable_request U c bit (-1) (by decide)
  have hadj : ¬ ((enable_disable_switch bit).csp = true ∧ c.state.compiling_verts = 0) :=
    fun h => hopen h.2
  rw [if_neg hadj] at a6 b6
  refine ⟨?_, ?_, a6, b6, a5, b5⟩
  · intro hh
    have hf : enable_disable_forwards c bit 1 = true := by
      simp [enable_disable_forwards, ho, hh]
    simp only [jwzgles_glEnableClientState]
    rw [a1, a4, hf]
    refine ⟨by simp [enable_disable_call, hcsp], ?_⟩
    simp only [hflag, ne_eq, not_false_eq_true, and_self, if_true]
    exact hasFlag_or_self _ _ hflag
  · intro hh
    have hf : enable_disable_forwards c bit (-1) = true := by
      simp [enable_disable_forwards, ho, hh]
    simp only [jwzgles_glDisableClientState]
    rw [b1, b4, hf]
    refine ⟨by simp [enable_disable_call, hcsp], ?_⟩
    simp only [hflag, ne_eq, not_false_eq_true, and_self, if_true]
    exact hasFlag_andNot_self _ _

/-- Witness of C15: the normal array, in a batch of one vertex opened from the
initial state. -/
theorem C15_client_array_toggle_in_open_batch_witness :
    ((openBatch initial GL_TRIANGLES oneVertex).state.compiling_verts ≠ 0 ∧
     (enable_disable_switch GL_NORMAL_ARRAY).csp = true) ∧
    (jwzgles_glEnableClientState false (openBatch initial GL_TRIANGLES oneVertex)
        GL_NORMAL_ARRAY).state.set =
      (openBatch initial GL_TRIANGLES oneVertex).state.set :=
  ⟨⟨by decide, by decide⟩,
   (C15_client_array_toggle_in_open_batch false (openBatch initial GL_TRIANGLES oneVertex)
      GL_NORMAL_ARRAY (by decide) (by decide)).2.2.1⟩

/-- C16, the code at the failing input: in the DrawElements path, from a
flushed state, a GL_QUADS bracket of three vertices leaves vertexCount = 0 and
indexCount = 8; FlushOnStateChange then returns at `if (!vertexCount) return;`
before it resets indexCount, and the request to enable GL_BLEND issues glEnable
(GL_BLEND) with indexCount still 8, where the claim has indexCount = 0 at the
moment of the toggle. -/
theorem C16_toggle_finds_stale_indexCount :
    threeVertexQuads.w.vertexCount = 0 ∧ threeVertexQuads.w.indexCount = 8 ∧
    issuedBy threeVertexQuads (jwzgles_glEnable true threeVertexQuads GL_BLEND) =
      [.glEnable GL_BLEND] ∧
    (jwzgles_glEnable true threeVertexQuads GL_BLEND).w.vertexCount = 0 ∧
    (jwzgles_glEnable true threeVertexQuads GL_BLEND).w.indexCount = 8 := by
  decide

/-- Flush-before-toggle ordering as the code has it, with FlushOnStateChange of
jwzgles_test.c.  Whenever a request to enable or disable a capability issues a
renderer toggle, FlushOnStateChange has run first: the trace is the old trace,
then the calls of the flush, among them the one draw call for the pending
vertices when there are any, then the toggle as last call; and at the moment
of the toggle vertexCount = 0.  indexCount is 0 as well when the flush drew;
when no vertex was pending the flush returns before it touches indexCount.  A
request that issues no toggle issues no call and does not flush. -/
theorem flush_before_toggle (c : Ctx) (bit : Nat) (set : Int) (hset : set ≠ 0) :
    (enable_disable_forwards c bit set = true →
      (enable_disable true c bit set).1.calls =
        c.calls ++ flushCalls c ++
          [enable_disable_call (enable_disable_switch bit).csp bit set] ∧
      (flushCalls c).filter GLCall.isDraw =
        (if c.w.vertexCount = 0 then [] else [flushDraw c]) ∧
      (enable_disable true c bit set).1.w = (FlushOnStateChange_test c).w ∧
      (enable_disable true c bit set).1.w.vertexCount = 0 ∧
      (enable_disable true c bit set).1.w.indexCount =
        (if c.w.vertexCount = 0 then c.w.indexCount else 0)) ∧
    (enable_disable_forwards c bit set = false →
      (enable_disable true c bit set).1.calls = c.calls ∧
      (enable_disable true c bit set).1.w = c.w) := by
  obtain ⟨h1, h2, _⟩ := enable_disable_request true c bit set hset
  obtain ⟨_, _, _, _, f5, f6, _⟩ := FlushOnStateChange_test_frame c
  have hfl : FlushOnStateChange true c = FlushOnStateChange_test c := by
    simp [FlushOnStateChange]
  rw [hfl] at h1 h2
  refine ⟨?_, ?_⟩
  · intro hf
    rw [hf] at h1 h2
    simp only [if_true] at h1 h2
    refine ⟨?_, flushCalls_draws c, h2, ?_, ?_⟩
    · rw [h1, FlushOnStateChange_test_calls]
    · rw [h2]; exact f5
    · rw [h2]; exact f6
  · intro hf
    rw [hf] at h1 h2
    exact ⟨by simpa using h1, by simpa using h2⟩

/-- Three vertices of a GL_TRIANGLES batch are pending when GL_BLEND is
enabled: the flush draws them before the toggle. -/
theorem flush_before_toggle_example :
    ((1 : Int) ≠ 0 ∧ enable_disable_forwards pendingTriangle GL_BLEND 1 = true ∧
     pendingTriangle.w.vertexCount = 3) ∧
    (issuedBy pendingTriangle (enable_disable true pendingTriangle GL_BLEND 1).1).filter
        (fun x => x.isDraw || x.isToggle) =
      [.glEnableClientState GL_VERTEX_ARRAY, .glEnableClientState GL_TEXTURE_COORD_ARRAY,
       .glEnableClientState GL_COLOR_ARRAY, flushDraw pendingTriangle,
       .glDisableClientState GL_VERTEX_ARRAY, .glDisableClientState GL_TEXTURE_COORD_ARRAY,
       .glDisableClientState GL_COLOR_ARRAY, .glEnable GL_BLEND] ∧
    (enable_disable true pendingTriangle GL_BLEND 1).1.w.indexCount = 0 :=
  ⟨⟨by decide, by decide, by decide⟩,
   by
     have h := (flush_before_toggle pendingTriangle GL_BLEND 1 (by decide)).1 (by decide)
     refine ⟨?_, ?_⟩
     · rw [issuedBy_append _ _ _ (by rw [h.1, List.append_assoc])]
       decide
     · rw [h.2.2.2.2]; decide⟩





/-! ## The array built by generate_texture_coords -/

theorem Rat_floor_natCast (n : Nat) : (Rat.floor (n : ℚ)).toNat = n := by
  have h : Rat.floor (n : ℚ) = ⌊(n : ℚ)⌋ := rfl
  rw [h, Int.floor_natCast, Int.toNat_ofNat]

/-- The first loop of generate_texture_coords reads the table from the state
and changes nothing. -/
theorem generate_texture_coords_read_eq (c : Ctx) :
    generate_texture_coords_read false tg_init c 0 =
      (c, texgenTable c, texgenCount c.state.enabled) := by
  have h1 : ¬ GL_T = GL_S := by decide
  have h2 : ¬ GL_R = GL_S := by decide
  have h3 : ¬ GL_R = GL_T := by decide
  have h4 : ¬ GL_Q = GL_S := by decide
  have h5 : ¬ GL_Q = GL_T := by decide
  have h6 : ¬ GL_Q = GL_R := by decide
  have h7 : ¬ GL_OBJECT_PLANE = GL_TEXTURE_GEN_MODE := by decide
  cases hs : hasFlag c.state.enabled ISENABLED_TEXTURE_GEN_S <;>
  cases ht : hasFlag c.state.enabled ISENABLED_TEXTURE_GEN_T <;>
  cases hr : hasFlag c.state.enabled ISENABLED_TEXTURE_GEN_R <;>
  cases hq : hasFlag c.state.enabled ISENABLED_TEXTURE_GEN_Q <;>
  simp [generate_texture_coords_read, tg_init, texgenTable, texgenEntry, texgenCount, hs, ht,
    hr, hq, jwzgles_glGetTexGenfv, FlushOnStateChange, h1, h2, h3, h4, h5, h6, h7,
    Rat_floor_natCast, plane4]

/-- Overwrite the cells `j .. j+n-1` of a four-cell vertex. -/
theorem generate_texture_coords_extract_vert (A : draw_array) (cells : List GLfloat)
    (verts_in : Nat) (hA : texgenReadable A.type) :
    ∀ (n j : Nat) (c : Ctx) (vert : List GLfloat), vert.length = 4 →
      generate_texture_coords_extract A cells verts_in n j c vert =
        (c, (List.range 4).map (fun i =>
          if j ≤ i ∧ i < j + n then cells.getD (verts_in / sizeof_type A.type + i) 0
          else vert.getD i 0)) := by
  intro n
  induction n with
  | zero =>
    intro j c vert hv
    unfold generate_texture_coords_extract
    congr 1
    apply List.ext_getElem
    · simp [hv]
    · intro i h1 h2
      have : ¬ (j ≤ i ∧ i < j) := by omega
      simp [this, List.getD_eq_getElem?_getD, List.getElem?_eq_getElem h1]
  | succ n ih =>
    intro j c vert hv
    unfold generate_texture_coords_extract
    have hA2 : A.type = GL_SHORT ∨ A.type = GL_INT ∨ A.type = GL_FLOAT ∨
        A.type = GL_DOUBLE := hA
    rw [if_pos hA2, ih _ _ _ (by simp [hv])]
    congr 1
    apply List.map_congr_left
    intro i hi
    simp only [List.mem_range] at hi
    by_cases h1 : i = j
    · subst h1
      have e1 : ¬ (i + 1 ≤ i ∧ i < i + 1 + n) := by omega
      have e2 : (i ≤ i ∧ i < i + (n + 1)) := by omega
      rw [if_neg e1, if_pos e2]
      simp [List.getD_eq_getElem?_getD, hv, hi]
    · by_cases h2 : j ≤ i ∧ i < j + (n + 1)
      · have e1 : (j + 1 ≤ i ∧ i < j + 1 + n) := by omega
        rw [if_pos e1, if_pos h2]
      · have e1 : ¬ (j + 1 ≤ i ∧ i < j + 1 + n) := by omega
        rw [if_neg e1, if_neg h2]
        simp [List.getD_eq_getElem?_getD, List.getElem?_set, Ne.symm h1]

/-- The extraction loop for a type the switch does not read: the vertex is left
as it is and one message per component is logged. -/
theorem generate_texture_coords_extract_unread (A : draw_array) (cells : List GLfloat)
    (verts_in : Nat) (hA : ¬ texgenReadable A.type) :
    ∀ (n j : Nat) (c : Ctx) (vert : List GLfloat),
      generate_texture_coords_extract A cells verts_in n j c vert =
        ({ c with asserts := c.asserts ++ List.replicate n "unknown vertex type" }, vert) := by
  intro n
  induction n with
  | zero => intro j c vert; simp [generate_texture_coords_extract]
  | succ n ih =>
    intro j c vert
    unfold generate_texture_coords_extract
    have hA2 : ¬ (A.type = GL_SHORT ∨ A.type = GL_INT ∨ A.type = GL_FLOAT ∨
        A.type = GL_DOUBLE) := hA
    rw [if_neg hA2, ih]
    simp [Assert, List.replicate_succ]

/-- The extraction loop yields `texgenVert`; it logs nothing for a readable
type and one message per component otherwise. -/
theorem generate_texture_coords_extract_eq (A : draw_array) (cells : List GLfloat)
    (verts_in : Nat) (c : Ctx) :
    generate_texture_coords_extract A cells verts_in A.size 0 c [0, 0, 0, 0] =
      ({ c with asserts := c.asserts ++
          List.replicate (if texgenReadable A.type then 0 else A.size) "unknown vertex type" },
        texgenVert A cells verts_in) := by
  by_cases hA : texgenReadable A.type
  · rw [generate_texture_coords_extract_vert A cells verts_in hA _ _ _ [0, 0, 0, 0] rfl]
    congr 1
    · simp [hA]
    · apply List.map_congr_left
      intro i hi
      simp only [List.mem_range] at hi
      by_cases h : i < A.size
      · simp [h, hA]
      · have : ¬ (0 ≤ i ∧ i < 0 + A.size) := by omega
        have h2 : ¬ (texgenReadable A.type ∧ i < A.size) := fun x => h x.2
        rw [if_neg this, if_neg h2]
        have h4 : i = 0 ∨ i = 1 ∨ i = 2 ∨ i = 3 := by omega
        rcases h4 with h | h | h | h <;> subst h <;> rfl
  · rw [generate_texture_coords_extract_unread A cells verts_in hA]
    congr 1
    · simp [hA]
    · simp [texgenVert, hA, List.range_succ]

/-- The context after `n` assertion failures with message `m`. -/
theorem Assert_false_eq (c : Ctx) (m : String) :
    Assert c false m = { c with asserts := c.asserts ++ [m] } := by
  simp [Assert]

/-- The axis loop stores `texgenCoords` and logs one message per enabled axis
in an unsupported mode. -/
theorem generate_texture_coords_axes_eq (vert : List GLfloat) (tex_out : Nat) :
    ∀ (tg : List tg_entry) (k : Nat) (c : Ctx) (tex_array : List GLfloat),
      generate_texture_coords_axes vert tex_out tg k c tex_array =
        ({ c with
            asserts := c.asserts ++
              List.replicate (texgenUnsupported c.state.enabled tg) "unimplemented texture mode" },
         storeCoords tex_array (tex_out + k) (texgenCoords c.state.enabled vert tg)) := by
  intro tg
  induction tg with
  | nil => intro k c t; simp [generate_texture_coords_axes, texgenUnsupported, texgenCoords,
      storeCoords]
  | cons e tg ih =>
    intro k c t
    unfold generate_texture_coords_axes texgenCoords texgenUnsupported
    by_cases hf : hasFlag c.state.enabled e.flag = true
    · by_cases hm : e.mode = GL_OBJECT_LINEAR
      · simp only [hf, hm, Bool.not_true, if_true, storeCoords, ih]
        simp [Nat.add_assoc]
      · simp only [hf, hm, Bool.not_true, if_false, storeCoords, ih, Assert_false_eq]
        simp [hm, Nat.add_assoc, List.replicate_succ, Nat.add_comm 1]
    · simp only [Bool.not_eq_true] at hf
      simp only [hf, Bool.not_false, if_true, ih]
      simp

theorem texgenEntry_flag (enabled which flag : Nat) (s : texgen_state) :
    (texgenEntry enabled which flag s).flag = flag := by
  unfold texgenEntry
  split <;> rfl

theorem texgenCoords_length (enabled : Nat) (vert : List GLfloat) (c : Ctx) :
    (texgenCoords enabled vert (texgenTable c)).length = texgenCount enabled := by
  simp only [texgenTable, texgenCoords, texgenCount, texgenEntry_flag]
  cases hasFlag enabled ISENABLED_TEXTURE_GEN_S <;>
  cases hasFlag enabled ISENABLED_TEXTURE_GEN_T <;>
  cases hasFlag enabled ISENABLED_TEXTURE_GEN_R <;>
  cases hasFlag enabled ISENABLED_TEXTURE_GEN_Q <;> simp

theorem texgenRow_length (enabled : Nat) (vert : List GLfloat) (c : Ctx) :
    (texgenRow enabled vert (texgenTable c)).length = texgenCount enabled := by
  simp [texgenRow, texgenCoords_length]

/-- Storing the coordinates of one vertex into cells that are still zero. -/
theorem storeCoords_zeros : ∀ (l : List (Option GLfloat)) (pre : List GLfloat) (r : Nat),
    l.length ≤ r →
    storeCoords (pre ++ List.replicate r 0) pre.length l =
      pre ++ l.map (fun o => o.getD 0) ++ List.replicate (r - l.length) 0 := by
  intro l
  induction l with
  | nil => intro pre r _; simp [storeCoords]
  | cons o l ih =>
    intro pre r hr
    simp only [List.length_cons] at hr
    obtain ⟨r, rfl⟩ : ∃ r', r = r' + 1 := ⟨r - 1, by omega⟩
    have hl : l.length ≤ r := by omega
    cases o with
    | none =>
      simp only [storeCoords]
      have e : pre ++ List.replicate (r + 1) (0 : GLfloat) =
          (pre ++ [0]) ++ List.replicate r 0 := by
        simp [List.replicate_succ]
      have e2 : pre.length + 1 = (pre ++ [(0 : GLfloat)]).length := by simp
      rw [e, e2, ih _ _ hl]
      simp
    | some v =>
      simp only [storeCoords]
      have e : (pre ++ List.replicate (r + 1) (0 : GLfloat)).set pre.length v =
          (pre ++ [v]) ++ List.replicate r 0 := by
        simp [List.replicate_succ, List.set_append_right]
      have e2 : pre.length + 1 = (pre ++ [v]).length := by simp
      rw [e, e2, ih _ _ hl]
      simp

/-- The vertex loop: what it builds from an array whose cells from `tex_out` on
are still zero, and what it logs. -/
theorem generate_texture_coords_loop_eq (A : draw_array) (cells : List GLfloat) (t : Ctx) :
    ∀ (n verts_in : Nat) (c : Ctx) (pre : List GLfloat) (r : Nat),
      n * texgenCount c.state.enabled ≤ r →
      generate_texture_coords_loop A cells (texgenTable t) (texgenCount c.state.enabled) n
          verts_in pre.length c (pre ++ List.replicate r 0) =
        ({ c with asserts := c.asserts ++ texgenLog c.state.enabled (texgenTable t) A n },
         pre ++ (List.range n).flatMap (fun m =>
             texgenRow c.state.enabled (texgenVert A cells (verts_in + m * A.stride))
               (texgenTable t)) ++
           List.replicate (r - n * texgenCount c.state.enabled) 0) := by
  intro n
  induction n with
  | zero => intro vi c pre r _; simp [generate_texture_coords_loop, texgenLog]
  | succ n ih =>
    intro vi c pre r hr
    have hr1 : texgenCount c.state.enabled ≤ r := by
      have : (n + 1) * texgenCount c.state.enabled = n * texgenCount c.state.enabled +
        texgenCount c.state.enabled := by ring
      omega
    have hr2 : n * texgenCount c.state.enabled ≤ r - texgenCount c.state.enabled := by
      have : (n + 1) * texgenCount c.state.enabled = n * texgenCount c.state.enabled +
        texgenCount c.state.enabled := by ring
      omega
    unfold generate_texture_coords_loop
    simp only [generate_texture_coords_extract_eq A cells vi c,
      generate_texture_coords_axes_eq, Nat.add_zero]
    rw [storeCoords_zeros _ _ _ (by rw [texgenCoords_length]; exact hr1)]
    have e : pre.length + texgenCount c.state.enabled =
        (pre ++ List.map (fun o => o.getD 0)
          (texgenCoords c.state.enabled (texgenVert A cells vi) (texgenTable t))).length := by
      simp [texgenCoords_length]
    rw [e, texgenCoords_length]
    have := ih (vi + A.stride)
      { c with asserts := c.asserts ++ texgenLogOne c.state.enabled (texgenTable t) A }
      (pre ++ List.map (fun o => o.getD 0)
          (texgenCoords c.state.enabled (texgenVert A cells vi) (texgenTable t)))
      (r - texgenCount c.state.enabled) hr2
    simp only at this
    have e2 : c.asserts ++
        List.replicate (if texgenReadable A.type then 0 else A.size) "unknown vertex type" ++
        List.replicate (texgenUnsupported c.state.enabled (texgenTable t))
          "unimplemented texture mode" =
        c.asserts ++ texgenLogOne c.state.enabled (texgenTable t) A := by
      simp [texgenLogOne]
    rw [e2, this]
    congr 1
    · congr 1
      simp only [texgenLog, List.append_assoc, List.append_cancel_left_eq]
      rw [List.range_succ_eq_map, List.flatMap_cons, List.flatMap_map]
    · simp only [List.append_assoc, List.append_cancel_left_eq]
      rw [List.range_succ_eq_map, List.flatMap_cons, List.flatMap_map]
      simp only [List.append_assoc]
      congr 1
      · simp [texgenRow]
      · congr 1
        · congr 1
          funext m
          congr 2
          simp only [Nat.succ_eq_add_one]
          ring
        · congr 1
          have : (n + 1) * texgenCount c.state.enabled = n * texgenCount c.state.enabled +
            texgenCount c.state.enabled := by ring
          omega

theorem texgenCount_ne_zero (e : Nat) (h : hasFlag e ISENABLED_TEXTURE_GEN_ANY = true) :
    texgenCount e ≠ 0 := by
  unfold ISENABLED_TEXTURE_GEN_ANY at h
  rw [hasFlag_or, hasFlag_or, hasFlag_or] at h
  unfold texgenCount
  cases hs : hasFlag e ISENABLED_TEXTURE_GEN_S <;>
  cases ht : hasFlag e ISENABLED_TEXTURE_GEN_T <;>
  cases hr : hasFlag e ISENABLED_TEXTURE_GEN_R <;>
  cases hq : hasFlag e ISENABLED_TEXTURE_GEN_Q <;> simp_all

/-- All of generate_texture_coords in the array path, with at least one axis
enabled: the array it builds holds the rows of the vertices at byte offsets 0,
stride, ... (`texgenArray`), it is handed to glTexCoordPointer with one cell
per enabled axis and then released, so the texcoord binding is left pointing to
a released block; the texcoord client array is enabled, and the messages of
`texgenLog` are logged. -/
theorem generate_texture_coords_closed (c : Ctx) (first count : Nat)
    (hany : hasFlag c.state.enabled ISENABLED_TEXTURE_GEN_ANY = true) :
    generate_texture_coords false c first count =
      { c with
        state := { c.state with
          set := { c.state.set with
            tcount := if c.state.compiling_verts = 0 then c.state.set.tcount + 2
                      else c.state.set.tcount },
          enabled := c.state.enabled ||| ISENABLED_TEX_ARRAY,
          texPrtValid := 0 },
        gl := { c.gl with
          texcoord := ⟨c.gl.array_buffer, texgenCount c.state.enabled, GL_FLOAT,
            texgenCount c.state.enabled * 4, 0, .freed⟩ },
        calls := c.calls ++
          ((if hasFlag c.state.enabled ISENABLED_TEX_ARRAY then []
            else [.glEnableClientState GL_TEXTURE_COORD_ARRAY]) ++
           [.glTexCoordPointer (texgenCount c.state.enabled) GL_FLOAT
              (texgenCount c.state.enabled * 4) (.heap (texgenArray c first count))]),
        asserts := c.asserts ++
          texgenLog c.state.enabled (texgenTable c) c.gl.vertex count } := by
  have htc := texgenCount_ne_zero _ hany
  have hle : count * texgenCount c.state.enabled ≤
      (first + count) * texgenCount c.state.enabled :=
    Nat.mul_le_mul_right _ (Nat.le_add_left _ _)
  have hl := generate_texture_coords_loop_eq
    { c.gl.vertex with bytes := count * c.gl.vertex.stride } (c.gl.vertex.data.cells c.w) c
    count 0 c [] ((first + count) * texgenCount c.state.enabled) hle
  simp only [List.nil_append, List.length_nil, Nat.zero_add] at hl
  have hsub : (first + count) * texgenCount c.state.enabled - count * texgenCount c.state.enabled
      = first * texgenCount c.state.enabled := by
    rw [Nat.add_mul]; omega
  rw [hsub] at hl
  unfold generate_texture_coords
  simp only [generate_texture_coords_read_eq, if_neg htc, hl]
  simp only [glEnableClientState_TEXCOORD, jwzgles_glTexCoordPointer,
    FlushOnStateChange_array_path, gl_TexCoordPointer, emit, List.append_assoc,
    free_tex_array]
  rfl



/-! ### With nothing pending in the wrapper, both builds agree -/

theorem FlushOnStateChange_idle (U : Bool) (c : Ctx) (h : c.w.vertexCount = 0) :
    FlushOnStateChange U c = c := by
  cases U
  · exact FlushOnStateChange_array_path c
  · simp [FlushOnStateChange, FlushOnStateChange_test, h]

theorem jwzgles_glGetTexGenfv_idle (U : Bool) (c : Ctx) (coord pname : Nat)
    (params : List GLfloat) (h : c.w.vertexCount = 0) :
    jwzgles_glGetTexGenfv U c coord pname params =
      jwzgles_glGetTexGenfv false c coord pname params := by
  unfold jwzgles_glGetTexGenfv
  rw [FlushOnStateChange_idle U c h, FlushOnStateChange_array_path]

theorem generate_texture_coords_read_idle (U : Bool) :
    ∀ (tg : List tg_entry) (c : Ctx) (n : Nat), c.w.vertexCount = 0 →
      generate_texture_coords_read U tg c n = generate_texture_coords_read false tg c n := by
  intro tg
  induction tg with
  | nil => intro c n _; rfl
  | cons e tg ih =>
    intro c n h
    unfold generate_texture_coords_read
    have h1 : (jwzgles_glGetTexGenfv false c e.which GL_TEXTURE_GEN_MODE
        [0]).1.w.vertexCount = 0 := by
      rw [(onlyAsserts_glGetTexGenfv c _ _ _).2.1]; exact h
    have h2 : (jwzgles_glGetTexGenfv false
        (jwzgles_glGetTexGenfv false c e.which GL_TEXTURE_GEN_MODE [0]).1 e.which
        GL_OBJECT_PLANE e.plane).1.w.vertexCount = 0 := by
      rw [(onlyAsserts_glGetTexGenfv _ _ _ _).2.1]; exact h1
    simp only [ih c n h, jwzgles_glGetTexGenfv_idle U c _ _ _ h]
    simp only [jwzgles_glGetTexGenfv_idle U _ _ _ _ h1, ih _ _ h2]

theorem Assert_w (c : Ctx) (b : Bool) (m : String) : (Assert c b m).w = c.w :=
  (onlyAsserts_Assert c b m).2.1

theorem enable_disable_idle (U : Bool) (c : Ctx) (bit : Nat) (set : Int)
    (h : c.w.vertexCount = 0) :
    enable_disable U c bit set = enable_disable false c bit set := by
  cases U
  · rfl
  have key : ∀ (c1 : Ctx) (csp : Bool), c1.w.vertexCount = 0 →
      FlushOnStateChange true (if csp = true ∧ c1.state.compiling_verts = 0 then
        { c1 with state := { c1.state with set := enable_disable_counts c1.state.set bit set } }
        else c1) =
      FlushOnStateChange false (if csp = true ∧ c1.state.compiling_verts = 0 then
        { c1 with state := { c1.state with set := enable_disable_counts c1.state.set bit set } }
        else c1) := by
    intro c1 csp h1
    rw [FlushOnStateChange_idle true _ (by split <;> exact h1), FlushOnStateChange_array_path]
  unfold enable_disable
  generalize enable_disable_switch bit = k
  obtain ⟨F, omitp, csp, known⟩ := k
  have hw : (Assert c (set != 0) "glIsEnabled unimplemented bit").w.vertexCount = 0 := by
    rw [Assert_w]; exact h
  cases known
  · dsimp only
    rw [if_neg (by decide : ¬ (false = true)), key _ _ hw]
  · dsimp only
    rw [if_pos rfl, key _ _ h]

theorem generate_texture_coords_idle (U : Bool) (c : Ctx) (first count : Nat)
    (h : c.w.vertexCount = 0) :
    generate_texture_coords U c first count = generate_texture_coords false c first count := by
  unfold generate_texture_coords
  rw [generate_texture_coords_read_idle U _ _ _ h]
  have h1 := (onlyAsserts_read tg_init c 0).2.1
  generalize generate_texture_coords_read false tg_init c 0 = r at h1
  obtain ⟨c0, tg, tcoords⟩ := r
  simp only at h1 ⊢
  split
  · rfl
  · have h2 := (onlyAsserts_loop
      { c0.gl.vertex with bytes := count * c0.gl.vertex.stride }
      (c0.gl.vertex.data.cells c0.w) tg tcoords count 0 0 c0
      (List.replicate ((first + count) * tcoords) 0)).2.1
    generalize generate_texture_coords_loop
      { c0.gl.vertex with bytes := count * c0.gl.vertex.stride }
      (c0.gl.vertex.data.cells c0.w) tg tcoords count 0 0 c0
      (List.replicate ((first + count) * tcoords) 0) = l at h2
    obtain ⟨c1, arr⟩ := l
    simp only at h2 ⊢
    have h3 : c1.w.vertexCount = 0 := by rw [h2, h1]; exact h
    unfold jwzgles_glEnableClientState jwzgles_glTexCoordPointer
    rw [enable_disable_idle U c1 _ _ h3]
    have h4 : (enable_disable false c1 GL_TEXTURE_COORD_ARRAY 1).1.w.vertexCount = 0 := by
      have := glEnableClientState_TEXCOORD c1
      unfold jwzgles_glEnableClientState at this
      rw [this]
      exact h3
    rw [FlushOnStateChange_idle U _ h4, FlushOnStateChange_array_path]

theorem jwzgles_glDrawArrays_idle (U : Bool) (c : Ctx) (mode first count : Nat)
    (h : c.w.vertexCount = 0) :
    jwzgles_glDrawArrays U c mode first count =
      gl_DrawArrays (if hasFlag c.state.enabled ISENABLED_TEXTURE_GEN_ANY then
        generate_texture_coords false c first count else c) mode first count := by
  unfold jwzgles_glDrawArrays
  simp only [FlushOnStateChange_idle U c h]
  split
  · rw [generate_texture_coords_idle U c _ _ h]
  · rfl


/-- C17, the code at the failing input.  From the state after jwzgles_reset,
in either build: jwzgles_glTexGeni (GL_S, GL_TEXTURE_GEN_MODE,
GL_OBJECT_LINEAR), jwzgles_glTexGenfv (GL_S, GL_OBJECT_PLANE, (1, 0, 0, 0)),
jwzgles_glEnable (GL_TEXTURE_GEN_S), jwzgles_glVertexPointer (4, GL_FLOAT, 16,
(3, 5, 7, 1)), jwzgles_glDrawArrays (GL_POINTS, 0, 1).  The mode and the plane
are stored, but no texture-generation flag is cached and the query
jwzgles_glIsEnabled (GL_TEXTURE_GEN_S) answers false; the draw request issues
the glDrawArrays call alone, with the texture-coordinate array disabled and
nothing bound as texture-coordinate array at that moment; no glTexCoordPointer
call is made in the whole sequence and nothing is logged: no coordinate is
generated for the vertex, where the claim has S = 3. -/
theorem C17_object_linear_request_generates_nothing :
    ((texgenSetup true GL_OBJECT_LINEAR [1, 0, 0, 0] [3, 5, 7, 1]).state.s.mode =
       GL_OBJECT_LINEAR ∧
     (texgenSetup true GL_OBJECT_LINEAR [1, 0, 0, 0] [3, 5, 7, 1]).state.s.obj = [1, 0, 0, 0] ∧
     (texgenSetup true GL_OBJECT_LINEAR [1, 0, 0, 0] [3, 5, 7, 1]).gl.vertex.data =
       .heap [3, 5, 7, 1] ∧
     hasFlag (texgenSetup true GL_OBJECT_LINEAR [1, 0, 0, 0] [3, 5, 7, 1]).state.enabled
       ISENABLED_TEXTURE_GEN_ANY = false ∧
     (jwzgles_glIsEnabled true (texgenSetup true GL_OBJECT_LINEAR [1, 0, 0, 0] [3, 5, 7, 1])
       GL_TEXTURE_GEN_S).2 = false ∧
     issuedBy (texgenSetup true GL_OBJECT_LINEAR [1, 0, 0, 0] [3, 5, 7, 1])
         (jwzgles_glDrawArrays true (texgenSetup true GL_OBJECT_LINEAR [1, 0, 0, 0] [3, 5, 7, 1])
           GL_POINTS 0 1) =
       [.glDrawArrays GL_POINTS 0 1
         (seenNow (texgenSetup true GL_OBJECT_LINEAR [1, 0, 0, 0] [3, 5, 7, 1]))] ∧
     hasFlag (seenNow (texgenSetup true GL_OBJECT_LINEAR [1, 0, 0, 0] [3, 5, 7, 1])).enabled
       ISENABLED_TEX_ARRAY = false ∧
     (seenNow (texgenSetup true GL_OBJECT_LINEAR [1, 0, 0, 0] [3, 5, 7, 1])).arrays.texcoord =
       ⟨0, 0, 0, 0, 0, .heap []⟩ ∧
     (jwzgles_glDrawArrays true (texgenSetup true GL_OBJECT_LINEAR [1, 0, 0, 0] [3, 5, 7, 1])
       GL_POINTS 0 1).calls.filter GLCall.isTexCoordPointer = [] ∧
     (jwzgles_glDrawArrays true (texgenSetup true GL_OBJECT_LINEAR [1, 0, 0, 0] [3, 5, 7, 1])
       GL_POINTS 0 1).asserts = []) ∧
    ((texgenSetup false GL_OBJECT_LINEAR [1, 0, 0, 0] [3, 5, 7, 1]).state.s.mode =
       GL_OBJECT_LINEAR ∧
     (texgenSetup false GL_OBJECT_LINEAR [1, 0, 0, 0] [3, 5, 7, 1]).state.s.obj = [1, 0, 0, 0] ∧
     (texgenSetup false GL_OBJECT_LINEAR [1, 0, 0, 0] [3, 5, 7, 1]).gl.vertex.data =
       .heap [3, 5, 7, 1] ∧
     hasFlag (texgenSetup false GL_OBJECT_LINEAR [1, 0, 0, 0] [3, 5, 7, 1]).state.enabled
       ISENABLED_TEXTURE_GEN_ANY = false ∧
     (jwzgles_glIsEnabled false (texgenSetup false GL_OBJECT_LINEAR [1, 0, 0, 0] [3, 5, 7, 1])
       GL_TEXTURE_GEN_S).2 = false ∧
     issuedBy (texgenSetup false GL_OBJECT_LINEAR [1, 0, 0, 0] [3, 5, 7, 1])
         (jwzgles_glDrawArrays false (texgenSetup false GL_OBJECT_LINEAR [1, 0, 0, 0] [3, 5, 7, 1])
           GL_POINTS 0 1) =
       [.glDrawArrays GL_POINTS 0 1
         (seenNow (texgenSetup false GL_OBJECT_LINEAR [1, 0, 0, 0] [3, 5, 7, 1]))] ∧
     hasFlag (seenNow (texgenSetup false GL_OBJECT_LINEAR [1, 0, 0, 0] [3, 5, 7, 1])).enabled
       ISENABLED_TEX_ARRAY = false ∧
     (seenNow (texgenSetup false GL_OBJECT_LINEAR [1, 0, 0, 0] [3, 5, 7, 1])).arrays.texcoord =
       ⟨0, 0, 0, 0, 0, .heap []⟩ ∧
     (jwzgles_glDrawArrays false (texgenSetup false GL_OBJECT_LINEAR [1, 0, 0, 0] [3, 5, 7, 1])
       GL_POINTS 0 1).calls.filter GLCall.isTexCoordPointer = [] ∧
     (jwzgles_glDrawArrays false (texgenSetup false GL_OBJECT_LINEAR [1, 0, 0, 0] [3, 5, 7, 1])
       GL_POINTS 0 1).asserts = []) := by
  decide

/-- C18, the code at the failing input.  From the state after jwzgles_reset,
in either build: jwzgles_glTexGeni (GL_S, GL_TEXTURE_GEN_MODE,
GL_OBJECT_LINEAR), jwzgles_glTexGenfv (GL_S, GL_OBJECT_PLANE, (1, 0, 0, 0)),
jwzgles_glEnable (GL_TEXTURE_GEN_S), jwzgles_glVertexPointer (4, GL_FLOAT, 16,
((3, 5, 7, 1), (2, 0, 0, 1))), jwzgles_glDrawArrays (GL_POINTS, 1, 1).  No
texture-generation flag is cached, so the draw request does not reach
generate_texture_coords: it issues the glDrawArrays call alone, no
glTexCoordPointer call is made in the whole sequence, and the array bound as
texture-coordinate array at the moment of the draw and afterwards is the one
bound before, with no entry at all, where the claim has the two entries
0 and 2. -/
theorem C18_draw_installs_no_generated_array :
    (hasFlag (texgenSetup true GL_OBJECT_LINEAR [1, 0, 0, 0]
       [3, 5, 7, 1, 2, 0, 0, 1]).state.enabled ISENABLED_TEXTURE_GEN_ANY = false ∧
     issuedBy (texgenSetup true GL_OBJECT_LINEAR [1, 0, 0, 0] [3, 5, 7, 1, 2, 0, 0, 1])
         (jwzgles_glDrawArrays true
           (texgenSetup true GL_OBJECT_LINEAR [1, 0, 0, 0] [3, 5, 7, 1, 2, 0, 0, 1])
           GL_POINTS 1 1) =
       [.glDrawArrays GL_POINTS 1 1
         (seenNow (texgenSetup true GL_OBJECT_LINEAR [1, 0, 0, 0] [3, 5, 7, 1, 2, 0, 0, 1]))] ∧
     (seenNow (texgenSetup true GL_OBJECT_LINEAR [1, 0, 0, 0]
       [3, 5, 7, 1, 2, 0, 0, 1])).arrays.texcoord = initial.gl.texcoord ∧
     (jwzgles_glDrawArrays true
       (texgenSetup true GL_OBJECT_LINEAR [1, 0, 0, 0] [3, 5, 7, 1, 2, 0, 0, 1])
       GL_POINTS 1 1).gl.texcoord = initial.gl.texcoord ∧
     initial.gl.texcoord.data = .heap [] ∧
     (jwzgles_glDrawArrays true
       (texgenSetup true GL_OBJECT_LINEAR [1, 0, 0, 0] [3, 5, 7, 1, 2, 0, 0, 1])
       GL_POINTS 1 1).calls.filter GLCall.isTexCoordPointer = []) ∧
    (hasFlag (texgenSetup false GL_OBJECT_LINEAR [1, 0, 0, 0]
       [3, 5, 7, 1, 2, 0, 0, 1]).state.enabled ISENABLED_TEXTURE_GEN_ANY = false ∧
     issuedBy (texgenSetup false GL_OBJECT_LINEAR [1, 0, 0, 0] [3, 5, 7, 1, 2, 0, 0, 1])
         (jwzgles_glDrawArrays false
           (texgenSetup false GL_OBJECT_LINEAR [1, 0, 0, 0] [3, 5, 7, 1, 2, 0, 0, 1])
           GL_POINTS 1 1) =
       [.glDrawArrays GL_POINTS 1 1
         (seenNow (texgenSetup false GL_OBJECT_LINEAR [1, 0, 0, 0] [3, 5, 7, 1, 2, 0, 0, 1]))] ∧
     (seenNow (texgenSetup false GL_OBJECT_LINEAR [1, 0, 0, 0]
       [3, 5, 7, 1, 2, 0, 0, 1])).arrays.texcoord = initial.gl.texcoord ∧
     (jwzgles_glDrawArrays false
       (texgenSetup false GL_OBJECT_LINEAR [1, 0, 0, 0] [3, 5, 7, 1, 2, 0, 0, 1])
       GL_POINTS 1 1).gl.texcoord = initial.gl.texcoord ∧
     initial.gl.texcoord.data = .heap [] ∧
     (jwzgles_glDrawArrays false
       (texgenSetup false GL_OBJECT_LINEAR [1, 0, 0, 0] [3, 5, 7, 1, 2, 0, 0, 1])
       GL_POINTS 1 1).calls.filter GLCall.isTexCoordPointer = []) := by
  decide

/-- C19, counterexample.  From the state after jwzgles_reset, in either build:
jwzgles_glTexGeni (GL_S, GL_TEXTURE_GEN_MODE, GL_SPHERE_MAP), jwzgles_glEnable
(GL_TEXTURE_GEN_S), a vertex array bound, jwzgles_glDrawArrays (GL_POINTS, 0,
1): the mode of S is GL_SPHERE_MAP, nothing is logged, and the glDrawArrays
call reaches the renderer.  The same without the jwzgles_glTexGeni request,
the mode of S then being the GL_EYE_LINEAR that jwzgles_reset installs. -/
theorem C19_counterexample :
    (((texgenSetup true GL_SPHERE_MAP [1, 0, 0, 0] [3, 5, 7, 1]).state.s.mode = GL_SPHERE_MAP ∧
      (jwzgles_glDrawArrays true (texgenSetup true GL_SPHERE_MAP [1, 0, 0, 0] [3, 5, 7, 1])
         GL_POINTS 0 1).asserts = [] ∧
      issuedBy (texgenSetup true GL_SPHERE_MAP [1, 0, 0, 0] [3, 5, 7, 1])
         (jwzgles_glDrawArrays true (texgenSetup true GL_SPHERE_MAP [1, 0, 0, 0] [3, 5, 7, 1])
           GL_POINTS 0 1) =
        [.glDrawArrays GL_POINTS 0 1
          (seenNow (texgenSetup true GL_SPHERE_MAP [1, 0, 0, 0] [3, 5, 7, 1]))]) ∧
     ((texgenDefaultSetup true [3, 5, 7, 1]).state.s.mode = GL_EYE_LINEAR ∧
      (jwzgles_glDrawArrays true (texgenDefaultSetup true [3, 5, 7, 1])
         GL_POINTS 0 1).asserts = [] ∧
      issuedBy (texgenDefaultSetup true [3, 5, 7, 1])
         (jwzgles_glDrawArrays true (texgenDefaultSetup true [3, 5, 7, 1]) GL_POINTS 0 1) =
        [.glDrawArrays GL_POINTS 0 1 (seenNow (texgenDefaultSetup true [3, 5, 7, 1]))])) ∧
    (((texgenSetup false GL_SPHERE_MAP [1, 0, 0, 0] [3, 5, 7, 1]).state.s.mode = GL_SPHERE_MAP ∧
      (jwzgles_glDrawArrays false (texgenSetup false GL_SPHERE_MAP [1, 0, 0, 0] [3, 5, 7, 1])
         GL_POINTS 0 1).asserts = [] ∧
      issuedBy (texgenSetup false GL_SPHERE_MAP [1, 0, 0, 0] [3, 5, 7, 1])
         (jwzgles_glDrawArrays false (texgenSetup false GL_SPHERE_MAP [1, 0, 0, 0] [3, 5, 7, 1])
           GL_POINTS 0 1) =
        [.glDrawArrays GL_POINTS 0 1
          (seenNow (texgenSetup false GL_SPHERE_MAP [1, 0, 0, 0] [3, 5, 7, 1]))]) ∧
     ((texgenDefaultSetup false [3, 5, 7, 1]).state.s.mode = GL_EYE_LINEAR ∧
      (jwzgles_glDrawArrays false (texgenDefaultSetup false [3, 5, 7, 1])
         GL_POINTS 0 1).asserts = [] ∧
      issuedBy (texgenDefaultSetup false [3, 5, 7, 1])
         (jwzgles_glDrawArrays false (texgenDefaultSetup false [3, 5, 7, 1]) GL_POINTS 0 1) =
        [.glDrawArrays GL_POINTS 0 1 (seenNow (texgenDefaultSetup false [3, 5, 7, 1]))])) := by
  decide

/-- The part of jwzgles_glDrawArrays after the flush, in either build: the
calls of texture generation, if any, then the glDrawArrays call. -/
theorem glDrawArrays_after_flush (U : Bool) (c : Ctx) (mode first count : Nat)
    (h : U = false ∨ c.w.vertexCount = 0) :
    ∃ d seen,
      (gl_DrawArrays (if hasFlag c.state.enabled ISENABLED_TEXTURE_GEN_ANY then
          generate_texture_coords U c first count else c) mode first count).calls =
        c.calls ++ d ++ [.glDrawArrays mode first count seen] ∧
      (∀ x ∈ d, x = .glEnableClientState GL_TEXTURE_COORD_ARRAY ∨
        ∃ a b p, x = .glTexCoordPointer a GL_FLOAT b p) ∧
      (hasFlag c.state.enabled ISENABLED_TEXTURE_GEN_ANY = false →
        d = [] ∧ seen = seenNow c ∧
        (gl_DrawArrays (if hasFlag c.state.enabled ISENABLED_TEXTURE_GEN_ANY then
          generate_texture_coords U c first count else c) mode first count).asserts =
          c.asserts) := by
  have hU : generate_texture_coords U c first count =
      generate_texture_coords false c first count := by
    rcases h with h | h
    · rw [h]
    · exact generate_texture_coords_idle U c first count h
  by_cases hg : hasFlag c.state.enabled ISENABLED_TEXTURE_GEN_ANY = true
  · obtain ⟨T, E, P, X, d, A, e, _, hd⟩ := generate_texture_coords_eq c first count
    refine ⟨d, seenNow (generate_texture_coords false c first count), ?_, ?_, ?_⟩
    · rw [if_pos hg, hU]
      simp only [gl_DrawArrays, emit]
      rw [e]
    · intro x hx
      rcases hd x hx with ⟨hx, _⟩ | hx
      · exact Or.inl hx
      · exact Or.inr hx
    · intro hf
      rw [hg] at hf
      exact absurd hf (by simp)
  · refine ⟨[], seenNow c, ?_, by simp, fun _ => ⟨rfl, rfl, ?_⟩⟩
    · rw [if_neg hg]
      simp [gl_DrawArrays, emit]
    · rw [if_neg hg]
      rfl

/-- C19 (amended): a draw request is never refused, whatever texture-generation
axes are enabled and whatever their modes.  In either build and in every
state, jwzgles_glDrawArrays (mode, first, count) issues the glDrawArrays call
with the requested mode, first and count as its last renderer call; before it
come only the calls of the flush of pending geometry (DrawElements build) and,
if a texture-generation flag is cached, the calls glEnableClientState
(GL_TEXTURE_COORD_ARRAY) and glTexCoordPointer that bind generated
coordinates.  With no texture-generation flag cached nothing is bound and
nothing is logged. -/
theorem C19_draw_request_is_never_refused (U : Bool) (c : Ctx) (mode first count : Nat) :
    ∃ d seen,
      (jwzgles_glDrawArrays U c mode first count).calls =
        c.calls ++ (if U = true then flushCalls c else []) ++ d ++
          [.glDrawArrays mode first count seen] ∧
      (∀ x ∈ d, x = .glEnableClientState GL_TEXTURE_COORD_ARRAY ∨
        ∃ a b p, x = .glTexCoordPointer a GL_FLOAT b p) ∧
      (hasFlag c.state.enabled ISENABLED_TEXTURE_GEN_ANY = false →
        d = [] ∧ (jwzgles_glDrawArrays U c mode first count).asserts = c.asserts) := by
  obtain ⟨he, _, _, ha⟩ := FlushOnStateChange_frame U c
  obtain ⟨d, seen, h1, h2, h3⟩ := glDrawArrays_after_flush U (FlushOnStateChange U c) mode
    first count (FlushOnStateChange_drained U c)
  refine ⟨d, seen, ?_, h2, ?_⟩
  · unfold jwzgles_glDrawArrays
    rw [h1, FlushOnStateChange_calls]
  · intro hf
    rw [he] at h3
    obtain ⟨hd, _, hs⟩ := h3 hf
    refine ⟨hd, ?_⟩
    unfold jwzgles_glDrawArrays
    simp only [he]
    rw [hs, ha]

/-- C19, witness: the draw request after a sphere-map request on S, in the
DrawElements build. -/
theorem C19_draw_request_is_never_refused_witness :
    ∃ d seen,
      (jwzgles_glDrawArrays true (texgenSetup true GL_SPHERE_MAP [1, 0, 0, 0] [3, 5, 7, 1])
          GL_POINTS 0 1).calls =
        (texgenSetup true GL_SPHERE_MAP [1, 0, 0, 0] [3, 5, 7, 1]).calls ++
          (if true = true then
            flushCalls (texgenSetup true GL_SPHERE_MAP [1, 0, 0, 0] [3, 5, 7, 1]) else []) ++
          d ++ [.glDrawArrays GL_POINTS 0 1 seen] ∧
      (∀ x ∈ d, x = .glEnableClientState GL_TEXTURE_COORD_ARRAY ∨
        ∃ a b p, x = .glTexCoordPointer a GL_FLOAT b p) ∧
      (hasFlag (texgenSetup true GL_SPHERE_MAP [1, 0, 0, 0] [3, 5, 7, 1]).state.enabled
          ISENABLED_TEXTURE_GEN_ANY = false →
        d = [] ∧
        (jwzgles_glDrawArrays true (texgenSetup true GL_SPHERE_MAP [1, 0, 0, 0] [3, 5, 7, 1])
          GL_POINTS 0 1).asserts =
          (texgenSetup true GL_SPHERE_MAP [1, 0, 0, 0] [3, 5, 7, 1]).asserts) :=
  C19_draw_request_is_never_refused true
    (texgenSetup true GL_SPHERE_MAP [1, 0, 0, 0] [3, 5, 7, 1]) GL_POINTS 0 1



/-! ## Nested glBegin -/

/-- A glEnd that finds no vertex recorded, whatever the nesting depth: it logs
"missing glBegin" unless the depth is 1, lowers the depth by one and returns. -/
theorem glEnd_empty (c : Ctx) (hzero : c.state.set.count = 0) :
    jwzgles_glEnd_REMOVED c =
      { c with
        state := { c.state with compiling_verts := c.state.compiling_verts - 1 },
        asserts := c.asserts ++
          (if c.state.compiling_verts = 1 then [] else ["missing glBegin"]) } := by
  unfold jwzgles_glEnd_REMOVED
  by_cases h : c.state.compiling_verts = 1
  · have hA : Assert c (c.state.compiling_verts == 1) "missing glBegin" = c := by
      simp [Assert, h]
    rw [hA]
    dsimp only
    rw [if_pos hzero, if_pos h]
    simp
  · have hA : Assert c (c.state.compiling_verts == 1) "missing glBegin" =
        { c with asserts := c.asserts ++ ["missing glBegin"] } := by
      simp [Assert, h]
    rw [hA]
    dsimp only
    rw [if_pos hzero, if_neg h]

/-- What glBegin of the array path does in any state. -/
theorem glBegin_eq (c : Ctx) (mode : Nat) :
    jwzgles_glBegin_REMOVED c mode =
      { c with
        state := { c.state with
          compiling_verts := c.state.compiling_verts + 1,
          set := { c.state.set with
            mode := mode, count := 0, ncount := 0, tcount := 0, ccount := 0 } },
        asserts := c.asserts ++
          (if c.state.compiling_verts = 0 then [] else ["nested glBegin"]) ++
          (if c.state.set.count = 0 then [] else ["glBegin corrupted"]) } := by
  unfold jwzgles_glBegin_REMOVED Assert
  by_cases h1 : c.state.compiling_verts = 0 <;> by_cases h2 : c.state.set.count = 0 <;>
    simp [h1, h2]

/-- C20, counterexample: from the initial state, glBegin twice.  The second
glBegin logs "nested glBegin" and goes on; the open depth is then 2; a single
glEnd logs "missing glBegin" and leaves the depth at 1, so the batch is still
open (a glVertex would still be accepted), and only a second glEnd returns the
depth to 0. -/
theorem C20_counterexample :
    (jwzgles_glBegin_REMOVED initial GL_TRIANGLES).state.compiling_verts = 1 ∧
    (jwzgles_glBegin_REMOVED (jwzgles_glBegin_REMOVED initial GL_TRIANGLES)
      GL_TRIANGLES).state.compiling_verts = 2 ∧
    (jwzgles_glBegin_REMOVED (jwzgles_glBegin_REMOVED initial GL_TRIANGLES)
      GL_TRIANGLES).asserts = ["nested glBegin"] ∧
    (jwzgles_glEnd_REMOVED (jwzgles_glBegin_REMOVED
      (jwzgles_glBegin_REMOVED initial GL_TRIANGLES) GL_TRIANGLES)).state.compiling_verts = 1 ∧
    (jwzgles_glEnd_REMOVED (jwzgles_glBegin_REMOVED
      (jwzgles_glBegin_REMOVED initial GL_TRIANGLES) GL_TRIANGLES)).asserts =
        ["nested glBegin", "missing glBegin"] ∧
    (jwzgles_glEnd_REMOVED (jwzgles_glEnd_REMOVED (jwzgles_glBegin_REMOVED
      (jwzgles_glBegin_REMOVED initial GL_TRIANGLES) GL_TRIANGLES))).state.compiling_verts = 0 ∧
    (jwzgles_glBegin (jwzgles_glBegin initial GL_TRIANGLES) GL_TRIANGLES).asserts = [] := by
  decide

/-- C20 (amended): glBegin of the array path while a batch is open (depth
`compiling_verts` at least 1) is not rejected.  It logs "nested glBegin", and
"glBegin corrupted" when vertices were recorded, raises the depth by one and
starts the batch afresh with zero vertices.  A single glEnd after it logs
"missing glBegin", issues no renderer call and leaves the depth where it was
before the nested glBegin, so the batch is still open.  The glBegin of the
DrawElements path logs nothing and changes only wrapper variables. -/
theorem C20_nested_glBegin_is_logged_and_counted (c : Ctx) (mode : Nat)
    (hopen : 1 ≤ c.state.compiling_verts) :
    (jwzgles_glBegin_REMOVED c mode).asserts =
      c.asserts ++ ["nested glBegin"] ++
        (if c.state.set.count = 0 then [] else ["glBegin corrupted"]) ∧
    (jwzgles_glBegin_REMOVED c mode).state.compiling_verts = c.state.compiling_verts + 1 ∧
    (jwzgles_glBegin_REMOVED c mode).state.set.count = 0 ∧
    (jwzgles_glEnd_REMOVED (jwzgles_glBegin_REMOVED c mode)).state.compiling_verts =
      c.state.compiling_verts ∧
    (jwzgles_glEnd_REMOVED (jwzgles_glBegin_REMOVED c mode)).asserts =
      (jwzgles_glBegin_REMOVED c mode).asserts ++ ["missing glBegin"] ∧
    issuedBy c (jwzgles_glEnd_REMOVED (jwzgles_glBegin_REMOVED c mode)) = [] ∧
    (jwzgles_glBegin c mode).asserts = c.asserts ∧
    (jwzgles_glBegin c mode).state = c.state ∧
    (jwzgles_glBegin c mode).calls = c.calls := by
  have h0 : ¬ c.state.compiling_verts = 0 := by omega
  have h1 : ¬ c.state.compiling_verts + 1 = 1 := by omega
  have hz : (jwzgles_glBegin_REMOVED c mode).state.set.count = 0 := by rw [glBegin_eq]
  have hd : (jwzgles_glBegin_REMOVED c mode).state.compiling_verts =
      c.state.compiling_verts + 1 := by rw [glBegin_eq]
  have hc : (jwzgles_glBegin_REMOVED c mode).calls = c.calls := by rw [glBegin_eq]
  refine ⟨?_, hd, hz, ?_, ?_, ?_, rfl, rfl, rfl⟩
  · rw [glBegin_eq]
    simp [h0]
  · rw [glEnd_empty _ hz]
    simp only [hd]
    omega
  · rw [glEnd_empty _ hz]
    simp only [hd, if_neg h1]
  · apply issuedBy_same
    rw [glEnd_empty _ hz]
    exact hc

/-- Witness of C20: the batch opened from the initial state. -/
theorem C20_nested_glBegin_is_logged_and_counted_witness :
    1 ≤ (jwzgles_glBegin_REMOVED initial GL_TRIANGLES).state.compiling_verts ∧
    (jwzgles_glEnd_REMOVED (jwzgles_glBegin_REMOVED
      (jwzgles_glBegin_REMOVED initial GL_TRIANGLES) GL_QUADS)).state.compiling_verts =
      (jwzgles_glBegin_REMOVED initial GL_TRIANGLES).state.compiling_verts :=
  ⟨by decide,
   (C20_nested_glBegin_is_logged_and_counted (jwzgles_glBegin_REMOVED initial GL_TRIANGLES)
      GL_QUADS (by decide)).2.2.2.1⟩



/-! ## The comment on cq2t -/

theorem quadCells_length {α : Type} (stride : Nat) :
    ∀ (qs : List (List α × List α × List α × List α)),
      (∀ q ∈ qs, q.1.length = stride ∧ q.2.1.length = stride ∧ q.2.2.1.length = stride ∧
        q.2.2.2.length = stride) →
      (quadCells qs).length = 4 * stride * qs.length := by
  intro qs
  induction qs with
  | nil => intro _; simp [quadCells]
  | cons q qs ih =>
    intro h
    obtain ⟨h1, h2, h3, h4⟩ := h q (List.mem_cons_self _ _)
    have := ih (fun x hx => h x (List.mem_cons_of_mem _ hx))
    simp only [quadCells, List.flatMap_cons, List.length_append, List.length_cons] at this ⊢
    rw [this, h1, h2, h3, h4]
    ring

/-- The output of the loop of cq2t on an array of quads. -/
theorem quadsOut_quadCells {α : Type} (stride : Nat) :
    ∀ (qs : List (List α × List α × List α × List α)) (pre : List α),
      (∀ q ∈ qs, q.1.length = stride ∧ q.2.1.length = stride ∧ q.2.2.1.length = stride ∧
        q.2.2.2.length = stride) →
      quadsOut (pre ++ quadCells qs) stride qs.length pre.length = cellsABD_BCD qs := by
  intro qs
  induction qs with
  | nil => intro pre _; simp [quadsOut, cellsABD_BCD]
  | cons q qs ih =>
    intro pre h
    obtain ⟨h1, h2, h3, h4⟩ := h q (List.mem_cons_self _ _)
    obtain ⟨A, B, C, D⟩ := q
    simp only at h1 h2 h3 h4
    have hrest := ih (pre ++ (A ++ (B ++ (C ++ D)))) (fun x hx => h x (List.mem_cons_of_mem _ hx))
    have e0 : pre ++ quadCells ((A, B, C, D) :: qs) =
        pre ++ (A ++ (B ++ (C ++ D))) ++ quadCells qs := by
      simp [quadCells]
    have mid : ∀ (X M Y : List α) (n : Nat), n = X.length → M.length = stride →
        pre ++ quadCells ((A, B, C, D) :: qs) = X ++ (M ++ Y) →
        ((pre ++ quadCells ((A, B, C, D) :: qs)).drop n).take stride = M := by
      intro X M Y n hn hm e
      rw [e, hn, List.drop_left, List.take_left' hm]
    have d0 := mid pre A (B ++ (C ++ (D ++ quadCells qs))) pre.length rfl h1
      (by simp [quadCells])
    have d1 := mid (pre ++ A) B (C ++ (D ++ quadCells qs)) (pre.length + stride)
      (by simp [h1]) h2 (by simp [quadCells])
    have d2 := mid (pre ++ A ++ B) C (D ++ quadCells qs) (pre.length + stride + stride)
      (by simp [h1, h2]; omega) h3 (by simp [quadCells])
    have d3 := mid (pre ++ A ++ B ++ C) D (quadCells qs)
      (pre.length + stride + stride + stride)
      (by simp [h1, h2, h3]; omega) h4 (by simp [quadCells])
    have hl : pre.length + stride + stride + stride + stride =
        (pre ++ (A ++ (B ++ (C ++ D)))).length := by
      simp [h1, h2, h3, h4]; omega
    simp only [List.length_cons, quadsOut, d0, d1, d2, d3]
    rw [hl, e0, hrest]
    simp [cellsABD_BCD]

theorem cellsABD_BCD_length {α : Type} (stride : Nat) :
    ∀ (qs : List (List α × List α × List α × List α)),
      (∀ q ∈ qs, q.1.length = stride ∧ q.2.1.length = stride ∧ q.2.2.1.length = stride ∧
        q.2.2.2.length = stride) →
      (cellsABD_BCD qs).length = 6 * stride * qs.length := by
  intro qs
  induction qs with
  | nil => intro _; simp [cellsABD_BCD]
  | cons q qs ih =>
    intro h
    obtain ⟨h1, h2, h3, h4⟩ := h q (List.mem_cons_self _ _)
    have := ih (fun x hx => h x (List.mem_cons_of_mem _ hx))
    simp only [cellsABD_BCD, List.flatMap_cons, List.length_append, List.length_cons] at this ⊢
    rw [this, h1, h2, h3, h4]
    ring

/-- C26, counterexample: for the quad of the one-cell corners 10, 20, 30, 40,
cq2t returns the six elements 10, 20, 40, 20, 30, 40 (A B D B C D), which is
not the 10, 20, 30, 20, 30, 40 (A B C B C D) of the comment. -/
theorem C26_counterexample :
    cq2t (some (quadCells [([10], [20], [30], [40])])) 1 4 =
      ⟨some [10, 20, 40, 20, 30, 40], 6, []⟩ ∧
    cellsABC_BCD [([10], [20], [30], [40])] = [10, 20, 30, 20, 30, 40] ∧
    (cq2t (some (quadCells [([10], [20], [30], [40])])) 1 4).array ≠
      some (cellsABC_BCD [([10], [20], [30], [40])]) := by
  decide

/-- C26 (amended): given an array of sets of 4 elements of `stride` cells each,
the quads A, B, C, D, cq2t produces the array of sets of 6 elements in which
each input set A, B, C, D has become A, B, D, B, C, D (ABCD becomes ABD BCD),
returns six times the number of quads as count and fails no assertion. -/
theorem C26_cq2t_ABCD_becomes_ABD_BCD {α : Type} [Inhabited α] (stride : Nat)
    (qs : List (List α × List α × List α × List α))
    (hq : ∀ q ∈ qs, q.1.length = stride ∧ q.2.1.length = stride ∧ q.2.2.1.length = stride ∧
      q.2.2.2.length = stride) :
    cq2t (some (quadCells qs)) stride (4 * qs.length) =
      ⟨some (cellsABD_BCD qs), 6 * qs.length, []⟩ ∧
    (cellsABD_BCD qs).length = stride * (6 * qs.length) := by
  have hlo := cellsABD_BCD_length stride qs hq
  refine ⟨?_, by rw [hlo]; ring⟩
  have hli := quadCells_length stride qs hq
  have hc2 : 4 * qs.length * 6 / 4 = 6 * qs.length := by omega
  have hc4 : 4 * qs.length / 4 = qs.length := by omega
  by_cases h0 : qs.length = 0
  · have : qs = [] := List.length_eq_zero.mp h0
    subst this
    simp [cq2t, quadCells, cellsABD_BCD]
  · have hb : 0 + 4 * stride * qs.length ≤ (quadCells qs).length := by rw [hli]; omega
    have hl := cq2t_loop_eq (quadCells qs) stride qs.length 0 [] hb
    have hq2 := quadsOut_quadCells stride qs [] hq
    simp only [List.nil_append, List.length_nil] at hq2
    rw [hq2] at hl
    have h4 : ¬ 4 * qs.length = 0 := by omega
    have e1 : 4 * stride * qs.length = stride * (4 * qs.length) := by ring
    have e2 : stride * (6 * qs.length) - (cellsABD_BCD qs).length = 0 := by
      rw [hlo]
      have : 6 * stride * qs.length = stride * (6 * qs.length) := by ring
      omega
    have e3 : (cellsABD_BCD qs).length = stride * (6 * qs.length) := by rw [hlo]; ring
    simp [cq2t, h4, hc2, hc4, hl, e1, e2, e3, h0]

/-- Witness of C26: one quad of two-cell elements. -/
theorem C26_cq2t_ABCD_becomes_ABD_BCD_witness :
    (∀ q ∈ [(([1, 2], [3, 4], [5, 6], [7, 8]) : List Nat × List Nat × List Nat × List Nat)],
      q.1.length = 2 ∧ q.2.1.length = 2 ∧ q.2.2.1.length = 2 ∧ q.2.2.2.length = 2) ∧
    cq2t (some (quadCells [(([1, 2], [3, 4], [5, 6], [7, 8]) :
        List Nat × List Nat × List Nat × List Nat)])) 2 (4 * 1) =
      ⟨some (cellsABD_BCD [([1, 2], [3, 4], [5, 6], [7, 8])]), 6 * 1, []⟩ :=
  ⟨by decide,
   (C26_cq2t_ABCD_becomes_ABD_BCD 2 [([1, 2], [3, 4], [5, 6], [7, 8])] (by decide)).1⟩



/-! ## to_pow2 -/

theorem shl1_int32_small (i : Int) (h0 : 0 ≤ i) (h1 : i < 2 ^ 30) : shl1_int32 i = i * 2 := by
  unfold shl1_int32 u32 i32
  have h2 : (i * 2) % 4294967296 = i * 2 := Int.emod_eq_of_lt (by omega) (by omega)
  rw [h2]
  have h3 : ((i * 2).toNat : Int) = i * 2 := Int.toNat_of_nonneg (by omega)
  have h4 : (i * 2).toNat % 4294967296 = (i * 2).toNat := Nat.mod_eq_of_lt (by omega)
  rw [h4, if_pos (by omega), h3]

theorem shl1_int32_two_pow_30 : shl1_int32 (2 ^ 30) = -2147483648 := by decide

theorem shl1_int32_min : shl1_int32 (-2147483648) = 0 := by decide

theorem shl1_int32_zero : shl1_int32 0 = 0 := by decide

/-- Once `i` is 0 and `value` is positive the loop never ends. -/
theorem to_pow2_loop_zero (value : Int) (hv : 0 < value) :
    ∀ fuel, to_pow2_loop value fuel 0 = none := by
  intro fuel
  induction fuel with
  | zero => rfl
  | succ n ih => rw [to_pow2_loop, if_pos hv, shl1_int32_zero, ih]

/-- From a power of two up to 2^30 and a value above 2^30 the loop never ends. -/
theorem to_pow2_loop_diverges (value : Int) (hv : 2 ^ 30 < value) :
    ∀ (d k : Nat), k + d = 30 → ∀ fuel, to_pow2_loop value fuel (2 ^ k) = none := by
  intro d
  induction d with
  | zero =>
    intro k hk fuel
    have hk30 : k = 30 := by omega
    subst hk30
    match fuel with
    | 0 => rfl
    | 1 => rw [to_pow2_loop, if_pos hv]; rfl
    | 2 =>
      rw [to_pow2_loop, if_pos hv, shl1_int32_two_pow_30, to_pow2_loop, if_pos (by omega)]
      rfl
    | n + 3 =>
      rw [to_pow2_loop, if_pos hv, shl1_int32_two_pow_30, to_pow2_loop, if_pos (by omega),
        shl1_int32_min]
      exact to_pow2_loop_zero value (by omega) _
  | succ d ih =>
    intro k hk fuel
    have hk29 : k ≤ 29 := by omega
    have hlt : (2 : Int) ^ k < 2 ^ 30 :=
      pow_lt_pow_right₀ (by norm_num) (by omega)
    match fuel with
    | 0 => rfl
    | n + 1 =>
      rw [to_pow2_loop, if_pos (by omega), shl1_int32_small _ (by positivity) hlt]
      have : (2 : Int) ^ k * 2 = 2 ^ (k + 1) := by ring
      rw [this]
      exact ih (k + 1) (by omega) n

/-- From a power of two 2^k the loop returns the least power of two that is at
least `value` and at least 2^k, when `value` is at most 2^30. -/
theorem to_pow2_loop_spec (value : Int) (hv : value ≤ 2 ^ 30) :
    ∀ (d k : Nat), k + d = 30 → ∀ fuel, d + 1 ≤ fuel →
      ∃ m : Nat, k ≤ m ∧ m ≤ 30 ∧ to_pow2_loop value fuel (2 ^ k) = some (2 ^ m) ∧
        value ≤ 2 ^ m ∧ (k < m → (2 : Int) ^ (m - 1) < value) := by
  intro d
  induction d with
  | zero =>
    intro k hk fuel hf
    have hk30 : k = 30 := by omega
    subst hk30
    obtain ⟨n, rfl⟩ : ∃ n, fuel = n + 1 := ⟨fuel - 1, by omega⟩
    refine ⟨30, le_refl _, le_refl _, ?_, hv, fun h => absurd h (by omega)⟩
    rw [to_pow2_loop, if_neg (by omega)]
  | succ d ih =>
    intro k hk fuel hf
    obtain ⟨n, rfl⟩ : ∃ n, fuel = n + 1 := ⟨fuel - 1, by omega⟩
    have hlt : (2 : Int) ^ k < 2 ^ 30 :=
      pow_lt_pow_right₀ (by norm_num) (by omega)
    by_cases hc : (2 : Int) ^ k < value
    · obtain ⟨m, hm1, hm2, hm3, hm4, hm5⟩ := ih (k + 1) (by omega) n (by omega)
      refine ⟨m, by omega, hm2, ?_, hm4, ?_⟩
      · rw [to_pow2_loop, if_pos hc, shl1_int32_small _ (by positivity) hlt]
        have : (2 : Int) ^ k * 2 = 2 ^ (k + 1) := by ring
        rw [this]
        exact hm3
      · intro _
        by_cases hkm : k + 1 < m
        · exact hm5 hkm
        · have : m = k + 1 := by omega
          subst this
          simpa using hc
    · refine ⟨k, le_refl _, by omega, ?_, by omega, fun h => absurd h (by omega)⟩
      rw [to_pow2_loop, if_neg hc]

/-- The result of to_pow2 for a value up to 2^30, given fuel for 31 tests of
the loop condition: a power of two at least `value` whose half is less than
`value`. -/
theorem to_pow2_spec (value : Int) (fuel : Nat) (hfuel : 31 ≤ fuel) (hv : value ≤ 2 ^ 30) :
    ∃ m : Nat, m ≤ 30 ∧ to_pow2 fuel value = some (2 ^ m) ∧ value ≤ 2 ^ m ∧
      (0 < m → (2 : Int) ^ (m - 1) < value) := by
  obtain ⟨m, _, h2, h3, h4, h5⟩ := to_pow2_loop_spec value hv 30 0 (by omega) fuel hfuel
  exact ⟨m, h2, by simpa [to_pow2] using h3, h4, h5⟩

theorem two_pow_le_of_lt (m j : Nat) (value : Int) (h1 : 0 < m → (2 : Int) ^ (m - 1) < value)
    (h2 : value ≤ 2 ^ j) : (2 : Int) ^ m ≤ 2 ^ j := by
  by_cases hm : m = 0
  · subst hm
    simpa using (one_le_pow₀ (by norm_num : (1 : Int) ≤ 2) : (1 : Int) ≤ 2 ^ j)
  · have h := lt_of_lt_of_le (h1 (by omega)) h2
    have hlt : m - 1 < j := by
      by_contra hc
      have : (2 : Int) ^ j ≤ 2 ^ (m - 1) := pow_le_pow_right₀ (by norm_num) (by omega)
      omega
    exact pow_le_pow_right₀ (by norm_num) (by omega)

/-- C27: to_pow2 returns the next power of two.  Given fuel for 31 tests of the
loop condition, to_pow2 returns 1 for every value <= 1, and for every value
with 1 <= value <= 2^30 it returns a power of two 2^m that is >= value and is
the smallest such power; so the result equals value exactly when value is a
power of two, and to_pow2 is idempotent. -/
theorem C27_to_pow2_next_power_of_two (value : Int) (fuel : Nat) (hfuel : 31 ≤ fuel) :
    (value ≤ 1 → to_pow2 fuel value = some 1) ∧
    (1 ≤ value → value ≤ 2 ^ 30 →
      ∃ m : Nat, m ≤ 30 ∧ to_pow2 fuel value = some (2 ^ m) ∧ value ≤ 2 ^ m ∧
        (∀ j : Nat, value ≤ 2 ^ j → (2 : Int) ^ m ≤ 2 ^ j) ∧
        (to_pow2 fuel value = some value ↔ ∃ j : Nat, value = 2 ^ j) ∧
        to_pow2 fuel (2 ^ m) = some (2 ^ m)) := by
  refine ⟨?_, ?_⟩
  · intro h
    obtain ⟨n, rfl⟩ : ∃ n, fuel = n + 1 := ⟨fuel - 1, by omega⟩
    rw [to_pow2, to_pow2_loop, if_neg (by omega)]
  · intro _ hv
    obtain ⟨m, hm, hr, hge, hmin⟩ := to_pow2_spec value fuel hfuel hv
    have hmin2 := fun j => two_pow_le_of_lt m j value hmin
    refine ⟨m, hm, hr, hge, hmin2, ?_, ?_⟩
    · rw [hr]
      constructor
      · intro h
        exact ⟨m, (Option.some.inj h).symm⟩
      · rintro ⟨j, hj⟩
        have := hmin2 j (by rw [hj])
        rw [← hj] at this
        rw [le_antisymm this hge]
    · have hv2 : (2 : Int) ^ m ≤ 2 ^ 30 := pow_le_pow_right₀ (by norm_num) hm
      obtain ⟨m2, _, hr2, hge2, hmin3⟩ := to_pow2_spec (2 ^ m) fuel hfuel hv2
      have := two_pow_le_of_lt m2 m (2 ^ m) hmin3 (le_refl _)
      rw [hr2, le_antisymm this hge2]

/-- Witness of C27: the values 0, 5 and 64 with fuel 31. -/
theorem C27_to_pow2_next_power_of_two_witness :
    31 ≤ 31 ∧ to_pow2 31 0 = some 1 ∧ to_pow2 31 5 = some 8 ∧ to_pow2 31 64 = some 64 ∧
    ∃ m : Nat, m ≤ 30 ∧ to_pow2 31 5 = some (2 ^ m) ∧ (5 : Int) ≤ 2 ^ m ∧
      (∀ j : Nat, (5 : Int) ≤ 2 ^ j → (2 : Int) ^ m ≤ 2 ^ j) ∧
      (to_pow2 31 5 = some 5 ↔ ∃ j : Nat, (5 : Int) = 2 ^ j) ∧
      to_pow2 31 (2 ^ m) = some (2 ^ m) :=
  ⟨by decide, by decide, by decide, by decide,
   (C27_to_pow2_next_power_of_two 5 31 (by decide)).2 (by decide) (by decide)⟩

/-- C28, the code at the failing input: with `i <<= 1` as 32-bit wrap-around,
to_pow2 does not terminate for any value above 2^30, for instance 2^30 + 1.
The variable i runs through 1, 2, ..., 2^30, then wraps to -2^31 and to 0, and
0 << 1 is 0, which stays below the value: whatever the fuel, the loop runs out
of it.  For every value up to 2^30 the loop ends within 31 tests of its
condition. -/
theorem C28_to_pow2_diverges_above_two_pow_30 :
    shl1_int32 (2 ^ 30) = -2147483648 ∧ shl1_int32 (-2147483648) = 0 ∧ shl1_int32 0 = 0 ∧
    (∀ fuel : Nat, to_pow2 fuel (2 ^ 30 + 1) = none) ∧
    (∀ (value : Int) (fuel : Nat), 2 ^ 30 < value → to_pow2 fuel value = none) ∧
    (∀ (value : Int), value ≤ 2 ^ 30 → (to_pow2 31 value).isSome = true) := by
  refine ⟨by decide, by decide, by decide, ?_, ?_, ?_⟩
  · intro fuel
    exact to_pow2_loop_diverges _ (by norm_num) 30 0 (by omega) fuel
  · intro value fuel hv
    exact to_pow2_loop_diverges value hv 30 0 (by omega) fuel
  · intro value hv
    obtain ⟨m, _, hr, _⟩ := to_pow2_spec value 31 (le_refl _) hv
    rw [hr]
    rfl



/-! ## glMaterialfv inside a batch -/

/-- The current value of attribute `a` after one call. -/
theorem BatchCall.run_current (a : Attr) (c : Ctx) (x : BatchCall)
    (h : c.state.compiling_verts ≠ 0) :
    a.current (x.run c).state.set = if x.sets a then x else a.current c.state.set := by
  have hv := glVertex4fv_frame c
  cases a <;> cases x <;>
    simp [BatchCall.run, BatchCall.sets, Attr.current, glNormal3fv_inside, glTexCoord4fv_inside,
      glColor4fv_inside, h, hv]

theorem sets_not_vertex (a : Attr) (x : BatchCall) (h : x.sets a = true) :
    x.isVertex = false := by
  cases x <;> simp_all [BatchCall.sets, BatchCall.isVertex]

/-- One call keeps the scheme and the set in agreement. -/
theorem countingStep_agrees (a : Attr) (c : Ctx) (x : BatchCall) (st : AttrState × Bool)
    (h : c.state.compiling_verts ≠ 0) (hi : schemeAgrees a st c.state.set) :
    schemeAgrees a (countingStep a st x) (x.run c).state.set := by
  obtain ⟨i1, i2, i3, i4⟩ := hi
  have hk := BatchCall.run_count c x h
  have hn := BatchCall.run_counter a c x h
  have hc := BatchCall.run_current a c x h
  unfold schemeAgrees countingStep
  by_cases hv : x.isVertex = true
  · have hs : x.sets a = false := by
      cases hx : x.sets a
      · rfl
      · have := sets_not_vertex a x hx; simp_all
    simp only [hv, if_true, hs, Bool.false_eq_true, if_false] at hk hn hc ⊢
    rw [hk, hn, hc]
    exact ⟨by simp, i2, i3, i4⟩
  · have hv' : x.isVertex = false := by simpa using hv
    simp only [hv', Bool.false_eq_true, if_false, Nat.add_zero] at hk ⊢
    by_cases hs : x.sets a = true
    · simp only [hs, if_true] at hn hc ⊢
      rw [hk, hc]
      obtain ⟨st1, st2⟩ := st
      simp only at i1 i2 i3 i4 ⊢
      cases st2 with
      | true =>
        have hpos : 0 < c.state.set.count := i1.mp rfl
        simp only [if_true]
        refine ⟨by simpa using hpos, by simp, by simp, fun _ => ?_⟩
        rw [hn]
        split <;> omega
      | false =>
        have hzero : ¬ 0 < c.state.set.count := fun hh => by simpa using i1.mpr hh
        have hn' : a.counter (x.run c).state.set = a.counter c.state.set + 1 := by
          rw [hn, if_neg (fun hh => hzero hh.1)]
        simp only [Bool.false_eq_true, if_false]
        cases st1 with
        | Unset =>
          refine ⟨by simpa using hzero, by simp, ?_, by simp⟩
          intro y hy
          have := i2 rfl
          simp only [AttrState.Constant.injEq] at hy
          exact ⟨by omega, hy⟩
        | Constant z =>
          refine ⟨by simpa using hzero, by simp, by simp, fun _ => ?_⟩
          have := (i3 z rfl).1
          omega
        | Varying =>
          refine ⟨by simpa using hzero, by simp, by simp, fun _ => ?_⟩
          have := i4 rfl
          omega
    · have hs' : x.sets a = false := by simpa using hs
      simp only [hs', Bool.false_eq_true, if_false] at hn hc ⊢
      rw [hk, hn, hc]
      exact ⟨i1, i2, i3, i4⟩

theorem countingScheme_agrees (a : Attr) :
    ∀ (l : List BatchCall) (c : Ctx) (st : AttrState × Bool),
      c.state.compiling_verts ≠ 0 → schemeAgrees a st c.state.set →
      schemeAgrees a (l.foldl (countingStep a) st) (runCalls c l).state.set := by
  intro l
  induction l with
  | nil => intro c st _ hi; exact hi
  | cons x l ih =>
    intro c st h hi
    rw [List.foldl_cons, runCalls_cons]
    exact ih _ _ (by rw [BatchCall.run_compiling c x h]; exact h)
      (countingStep_agrees a c x st h hi)

theorem beforeFirstVertex_cons (x : BatchCall) (l : List BatchCall) :
    beforeFirstVertex (x :: l) = if x.isVertex then [] else x :: beforeFirstVertex l := by
  unfold beforeFirstVertex
  cases h : x.isVertex <;> simp [List.takeWhile_cons, h]

/-- The scheme as the specification words it and the counting scheme run alike
as long as no second set is made before the first vertex. -/
theorem specStep_eq_countingStep (a : Attr) :
    ∀ (l : List BatchCall) (st : AttrState × Bool),
      (st.2 = false → (∃ z, st.1 = .Constant z) → setterCalls a (beforeFirstVertex l) = 0) →
      (st.2 = false → st.1 = .Unset → setterCalls a (beforeFirstVertex l) ≤ 1) →
      l.foldl (specStep a) st = l.foldl (countingStep a) st := by
  intro l
  induction l with
  | nil => intro st _ _; rfl
  | cons x l ih =>
    intro st h1 h2
    obtain ⟨st1, st2⟩ := st
    simp only at h1 h2
    rw [List.foldl_cons, List.foldl_cons]
    rw [beforeFirstVertex_cons] at h1 h2
    by_cases hv : x.isVertex = true
    · have e1 : specStep a (st1, st2) x = (st1, true) := by simp [specStep, hv]
      have e2 : countingStep a (st1, st2) x = (st1, true) := by simp [countingStep, hv]
      rw [e1, e2]
      exact ih _ (fun h => by simp at h) (fun h => by simp at h)
    · have hv' : x.isVertex = false := by simpa using hv
      simp only [hv', Bool.false_eq_true, if_false] at h1 h2
      by_cases hs : x.sets a = true
      · have hsc : setterCalls a (x :: beforeFirstVertex l) =
            setterCalls a (beforeFirstVertex l) + 1 := by
          simp [setterCalls, List.countP_cons, hs]
        rw [hsc] at h1 h2
        cases st2 with
        | true =>
          have e1 : specStep a (st1, true) x = (.Varying, true) := by
            simp [specStep, hv', hs]
          have e2 : countingStep a (st1, true) x = (.Varying, true) := by
            simp [countingStep, hv', hs]
          rw [e1, e2]
          exact ih _ (fun h => by simp at h) (fun h => by simp at h)
        | false =>
          cases st1 with
          | Unset =>
            have e1 : specStep a (.Unset, false) x = (.Constant x, false) := by
              simp [specStep, hv', hs]
            have e2 : countingStep a (.Unset, false) x = (.Constant x, false) := by
              simp [countingStep, hv', hs]
            rw [e1, e2]
            have := h2 rfl rfl
            exact ih _ (fun _ _ => by omega) (fun _ h => by simp at h)
          | Constant z =>
            have := h1 rfl ⟨z, rfl⟩
            omega
          | Varying =>
            have e1 : specStep a (.Varying, false) x = (.Varying, false) := by
              simp [specStep, hv', hs]
            have e2 : countingStep a (.Varying, false) x = (.Varying, false) := by
              simp [countingStep, hv', hs]
            rw [e1, e2]
            exact ih _ (fun _ h => by simp at h) (fun _ h => by simp at h)
      · have hs' : x.sets a = false := by simpa using hs
        have hsc : setterCalls a (x :: beforeFirstVertex l) =
            setterCalls a (beforeFirstVertex l) := by
          simp [setterCalls, List.countP_cons, hs']
        rw [hsc] at h1 h2
        have e1 : specStep a (st1, st2) x = (st1, st2) := by simp [specStep, hv', hs']
        have e2 : countingStep a (st1, st2) x = (st1, st2) := by
          simp [countingStep, hv', hs']
        rw [e1, e2]
        exact ih _ h1 h2

/-- C25, counterexample: the normal is set twice before the one vertex of the
batch.  In the scheme as the specification words it the state at glEnd is
Constant, which stands for the scalar call; the counter ncount of the code is
2, on which glEnd enables the normal array. -/
theorem C25_counterexample :
    specScheme .normal twoNormalsThenVertex = .Constant (.normal ⟨0, 1, 0⟩) ∧
    Attr.counter .normal (openBatch initial GL_TRIANGLES twoNormalsThenVertex).state.set = 2 ∧
    decisionOfState (specScheme .normal twoNormalsThenVertex) = .scalarCall ∧
    decisionOfCounter
      (Attr.counter .normal (openBatch initial GL_TRIANGLES twoNormalsThenVertex).state.set) =
      .array ∧
    (issuedBy (openBatch initial GL_TRIANGLES twoNormalsThenVertex)
        (jwzgles_glEnd_REMOVED (openBatch initial GL_TRIANGLES twoNormalsThenVertex))).filter
        (fun x => x.isNormal3f || x == .glEnableClientState GL_NORMAL_ARRAY) =
      [.glEnableClientState GL_NORMAL_ARRAY] := by
  decide

/-- C25 (amended): the three-state scheme in which a second set made before any
vertex takes Constant to Varying classifies every attribute, for every sequence
of setter and vertex calls of a batch, exactly as the counter of the code does
at glEnd: Unset iff the counter is 0, Constant iff it is 1, and then with the
current value of the code as its value, Varying iff it is at least 2; so both
make the same decision between nothing, the scalar call and the array.  The
scheme as the specification words it gives the same state whenever the
attribute is set at most once before the first vertex. -/
theorem C25_three_state_scheme_matches_counter (a : Attr) (c : Ctx) (mode : Nat)
    (calls : List BatchCall) (hidle : 0 ≤ c.state.compiling_verts) :
    (countingScheme a calls = .Unset ↔ a.counter (openBatch c mode calls).state.set = 0) ∧
    ((∃ x, countingScheme a calls = .Constant x) ↔
      a.counter (openBatch c mode calls).state.set = 1) ∧
    (countingScheme a calls = .Varying ↔ 2 ≤ a.counter (openBatch c mode calls).state.set) ∧
    (∀ x, countingScheme a calls = .Constant x →
      a.current (openBatch c mode calls).state.set = x) ∧
    decisionOfState (countingScheme a calls) =
      decisionOfCounter (a.counter (openBatch c mode calls).state.set) ∧
    (setterCalls a (beforeFirstVertex calls) ≤ 1 →
      specScheme a calls = countingScheme a calls) := by
  obtain ⟨hs, _, _, _⟩ := glBegin_state c mode
  have hcv : (jwzgles_glBegin_REMOVED c mode).state.compiling_verts ≠ 0 := by
    rw [hs]; simp; omega
  have h0 : schemeAgrees a (.Unset, false) (jwzgles_glBegin_REMOVED c mode).state.set := by
    rw [hs]
    refine ⟨by simp, fun _ => by cases a <;> rfl, fun x h => by simp at h,
      fun h => by simp at h⟩
  obtain ⟨_, i2, i3, i4⟩ := countingScheme_agrees a calls _ _ hcv h0
  have hU : countingScheme a calls = .Unset → a.counter (openBatch c mode calls).state.set = 0 :=
    i2
  have hC : ∀ x, countingScheme a calls = .Constant x →
      a.counter (openBatch c mode calls).state.set = 1 ∧
        a.current (openBatch c mode calls).state.set = x := i3
  have hV : countingScheme a calls = .Varying →
      2 ≤ a.counter (openBatch c mode calls).state.set := i4
  refine ⟨⟨hU, ?_⟩, ⟨?_, ?_⟩, ⟨hV, ?_⟩, fun x h => (hC x h).2, ?_, ?_⟩
  · intro h
    cases hst : countingScheme a calls with
    | Unset => rfl
    | Constant x => have := (hC x hst).1; omega
    | Varying => have := hV hst; omega
  · rintro ⟨x, hx⟩
    exact (hC x hx).1
  · intro h
    cases hst : countingScheme a calls with
    | Unset => have := hU hst; omega
    | Constant x => exact ⟨x, rfl⟩
    | Varying => have := hV hst; omega
  · intro h
    cases hst : countingScheme a calls with
    | Unset => have := hU hst; omega
    | Constant x => have := (hC x hst).1; omega
    | Varying => rfl
  · cases hst : countingScheme a calls with
    | Unset => rw [hU hst]; rfl
    | Constant x => rw [(hC x hst).1]; rfl
    | Varying =>
      have := hV hst
      simp only [decisionOfState, decisionOfCounter]
      rw [if_pos (by omega)]
  · intro h
    unfold specScheme countingScheme
    rw [specStep_eq_countingStep a calls _ (fun _ h => by simp at h) (fun _ _ => h)]

/-- Witness of C25: the batch in which the normal is set twice before the
vertex, from the initial state. -/
theorem C25_three_state_scheme_matches_counter_witness :
    0 ≤ initial.state.compiling_verts ∧
    countingScheme .normal twoNormalsThenVertex = .Varying ∧
    2 ≤ Attr.counter .normal (openBatch initial GL_TRIANGLES twoNormalsThenVertex).state.set :=
  ⟨by decide, by decide,
   (C25_three_state_scheme_matches_counter .normal initial GL_TRIANGLES twoNormalsThenVertex
      (by decide)).2.2.1.mp (by decide)⟩



/-! ## Capacity of the attribute accumulator -/

theorem enable_disable_counts_arrays (s : vert_set) (bit : Nat) (set : Int) :
    (enable_disable_counts s bit set).arrays = s.arrays ∧
    (enable_disable_counts s bit set).count = s.count ∧
    (enable_disable_counts s bit set).mode = s.mode := by
  unfold enable_disable_counts
  split_ifs <;> exact ⟨rfl, rfl, rfl⟩

/-- enable_disable never touches the arrays, the count or the mode of the set. -/
theorem enable_disable_arrays (c : Ctx) (bit : Nat) (set : Int) :
    (enable_disable false c bit set).1.state.set.arrays = c.state.set.arrays ∧
    (enable_disable false c bit set).1.state.set.count = c.state.set.count ∧
    (enable_disable false c bit set).1.state.set.mode = c.state.set.mode := by
  by_cases hset : set = 0
  · subst hset
    have hz : ¬ ((0 : Int) ≠ 0) := by decide
    simp only [enable_disable, if_neg hz]
    split
    · exact ⟨rfl, rfl, rfl⟩
    · simp [Assert]
  · obtain ⟨_, _, _, _, _, h6⟩ := enable_disable_request false c bit set hset
    rw [h6]
    split
    · exact enable_disable_counts_arrays _ _ _
    · exact ⟨rfl, rfl, rfl⟩

theorem glEnable_arrays (c : Ctx) (bit : Nat) :
    (jwzgles_glEnable false c bit).state.set.arrays = c.state.set.arrays ∧
    (jwzgles_glEnable false c bit).state.set.count = c.state.set.count ∧
    (jwzgles_glEnable false c bit).state.set.mode = c.state.set.mode :=
  enable_disable_arrays c bit 1

theorem glDisable_arrays (c : Ctx) (bit : Nat) :
    (jwzgles_glDisable false c bit).state.set.arrays = c.state.set.arrays ∧
    (jwzgles_glDisable false c bit).state.set.count = c.state.set.count ∧
    (jwzgles_glDisable false c bit).state.set.mode = c.state.set.mode :=
  enable_disable_arrays c bit (-1)

theorem glEnableClientState_arrays (c : Ctx) (bit : Nat) :
    (jwzgles_glEnableClientState false c bit).state.set.arrays = c.state.set.arrays ∧
    (jwzgles_glEnableClientState false c bit).state.set.count = c.state.set.count ∧
    (jwzgles_glEnableClientState false c bit).state.set.mode = c.state.set.mode :=
  enable_disable_arrays c bit 1

theorem glDisableClientState_arrays (c : Ctx) (bit : Nat) :
    (jwzgles_glDisableClientState false c bit).state.set.arrays = c.state.set.arrays ∧
    (jwzgles_glDisableClientState false c bit).state.set.count = c.state.set.count ∧
    (jwzgles_glDisableClientState false c bit).state.set.mode = c.state.set.mode :=
  enable_disable_arrays c bit (-1)

theorem glIsEnabled_arrays (c : Ctx) (bit : Nat) :
    (jwzgles_glIsEnabled false c bit).1.state.set.arrays = c.state.set.arrays ∧
    (jwzgles_glIsEnabled false c bit).1.state.set.count = c.state.set.count ∧
    (jwzgles_glIsEnabled false c bit).1.state.set.mode = c.state.set.mode :=
  enable_disable_arrays c bit 0

theorem glNormal3f_arrays (c : Ctx) (x y z : GLfloat) :
    (jwzgles_glNormal3f c x y z).state.set.arrays = c.state.set.arrays ∧
    (jwzgles_glNormal3f c x y z).state.set.count = c.state.set.count ∧
    (jwzgles_glNormal3f c x y z).state.set.mode = c.state.set.mode := by
  unfold jwzgles_glNormal3f jwzgles_glNormal3fv
  split
  · dsimp only
    split <;> exact ⟨rfl, rfl, rfl⟩
  · exact ⟨rfl, rfl, rfl⟩

theorem glTexCoord4f_arrays (c : Ctx) (s t r q : GLfloat) :
    (jwzgles_glTexCoord4f false c s t r q).state.set.arrays = c.state.set.arrays ∧
    (jwzgles_glTexCoord4f false c s t r q).state.set.count = c.state.set.count ∧
    (jwzgles_glTexCoord4f false c s t r q).state.set.mode = c.state.set.mode := by
  simp only [jwzgles_glTexCoord4f, jwzgles_glTexCoord4fv, Bool.false_eq_true, if_false]
  unfold jwzgles_glTexCoord4fv_REMOVED
  split
  · dsimp only
    split <;> exact ⟨rfl, rfl, rfl⟩
  · exact ⟨rfl, rfl, rfl⟩

theorem glColor4f_arrays (c : Ctx) (r g b a : GLfloat) :
    (jwzgles_glColor4f false c r g b a).state.set.arrays = c.state.set.arrays ∧
    (jwzgles_glColor4f false c r g b a).state.set.count = c.state.set.count ∧
    (jwzgles_glColor4f false c r g b a).state.set.mode = c.state.set.mode := by
  simp only [jwzgles_glColor4f, jwzgles_glColor4fv, Bool.false_eq_true, if_false]
  unfold jwzgles_glColor4fv_REMOVED
  split
  · dsimp only
    split <;> exact ⟨rfl, rfl, rfl⟩
  · exact ⟨rfl, rfl, rfl⟩

theorem glEnd_pointers_arrays (c : Ctx) :
    (glEnd_pointers c).state.set = c.state.set := by
  simp [glEnd_pointers, jwzgles_glColorPointer, jwzgles_glNormalPointer,
    jwzgles_glTexCoordPointer, jwzgles_glVertexPointer, FlushOnStateChange, gl_ColorPointer,
    gl_NormalPointer, gl_TexCoordPointer, gl_VertexPointer, emit]

theorem glBindBuffer_arrays (c : Ctx) (target buffer : Nat) :
    (jwzgles_glBindBuffer false c target buffer).state.set = c.state.set ∧
    (gl_BindBuffer c target buffer).state.set = c.state.set := by
  have h2 : ∀ d : Ctx, (gl_BindBuffer d target buffer).state.set = d.state.set := by
    intro d
    unfold gl_BindBuffer emit
    split <;> rfl
  refine ⟨?_, h2 c⟩
  unfold jwzgles_glBindBuffer
  simp only [FlushOnStateChange_array_path]
  split
  · exact h2 c
  · split
    · exact h2 c
    · exact h2 c

theorem glEnd_norm_arrays (c : Ctx) :
    (glEnd_norm c).1.state.set.arrays = c.state.set.arrays ∧
    (glEnd_norm c).1.state.set.count = c.state.set.count ∧
    (glEnd_norm c).1.state.set.mode = c.state.set.mode := by
  unfold glEnd_norm
  dsimp only
  split
  · exact glEnableClientState_arrays _ _
  · obtain ⟨a, b, d⟩ := glDisableClientState_arrays
      (if c.state.set.ncount = 1 then
        jwzgles_glNormal3f c c.state.set.cnorm.x c.state.set.cnorm.y c.state.set.cnorm.z
       else c) GL_NORMAL_ARRAY
    rw [a, b, d]
    split
    · exact glNormal3f_arrays _ _ _ _
    · exact ⟨rfl, rfl, rfl⟩

theorem glEnd_tex_arrays (c : Ctx) :
    (glEnd_tex c).1.state.set.arrays = c.state.set.arrays ∧
    (glEnd_tex c).1.state.set.count = c.state.set.count ∧
    (glEnd_tex c).1.state.set.mode = c.state.set.mode := by
  unfold glEnd_tex
  dsimp only
  split
  · exact glEnableClientState_arrays _ _
  · obtain ⟨a, b, d⟩ := glDisableClientState_arrays
      (if c.state.set.tcount = 1 then
        jwzgles_glTexCoord4f false c c.state.set.ctex.s c.state.set.ctex.t c.state.set.ctex.r
          c.state.set.ctex.q
       else c) GL_TEXTURE_COORD_ARRAY
    rw [a, b, d]
    split
    · exact glTexCoord4f_arrays _ _ _ _ _
    · exact ⟨rfl, rfl, rfl⟩

theorem glEnd_color_arrays (c : Ctx) :
    (glEnd_color c).1.state.set.arrays = c.state.set.arrays ∧
    (glEnd_color c).1.state.set.count = c.state.set.count ∧
    (glEnd_color c).1.state.set.mode = c.state.set.mode := by
  unfold glEnd_color
  dsimp only
  split
  · exact glEnableClientState_arrays _ _
  · obtain ⟨a, b, d⟩ := glDisableClientState_arrays
      (if c.state.set.ccount = 1 then
        jwzgles_glColor4f false c c.state.set.ccolor.r c.state.set.ccolor.g c.state.set.ccolor.b
          c.state.set.ccolor.a
       else c) GL_COLOR_ARRAY
    rw [a, b, d]
    split
    · exact glColor4f_arrays _ _ _ _ _
    · exact ⟨rfl, rfl, rfl⟩

theorem glEnd_mat_arrays (c : Ctx) :
    (glEnd_mat c).1.state.set.arrays = c.state.set.arrays ∧
    (glEnd_mat c).1.state.set.count = c.state.set.count ∧
    (glEnd_mat c).1.state.set.mode = c.state.set.mode := by
  unfold glEnd_mat
  split
  · dsimp only
    split
    · obtain ⟨a, b, d⟩ := glEnable_arrays (jwzgles_glIsEnabled false c GL_COLOR_MATERIAL).1
        GL_COLOR_MATERIAL
      rw [a, b, d]
      exact glIsEnabled_arrays _ _
    · exact glIsEnabled_arrays _ _
  · exact ⟨rfl, rfl, rfl⟩

theorem glDrawArrays_arrays (c : Ctx) (mode first count : Nat) :
    (jwzgles_glDrawArrays false c mode first count).state.set.arrays = c.state.set.arrays ∧
    (jwzgles_glDrawArrays false c mode first count).state.set.count = c.state.set.count ∧
    (jwzgles_glDrawArrays false c mode first count).state.set.mode = c.state.set.mode := by
  unfold jwzgles_glDrawArrays
  simp only [FlushOnStateChange_array_path, gl_DrawArrays, emit]
  split
  · obtain ⟨T, E, P, X, d, A, e, _, _⟩ := generate_texture_coords_eq c first count
    rw [e]
    exact ⟨rfl, rfl, rfl⟩
  · exact ⟨rfl, rfl, rfl⟩

theorem glEnd_draw_arrays (c : Ctx) :
    (glEnd_draw c).state.set.arrays = c.state.set.arrays ∧
    (glEnd_draw c).state.set.count = c.state.set.count ∧
    (glEnd_draw c).state.set.mode = c.state.set.mode := by
  unfold glEnd_draw
  dsimp only
  rw [(glBindBuffer_arrays _ _ _).2]
  obtain ⟨a, b, d⟩ := glDrawArrays_arrays (gl_BindBuffer c GL_ARRAY_BUFFER 0)
    (gl_BindBuffer c GL_ARRAY_BUFFER 0).state.set.mode 0
    (gl_BindBuffer c GL_ARRAY_BUFFER 0).state.set.count
  rw [a, b, d, (glBindBuffer_arrays _ _ _).2]
  exact ⟨rfl, rfl, rfl⟩

theorem RESET_arrays (is_VAR was_VAR : Bool) (en dis : Ctx → Ctx) (c : Ctx)
    (hen : (en c).state.set.arrays = c.state.set.arrays ∧
      (en c).state.set.count = c.state.set.count ∧ (en c).state.set.mode = c.state.set.mode)
    (hdis : (dis c).state.set.arrays = c.state.set.arrays ∧
      (dis c).state.set.count = c.state.set.count ∧ (dis c).state.set.mode = c.state.set.mode) :
    (RESET is_VAR was_VAR en dis c).state.set.arrays = c.state.set.arrays ∧
    (RESET is_VAR was_VAR en dis c).state.set.count = c.state.set.count ∧
    (RESET is_VAR was_VAR en dis c).state.set.mode = c.state.set.mode := by
  unfold RESET
  split
  · split
    · exact hen
    · exact hdis
  · exact ⟨rfl, rfl, rfl⟩

theorem RESET_clientState_arrays (is_VAR was_VAR : Bool) (bit : Nat) (c : Ctx) :
    (RESET is_VAR was_VAR (jwzgles_glEnableClientState false · bit)
        (jwzgles_glDisableClientState false · bit) c).state.set.arrays = c.state.set.arrays ∧
    (RESET is_VAR was_VAR (jwzgles_glEnableClientState false · bit)
        (jwzgles_glDisableClientState false · bit) c).state.set.count = c.state.set.count ∧
    (RESET is_VAR was_VAR (jwzgles_glEnableClientState false · bit)
        (jwzgles_glDisableClientState false · bit) c).state.set.mode = c.state.set.mode :=
  RESET_arrays _ _ _ _ c (glEnableClientState_arrays c bit) (glDisableClientState_arrays c bit)

theorem RESET_capability_arrays (is_VAR was_VAR : Bool) (bit : Nat) (c : Ctx) :
    (RESET is_VAR was_VAR (jwzgles_glEnable false · bit)
        (jwzgles_glDisable false · bit) c).state.set.arrays = c.state.set.arrays ∧
    (RESET is_VAR was_VAR (jwzgles_glEnable false · bit)
        (jwzgles_glDisable false · bit) c).state.set.count = c.state.set.count ∧
    (RESET is_VAR was_VAR (jwzgles_glEnable false · bit)
        (jwzgles_glDisable false · bit) c).state.set.mode = c.state.set.mode :=
  RESET_arrays _ _ _ _ c (glEnable_arrays c bit) (glDisable_arrays c bit)

theorem arrays_after_reset (X N : vert_set) (h : X.arrays = N.arrays) :
    ({ X with count := 0, ncount := 0, tcount := 0, ccount := 0, materialistic := 0 } :
      vert_set).arrays = N.arrays := h

/-- What glEnd leaves of the storage of a set with at least one vertex: the
arrays and the capacity of the normalized set, and the count 0. -/
theorem glEnd_arrays (c : Ctx) (hcount : c.state.set.count ≠ 0) :
    (jwzgles_glEnd_REMOVED c).state.set.arrays = (normalizedSet c.state.set).arrays ∧
    (jwzgles_glEnd_REMOVED c).state.set.count = 0 := by
  have hA : ∀ (b : Bool) (m : String), (Assert c b m).state = c.state := by
    intro b m; unfold Assert; split <;> rfl
  unfold jwzgles_glEnd_REMOVED
  simp only [hA, if_neg hcount, and_true]
  apply arrays_after_reset
  rw [(RESET_capability_arrays _ _ _ _).1, (RESET_clientState_arrays _ _ _ _).1,
    (RESET_clientState_arrays _ _ _ _).1, (RESET_clientState_arrays _ _ _ _).1,
    (glEnd_draw_arrays _).1, (glEnd_mat_arrays _).1, (glEnableClientState_arrays _ _).1,
    (glEnd_color_arrays _).1, (glEnd_tex_arrays _).1, (glEnd_norm_arrays _).1,
    (glBindBuffer_arrays _ _ _).1, (glIsEnabled_arrays _ _).1, (glIsEnabled_arrays _ _).1,
    (glIsEnabled_arrays _ _).1, (glIsEnabled_arrays _ _).1, glEnd_pointers_arrays,
    glEnd_normalize_set]

theorem WF_of_arrays (s t : vert_set) (h : t.arrays = s.arrays) (hc : t.count ≤ s.count)
    (hs : s.WF) : t.WF := by
  obtain ⟨h1, h2, h3, h4, h5⟩ := hs
  simp only [vert_set.arrays, Prod.mk.injEq] at h
  obtain ⟨e1, e2, e3, e4, e5⟩ := h
  unfold vert_set.WF
  rw [e1, e2, e3, e4, e5]
  exact ⟨h1, h2, h3, h4, by omega⟩

/-- The array that cq2t returns has the capacity `count * 6 / 4`. -/
theorem cq2t_capacity {α : Type} [Inhabited α] (p : Option (List α)) (count : Nat)
    (hcount : count ≠ 0) (hlen : count ≤ (p.getD []).length) :
    (((cq2t p 1 count).array).getD []).length = count * 6 / 4 := by
  cases p with
  | none => simp at hlen; omega
  | some oarray =>
    simp only [Option.getD_some] at hlen
    have hb : 0 + 4 * 1 * (count / 4) ≤ oarray.length := by omega
    have hl := cq2t_loop_eq oarray 1 (count / 4) 0 [] hb
    have hq := quadsOut_length oarray 1 (count / 4) 0 hb
    simp only [cq2t, if_neg hcount, hl, List.nil_append, Option.getD_some, List.length_append,
      List.length_replicate, hq, Nat.one_mul]
    omega

theorem cq2t_count2 {α : Type} [Inhabited α] (p : Option (List α)) (stride count : Nat) :
    (cq2t p stride count).count2 = count * 6 / 4 := by
  unfold cq2t
  cases p with
  | none => rfl
  | some oarray =>
    dsimp only
    split <;> rfl

/-- The normalization of glEnd keeps a set with at least one vertex well
formed. -/
theorem normalizedSet_WF (s : vert_set) (h : s.WF) (hcount : s.count ≠ 0) :
    (normalizedSet s).WF := by
  obtain ⟨h1, h2, h3, h4, h5⟩ := h
  unfold normalizedSet
  split
  · unfold convert_quads_to_triangles vert_set.WF
    simp only [cq2t_count2]
    exact ⟨cq2t_capacity _ _ hcount (by omega), cq2t_capacity _ _ hcount (by omega),
      cq2t_capacity _ _ hcount (by omega), cq2t_capacity _ _ hcount (by omega),
      le_refl _⟩
  · split
    · exact ⟨h1, h2, h3, h4, h5⟩
    · split
      · exact ⟨h1, h2, h3, h4, h5⟩
      · exact ⟨h1, h2, h3, h4, h5⟩

/-- glEnd keeps the set well formed. -/
theorem glEnd_WF (c : Ctx) (h : c.state.set.WF) : (jwzgles_glEnd_REMOVED c).state.set.WF := by
  by_cases hcount : c.state.set.count = 0
  · rw [glEnd_empty c hcount]
    exact h
  · obtain ⟨ha, hc⟩ := glEnd_arrays c hcount
    exact WF_of_arrays _ _ ha (by rw [hc]; omega) (normalizedSet_WF _ h hcount)

theorem BatchCall.run_WF (c : Ctx) (x : BatchCall) (h : c.state.set.WF) :
    (x.run c).state.set.WF := by
  cases x with
  | normal v =>
    simp only [BatchCall.run, jwzgles_glNormal3fv]
    split
    · dsimp only
      split <;> exact h
    · exact h
  | texCoord v =>
    simp only [BatchCall.run, jwzgles_glTexCoord4fv_REMOVED]
    split
    · dsimp only
      split <;> exact h
    · exact h
  | color v =>
    simp only [BatchCall.run, jwzgles_glColor4fv_REMOVED]
    split
    · dsimp only
      split <;> exact h
    · exact h
  | vertex v =>
    obtain ⟨V, N, T, C, S, A, e, a1, a2, a3, a4, a5, _⟩ := glVertex4fv_step c v h
    simp only [BatchCall.run, e]
    exact ⟨a1, a2, a3, a4, a5⟩

theorem ArrayPathCall.step_WF (c : Ctx) (x : ArrayPathCall) (h : c.state.set.WF) :
    (x.run c).state.set.WF := by
  cases x with
  | glBegin mode =>
    simp only [ArrayPathCall.run, (glBegin_state c mode).1]
    obtain ⟨h1, h2, h3, h4, _⟩ := h
    exact ⟨h1, h2, h3, h4, Nat.zero_le _⟩
  | inBatch x => exact BatchCall.run_WF c x h
  | glEnd => exact glEnd_WF c h

/-- In every state reached by calls of the array path the four arrays have
`size` cells each and `count` is at most `size`. -/
theorem runArrayPath_WF : ∀ (l : List ArrayPathCall) (c : Ctx), c.state.set.WF →
    (runArrayPath c l).state.set.WF := by
  intro l
  induction l with
  | nil => intro c h; exact h
  | cons x l ih =>
    intro c h
    exact ih _ (ArrayPathCall.step_WF c x h)

/-- The capacity after one glVertex4fv is the capacity at the write. -/
theorem glVertex4fv_size (c : Ctx) (v : XYZW) :
    (jwzgles_glVertex4fv_REMOVED c v).state.set.size = sizeAtWrite c.state.set ∧
    (jwzgles_glVertex4fv_REMOVED c v).state.set.count = c.state.set.count + 1 := by
  have hA : ∀ (b : Bool) (m : String), (Assert c b m).state = c.state := by
    intro b m; unfold Assert; split <;> rfl
  unfold jwzgles_glVertex4fv_REMOVED sizeAtWrite
  simp only [hA]
  split <;> exact ⟨rfl, rfl⟩

theorem sizeAtWrite_facts (s : vert_set) (h : s.count ≤ s.size) :
    s.count < sizeAtWrite s ∧ s.size ≤ sizeAtWrite s ∧
    ((s.count : Int) ≥ (s.size : Int) - 1 → s.size < sizeAtWrite s ∧
      sizeAtWrite s = 20 + s.size * 12 / 10) ∧
    (¬ (s.count : Int) ≥ (s.size : Int) - 1 → sizeAtWrite s = s.size) := by
  unfold sizeAtWrite
  split
  · refine ⟨by omega, by omega, fun _ => ⟨by omega, rfl⟩, fun h2 => absurd ‹_› h2⟩
  · refine ⟨by omega, le_refl _, fun h2 => absurd h2 ‹_›, fun _ => rfl⟩

theorem reset_WF (c : Ctx) : (jwzgles_reset c).state.set.WF := by
  unfold jwzgles_reset vert_set.WF
  simp

/-- C30: in every state reached from jwzgles_reset by glBegin, setter,
glVertex4fv and glEnd calls of the array path, the four arrays have `size`
cells each and `count` is at most `size`; the next glVertex4fv writes its
vertex at index `count`, which is strictly below the capacity the arrays have
at the write, and leaves all four arrays with exactly that capacity.  The
capacity at the write is 20 + floor (1.2 * size) when `count >= size - 1`
and `size` otherwise, and every growth strictly increases it.  After a
GL_QUADS batch of four vertices, whose conversion leaves size = 6, the next
batch appends five vertices without growing and grows to 27 at the sixth. -/
theorem C30_vertex_append_below_capacity :
    (∀ (c0 : Ctx) (l : List ArrayPathCall) (v : XYZW),
      (runArrayPath (jwzgles_reset c0) l).state.set.WF ∧
      (runArrayPath (jwzgles_reset c0) l).state.set.count <
        sizeAtWrite (runArrayPath (jwzgles_reset c0) l).state.set ∧
      (jwzgles_glVertex4fv_REMOVED (runArrayPath (jwzgles_reset c0) l) v).state.set.WF ∧
      (jwzgles_glVertex4fv_REMOVED (runArrayPath (jwzgles_reset c0) l) v).state.set.size =
        sizeAtWrite (runArrayPath (jwzgles_reset c0) l).state.set ∧
      (jwzgles_glVertex4fv_REMOVED (runArrayPath (jwzgles_reset c0) l) v).state.set.count =
        (runArrayPath (jwzgles_reset c0) l).state.set.count + 1 ∧
      ((jwzgles_glVertex4fv_REMOVED (runArrayPath (jwzgles_reset c0) l)
          v).state.set.verts.getD [])[(runArrayPath (jwzgles_reset c0) l).state.set.count]? =
        some v) ∧
    (∀ s : vert_set, s.size ≤ sizeAtWrite s ∧
      ((s.count : Int) ≥ (s.size : Int) - 1 →
        sizeAtWrite s = 20 + s.size * 12 / 10 ∧ s.size < sizeAtWrite s) ∧
      (¬ (s.count : Int) ≥ (s.size : Int) - 1 → sizeAtWrite s = s.size ∧ s.count < s.size)) ∧
    ((runArrayPath initial quadsThenBegin).state.set.size = 6 ∧
      (runArrayPath initial quadsThenBegin).state.set.count = 0 ∧
      (runArrayPath initial
        (quadsThenBegin ++ List.replicate 5 (.inBatch (.vertex ⟨0, 0, 0, 1⟩)))).state.set.size = 6 ∧
      (runArrayPath initial
        (quadsThenBegin ++ List.replicate 6 (.inBatch (.vertex ⟨0, 0, 0, 1⟩)))).state.set.size = 27) := by
  refine ⟨?_, ?_, ?_⟩
  · intro c0 l v
    have hwf := runArrayPath_WF l (jwzgles_reset c0) (reset_WF c0)
    have hs := sizeAtWrite_facts _ hwf.2.2.2.2
    obtain ⟨V, N, T, C, S, A, e, a1, a2, a3, a4, a5, t1, _⟩ :=
      glVertex4fv_step (runArrayPath (jwzgles_reset c0) l) v hwf
    refine ⟨hwf, hs.1, ?_, (glVertex4fv_size _ v).1, (glVertex4fv_size _ v).2, ?_⟩
    · rw [e]
      exact ⟨a1, a2, a3, a4, a5⟩
    · rw [e]
      dsimp only
      have h1 : ((V.getD []).take ((runArrayPath (jwzgles_reset c0) l).state.set.count + 1))[
          (runArrayPath (jwzgles_reset c0) l).state.set.count]? = some v := by
        have hlen : ((((runArrayPath (jwzgles_reset c0) l).state.set.verts).getD []).take
            (runArrayPath (jwzgles_reset c0) l).state.set.count).length =
            (runArrayPath (jwzgles_reset c0) l).state.set.count := by
          rw [List.length_take]
          have h5 := hwf.1
          have h6 := hwf.2.2.2.2
          omega
        rw [t1, List.getElem?_append_right (by rw [hlen]), hlen]
        simp
      rw [List.getElem?_take_of_lt (Nat.lt_succ_self _)] at h1
      exact h1
  · intro s
    unfold sizeAtWrite
    split
    · exact ⟨by omega, fun _ => ⟨rfl, by omega⟩, fun h2 => absurd ‹_› h2⟩
    · exact ⟨le_refl _, fun h2 => absurd h2 ‹_›, fun _ => ⟨rfl, by omega⟩⟩
  · decide



/-! ## The DrawElements path: stores into the index array -/

theorem u32_natCast (k : Nat) (h : k < 4294967296) : u32 (k : Int) = k := by
  unfold u32
  omega

theorem i32_small (k : Nat) (h : k < 2147483648) : i32 k = (k : Int) := by
  unfold i32
  have h1 : k % 4294967296 = k := Nat.mod_eq_of_lt (by omega)
  rw [h1, if_pos h]

/-- Two 16-bit halves packed into one 32-bit word and read back. -/
theorem word_halves (a b : Nat) (ha : a < 65536) (hb : b < 65536) :
    (a ||| (b <<< 16) % 4294967296) % 65536 = a ∧
    (a ||| (b <<< 16) % 4294967296) / 65536 = b := by
  have h1 : b <<< 16 = 2 ^ 16 * b := by rw [Nat.shiftLeft_eq, Nat.mul_comm]
  have h2 : (b <<< 16) % 4294967296 = 2 ^ 16 * b := by
    rw [h1]
    exact Nat.mod_eq_of_lt (by omega)
  have h3 : a ||| 2 ^ 16 * b = 2 ^ 16 * b + a := by
    rw [Nat.lor_comm]
    exact (Nat.mul_add_lt_is_or (by omega) b).symm
  rw [h2, h3]
  constructor <;> omega

theorem getD_append_add (l r : List Nat) (i : Nat) :
    (l ++ r).getD (l.length + i) 0 = r.getD i 0 := by
  simp [List.getD_eq_getElem?_getD, List.getElem?_append_right]

theorem getD_append_lt (l r : List Nat) (k : Nat) (h : k < l.length) :
    (l ++ r).getD k 0 = l.getD k 0 := by
  simp [List.getD_eq_getElem?_getD, List.getElem?_append_left h]

theorem Emitted.start (w : wrapper_state) (p : Nat) (h : w.ptrIndexArray = some p) :
    Emitted w p [] w :=
  ⟨by simpa using h, by intro k hk; simp at hk, fun _ _ => rfl, rfl, rfl, rfl, rfl, rfl⟩

/-- One `*ptrIndexArray++ = x` appends the value to the emitted run. -/
theorem Emitted.store {w0 w : wrapper_state} {p : Nat} {l : List Nat} (h : Emitted w0 p l w)
    (x : Int) (v : Nat) (hx : x = (v : Int)) (hv : v < 65536) :
    Emitted w0 p (l ++ [v]) (pushIndex w x) ∧
    (pushIndex w x).indexCount = w.indexCount ∧ (pushIndex w x).vertexCount = w.vertexCount := by
  obtain ⟨h1, h2, h3, h4, h5, h6, h7, h8⟩ := h
  have hu : u32 x % 65536 = v := by
    rw [hx, u32_natCast v (by omega)]
    exact Nat.mod_eq_of_lt hv
  unfold pushIndex storeIndexAt
  rw [h1]
  dsimp only
  rw [hu]
  refine ⟨⟨?_, ?_, ?_, h4, h5, h6, h7, h8⟩, rfl, rfl⟩
  · simp [Nat.add_assoc]
  · intro k hk
    rw [getD_writeCell]
    simp only [List.length_append, List.length_singleton] at hk
    by_cases hkl : k = l.length
    · subst hkl
      rw [if_pos (by omega)]
      exact (getD_append_add l [v] 0).symm
    · have hk2 : k < l.length := by omega
      rw [if_neg (by omega), h2 k hk2, getD_append_lt l _ k hk2]
  · intro j hj
    rw [getD_writeCell, if_neg (by omega), h3 j hj]

/-- One 32-bit store of two indices appends both, low half first. -/
theorem Emitted.storePair {w0 w : wrapper_state} {p : Nat} {l : List Nat} (h : Emitted w0 p l w)
    (lo hi : Int) (a b : Nat) (hlo : lo = (a : Int)) (hhi : hi = (b : Int))
    (ha : a < 65536) (hb : b < 65536) :
    Emitted w0 p (l ++ [a, b]) (pushIndexPair w lo hi) ∧
    (pushIndexPair w lo hi).indexCount = w.indexCount ∧
    (pushIndexPair w lo hi).vertexCount = w.vertexCount := by
  obtain ⟨h1, h2, h3, h4, h5, h6, h7, h8⟩ := h
  obtain ⟨e1, e2⟩ := word_halves a b ha hb
  have hu1 : u32 (((u32 lo ||| (u32 hi <<< 16) % 4294967296) % 65536 : Nat) : Int) % 65536 =
      a := by
    rw [hlo, hhi, u32_natCast a (by omega), u32_natCast b (by omega), e1,
      u32_natCast a (by omega)]
    exact Nat.mod_eq_of_lt ha
  have hu2 : u32 (((u32 lo ||| (u32 hi <<< 16) % 4294967296) / 65536 : Nat) : Int) % 65536 =
      b := by
    rw [hlo, hhi, u32_natCast a (by omega), u32_natCast b (by omega), e2,
      u32_natCast b (by omega)]
    exact Nat.mod_eq_of_lt hb
  unfold pushIndexPair storeIndexAt
  simp only [h1]
  rw [hu1, hu2]
  refine ⟨⟨?_, ?_, ?_, h4, h5, h6, h7, h8⟩, trivial, trivial⟩
  · simp [Nat.add_assoc]
  · intro k hk
    simp only [List.length_append, List.length_cons, List.length_nil] at hk
    rw [getD_writeCell, getD_writeCell]
    by_cases hk1 : k = l.length + 1
    · subst hk1
      rw [if_pos (by omega)]
      exact (getD_append_add l [a, b] 1).symm
    · rw [if_neg (by omega)]
      by_cases hk0 : k = l.length
      · subst hk0
        rw [if_pos (by omega)]
        exact (getD_append_add l [a, b] 0).symm
      · have hk2 : k < l.length := by omega
        rw [if_neg (by omega), h2 k hk2, getD_append_lt l _ k hk2]
  · intro j hj
    rw [getD_writeCell, getD_writeCell, if_neg (by omega), if_neg (by omega), h3 j hj]

theorem Emitted.setIndexCount {w0 w : wrapper_state} {p : Nat} {l : List Nat}
    (h : Emitted w0 p l w) (x : Nat) : Emitted w0 p l { w with indexCount := x } := h

theorem Emitted.setVertexCount {w0 w : wrapper_state} {p : Nat} {l : List Nat}
    (h : Emitted w0 p l w) (x : Nat) : Emitted w0 p l { w with vertexCount := x } := h

/-- The emitted run read back from the index array. -/
theorem Emitted.indicesAt {w0 w : wrapper_state} {p : Nat} {l : List Nat}
    (h : Emitted w0 p l w) : indicesAt w.indexArray p l.length = l := by
  apply List.ext_getElem
  · simp [Jwzgles.indicesAt]
  · intro k hk1 hk2
    simp only [Jwzgles.indicesAt, List.getElem_map, List.getElem_range]
    rw [h.2.1 k hk2]
    simp [List.getD_eq_getElem?_getD, List.getElem?_eq_getElem hk2]

theorem u32_eq (x : Int) (k : Nat) (hx : x = (k : Int)) (hk : k < 4294967296) : u32 x = k := by
  rw [hx]
  exact u32_natCast k hk

theorem pushIndex_fields (w : wrapper_state) (x : Int) :
    (pushIndex w x).indexCount = w.indexCount ∧ (pushIndex w x).vertexCount = w.vertexCount ∧
    (pushIndex w x).indexbase = w.indexbase := by
  unfold pushIndex storeIndexAt
  cases w.ptrIndexArray <;> exact ⟨rfl, rfl, rfl⟩

theorem pushIndexPair_fields (w : wrapper_state) (lo hi : Int) :
    (pushIndexPair w lo hi).indexCount = w.indexCount ∧
    (pushIndexPair w lo hi).vertexCount = w.vertexCount := by
  unfold pushIndexPair storeIndexAt
  rcases hp : w.ptrIndexArray with _ | p <;> simp only [hp] <;> exact ⟨trivial, trivial⟩

/-- Three consecutive index stores. -/
theorem Emitted.push3 {w0 w : wrapper_state} {p : Nat} {l : List Nat} (h : Emitted w0 p l w)
    (x y z : Int) (a b c : Nat) (hx : x = (a : Int)) (hy : y = (b : Int)) (hz : z = (c : Int))
    (ha : a < 65536) (hb : b < 65536) (hc : c < 65536) :
    Emitted w0 p (l ++ [a, b, c]) (pushIndex (pushIndex (pushIndex w x) y) z) := by
  have s := (((h.store x a hx ha).1.store y b hy hb).1.store z c hz hc).1
  simpa using s

theorem range_flatMap_succ {α : Type} (m : Nat) (f : Nat → List α) :
    (List.range (m + 1)).flatMap f = f 0 ++ (List.range m).flatMap (fun k => f (k + 1)) := by
  rw [List.range_succ_eq_map, List.flatMap_cons, List.flatMap_map]

/-- The loop of the fan case: iteration k emits (indexbase, ic + k - 1,
ic + k), `ic` being indexCount at the start of the loop. -/
theorem glEnd_fan_loop_emitted (m : Nat) :
    ∀ (w0 w : wrapper_state) (p : Nat) (l : List Nat) (b ic vc : Nat),
      Emitted w0 p l w → w.indexbase = (b : Int) → b < 65536 → w.indexCount = ic → 1 ≤ ic →
      ic + m ≤ 65536 → w.vertexCount = vc → vc + 2 * m < 4294967296 →
      Emitted w0 p (l ++ (List.range m).flatMap (fun k => [b, ic + k - 1, ic + k]))
        (glEnd_fan_loop m w) ∧
      (glEnd_fan_loop m w).indexCount = ic + m ∧
      (glEnd_fan_loop m w).vertexCount = vc + 2 * m := by
  induction m with
  | zero =>
    intro w0 w p l b ic vc h _ _ hic _ _ hvc _
    simp only [List.range_zero, List.flatMap_nil, List.append_nil, glEnd_fan_loop]
    exact ⟨h, hic, hvc⟩
  | succ m ih =>
    intro w0 w p l b ic vc h hb hb2 hic hic1 hicm hvc hvcm
    have e1 : u32 ((ic : Int) + 1) = ic + 1 := u32_eq _ _ (by omega) (by omega)
    have e2 : u32 ((vc : Int) + 2) = vc + 2 := u32_eq _ _ (by omega) (by omega)
    have s := h.push3 w.indexbase ((ic : Int) - 1) (ic : Int) b (ic - 1) ic hb (by omega) rfl
      hb2 (by omega) (by omega)
    obtain ⟨k1, k2, k3⟩ := ih w0 _ p (l ++ [b, ic - 1, ic]) b (ic + 1) (vc + 2)
      ((s.setIndexCount (ic + 1)).setVertexCount (vc + 2))
      (by simp only [pushIndex_fields, hb]) hb2 rfl (by omega) (by omega) rfl (by omega)
    have f1 : ∀ (w : wrapper_state) (x : Int), (pushIndex w x).indexCount = w.indexCount :=
      fun w x => (pushIndex_fields w x).1
    have f2 : ∀ (w : wrapper_state) (x : Int), (pushIndex w x).vertexCount = w.vertexCount :=
      fun w x => (pushIndex_fields w x).2.1
    have hl : l ++ (List.range (m + 1)).flatMap (fun k => [b, ic + k - 1, ic + k]) =
        l ++ [b, ic - 1, ic] ++
          (List.range m).flatMap (fun k => [b, ic + 1 + k - 1, ic + 1 + k]) := by
      rw [range_flatMap_succ, List.append_assoc]
      congr 2
      apply congrArg
      funext k
      have h1 : ic + (k + 1) - 1 = ic + 1 + k - 1 := by omega
      have h2 : ic + (k + 1) = ic + 1 + k := by omega
      rw [h1, h2]
    rw [hl]
    simp only [glEnd_fan_loop, f1, f2, hic, hvc, e1, e2]
    exact ⟨k1, by rw [k2]; omega, by rw [k3]; omega⟩

/-! ## The DrawElements path: one glBegin ... glEnd bracket -/

theorem default_VertexAttrib : (default : VertexAttrib) = ⟨0, 0, 0, 0, 0, 0, 0, 0, 0, 0⟩ := rfl

/-- One glVertex4fv of the DrawElements path stores the position in the cell
under the vertex pointer and advances the pointer by one. -/
theorem glVertex4fv_test_eq (c : Ctx) (v : XYZW) (q : Nat)
    (hq : c.w.ptrVertexAttribArray = some q) :
    ∃ cell cur, (cell.x = v.x ∧ cell.y = v.y ∧ cell.z = v.z) ∧
      jwzgles_glVertex4fv c v =
        { c with w := { c.w with
            vertexattribs := writeCell ⟨0, 0, 0, 0, 0, 0, 0, 0, 0, 0⟩ c.w.vertexattribs q cell,
            currentVertexAttrib := cur, ptrVertexAttribArray := some (q + 1) } } := by
  unfold jwzgles_glVertex4fv
  simp only [hq, Option.map_some']
  exact ⟨_, _, ⟨rfl, rfl, rfl⟩, rfl⟩

/-- The vertices of a batch are stored in consecutive cells from the vertex
pointer on; nothing else changes but the current attribute. -/
theorem vertices_test (vs : List XYZW) : ∀ (c : Ctx) (q : Nat),
    c.w.ptrVertexAttribArray = some q →
    ∃ va cur,
      vs.foldl jwzgles_glVertex4fv c =
        { c with w := { c.w with vertexattribs := va, currentVertexAttrib := cur,
                                 ptrVertexAttribArray := some (q + vs.length) } } ∧
      (∀ k, k < vs.length →
        (va.getD (q + k) default).x = (vs.getD k default).x ∧
        (va.getD (q + k) default).y = (vs.getD k default).y ∧
        (va.getD (q + k) default).z = (vs.getD k default).z) ∧
      (∀ j, j < q → va.getD j default = c.w.vertexattribs.getD j default) := by
  induction vs with
  | nil =>
    intro c q hq
    refine ⟨c.w.vertexattribs, c.w.currentVertexAttrib, ?_, ?_, fun _ _ => rfl⟩
    · simp only [List.foldl_nil, List.length_nil, Nat.add_zero, ← hq]
    · intro k hk
      simp at hk
  | cons v l ih =>
    intro c q hq
    obtain ⟨cell, cur, ⟨x1, x2, x3⟩, e⟩ := glVertex4fv_test_eq c v q hq
    obtain ⟨va, cur2, e2, g1, g2⟩ := ih (jwzgles_glVertex4fv c v) (q + 1) (by rw [e])
    refine ⟨va, cur2, ?_, ?_, ?_⟩
    · rw [List.foldl_cons, e2, e]
      simp only [List.length_cons, Nat.add_assoc, Nat.add_comm 1]
    · intro k hk
      cases k with
      | zero =>
        have h0 := g2 q (by omega)
        rw [e] at h0
        simp only [default_VertexAttrib] at h0 ⊢
        rw [Nat.add_zero, h0, getD_writeCell, if_pos rfl]
        exact ⟨x1, x2, x3⟩
      | succ k =>
        have hk2 : k < l.length := by simpa using hk
        have h1 := g1 k hk2
        rw [show q + (k + 1) = q + 1 + k by omega]
        simpa using h1
    · intro j hj
      have h0 := g2 j (by omega)
      rw [e] at h0
      simp only [default_VertexAttrib] at h0 ⊢
      rw [h0, getD_writeCell, if_neg (by omega)]

/-- The state at glEnd of a bracket opened after the first glBegin of the
process. -/
theorem indexedBatch_open (c : Ctx) (mode : Nat) (vs : List XYZW) (q : Nat)
    (hfirst : c.w.first = false) (hq : c.w.ptrVertexAttribArray = some q) :
    ∃ va cur,
      vs.foldl jwzgles_glVertex4fv (jwzgles_glBegin c mode) =
        { c with w := { c.w with glBegin_active := 1, wrapperPrimitiveMode := mode,
                                 vertexMark := c.w.vertexCount,
                                 ptrVertexAttribArrayMark := some q,
                                 indexbase := i32 c.w.indexCount,
                                 vertexattribs := va, currentVertexAttrib := cur,
                                 ptrVertexAttribArray := some (q + vs.length) } } ∧
      (∀ k, k < vs.length →
        (va.getD (q + k) default).x = (vs.getD k default).x ∧
        (va.getD (q + k) default).y = (vs.getD k default).y ∧
        (va.getD (q + k) default).z = (vs.getD k default).z) ∧
      (∀ j, j < q → va.getD j default = c.w.vertexattribs.getD j default) := by
  have hb : jwzgles_glBegin c mode =
      { c with w := { c.w with glBegin_active := 1, wrapperPrimitiveMode := mode,
                               vertexMark := c.w.vertexCount,
                               ptrVertexAttribArrayMark := some q,
                               indexbase := i32 c.w.indexCount } } := by
    unfold jwzgles_glBegin
    simp only [hfirst, hq]
    rfl
  obtain ⟨va, cur, e, g1, g2⟩ := vertices_test vs (jwzgles_glBegin c mode) q (by rw [hb]; exact hq)
  refine ⟨va, cur, ?_, g1, ?_⟩
  · rw [e, hb]
  · intro j hj
    rw [g2 j hj, hb]

/-- The function `jwzgles_glEnd` is the composition of its parts. -/
theorem jwzgles_glEnd_eq (c : Ctx) :
    jwzgles_glEnd c =
      if (glEnd_counted c.w).vertexCount <
          (if (glEnd_counted c.w).wrapperPrimitiveMode = GL_LINES then 2 else 3) then
        { c with w := glEnd_counted c.w }
      else if (glEnd_switch (glEnd_counted c.w)).wrapperPrimitiveMode = GL_LINES then
        FlushOnStateChange_test { c with w := glEnd_switch (glEnd_counted c.w) }
      else { c with w := glEnd_switch (glEnd_counted c.w) } := rfl

theorem glEnd_counted_eq (w : wrapper_state) (q n V : Nat)
    (hq : w.ptrVertexAttribArray = some (q + n)) (hqm : w.ptrVertexAttribArrayMark = some q)
    (hV : w.vertexCount = V) (hVn : V + n < 4294967296) :
    glEnd_counted w = { w with glBegin_active := 0, vertexCount := V + n } := by
  have e : u32 ((V : Int) + (n : Int)) = V + n := u32_eq _ _ (by omega) hVn
  unfold glEnd_counted
  simp only [hq, hqm, Option.getD_some, Nat.add_sub_cancel_left, hV]
  rw [e]

/-! ### Index stores followed through a sequence of statements -/

theorem Tracked.cast {w0 w : wrapper_state} {p : Nat} {l l2 : List Nat} {ic vc ic2 vc2 : Nat}
    (h : Tracked w0 p l ic vc w) (hl : l = l2) (hic : ic = ic2) (hvc : vc = vc2) :
    Tracked w0 p l2 ic2 vc2 w := by
  subst hl hic hvc
  exact h

/-- The statement `*ptrIndexArray++ = f`, the value `f` being computed from the
current variables. -/
theorem Tracked.push {w0 w : wrapper_state} {p : Nat} {l : List Nat} {ic vc : Nat}
    (h : Tracked w0 p l ic vc w) (f : wrapper_state → Int) (v : Nat)
    (hf : ∀ W : wrapper_state, W.indexCount = ic → W.indexbase = w0.indexbase → f W = (v : Int))
    (hv : v < 65536) :
    Tracked w0 p (l ++ [v]) ic vc (pushIndex w (f w)) := by
  obtain ⟨k1, k2, k3⟩ := h.1.store (f w) v (hf w h.2.1 h.1.2.2.2.1) hv
  exact ⟨k1, k2.trans h.2.1, k3.trans h.2.2⟩

/-- The statement `*(longptr++) = f | (g << 16)`. -/
theorem Tracked.pushPair {w0 w : wrapper_state} {p : Nat} {l : List Nat} {ic vc : Nat}
    (h : Tracked w0 p l ic vc w) (f g : wrapper_state → Int) (a b : Nat)
    (hf : ∀ W : wrapper_state, W.indexCount = ic → f W = (a : Int))
    (hg : ∀ W : wrapper_state, W.indexCount = ic → g W = (b : Int))
    (ha : a < 65536) (hb : b < 65536) :
    Tracked w0 p (l ++ [a, b]) ic vc (pushIndexPair w (f w) (g w)) := by
  obtain ⟨k1, k2, k3⟩ := h.1.storePair (f w) (g w) a b (hf w h.2.1) (hg w h.2.1) ha hb
  exact ⟨k1, k2.trans h.2.1, k3.trans h.2.2⟩

/-- An assignment to `indexCount`. -/
theorem Tracked.setIC {w0 w : wrapper_state} {p : Nat} {l : List Nat} {ic vc : Nat}
    (h : Tracked w0 p l ic vc w) (f : wrapper_state → Nat) (ic2 : Nat)
    (hf : ∀ W : wrapper_state, W.indexCount = ic → f W = ic2) :
    Tracked w0 p l ic2 vc { w with indexCount := f w } :=
  ⟨h.1, hf w h.2.1, h.2.2⟩

/-- An assignment to `vertexCount`. -/
theorem Tracked.setVC {w0 w : wrapper_state} {p : Nat} {l : List Nat} {ic vc : Nat}
    (h : Tracked w0 p l ic vc w) (f : wrapper_state → Nat) (vc2 : Nat)
    (hf : ∀ W : wrapper_state, W.vertexCount = vc → W.vertexMark = w0.vertexMark → f W = vc2) :
    Tracked w0 p l ic vc2 { w with vertexCount := f w } :=
  ⟨h.1, h.2.1, hf w h.2.2 h.1.2.2.2.2.2.1⟩

/-- The loop of the fan case, run `g` times. -/
theorem Tracked.fanLoop {w0 w : wrapper_state} {p : Nat} {l : List Nat} {ic vc : Nat}
    (h : Tracked w0 p l ic vc w) (g : wrapper_state → Nat) (m b : Nat)
    (hg : ∀ W : wrapper_state, W.vertexCount = vc → W.vertexMark = w0.vertexMark → g W = m)
    (hb : w0.indexbase = (b : Int)) (hb2 : b < 65536) (hic : 1 ≤ ic) (hicm : ic + m ≤ 65536)
    (hvc : vc + 2 * m < 4294967296) :
    Tracked w0 p (l ++ (List.range m).flatMap (fun k => [b, ic + k - 1, ic + k]))
      (ic + m) (vc + 2 * m) (glEnd_fan_loop (g w) w) := by
  rw [hg w h.2.2 h.1.2.2.2.2.2.1]
  exact glEnd_fan_loop_emitted m w0 w p l b ic vc h.1 (h.1.2.2.2.1.trans hb) hb2 h.2.1 hic hicm
    h.2.2 hvc

theorem fanIndices_eq (b n : Nat) (hn : 3 ≤ n) :
    [] ++ [b] ++ [b + 1] ++ [b + 2] ++
      (List.range (n - 3)).flatMap (fun k => [b, b + 3 + k - 1, b + 3 + k]) =
    fanIndices b n := by
  unfold fanIndices
  rw [show n - 2 = (n - 3) + 1 by omega, range_flatMap_succ]
  simp only [List.nil_append, List.append_assoc, List.singleton_append, Nat.add_zero,
    List.cons_append]
  congr 3
  apply congrArg
  funext k
  have h1 : b + 3 + k - 1 = b + (k + 1) + 1 := by omega
  have h2 : b + 3 + k = b + (k + 1) + 2 := by omega
  rw [h1, h2]

/-- The fan case of the switch: triangle k is (b, b + k + 1, b + k + 2). -/
theorem glEnd_fan_case_tracked (w : wrapper_state) (p n V b : Nat)
    (hp : w.ptrIndexArray = some p) (hV : w.vertexCount = V + n) (hm : w.vertexMark = V)
    (hb : w.indexCount = b) (hib : w.indexbase = (b : Int))
    (hn : 3 ≤ n) (hbn : b + n ≤ 65536) (hVn : V + 3 * n < 4294967296) :
    Tracked w p (fanIndices b n) (b + n) (V + 3 * (n - 2)) (glEnd_fan_case w) := by
  have t0 : Tracked w p [] b (V + n) w := ⟨Emitted.start w p hp, hb, hV⟩
  have t1 := t0.push (fun w => (w.indexCount : Int)) b (fun W h _ => by simp only [h]) (by omega)
  have t2 := t1.setIC (fun w => u32 (w.indexCount + 1)) (b + 1)
    (fun W h => by simp only [h]; exact u32_eq _ _ (by omega) (by omega))
  have t3 := t2.push (fun w => (w.indexCount : Int)) (b + 1) (fun W h _ => by simp only [h]) (by omega)
  have t4 := t3.setIC (fun w => u32 (w.indexCount + 1)) (b + 2)
    (fun W h => by simp only [h]; exact u32_eq _ _ (by omega) (by omega))
  have t5 := t4.push (fun w => (w.indexCount : Int)) (b + 2) (fun W h _ => by simp only [h]) (by omega)
  have t6 := t5.setIC (fun w => u32 (w.indexCount + 1)) (b + 3)
    (fun W h => by simp only [h]; exact u32_eq _ _ (by omega) (by omega))
  have t7 := t6.fanLoop
    (fun w => (i32 (u32 ((w.vertexCount : Int) - w.vertexMark - 3))).toNat) (n - 3) b
    (fun W h1 h2 => by
      simp only [h1, h2, hm]
      rw [u32_eq _ (n - 3) (by omega) (by omega), i32_small _ (by omega)]
      rfl)
    hib (by omega) (by omega) (by omega) (by omega)
  exact t7.cast (fanIndices_eq b n hn) (by omega) (by omega)

/-! ### The strip case -/

theorem stripFrom_zero (b i : Nat) : stripFrom b i 0 = [] := rfl

theorem stripFrom_succ (b i m : Nat) :
    stripFrom b i (m + 1) = stripTriangle b i ++ stripFrom b (i + 1) m := by
  unfold stripFrom
  rw [range_flatMap_succ, Nat.add_zero]
  congr 2
  funext k
  rw [show i + (k + 1) = i + 1 + k by omega]

theorem stripFrom_one (b i : Nat) : stripFrom b i 1 = stripTriangle b i := by
  rw [stripFrom_succ, stripFrom_zero, List.append_nil]

theorem stripFrom_append (b : Nat) (m1 : Nat) : ∀ (i m2 : Nat),
    stripFrom b i (m1 + m2) = stripFrom b i m1 ++ stripFrom b (i + m1) m2 := by
  induction m1 with
  | zero => intro i m2; simp [stripFrom_zero]
  | succ m1 ih =>
    intro i m2
    rw [show m1 + 1 + m2 = (m1 + m2) + 1 by omega, stripFrom_succ, stripFrom_succ, ih,
      List.append_assoc, show i + 1 + m1 = i + (m1 + 1) by omega]

theorem stripTriangle_even (b i : Nat) (h : i % 2 = 0) :
    stripTriangle b i = [b + i - 2, b + i - 1, b + i] := by
  unfold stripTriangle
  rw [if_pos h]

theorem stripTriangle_odd (b i : Nat) (h : i % 2 = 1) :
    stripTriangle b i = [b + i - 1, b + i - 2, b + i] := by
  unfold stripTriangle
  rw [if_neg (by omega)]

theorem stripFrom_length (b : Nat) (m : Nat) : ∀ i, (stripFrom b i m).length = 3 * m := by
  induction m with
  | zero => intro i; rfl
  | succ m ih =>
    intro i
    rw [stripFrom_succ, List.length_append, ih]
    unfold stripTriangle
    split <;> simp <;> omega

/-- If both branches of a conditional are tracked the same way, so is the
conditional. -/
theorem Tracked.ite {w0 : wrapper_state} {p : Nat} {l : List Nat} {ic vc : Nat}
    (cond : Prop) [Decidable cond] (A B : wrapper_state)
    (hA : cond → Tracked w0 p l ic vc A) (hB : ¬ cond → Tracked w0 p l ic vc B) :
    Tracked w0 p l ic vc (if cond then A else B) := by
  split
  · exact hA ‹_›
  · exact hB ‹_›

/-- The word loop of the aligned branch: each iteration emits the triangles of
an odd strip vertex and of the even one after it. -/
theorem strip_loop_aligned_tracked (m : Nat) :
    ∀ (w0 w : wrapper_state) (p : Nat) (l : List Nat) (b i vc : Nat),
      Tracked w0 p l (b + i) vc w → i % 2 = 1 → 2 ≤ i → b + i + 2 * m ≤ 65536 →
      Tracked w0 p (l ++ stripFrom b i (2 * m)) (b + i + 2 * m) vc
        (glEnd_strip_loop_aligned m w) := by
  induction m with
  | zero =>
    intro w0 w p l b i vc h _ _ _
    exact h.cast (by simp [stripFrom_zero]) rfl rfl
  | succ m ih =>
    intro w0 w p l b i vc h hi hi2 hle
    have hic := h.2.1
    have t1 := h.pushPair (fun _ => (w.indexCount : Int) - 1) (fun _ => (w.indexCount : Int) - 2)
      (b + i - 1) (b + i - 2) (fun _ _ => by beta_reduce; rw [hic]; omega) (fun _ _ => by beta_reduce; rw [hic]; omega)
      (by omega) (by omega)
    have t2 := t1.pushPair (fun _ => (w.indexCount : Int)) (fun _ => (w.indexCount : Int) - 1)
      (b + i) (b + i - 1) (fun _ _ => by rw [hic]) (fun _ _ => by beta_reduce; rw [hic]; omega)
      (by omega) (by omega)
    have t3 := t2.pushPair (fun _ => (w.indexCount : Int)) (fun _ => (w.indexCount : Int) + 1)
      (b + i) (b + i + 1) (fun _ _ => by rw [hic]) (fun _ _ => by beta_reduce; rw [hic]; omega)
      (by omega) (by omega)
    have t4 := t3.setIC (fun _ => u32 ((w.indexCount : Int) + 2)) (b + (i + 2))
      (fun _ _ => by beta_reduce; rw [hic]; exact u32_eq _ _ (by omega) (by omega))
    have t5 := ih w0 _ p _ b (i + 2) vc t4 (by omega) (by omega) (by omega)
    refine t5.cast ?_ (by omega) rfl
    rw [show 2 * (m + 1) = 2 * m + 1 + 1 by omega, stripFrom_succ, stripFrom_succ,
      stripTriangle_odd b i hi, stripTriangle_even b (i + 1) (by omega),
      show i + 1 + 1 = i + 2 by omega, show b + (i + 1) - 2 = b + i - 1 by omega,
      show b + (i + 1) - 1 = b + i by omega, show b + (i + 1) = b + i + 1 by omega]
    simp

/-- The word loop of the unaligned branch: each iteration emits the triangles
of an even strip vertex and of the odd one after it. -/
theorem strip_loop_unaligned_tracked (m : Nat) :
    ∀ (w0 w : wrapper_state) (p : Nat) (l : List Nat) (b i vc : Nat),
      Tracked w0 p l (b + i) vc w → i % 2 = 0 → 2 ≤ i → b + i + 2 * m ≤ 65536 →
      Tracked w0 p (l ++ stripFrom b i (2 * m)) (b + i + 2 * m) vc
        (glEnd_strip_loop_unaligned m w) := by
  induction m with
  | zero =>
    intro w0 w p l b i vc h _ _ _
    exact h.cast (by simp [stripFrom_zero]) rfl rfl
  | succ m ih =>
    intro w0 w p l b i vc h hi hi2 hle
    have hic := h.2.1
    have t1 := h.pushPair (fun _ => (w.indexCount : Int) - 2) (fun _ => (w.indexCount : Int) - 1)
      (b + i - 2) (b + i - 1) (fun _ _ => by beta_reduce; rw [hic]; omega) (fun _ _ => by beta_reduce; rw [hic]; omega)
      (by omega) (by omega)
    have t2 := t1.pushPair (fun _ => (w.indexCount : Int)) (fun _ => (w.indexCount : Int))
      (b + i) (b + i) (fun _ _ => by rw [hic]) (fun _ _ => by rw [hic])
      (by omega) (by omega)
    have t3 := t2.pushPair (fun _ => (w.indexCount : Int) - 1) (fun _ => (w.indexCount : Int) + 1)
      (b + i - 1) (b + i + 1) (fun _ _ => by beta_reduce; rw [hic]; omega) (fun _ _ => by beta_reduce; rw [hic]; omega)
      (by omega) (by omega)
    have t4 := t3.setIC (fun _ => u32 ((w.indexCount : Int) + 2)) (b + (i + 2))
      (fun _ _ => by beta_reduce; rw [hic]; exact u32_eq _ _ (by omega) (by omega))
    have t5 := ih w0 _ p _ b (i + 2) vc t4 (by omega) (by omega) (by omega)
    refine t5.cast ?_ (by omega) rfl
    rw [show 2 * (m + 1) = 2 * m + 1 + 1 by omega, stripFrom_succ, stripFrom_succ,
      stripTriangle_even b i hi, stripTriangle_odd b (i + 1) (by omega),
      show i + 1 + 1 = i + 2 by omega, show b + (i + 1) - 2 = b + i - 1 by omega,
      show b + (i + 1) - 1 = b + i by omega, show b + (i + 1) = b + i + 1 by omega]
    simp

/-- The first triangle of the strip case. -/
theorem strip_first_tracked {w0 w : wrapper_state} {p : Nat} {l : List Nat} {b vc : Nat}
    (h : Tracked w0 p l b vc w) (hb : b + 3 ≤ 65536) :
    Tracked w0 p (l ++ stripFrom b 2 1) (b + 3) vc (glEnd_strip_first w) := by
  have t1 := h.push (fun w => (w.indexCount : Int)) b (fun W h _ => by simp only [h]) (by omega)
  have t2 := t1.push (fun w => (w.indexCount : Int) + 1) (b + 1)
    (fun W h _ => by simp only [h]; omega) (by omega)
  have t3 := t2.push (fun w => (w.indexCount : Int) + 2) (b + 2)
    (fun W h _ => by simp only [h]; omega) (by omega)
  have t4 := t3.setIC (fun w => u32 ((w.indexCount : Int) + 3)) (b + 3)
    (fun W h => by simp only [h]; exact u32_eq _ _ (by omega) (by omega))
  refine t4.cast ?_ rfl rfl
  rw [stripFrom_one, stripTriangle_even b 2 rfl]
  simp

/-- The branch "already aligned": the triangles of the strip vertices 3, ...,
n - 1. -/
theorem strip_aligned_tracked {w0 w : wrapper_state} {p : Nat} {l : List Nat} {b vc : Nat}
    (h : Tracked w0 p l (b + 3) vc w) (vcount : Int) (n : Nat) (hn : 3 ≤ n)
    (hv : vcount = ((n - 3 : Nat) : Int)) (hbn : b + n ≤ 65536) :
    Tracked w0 p (l ++ stripFrom b 3 (n - 3)) (b + n) vc (glEnd_strip_aligned w vcount) := by
  have hm : (Int.tdiv vcount 2).toNat = (n - 3) / 2 := by
    rw [hv, Int.tdiv_eq_ediv (by omega) (by omega)]
    omega
  have t1 := strip_loop_aligned_tracked ((n - 3) / 2) w0 w p l b 3 vc h rfl (by omega)
    (by omega)
  rw [← hm] at t1
  have hsplit : n - 3 = 2 * ((n - 3) / 2) + (n - 3) % 2 := by omega
  apply Tracked.ite
  · intro hodd
    have hodd2 : (n - 3) % 2 = 1 := by omega
    have t2 := t1.push (fun w => (w.indexCount : Int) - 1) (b + (3 + 2 * ((n - 3) / 2)) - 1)
      (fun W h _ => by simp only [h]; omega) (by omega)
    have t3 := t2.push (fun w => (w.indexCount : Int) - 2) (b + (3 + 2 * ((n - 3) / 2)) - 2)
      (fun W h _ => by simp only [h]; omega) (by omega)
    have t4 := t3.push (fun w => (w.indexCount : Int)) (b + (3 + 2 * ((n - 3) / 2)))
      (fun W h _ => by simp only [h]; omega) (by omega)
    have t5 := t4.setIC (fun w => u32 ((w.indexCount : Int) + 1)) (b + n)
      (fun W h => by simp only [h]; exact u32_eq _ _ (by omega) (by omega))
    refine t5.cast ?_ rfl rfl
    rw [hm]
    conv_rhs => rw [hsplit, hodd2, stripFrom_append, stripFrom_one,
      stripTriangle_odd b _ (by omega : (3 + 2 * ((n - 3) / 2)) % 2 = 1)]
    simp
  · intro hodd
    have hodd2 : (n - 3) % 2 = 0 := by omega
    refine t1.cast ?_ (by omega) rfl
    rw [hm]
    conv_rhs => rw [hsplit, hodd2, Nat.add_zero]

/-- The branch taken when the pointer is not aligned: the triangles of the
strip vertices 3, ..., n - 1 again. -/
theorem strip_unaligned_tracked {w0 w : wrapper_state} {p : Nat} {l : List Nat} {b vc : Nat}
    (h : Tracked w0 p l (b + 3) vc w) (vcount : Int) (n : Nat) (hn : 4 ≤ n)
    (hv : vcount = ((n - 3 : Nat) : Int)) (hbn : b + n ≤ 65536) :
    Tracked w0 p (l ++ stripFrom b 3 (n - 3)) (b + n) vc (glEnd_strip_unaligned w vcount) := by
  have hm : (Int.tdiv (vcount - 1) 2).toNat = (n - 4) / 2 := by
    rw [hv, Int.tdiv_eq_ediv (by omega) (by omega)]
    omega
  have t1 := h.push (fun w => (w.indexCount : Int) - 1) (b + 3 - 1)
    (fun W h _ => by simp only [h]; omega) (by omega)
  have t2 := t1.push (fun w => (w.indexCount : Int) - 2) (b + 3 - 2)
    (fun W h _ => by simp only [h]; omega) (by omega)
  have t3 := t2.push (fun w => (w.indexCount : Int)) (b + 3)
    (fun W h _ => by simp only [h]) (by omega)
  have t4 := t3.setIC (fun w => u32 ((w.indexCount : Int) + 1)) (b + 4)
    (fun W h => by simp only [h]; exact u32_eq _ _ (by omega) (by omega))
  have t5 := strip_loop_unaligned_tracked ((n - 4) / 2) w0 _ p _ b 4 vc t4 rfl (by omega)
    (by omega)
  rw [← hm] at t5
  have hsplit : n - 3 = 1 + (2 * ((n - 4) / 2) + (n - 4) % 2) := by omega
  apply Tracked.ite
  · intro hodd
    have hodd2 : (n - 4) % 2 = 1 := by omega
    have t6 := t5.push (fun w => (w.indexCount : Int) - 2) (b + (4 + 2 * ((n - 4) / 2)) - 2)
      (fun W h _ => by simp only [h]; omega) (by omega)
    have t7 := t6.push (fun w => (w.indexCount : Int) - 1) (b + (4 + 2 * ((n - 4) / 2)) - 1)
      (fun W h _ => by simp only [h]; omega) (by omega)
    have t8 := t7.push (fun w => (w.indexCount : Int)) (b + (4 + 2 * ((n - 4) / 2)))
      (fun W h _ => by simp only [h]; omega) (by omega)
    have t9 := t8.setIC (fun w => u32 ((w.indexCount : Int) + 1)) (b + n)
      (fun W h => by simp only [h]; exact u32_eq _ _ (by omega) (by omega))
    refine t9.cast ?_ rfl rfl
    rw [hm]
    conv_rhs => rw [hsplit, hodd2, stripFrom_append, stripFrom_append, stripFrom_one,
      stripFrom_one, stripTriangle_odd b 3 rfl,
      stripTriangle_even b _ (by omega : (3 + 1 + 2 * ((n - 4) / 2)) % 2 = 0)]
    simp
  · intro hodd
    have hodd2 : (n - 4) % 2 = 0 := by omega
    refine t5.cast ?_ (by omega) rfl
    rw [hm]
    conv_rhs => rw [hsplit, hodd2, Nat.add_zero, stripFrom_append, stripFrom_one,
      stripTriangle_odd b 3 rfl]
    simp

/-- The strip case of the switch: the triangles of the strip vertices 2, ...,
n - 1, whichever branch is taken. -/
theorem glEnd_strip_case_tracked (w : wrapper_state) (p n V b : Nat)
    (hp : w.ptrIndexArray = some p) (hV : w.vertexCount = V + n) (hm : w.vertexMark = V)
    (hb : w.indexCount = b)
    (hn : 3 ≤ n) (hbn : b + n ≤ 65536) (hVn : V + 3 * n < 4294967296) :
    Tracked w p (stripIndices b n) (b + n) (V + 3 * (n - 2)) (glEnd_strip_case w) := by
  have t0 : Tracked w p [] b (V + n) w := ⟨Emitted.start w p hp, hb, hV⟩
  have t1 := strip_first_tracked t0 (by omega)
  have hv : i32 (u32 (((glEnd_strip_first w).vertexCount : Int) -
      (glEnd_strip_first w).vertexMark - 3)) = ((n - 3 : Nat) : Int) := by
    rw [t1.2.2, t1.1.2.2.2.2.2.1, hm, u32_eq _ (n - 3) (by omega) (by omega),
      i32_small _ (by omega)]
  have t2 := Tracked.ite
    (i32 (u32 (((glEnd_strip_first w).vertexCount : Int) -
        (glEnd_strip_first w).vertexMark - 3)) ≠ 0 ∧
      (ptrIndexArray_addr (glEnd_strip_first w)) &&& 2 ≠ 0)
    (glEnd_strip_unaligned (glEnd_strip_first w)
      (i32 (u32 (((glEnd_strip_first w).vertexCount : Int) -
        (glEnd_strip_first w).vertexMark - 3))))
    (glEnd_strip_aligned (glEnd_strip_first w)
      (i32 (u32 (((glEnd_strip_first w).vertexCount : Int) -
        (glEnd_strip_first w).vertexMark - 3))))
    (fun hc => strip_unaligned_tracked t1 _ n (by have := hc.1; rw [hv] at this; omega) hv hbn)
    (fun _ => strip_aligned_tracked t1 _ n hn hv hbn)
  have t3 := t2.setVC
    (fun w => u32 ((w.vertexCount : Int) + ((w.vertexCount : Int) - w.vertexMark - 3) * 2))
    (V + 3 * (n - 2))
    (fun W h1 h2 => by simp only [h1, h2, hm]; exact u32_eq _ _ (by omega) (by omega))
  refine t3.cast ?_ rfl rfl
  unfold stripIndices
  rw [show n - 2 = 1 + (n - 3) by omega, stripFrom_append]
  simp

/-- What glEnd does to a batch of `n` vertices, at least three, of a mode that
is neither GL_LINES nor too short: the switch is run on the counted state. -/
theorem jwzgles_glEnd_switch (c : Ctx) (q n V : Nat)
    (hmode : c.w.wrapperPrimitiveMode ≠ GL_LINES)
    (hmode2 : (glEnd_switch { c.w with glBegin_active := 0, vertexCount := V + n
      }).wrapperPrimitiveMode ≠ GL_LINES)
    (hq : c.w.ptrVertexAttribArray = some (q + n)) (hqm : c.w.ptrVertexAttribArrayMark = some q)
    (hV : c.w.vertexCount = V) (hVn : V + n < 4294967296) (hn : 3 ≤ V + n) :
    jwzgles_glEnd c =
      { c with w := glEnd_switch { c.w with glBegin_active := 0, vertexCount := V + n } } := by
  rw [jwzgles_glEnd_eq, glEnd_counted_eq c.w q n V hq hqm hV hVn]
  simp only [if_neg hmode, if_neg hmode2]
  rw [if_neg (by omega)]



/-! ## Whole brackets of the DrawElements path -/

theorem flatMap_length_const {α : Type} (l : List Nat) (f : Nat → List α) (k : Nat)
    (h : ∀ x, (f x).length = k) : (l.flatMap f).length = k * l.length := by
  induction l with
  | nil => rfl
  | cons a l ih =>
    rw [List.flatMap_cons, List.length_append, ih, h, List.length_cons]
    ring

theorem fanIndices_length (b n : Nat) : (fanIndices b n).length = 3 * (n - 2) := by
  unfold fanIndices
  rw [flatMap_length_const _ (fun k => [b, b + k + 1, b + k + 2]) 3 (fun _ => rfl),
    List.length_range]

/-- A bracket glBegin, n vertices, glEnd of mode GL_TRIANGLE_STRIP,
GL_TRIANGLE_FAN or GL_POLYGON, opened after the first glBegin of the process
with the index pointer at cell `p`, the vertex pointer at cell `q` and
`indexCount` = b. -/
theorem indexedBatch_strip_fan (c : Ctx) (mode : Nat) (vs : List XYZW) (p q b : Nat)
    (hmode : mode = GL_TRIANGLE_STRIP ∨ mode = GL_TRIANGLE_FAN ∨ mode = GL_POLYGON)
    (hfirst : c.w.first = false) (hp : c.w.ptrIndexArray = some p)
    (hq : c.w.ptrVertexAttribArray = some q) (hb : c.w.indexCount = b)
    (hn : 3 ≤ vs.length) (hbn : b + vs.length ≤ 65536)
    (hV : c.w.vertexCount + 3 * vs.length < 4294967296) :
    indexedBatch c mode vs = { c with w := (indexedBatch c mode vs).w } ∧
    (indexedBatch c mode vs).w.ptrIndexArray = some (p + 3 * (vs.length - 2)) ∧
    indicesAt (indexedBatch c mode vs).w.indexArray p (3 * (vs.length - 2)) =
      (if mode = GL_TRIANGLE_STRIP then stripIndices b vs.length
       else fanIndices b vs.length) ∧
    (∀ j, j < p → (indexedBatch c mode vs).w.indexArray.getD j 0 = c.w.indexArray.getD j 0) ∧
    (indexedBatch c mode vs).w.indexCount = b + vs.length ∧
    (indexedBatch c mode vs).w.vertexCount = c.w.vertexCount + 3 * (vs.length - 2) ∧
    positionsAt (indexedBatch c mode vs) q vs.length = vs.map (fun v => (v.x, v.y, v.z)) ∧
    (∀ j, j < q → (indexedBatch c mode vs).w.vertexattribs.getD j default =
      c.w.vertexattribs.getD j default) := by
  obtain ⟨va, cur, e, g1, g2⟩ := indexedBatch_open c mode vs q hfirst hq
  have hm1 : mode ≠ GL_LINES := by
    rcases hmode with h | h | h <;> subst h <;> decide
  have hsw : ∀ w : wrapper_state, w.wrapperPrimitiveMode = mode →
      glEnd_switch w =
        if mode = GL_TRIANGLE_STRIP then glEnd_strip_case w else glEnd_fan_case w := by
    intro w hw
    unfold glEnd_switch
    rw [hw]
    rcases hmode with h | h | h <;> subst h <;> simp [GL_LINES, GL_QUADS, GL_TRIANGLES,
      GL_TRIANGLE_STRIP, GL_TRIANGLE_FAN, GL_POLYGON]
  have hib : i32 c.w.indexCount = (b : Int) := by rw [hb, i32_small _ (by omega)]
  -- the state at glEnd, counted
  obtain ⟨d, hd⟩ : ∃ d : wrapper_state, d =
      { c.w with glBegin_active := 0, wrapperPrimitiveMode := mode,
                 vertexMark := c.w.vertexCount,
                 ptrVertexAttribArrayMark := some q,
                 indexbase := i32 c.w.indexCount,
                 vertexattribs := va, currentVertexAttrib := cur,
                 ptrVertexAttribArray := some (q + vs.length),
                 vertexCount := c.w.vertexCount + vs.length } := ⟨_, rfl⟩
  have d1 : d.ptrIndexArray = some p := by rw [hd]; exact hp
  have d2 : d.vertexCount = c.w.vertexCount + vs.length := by rw [hd]
  have d3 : d.vertexMark = c.w.vertexCount := by rw [hd]
  have d4 : d.indexCount = b := by rw [hd]; exact hb
  have d5 : d.indexbase = (b : Int) := by rw [hd]; exact hib
  have d6 : d.wrapperPrimitiveMode = mode := by rw [hd]
  have d7 : d.vertexattribs = va := by rw [hd]
  have d8 : d.indexArray = c.w.indexArray := by rw [hd]
  have t : Tracked d p (if mode = GL_TRIANGLE_STRIP then stripIndices b vs.length
      else fanIndices b vs.length) (b + vs.length) (c.w.vertexCount + 3 * (vs.length - 2))
      (glEnd_switch d) := by
    rw [hsw d d6]
    by_cases hs : mode = GL_TRIANGLE_STRIP
    · rw [if_pos hs, if_pos hs]
      exact glEnd_strip_case_tracked d p vs.length c.w.vertexCount b d1 d2 d3 d4 hn hbn hV
    · rw [if_neg hs, if_neg hs]
      exact glEnd_fan_case_tracked d p vs.length c.w.vertexCount b d1 d2 d3 d4 d5 hn hbn hV
  have hm2 : (glEnd_switch d).wrapperPrimitiveMode ≠ GL_LINES := by
    rw [t.1.2.2.2.2.2.2.1, d6]
    exact hm1
  have key : indexedBatch c mode vs = { c with w := glEnd_switch d } := by
    unfold indexedBatch
    rw [e, hd]
    rw [hd] at hm2
    exact jwzgles_glEnd_switch _ q vs.length c.w.vertexCount hm1 hm2 rfl rfl rfl (by omega)
      (by omega)
  have hlen : (if mode = GL_TRIANGLE_STRIP then stripIndices b vs.length
      else fanIndices b vs.length).length = 3 * (vs.length - 2) := by
    split
    · exact stripFrom_length b _ 2
    · exact fanIndices_length b _
  have hw : (indexedBatch c mode vs).w = glEnd_switch d := by rw [key]
  refine ⟨?_, ?_, ?_, ?_, ?_, ?_, ?_, ?_⟩
  · rw [key]
  · rw [hw, t.1.1, hlen]
  · rw [hw, ← hlen]
    exact t.1.indicesAt
  · intro j hj
    rw [hw, t.1.2.2.1 j hj, d8]
  · rw [hw, t.2.1]
  · rw [hw, t.2.2]
  · unfold positionsAt
    rw [hw, t.1.2.2.2.2.2.2.2, d7]
    apply List.ext_getElem
    · simp
    · intro k hk1 hk2
      simp only [List.length_map, List.length_range] at hk1
      obtain ⟨x1, x2, x3⟩ := g1 k hk1
      simp only [List.getElem_map, List.getElem_range, x1, x2, x3]
      simp [List.getD_eq_getElem?_getD, List.getElem?_eq_getElem hk1]
  · intro j hj
    rw [hw, t.1.2.2.2.2.2.2.2, d7]
    exact g2 j hj

theorem indicesAt_getD (arr : List Nat) (p len j : Nat) (hj : j < len) :
    (indicesAt arr p len).getD j 0 = arr.getD (p + j) 0 := by
  unfold indicesAt
  simp [List.getD_eq_getElem?_getD, List.getElem?_map, List.getElem?_range hj]

/-- Cell 3k + t of a list of triples laid out one after the other. -/
theorem flatMap3_getD (f g h : Nat → Nat) (m : Nat) :
    ∀ k, k < m →
      ((List.range m).flatMap (fun k => [f k, g k, h k])).getD (3 * k) 0 = f k ∧
      ((List.range m).flatMap (fun k => [f k, g k, h k])).getD (3 * k + 1) 0 = g k ∧
      ((List.range m).flatMap (fun k => [f k, g k, h k])).getD (3 * k + 2) 0 = h k := by
  induction m with
  | zero => intro k hk; omega
  | succ m ih =>
    intro k hk
    have hlen : ((List.range m).flatMap (fun k => [f k, g k, h k])).length = 3 * m := by
      rw [flatMap_length_const _ (fun k => [f k, g k, h k]) 3 (fun _ => rfl),
        List.length_range]
    rw [List.range_succ, List.flatMap_append]
    by_cases hkm : k < m
    · obtain ⟨i1, i2, i3⟩ := ih k hkm
      rw [getD_append_lt _ _ _ (by omega), getD_append_lt _ _ _ (by omega),
        getD_append_lt _ _ _ (by omega)]
      exact ⟨i1, i2, i3⟩
    · have hk2 : k = m := by omega
      subst hk2
      have e0 := getD_append_add ((List.range k).flatMap (fun k => [f k, g k, h k]))
        ([k].flatMap (fun k => [f k, g k, h k])) 0
      have e1 := getD_append_add ((List.range k).flatMap (fun k => [f k, g k, h k]))
        ([k].flatMap (fun k => [f k, g k, h k])) 1
      have e2 := getD_append_add ((List.range k).flatMap (fun k => [f k, g k, h k]))
        ([k].flatMap (fun k => [f k, g k, h k])) 2
      rw [hlen] at e0 e1 e2
      rw [Nat.add_zero] at e0
      rw [e0, e1, e2]
      simp

theorem stripTriangle_eq (b i : Nat) :
    stripTriangle b i =
      [if i % 2 = 0 then b + i - 2 else b + i - 1, if i % 2 = 0 then b + i - 1 else b + i - 2,
        b + i] := by
  unfold stripTriangle
  split <;> rfl

/-- C23: a GL_TRIANGLE_FAN or GL_POLYGON batch of n >= 3 vertices in the
DrawElements path, opened (after the first glBegin of the process) when
`indexCount` equals the number b of vertices already stored and the index
pointer is at cell p.  glEnd appends exactly 3 * (n - 2) indices after cell p
(the cells before p are untouched and the pointer ends just after them);
triangle k, for 0 <= k <= n - 3, is (b, b + k + 1, b + k + 2); afterwards
`indexCount` = b + n and `vertexCount` has grown by 3 * (n - 2).  The n
vertices of the batch are stored in the cells b, ..., b + n - 1, so the
triangle is (0, k + 1, k + 2) relative to the first vertex of the batch.
Nothing but the wrapper variables changes. -/
theorem C23_indexed_fan_triangles (c : Ctx) (mode : Nat) (vs : List XYZW) (p b : Nat)
    (hmode : mode = GL_TRIANGLE_FAN ∨ mode = GL_POLYGON)
    (hfirst : c.w.first = false) (hp : c.w.ptrIndexArray = some p)
    (hq : c.w.ptrVertexAttribArray = some b) (hb : c.w.indexCount = b)
    (hn : 3 ≤ vs.length) (hbn : b + vs.length ≤ 65536)
    (hV : c.w.vertexCount + 3 * vs.length < 4294967296) :
    indicesAt (indexedBatch c mode vs).w.indexArray p (3 * (vs.length - 2)) =
      fanIndices b vs.length ∧
    (∀ k, k ≤ vs.length - 3 →
      (indexedBatch c mode vs).w.indexArray.getD (p + 3 * k) 0 = b ∧
      (indexedBatch c mode vs).w.indexArray.getD (p + 3 * k + 1) 0 = b + k + 1 ∧
      (indexedBatch c mode vs).w.indexArray.getD (p + 3 * k + 2) 0 = b + k + 2) ∧
    (indexedBatch c mode vs).w.ptrIndexArray = some (p + 3 * (vs.length - 2)) ∧
    (∀ j, j < p → (indexedBatch c mode vs).w.indexArray.getD j 0 = c.w.indexArray.getD j 0) ∧
    (indexedBatch c mode vs).w.indexCount = b + vs.length ∧
    (indexedBatch c mode vs).w.vertexCount = c.w.vertexCount + 3 * (vs.length - 2) ∧
    positionsAt (indexedBatch c mode vs) b vs.length = vs.map (fun v => (v.x, v.y, v.z)) ∧
    indexedBatch c mode vs = { c with w := (indexedBatch c mode vs).w } := by
  have hmode2 : mode = GL_TRIANGLE_STRIP ∨ mode = GL_TRIANGLE_FAN ∨ mode = GL_POLYGON := by
    rcases hmode with h | h
    · exact Or.inr (Or.inl h)
    · exact Or.inr (Or.inr h)
  have hns : ¬ mode = GL_TRIANGLE_STRIP := by
    rcases hmode with h | h <;> subst h <;> decide
  obtain ⟨r1, r2, r3, r4, r5, r6, r7, _⟩ :=
    indexedBatch_strip_fan c mode vs p b b hmode2 hfirst hp hq hb hn hbn hV
  rw [if_neg hns] at r3
  refine ⟨r3, ?_, r2, r4, r5, r6, r7, r1⟩
  intro k hk
  obtain ⟨f1, f2, f3⟩ := flatMap3_getD (fun _ => b) (fun k => b + k + 1) (fun k => b + k + 2)
    (vs.length - 2) k (by omega)
  have g0 := indicesAt_getD (indexedBatch c mode vs).w.indexArray p (3 * (vs.length - 2))
    (3 * k) (by omega)
  have g1 := indicesAt_getD (indexedBatch c mode vs).w.indexArray p (3 * (vs.length - 2))
    (3 * k + 1) (by omega)
  have g2 := indicesAt_getD (indexedBatch c mode vs).w.indexArray p (3 * (vs.length - 2))
    (3 * k + 2) (by omega)
  rw [r3] at g0 g1 g2
  unfold fanIndices at g0 g1 g2
  rw [f1] at g0
  rw [f2] at g1
  rw [f3] at g2
  exact ⟨g0.symm, by rw [Nat.add_assoc]; exact g1.symm, by rw [Nat.add_assoc]; exact g2.symm⟩

/-- Witness of C23: a fan of five vertices after a pending triangle, so with
base 3 and the index pointer at cell 3. -/
theorem C23_indexed_fan_triangles_witness :
    (pendingTriangle.w.first = false ∧ pendingTriangle.w.ptrIndexArray = some 3 ∧
     pendingTriangle.w.ptrVertexAttribArray = some 3 ∧ pendingTriangle.w.indexCount = 3 ∧
     pendingTriangle.w.vertexCount = 3) ∧
    indicesAt (indexedBatch pendingTriangle GL_TRIANGLE_FAN
      [⟨0, 0, 0, 1⟩, ⟨1, 0, 0, 1⟩, ⟨2, 1, 0, 1⟩, ⟨1, 2, 0, 1⟩, ⟨0, 1, 0, 1⟩]).w.indexArray 3 9 =
      [3, 4, 5, 3, 5, 6, 3, 6, 7] ∧
    (indexedBatch pendingTriangle GL_TRIANGLE_FAN
      [⟨0, 0, 0, 1⟩, ⟨1, 0, 0, 1⟩, ⟨2, 1, 0, 1⟩, ⟨1, 2, 0, 1⟩, ⟨0, 1, 0, 1⟩]).w.indexCount = 8 ∧
    (indexedBatch pendingTriangle GL_TRIANGLE_FAN
      [⟨0, 0, 0, 1⟩, ⟨1, 0, 0, 1⟩, ⟨2, 1, 0, 1⟩, ⟨1, 2, 0, 1⟩, ⟨0, 1, 0, 1⟩]).w.vertexCount =
      12 :=
  ⟨by decide,
   (C23_indexed_fan_triangles pendingTriangle GL_TRIANGLE_FAN
      [⟨0, 0, 0, 1⟩, ⟨1, 0, 0, 1⟩, ⟨2, 1, 0, 1⟩, ⟨1, 2, 0, 1⟩, ⟨0, 1, 0, 1⟩] 3 3
      (Or.inl rfl) (by decide) (by decide) (by decide) (by decide) (by decide) (by decide)
      (by decide)).1,
   (C23_indexed_fan_triangles pendingTriangle GL_TRIANGLE_FAN
      [⟨0, 0, 0, 1⟩, ⟨1, 0, 0, 1⟩, ⟨2, 1, 0, 1⟩, ⟨1, 2, 0, 1⟩, ⟨0, 1, 0, 1⟩] 3 3
      (Or.inl rfl) (by decide) (by decide) (by decide) (by decide) (by decide) (by decide)
      (by decide)).2.2.2.2.1,
   (C23_indexed_fan_triangles pendingTriangle GL_TRIANGLE_FAN
      [⟨0, 0, 0, 1⟩, ⟨1, 0, 0, 1⟩, ⟨2, 1, 0, 1⟩, ⟨1, 2, 0, 1⟩, ⟨0, 1, 0, 1⟩] 3 3
      (Or.inl rfl) (by decide) (by decide) (by decide) (by decide) (by decide) (by decide)
      (by decide)).2.2.2.2.2.1⟩

/-- C24: a GL_TRIANGLE_STRIP batch of n >= 3 vertices in the DrawElements
path, opened (after the first glBegin of the process) with `indexCount` = b,
b + n <= 65536, and the index pointer at cell p.  glEnd appends exactly
3 * (n - 2) indices after cell p (the cells before p are untouched and the
pointer ends just after them); the triangle of strip vertex i, 2 <= i < n, is
(b+i-2, b+i-1, b+i) when i is even and (b+i-1, b+i-2, b+i) when i is odd.
The branch taken after the first triangle depends on the address of the index
array and on p only; the statement holds for every p and every address, in
particular the indices are the same when the array is at any other address.
Afterwards `indexCount` = b + n and `vertexCount` has grown by 3 * (n - 2). -/
theorem C24_indexed_strip_triangles (c : Ctx) (vs : List XYZW) (p q b : Nat)
    (hfirst : c.w.first = false) (hp : c.w.ptrIndexArray = some p)
    (hq : c.w.ptrVertexAttribArray = some q) (hb : c.w.indexCount = b)
    (hn : 3 ≤ vs.length) (hbn : b + vs.length ≤ 65536)
    (hV : c.w.vertexCount + 3 * vs.length < 4294967296) :
    indicesAt (indexedBatch c GL_TRIANGLE_STRIP vs).w.indexArray p (3 * (vs.length - 2)) =
      stripIndices b vs.length ∧
    (∀ i, 2 ≤ i → i < vs.length →
      (indexedBatch c GL_TRIANGLE_STRIP vs).w.indexArray.getD (p + 3 * (i - 2)) 0 =
        (if i % 2 = 0 then b + i - 2 else b + i - 1) ∧
      (indexedBatch c GL_TRIANGLE_STRIP vs).w.indexArray.getD (p + 3 * (i - 2) + 1) 0 =
        (if i % 2 = 0 then b + i - 1 else b + i - 2) ∧
      (indexedBatch c GL_TRIANGLE_STRIP vs).w.indexArray.getD (p + 3 * (i - 2) + 2) 0 =
        b + i) ∧
    (∀ a : Nat,
      indicesAt (indexedBatch { c with w := { c.w with indexArrayAddr := a } }
        GL_TRIANGLE_STRIP vs).w.indexArray p (3 * (vs.length - 2)) =
      stripIndices b vs.length) ∧
    (indexedBatch c GL_TRIANGLE_STRIP vs).w.ptrIndexArray = some (p + 3 * (vs.length - 2)) ∧
    (∀ j, j < p →
      (indexedBatch c GL_TRIANGLE_STRIP vs).w.indexArray.getD j 0 = c.w.indexArray.getD j 0) ∧
    (indexedBatch c GL_TRIANGLE_STRIP vs).w.indexCount = b + vs.length ∧
    (indexedBatch c GL_TRIANGLE_STRIP vs).w.vertexCount =
      c.w.vertexCount + 3 * (vs.length - 2) ∧
    indexedBatch c GL_TRIANGLE_STRIP vs =
      { c with w := (indexedBatch c GL_TRIANGLE_STRIP vs).w } := by
  obtain ⟨r1, r2, r3, r4, r5, r6, _, _⟩ :=
    indexedBatch_strip_fan c GL_TRIANGLE_STRIP vs p q b (Or.inl rfl) hfirst hp hq hb hn hbn hV
  rw [if_pos rfl] at r3
  refine ⟨r3, ?_, ?_, r2, r4, r5, r6, r1⟩
  · intro i hi2 hin
    have hst : stripIndices b vs.length = (List.range (vs.length - 2)).flatMap (fun k =>
        [if (2 + k) % 2 = 0 then b + (2 + k) - 2 else b + (2 + k) - 1,
         if (2 + k) % 2 = 0 then b + (2 + k) - 1 else b + (2 + k) - 2, b + (2 + k)]) := by
      unfold stripIndices stripFrom
      congr 1
      funext k
      exact stripTriangle_eq b (2 + k)
    obtain ⟨f1, f2, f3⟩ := flatMap3_getD
      (fun k => if (2 + k) % 2 = 0 then b + (2 + k) - 2 else b + (2 + k) - 1)
      (fun k => if (2 + k) % 2 = 0 then b + (2 + k) - 1 else b + (2 + k) - 2)
      (fun k => b + (2 + k)) (vs.length - 2) (i - 2) (by omega)
    have g0 := indicesAt_getD (indexedBatch c GL_TRIANGLE_STRIP vs).w.indexArray p
      (3 * (vs.length - 2)) (3 * (i - 2)) (by omega)
    have g1 := indicesAt_getD (indexedBatch c GL_TRIANGLE_STRIP vs).w.indexArray p
      (3 * (vs.length - 2)) (3 * (i - 2) + 1) (by omega)
    have g2 := indicesAt_getD (indexedBatch c GL_TRIANGLE_STRIP vs).w.indexArray p
      (3 * (vs.length - 2)) (3 * (i - 2) + 2) (by omega)
    rw [r3, hst] at g0 g1 g2
    rw [f1] at g0
    rw [f2] at g1
    rw [f3] at g2
    have hi : 2 + (i - 2) = i := by omega
    simp only [hi] at g0 g1 g2
    exact ⟨g0.symm, by rw [Nat.add_assoc]; exact g1.symm, by rw [Nat.add_assoc]; exact g2.symm⟩
  · intro a
    obtain ⟨_, _, s3, _⟩ :=
      indexedBatch_strip_fan { c with w := { c.w with indexArrayAddr := a } } GL_TRIANGLE_STRIP
        vs p q b (Or.inl rfl) hfirst hp hq hb hn hbn hV
    rw [if_pos rfl] at s3
    exact s3

/-- Witness of C24: a strip of six vertices from a flushed state, where the
branch for the unaligned pointer is taken, and the same strip after a pending
triangle (base 3, pointer at cell 3), where the other branch is taken. -/
theorem C24_indexed_strip_triangles_witness :
    (flushedCtx.w.first = false ∧ flushedCtx.w.ptrIndexArray = some 0 ∧
     flushedCtx.w.ptrVertexAttribArray = some 0 ∧ flushedCtx.w.indexCount = 0 ∧
     flushedCtx.w.vertexCount = 0 ∧
     ptrIndexArray_addr (glEnd_strip_first (glEnd_counted
       (List.foldl jwzgles_glVertex4fv (jwzgles_glBegin flushedCtx GL_TRIANGLE_STRIP)
         [⟨0, 0, 0, 1⟩, ⟨0, 1, 0, 1⟩, ⟨1, 0, 0, 1⟩, ⟨1, 1, 0, 1⟩, ⟨2, 0, 0, 1⟩,
          ⟨2, 1, 0, 1⟩]).w)) &&& 2 = 2 ∧
     ptrIndexArray_addr (glEnd_strip_first (glEnd_counted
       (List.foldl jwzgles_glVertex4fv (jwzgles_glBegin pendingTriangle GL_TRIANGLE_STRIP)
         [⟨0, 0, 0, 1⟩, ⟨0, 1, 0, 1⟩, ⟨1, 0, 0, 1⟩, ⟨1, 1, 0, 1⟩, ⟨2, 0, 0, 1⟩,
          ⟨2, 1, 0, 1⟩]).w)) &&& 2 = 0) ∧
    indicesAt (indexedBatch flushedCtx GL_TRIANGLE_STRIP
      [⟨0, 0, 0, 1⟩, ⟨0, 1, 0, 1⟩, ⟨1, 0, 0, 1⟩, ⟨1, 1, 0, 1⟩, ⟨2, 0, 0, 1⟩,
       ⟨2, 1, 0, 1⟩]).w.indexArray 0 12 =
      [0, 1, 2, 2, 1, 3, 2, 3, 4, 4, 3, 5] ∧
    indicesAt (indexedBatch pendingTriangle GL_TRIANGLE_STRIP
      [⟨0, 0, 0, 1⟩, ⟨0, 1, 0, 1⟩, ⟨1, 0, 0, 1⟩, ⟨1, 1, 0, 1⟩, ⟨2, 0, 0, 1⟩,
       ⟨2, 1, 0, 1⟩]).w.indexArray 3 12 =
      [3, 4, 5, 5, 4, 6, 5, 6, 7, 7, 6, 8] :=
  ⟨by decide,
   (C24_indexed_strip_triangles flushedCtx
      [⟨0, 0, 0, 1⟩, ⟨0, 1, 0, 1⟩, ⟨1, 0, 0, 1⟩, ⟨1, 1, 0, 1⟩, ⟨2, 0, 0, 1⟩, ⟨2, 1, 0, 1⟩]
      0 0 0 (by decide) (by decide) (by decide) (by decide) (by decide) (by decide)
      (by decide)).1,
   (C24_indexed_strip_triangles pendingTriangle
      [⟨0, 0, 0, 1⟩, ⟨0, 1, 0, 1⟩, ⟨1, 0, 0, 1⟩, ⟨1, 1, 0, 1⟩, ⟨2, 0, 0, 1⟩, ⟨2, 1, 0, 1⟩]
      3 3 3 (by decide) (by decide) (by decide) (by decide) (by decide) (by decide)
      (by decide)).1⟩



/-! ## Topologies that the switches do not name -/

theorem normalizedSet_of_other (s : vert_set) (h1 : s.mode ≠ GL_QUADS)
    (h2 : s.mode ≠ GL_QUAD_STRIP) (h3 : s.mode ≠ GL_POLYGON) : normalizedSet s = s := by
  unfold normalizedSet
  rw [if_neg h1, if_neg h2, if_neg h3]

/-- C21, counterexample: a batch of the array path with the topology 0x1234
and one vertex is drawn by glEnd, with that topology and count 1, and nothing
is logged; a bracket of the DrawElements path with the same topology and three
vertices, from a flushed state, logs nothing either and issues no renderer
call. -/
theorem C21_counterexample :
    ((issuedBy strayModeBatch (jwzgles_glEnd_REMOVED strayModeBatch)).filter GLCall.isDraw).map
      (fun x => (x.drawMode, x.drawCount)) = [(some 4660, some 1)] ∧
    (jwzgles_glEnd_REMOVED strayModeBatch).asserts = [] ∧
    strayModeIndexed.asserts = [] ∧
    strayModeIndexed.calls = flushedCtx.calls := by
  decide

/-- What jwzgles_glVertex4fv of jwzgles_test.c changes: the vertex array, the
current attribute and the vertex pointer. -/
theorem glVertex4fv_test_frame (c : Ctx) (v : XYZW) :
    ∃ va cur p,
      jwzgles_glVertex4fv c v =
        { c with w := { c.w with vertexattribs := va, currentVertexAttrib := cur,
                                 ptrVertexAttribArray := p } } := by
  unfold jwzgles_glVertex4fv
  rcases hp : c.w.ptrVertexAttribArray with _ | q
  · simp only [hp, Option.map_none']
    exact ⟨c.w.vertexattribs, _, none, by rw [← hp]⟩
  · simp only [hp, Option.map_some']
    exact ⟨_, _, _, rfl⟩

theorem vertices_test_frame (vs : List XYZW) : ∀ c : Ctx,
    ∃ va cur p,
      vs.foldl jwzgles_glVertex4fv c =
        { c with w := { c.w with vertexattribs := va, currentVertexAttrib := cur,
                                 ptrVertexAttribArray := p } } := by
  induction vs with
  | nil => intro c; exact ⟨_, _, _, rfl⟩
  | cons v l ih =>
    intro c
    obtain ⟨va, cur, p, e⟩ := glVertex4fv_test_frame c v
    obtain ⟨va2, cur2, p2, e2⟩ := ih (jwzgles_glVertex4fv c v)
    refine ⟨va2, cur2, p2, ?_⟩
    rw [List.foldl_cons, e2, e]

/-- What jwzgles_glEnd does for a topology its switch does not name: only
`glBegin_active` and `vertexCount` are assigned. -/
theorem jwzgles_glEnd_unnamed (d : Ctx)
    (hmode : d.w.wrapperPrimitiveMode ≠ GL_LINES ∧ d.w.wrapperPrimitiveMode ≠ GL_TRIANGLES ∧
      d.w.wrapperPrimitiveMode ≠ GL_TRIANGLE_STRIP ∧ d.w.wrapperPrimitiveMode ≠ GL_TRIANGLE_FAN ∧
      d.w.wrapperPrimitiveMode ≠ GL_QUADS ∧ d.w.wrapperPrimitiveMode ≠ GL_POLYGON) :
    jwzgles_glEnd d = { d with w := glEnd_counted d.w } ∧
    ∃ V, glEnd_counted d.w = { d.w with glBegin_active := 0, vertexCount := V } := by
  obtain ⟨m1, m2, m3, m4, m5, m7⟩ := hmode
  have hc : ∃ V, glEnd_counted d.w = { d.w with glBegin_active := 0, vertexCount := V } :=
    ⟨_, rfl⟩
  obtain ⟨V, hV⟩ := hc
  have hm : (glEnd_counted d.w).wrapperPrimitiveMode = d.w.wrapperPrimitiveMode := by
    rw [hV]
  have hsw : glEnd_switch (glEnd_counted d.w) = glEnd_counted d.w := by
    unfold glEnd_switch
    rw [hm, if_neg m1, if_neg m5, if_neg m2, if_neg m3, if_neg (by
      intro h
      rcases h with h | h
      · exact m7 h
      · exact m4 h)]
  refine ⟨?_, V, hV⟩
  rw [jwzgles_glEnd_eq, hsw, hm]
  simp only [if_neg m1, ite_self]

/-- C21 (amended): a topology that the switches do not name is not rejected.
In the array path, for a batch of N >= 1 vertices opened from an idle context
with no texture-generation flag cached, glEnd issues one draw call, with the
topology passed through unchanged and count N.  In the DrawElements path the
topology given to glBegin is the one glEnd finds, and glEnd issues no renderer
call, logs nothing, leaves the state of jwzgles.c and the bound arrays as they
are, writes no index and leaves `indexCount` and the index pointer where they
were; a whole bracket issues no renderer call and logs nothing. -/
theorem C21_unnamed_topology_is_not_rejected (mode : Nat)
    (hmode : mode ≠ GL_LINES ∧ mode ≠ GL_TRIANGLES ∧ mode ≠ GL_TRIANGLE_STRIP ∧
      mode ≠ GL_TRIANGLE_FAN ∧ mode ≠ GL_QUADS ∧ mode ≠ GL_QUAD_STRIP ∧ mode ≠ GL_POLYGON) :
    (∀ (c : Ctx) (calls : List BatchCall), c.state.compiling_verts = 0 →
      hasFlag c.state.enabled ISENABLED_TEXTURE_GEN_ANY = false → 1 ≤ vertexCalls calls →
      ∃ seen,
        (issuedBy (openBatch c mode calls)
            (jwzgles_glEnd_REMOVED (openBatch c mode calls))).filter GLCall.isDraw =
          [.glDrawArrays mode 0 (vertexCalls calls) seen]) ∧
    (∀ d : Ctx, d.w.wrapperPrimitiveMode = mode →
      (jwzgles_glEnd d).calls = d.calls ∧
      (jwzgles_glEnd d).asserts = d.asserts ∧
      (jwzgles_glEnd d).state = d.state ∧
      (jwzgles_glEnd d).gl = d.gl ∧
      (jwzgles_glEnd d).w.indexArray = d.w.indexArray ∧
      (jwzgles_glEnd d).w.ptrIndexArray = d.w.ptrIndexArray ∧
      (jwzgles_glEnd d).w.indexCount = d.w.indexCount ∧
      (jwzgles_glEnd d).w.glBegin_active = 0) ∧
    (∀ (c : Ctx) (vs : List XYZW),
      (vs.foldl jwzgles_glVertex4fv (jwzgles_glBegin c mode)).w.wrapperPrimitiveMode = mode ∧
      (indexedBatch c mode vs).calls = c.calls ∧
      (indexedBatch c mode vs).asserts = c.asserts ∧
      (indexedBatch c mode vs).state = c.state ∧
      (indexedBatch c mode vs).gl = c.gl ∧
      (indexedBatch c mode vs).w.indexArray = c.w.indexArray) := by
  obtain ⟨m1, m2, m3, m4, m5, m6, m7⟩ := hmode
  have hend : ∀ d : Ctx, d.w.wrapperPrimitiveMode = mode →
      ∃ V, jwzgles_glEnd d = { d with w := { d.w with glBegin_active := 0, vertexCount := V } } := by
    intro d hd
    obtain ⟨e, V, hV⟩ := jwzgles_glEnd_unnamed d (by rw [hd]; exact ⟨m1, m2, m3, m4, m5, m7⟩)
    exact ⟨V, by rw [e, hV]⟩
  have hopen : ∀ (c : Ctx) (vs : List XYZW),
      (vs.foldl jwzgles_glVertex4fv (jwzgles_glBegin c mode)).w.wrapperPrimitiveMode = mode ∧
      (vs.foldl jwzgles_glVertex4fv (jwzgles_glBegin c mode)).calls = c.calls ∧
      (vs.foldl jwzgles_glVertex4fv (jwzgles_glBegin c mode)).asserts = c.asserts ∧
      (vs.foldl jwzgles_glVertex4fv (jwzgles_glBegin c mode)).state = c.state ∧
      (vs.foldl jwzgles_glVertex4fv (jwzgles_glBegin c mode)).gl = c.gl ∧
      (vs.foldl jwzgles_glVertex4fv (jwzgles_glBegin c mode)).w.indexArray = c.w.indexArray := by
    intro c vs
    obtain ⟨va, cur, p, e⟩ := vertices_test_frame vs (jwzgles_glBegin c mode)
    have hb : ∃ w1, jwzgles_glBegin c mode = { c with w := w1 } ∧
        w1.wrapperPrimitiveMode = mode ∧ w1.indexArray = c.w.indexArray := by
      unfold jwzgles_glBegin
      rcases hf : c.w.first with _ | _
      · simp only [hf, Bool.false_eq_true, if_false]
        exact ⟨_, rfl, rfl, rfl⟩
      · simp only [hf, if_true]
        exact ⟨_, rfl, rfl, rfl⟩
    obtain ⟨w1, hb1, hb2, hb3⟩ := hb
    rw [e, hb1]
    exact ⟨hb2, rfl, rfl, rfl, rfl, hb3⟩
  refine ⟨?_, ?_, ?_⟩
  · intro c calls hidle hgen hN
    obtain ⟨m, seen, hcalls, _, _, _, _, _, hm⟩ := glEnd_batch c mode calls hidle hgen hN
    obtain ⟨_, _, _, _, b5, _, _⟩ := openBatch_facts c mode calls hidle
    rw [normalizedSet_of_other _ (by rw [b5]; exact m5) (by rw [b5]; exact m6)
      (by rw [b5]; exact m7), b5] at hm
    refine ⟨seen, ?_⟩
    rw [hcalls]
    simp only [List.filter_append, (glEnd_preCalls_filter _ _).1, (glEnd_postCalls_filter _ _).1]
    simp [GLCall.isDraw, m5, hm]
  · intro d hd
    obtain ⟨V, e⟩ := hend d hd
    rw [e]
    exact ⟨rfl, rfl, rfl, rfl, rfl, rfl, rfl, rfl⟩
  · intro c vs
    obtain ⟨h1, h2, h3, h4, h5, h6⟩ := hopen c vs
    obtain ⟨V, e⟩ := hend _ h1
    unfold indexedBatch
    rw [e]
    exact ⟨h1, h2, h3, h4, h5, h6⟩

/-- Witness of C21: the topology 0x1234, from the initial and from a flushed
state. -/
theorem C21_unnamed_topology_is_not_rejected_witness :
    (4660 ≠ GL_LINES ∧ 4660 ≠ GL_TRIANGLES ∧ 4660 ≠ GL_TRIANGLE_STRIP ∧
      4660 ≠ GL_TRIANGLE_FAN ∧ 4660 ≠ GL_QUADS ∧ 4660 ≠ GL_QUAD_STRIP ∧ 4660 ≠ GL_POLYGON) ∧
    (∃ seen,
      (issuedBy (openBatch initial 4660 [.vertex ⟨0, 0, 0, 1⟩])
          (jwzgles_glEnd_REMOVED (openBatch initial 4660 [.vertex ⟨0, 0, 0, 1⟩]))).filter
            GLCall.isDraw =
        [.glDrawArrays 4660 0 1 seen]) ∧
    (indexedBatch flushedCtx 4660 [⟨0, 0, 0, 1⟩, ⟨1, 0, 0, 1⟩, ⟨1, 1, 0, 1⟩]).calls =
      flushedCtx.calls ∧
    (indexedBatch flushedCtx 4660 [⟨0, 0, 0, 1⟩, ⟨1, 0, 0, 1⟩, ⟨1, 1, 0, 1⟩]).asserts =
      flushedCtx.asserts :=
  ⟨by decide,
   (C21_unnamed_topology_is_not_rejected 4660 (by decide)).1 initial [.vertex ⟨0, 0, 0, 1⟩]
     (by decide) (by decide) (by decide),
   ((C21_unnamed_topology_is_not_rejected 4660 (by decide)).2.2 flushedCtx
     [⟨0, 0, 0, 1⟩, ⟨1, 0, 0, 1⟩, ⟨1, 1, 0, 1⟩]).2.1,
   ((C21_unnamed_topology_is_not_rejected 4660 (by decide)).2.2 flushedCtx
     [⟨0, 0, 0, 1⟩, ⟨1, 0, 0, 1⟩, ⟨1, 1, 0, 1⟩]).2.2.1⟩

/-! ## The bookkeeping of the GL_QUADS case -/

/-- C29: the bookkeeping of the DrawElements path is broken by the GL_QUADS
case and by left-over vertices.  From a flushed state, a GL_QUADS bracket of
four vertices stores four vertices and writes twelve index entries, but leaves
`vertexCount` = 6, the index pointer still at cell 0 and `indexCount` = 8.  A
GL_TRIANGLES bracket of three vertices after it writes its entries over the
first triangle of the quad, and they are 8, 9, 10 although its vertices are in
the cells 4, 5, 6.  A GL_TRIANGLES bracket of four vertices leaves
`vertexCount` = 4 with three entries written and `indexCount` = 3 with four
vertices stored. -/
theorem C29_quads_case_breaks_index_bookkeeping :
    Flushed flushedCtx ∧
    (quadBracket.w.ptrVertexAttribArray = some 4 ∧
     quadBracket.w.indexArray = [0, 1, 2, 0, 2, 3, 4, 5, 6, 4, 6, 7] ∧
     quadBracket.w.vertexCount = 6 ∧ quadBracket.w.ptrIndexArray = some 0 ∧
     quadBracket.w.indexCount = 8) ∧
    (quadThenTriangle.w.ptrVertexAttribArray = some 7 ∧
     quadThenTriangle.w.indexArray = [8, 9, 10, 0, 2, 3, 4, 5, 6, 4, 6, 7] ∧
     quadThenTriangle.w.vertexCount = 9 ∧ quadThenTriangle.w.ptrIndexArray = some 3 ∧
     quadThenTriangle.w.indexCount = 11 ∧
     pendingTriangles quadThenTriangle = [(8, 9, 10), (0, 2, 3), (4, 5, 6)]) ∧
    (fourVertexTriangles.w.ptrVertexAttribArray = some 4 ∧
     fourVertexTriangles.w.indexArray = [0, 1, 2] ∧
     fourVertexTriangles.w.vertexCount = 4 ∧ fourVertexTriangles.w.ptrIndexArray = some 3 ∧
     fourVertexTriangles.w.indexCount = 3) := by
  decide




/-! ## Closing an empty batch -/

end Jwzgles
